import Mathlib

/-!
# Limit Checker (LC) command handling: a shallow embedding of `fsw/src/lc_cmds.c`

The development follows the C source function by function.  Machine integers are
natural numbers with an explicit reduction modulo `2 ^ w` wherever the C code can
overflow or truncate; C arrays are lists with checked reads and writes (an access
outside the array makes the embedded function return `none`); `for` loops are run
by `forLoop` with a fuel bound, so `none` also stands for a loop that never ends.

Compile-time constants that `lc_cmds.c` takes from headers that are not part of
the source set (`lc_msgdefs.h`, `lc_platform_cfg.h`, `lc_app.h`, `lc_tbl.h`,
`cfe.h`) are fields of `LC_Config`; the message identifiers and the "all" sentinel
come from `platform_inc/lc_msgids.h`.
-/

namespace LC

/-! ## Constants -/

/-- Compile-time constants used by `lc_cmds.c` whose defining headers are not in
the source set.  Field names are the macro names. -/
structure LC_Config where
  LC_MAX_WATCHPOINTS : Nat
  LC_MAX_ACTIONPOINTS : Nat
  LC_HKWR_NUM_BYTES : Nat
  LC_HKAR_NUM_BYTES : Nat
  LC_WATCH_STALE : Nat
  LC_WATCH_FALSE : Nat
  LC_WATCH_TRUE : Nat
  LC_WATCH_ERROR : Nat
  LC_HKWR_STALE : Nat
  LC_HKWR_FALSE : Nat
  LC_HKWR_TRUE : Nat
  LC_HKWR_ERROR : Nat
  LC_ACTION_NOT_USED : Nat
  LC_APSTATE_ACTIVE : Nat
  LC_APSTATE_PASSIVE : Nat
  LC_APSTATE_DISABLED : Nat
  LC_APSTATE_PERMOFF : Nat
  LC_ACTION_STALE : Nat
  LC_ACTION_PASS : Nat
  LC_ACTION_FAIL : Nat
  LC_ACTION_ERROR : Nat
  LC_HKAR_STATE_NOT_USED : Nat
  LC_HKAR_STATE_ACTIVE : Nat
  LC_HKAR_STATE_PASSIVE : Nat
  LC_HKAR_STATE_DISABLED : Nat
  LC_HKAR_STALE : Nat
  LC_HKAR_PASS : Nat
  LC_HKAR_FAIL : Nat
  LC_HKAR_ERROR : Nat
  LC_STATE_ACTIVE : Nat
  LC_STATE_PASSIVE : Nat
  LC_STATE_DISABLED : Nat
  LC_CDS_SAVED : Nat
  LC_NOOP_CC : Nat
  LC_RESET_CC : Nat
  LC_SET_LC_STATE_CC : Nat
  LC_SET_AP_STATE_CC : Nat
  LC_SET_AP_PERMOFF_CC : Nat
  LC_RESET_AP_STATS_CC : Nat
  LC_RESET_WP_STATS_CC : Nat
  CFE_SUCCESS : Int
  CFE_TBL_INFO_UPDATED : Int
  sizeof_CFE_SB_CmdHdr_t : Nat
deriving DecidableEq, Repr

/-- Message id for commands to LC (`lc_msgids.h`). -/
def LC_CMD_MID : Nat := 0x18A4

/-- Message id of the housekeeping request (`lc_msgids.h`). -/
def LC_SEND_HK_MID : Nat := 0x18A5

/-- Message id of the actionpoint sample request (`lc_msgids.h`). -/
def LC_SAMPLE_AP_MID : Nat := 0x18A6

/-- Special command argument meaning "every actionpoint" (`lc_msgids.h`). -/
def LC_ALL_ACTIONPOINTS : Nat := 0xFFFF

/-- Special command argument meaning "every watchpoint" (`lc_msgids.h`). -/
def LC_ALL_WATCHPOINTS : Nat := 0xFFFF

/-- Value of a C expression stored in a `uint8` object. -/
def u8 (n : Nat) : Nat := n % 256

/-- Value of a C expression stored in a `uint16` object. -/
def u16 (n : Nat) : Nat := n % 65536

/-- Value of a C expression stored in a `uint32` object. -/
def u32 (n : Nat) : Nat := n % 4294967296

/-- The C expression `N - 1` for a non-negative `int` constant `N`, converted to `uint32`
(the second argument of the whole-table reset calls). -/
def u32Pred (n : Nat) : Nat := (n + 4294967295) % 4294967296

/-! ## Data model -/

/-- Transition snapshot of a watchpoint (`LC_WRTTransition_t`): value and time stamp. -/
structure LC_WRTTransition_t where
  Value : Nat
  Seconds : Nat
  Subseconds : Nat
deriving DecidableEq, Repr

/-- One watchpoint results table entry; the fields are the ones `lc_cmds.c` accesses.
`LastFalseToTrue.Timestamp.Seconds` and `.Subseconds` are the `Seconds` and `Subseconds`
of the transition record. -/
structure LC_WRTEntry_t where
  WatchResult : Nat
  CountdownToStale : Nat
  EvaluationCount : Nat
  FalseToTrueCount : Nat
  ConsecutiveTrueCount : Nat
  CumulativeTrueCount : Nat
  LastFalseToTrue : LC_WRTTransition_t
  LastTrueToFalse : LC_WRTTransition_t
deriving DecidableEq, Repr

/-- One actionpoint results table entry; the fields are the ones `lc_cmds.c` accesses. -/
structure LC_ARTEntry_t where
  ActionResult : Nat
  CurrentState : Nat
  PassiveAPCount : Nat
  FailToPassCount : Nat
  PassToFailCount : Nat
  ConsecutiveFailCount : Nat
  CumulativeFailCount : Nat
  CumulativeRTSExecCount : Nat
  CumulativeEventMsgsSent : Nat
deriving DecidableEq, Repr

/-- One actionpoint definition table entry; `lc_cmds.c` only reads `DefaultState`. -/
structure LC_ADTEntry_t where
  DefaultState : Nat
deriving DecidableEq, Repr

/-- Housekeeping packet (`LC_HkPacket_t` in `lc_msg.h`), without header and padding. -/
structure LC_HkPacket_t where
  CmdCount : Nat
  CmdErrCount : Nat
  CurrentLCState : Nat
  WPResults : List Nat
  APResults : List Nat
  PassiveRTSExecCount : Nat
  WPsInUse : Nat
  ActiveAPs : Nat
  APSampleCount : Nat
  MonitoredMsgCount : Nat
  RTSExecCount : Nat
deriving DecidableEq, Repr

/-- Global application data (`LC_AppData`) saved to the critical data store. -/
structure LC_AppData_t where
  CmdCount : Nat
  CmdErrCount : Nat
  APSampleCount : Nat
  MonitoredMsgCount : Nat
  RTSExecCount : Nat
  PassiveRTSExecCount : Nat
  CDSSavedOnExit : Nat
  CurrentLCState : Nat
deriving DecidableEq, Repr

/-- Global operational data (`LC_OperData`): the tables behind `WRTPtr`, `ARTPtr` and
`ADTPtr`, the housekeeping packet, and the fields `lc_cmds.c` reads. -/
structure LC_OperData_t where
  WRTPtr : List LC_WRTEntry_t
  ARTPtr : List LC_ARTEntry_t
  ADTPtr : List LC_ADTEntry_t
  HkPacket : LC_HkPacket_t
  WatchpointCount : Nat
  HaveActiveCDS : Bool
deriving DecidableEq, Repr

/-- Event identifiers raised by `lc_cmds.c`. -/
inductive LC_EventID where
  | LC_CC_ERR_EID
  | LC_APSAMPLE_APNUM_ERR_EID
  | LC_NOOP_INF_EID
  | LC_RESET_DBG_EID
  | LC_LCSTATE_INF_EID
  | LC_LCSTATE_ERR_EID
  | LC_APSTATE_NEW_ERR_EID
  | LC_APSTATE_CURR_ERR_EID
  | LC_APSTATE_APNUM_ERR_EID
  | LC_APSTATE_INF_EID
  | LC_APOFF_APNUM_ERR_EID
  | LC_APOFF_CURR_ERR_EID
  | LC_APOFF_INF_EID
  | LC_APSTATS_APNUM_ERR_EID
  | LC_APSTATS_INF_EID
  | LC_WPSTATS_WPNUM_ERR_EID
  | LC_WPSTATS_INF_EID
  | LC_HKREQ_LEN_ERR_EID
  | LC_APSAMPLE_LEN_ERR_EID
  | LC_LEN_ERR_EID
  | LC_WDT_GETADDR_ERR_EID
  | LC_ADT_GETADDR_ERR_EID
  | LC_WRT_NO_SAVE_ERR_EID
  | LC_ART_NO_SAVE_ERR_EID
  | LC_APP_NO_SAVE_START_ERR_EID
deriving DecidableEq, Repr

/-- The four tables LC registers with table services. -/
inductive LC_TableHandle where
  | WRTHandle
  | ARTHandle
  | WDTHandle
  | ADTHandle
deriving DecidableEq, Repr

/-- Calls that `lc_cmds.c` makes to cFE services and to other LC modules, with the data
handed over.  They are recorded in call order in `LC_State.Calls`. -/
inductive LC_Call where
  | CFE_EVS_SendEvent (EventID : LC_EventID)
  | CFE_SB_SendMsg (HkPacket : LC_HkPacket_t)
  | CFE_TBL_Manage (Handle : LC_TableHandle)
  | CFE_TBL_ReleaseAddress (Handle : LC_TableHandle)
  | CFE_TBL_GetAddress (Handle : LC_TableHandle)
  | CFE_ES_CopyToCDS_WRT (Data : List LC_WRTEntry_t)
  | CFE_ES_CopyToCDS_ART (Data : List LC_ARTEntry_t)
  | CFE_ES_CopyToCDS_AppData (Data : LC_AppData_t)
  | LC_CreateHashTable
  | LC_SampleAPs (StartIndex EndIndex : Nat)
  | LC_CheckMsgForWPs (MessageID : Nat)
deriving DecidableEq, Repr

/-- The state `lc_cmds.c` works on: the two global structures and the record of calls made
so far (most recent last). -/
structure LC_State where
  LC_AppData : LC_AppData_t
  LC_OperData : LC_OperData_t
  Calls : List LC_Call
deriving DecidableEq, Repr

/-- A software bus message as the handlers see it: message id, command code, total length
and the four 16-bit words that may follow the command header (`lc_msg.h`). -/
structure CFE_SB_Msg where
  MsgId : Nat
  CmdCode : Nat
  TotalMsgLength : Nat
  Word0 : Nat
  Word1 : Nat
  Word2 : Nat
  Word3 : Nat
deriving DecidableEq, Repr

/-- Field `NewLCState` of `LC_SetLCState_t`. -/
def CFE_SB_Msg.NewLCState (m : CFE_SB_Msg) : Nat := m.Word0

/-- Field `APNumber` of `LC_SetAPState_t`, `LC_SetAPPermOff_t` and `LC_ResetAPStats_t`. -/
def CFE_SB_Msg.APNumber (m : CFE_SB_Msg) : Nat := m.Word0

/-- Field `NewAPState` of `LC_SetAPState_t`. -/
def CFE_SB_Msg.NewAPState (m : CFE_SB_Msg) : Nat := m.Word1

/-- Field `WPNumber` of `LC_ResetWPStats_t`. -/
def CFE_SB_Msg.WPNumber (m : CFE_SB_Msg) : Nat := m.Word0

/-- Field `StartIndex` of `LC_SampleAP_t`. -/
def CFE_SB_Msg.StartIndex (m : CFE_SB_Msg) : Nat := m.Word0

/-- Field `EndIndex` of `LC_SampleAP_t`. -/
def CFE_SB_Msg.EndIndex (m : CFE_SB_Msg) : Nat := m.Word1

/-- Field `UpdateAge` of `LC_SampleAP_t`. -/
def CFE_SB_Msg.UpdateAge (m : CFE_SB_Msg) : Nat := m.Word2

/-- Size of `LC_NoArgsCmd_t`: the command header alone. -/
def sizeof_LC_NoArgsCmd_t (cfg : LC_Config) : Nat := cfg.sizeof_CFE_SB_CmdHdr_t

/-- Size of the commands with two 16-bit words after the header (`LC_SetLCState_t`,
`LC_SetAPState_t`, `LC_SetAPPermOff_t`, `LC_ResetAPStats_t`, `LC_ResetWPStats_t`). -/
def sizeof_LC_TwoWordCmd_t (cfg : LC_Config) : Nat := cfg.sizeof_CFE_SB_CmdHdr_t + 4

/-- Size of `LC_SampleAP_t`: header and four 16-bit words. -/
def sizeof_LC_SampleAP_t (cfg : LC_Config) : Nat := cfg.sizeof_CFE_SB_CmdHdr_t + 8

/-- Results of the cFE calls made while one message is handled: the return codes of the two
`CFE_TBL_GetAddress` calls, the table `ADTPtr` designates after re-acquisition, and the
return codes of the three `CFE_ES_CopyToCDS` calls. -/
structure CFE_Env where
  WDT_GetAddress : Int
  ADT_GetAddress : Int
  ADTPtr : List LC_ADTEntry_t
  CopyToCDS_WRT : Int
  CopyToCDS_ART : Int
  CopyToCDS_AppData : Int
deriving DecidableEq, Repr

/-- Functions of other LC modules (`lc_action.c`, `lc_watch.c`) called from `lc_cmds.c`. -/
structure LC_Externals where
  LC_SampleAPs : Nat → Nat → LC_State → LC_State
  LC_CheckMsgForWPs : Nat → CFE_SB_Msg → LC_State → LC_State

/-! ## C arrays and loops -/

/-- Checked array write: `none` when the index is outside the array. -/
def arrayWrite {α : Type} (xs : List α) (i : Nat) (v : α) : Option (List α) :=
  if i < xs.length then some (xs.set i v) else none

/-- The C loop `for (i = start; cond i; i = next i) body`, run with at most `fuel` tests of
the condition.  The body may fail (array access out of range); `none` is returned then, and
also when the fuel does not suffice.  Every loop of `lc_cmds.c` counts upwards from its
start with a fixed-width index: either the index passes the bound before it wraps, after
at most as many iterations as the bound, or it wraps and the loop never ends.  The callers
therefore pass a fuel just above the bound. -/
def forLoop {σ : Type} (cond : Nat → Bool) (next : Nat → Nat) (body : Nat → σ → Option σ) :
    Nat → Nat → σ → Option σ
  | 0, _, _ => none
  | fuel + 1, i, s =>
    if cond i then
      match body i s with
      | none => none
      | some s' => forLoop cond next body fuel (next i) s'
    else some s

/-- Record a call. -/
def LC_State.call (st : LC_State) (c : LC_Call) : LC_State :=
  { st with Calls := st.Calls ++ [c] }

/-- Record `CFE_EVS_SendEvent` with the given event id. -/
def LC_State.sendEvent (st : LC_State) (e : LC_EventID) : LC_State :=
  st.call (LC_Call.CFE_EVS_SendEvent e)

/-- The statement `LC_AppData.CmdCount++` (the command counters are 8 bits wide, like the
housekeeping fields they are reported in). -/
def LC_State.incCmdCount (st : LC_State) : LC_State :=
  { st with LC_AppData := { st.LC_AppData with CmdCount := u8 (st.LC_AppData.CmdCount + 1) } }

/-- The statement `LC_AppData.CmdErrCount++`. -/
def LC_State.incCmdErrCount (st : LC_State) : LC_State :=
  { st with LC_AppData := { st.LC_AppData with CmdErrCount := u8 (st.LC_AppData.CmdErrCount + 1) } }

/-- Replace the watchpoint results table. -/
def LC_State.setWRT (st : LC_State) (wrt : List LC_WRTEntry_t) : LC_State :=
  { st with LC_OperData := { st.LC_OperData with WRTPtr := wrt } }

/-- Replace the actionpoint results table. -/
def LC_State.setART (st : LC_State) (art : List LC_ARTEntry_t) : LC_State :=
  { st with LC_OperData := { st.LC_OperData with ARTPtr := art } }

/-! ## Message length check -/

/-- Embedding of `LC_VerifyMsgLength`: compares the expected with the actual length; on a
mismatch an event is sent and, unless the message is a housekeeping or sample request, the
command error counter is incremented. -/
def LC_VerifyMsgLength (msg : CFE_SB_Msg) (ExpectedLength : Nat) (st : LC_State) :
    Bool × LC_State :=
  let ActualLength := msg.TotalMsgLength
  if ExpectedLength ≠ ActualLength then
    if msg.MsgId = LC_SEND_HK_MID then
      (false, st.sendEvent LC_EventID.LC_HKREQ_LEN_ERR_EID)
    else if msg.MsgId = LC_SAMPLE_AP_MID then
      (false, st.sendEvent LC_EventID.LC_APSAMPLE_LEN_ERR_EID)
    else
      (false, (st.sendEvent LC_EventID.LC_LEN_ERR_EID).incCmdErrCount)
  else (true, st)

/-! ## Sample request and watchpoint aging -/

/-- Body of the aging loop of `LC_SampleAPReq` for one `WatchIndex`. -/
def ageBody (cfg : LC_Config) (WatchIndex : Nat) (WRT : List LC_WRTEntry_t) :
    Option (List LC_WRTEntry_t) :=
  match WRT[WatchIndex]? with
  | none => none
  | some e =>
    if e.CountdownToStale ≠ 0 then
      let e1 := { e with CountdownToStale := e.CountdownToStale - 1 }
      let e2 := if e1.CountdownToStale = 0 then { e1 with WatchResult := cfg.LC_WATCH_STALE } else e1
      arrayWrite WRT WatchIndex e2
    else some WRT

/-- The aging loop of `LC_SampleAPReq`:
`for (WatchIndex = 0; WatchIndex < LC_MAX_WATCHPOINTS; WatchIndex++)` with a 16-bit index.
A terminating run tests the condition at most `LC_MAX_WATCHPOINTS + 1` times. -/
def ageWatchpoints (cfg : LC_Config) (WRT : List LC_WRTEntry_t) : Option (List LC_WRTEntry_t) :=
  forLoop (fun i => decide (i < cfg.LC_MAX_WATCHPOINTS)) (fun i => u16 (i + 1)) (ageBody cfg)
    (cfg.LC_MAX_WATCHPOINTS + 1) 0 WRT

/-- Call of `LC_SampleAPs (StartIndex, EndIndex)` in `lc_action.c`. -/
def callSampleAPs (ext : LC_Externals) (StartIndex EndIndex : Nat) (st : LC_State) : LC_State :=
  ext.LC_SampleAPs StartIndex EndIndex (st.call (LC_Call.LC_SampleAPs StartIndex EndIndex))

/-- The range check of `LC_SampleAPReq` together with the sampling call it guards; the
boolean is `ValidSampleCmd`.  `LC_MAX_ACTIONPOINTS` is an array dimension, hence positive,
and `LC_MAX_ACTIONPOINTS - 1` is its predecessor. -/
def sampleRange (cfg : LC_Config) (ext : LC_Externals) (msg : CFE_SB_Msg) (st : LC_State) :
    Bool × LC_State :=
  if msg.StartIndex = LC_ALL_ACTIONPOINTS ∧ msg.EndIndex = LC_ALL_ACTIONPOINTS then
    (true, callSampleAPs ext 0 (cfg.LC_MAX_ACTIONPOINTS - 1) st)
  else if msg.StartIndex ≤ msg.EndIndex ∧ msg.EndIndex < cfg.LC_MAX_ACTIONPOINTS then
    (true, callSampleAPs ext msg.StartIndex msg.EndIndex st)
  else
    (false, st.sendEvent LC_EventID.LC_APSAMPLE_APNUM_ERR_EID)

/-- Embedding of `LC_SampleAPReq`. -/
def LC_SampleAPReq (cfg : LC_Config) (ext : LC_Externals) (msg : CFE_SB_Msg) (st : LC_State) :
    Option LC_State :=
  let v := LC_VerifyMsgLength msg (u16 (sizeof_LC_SampleAP_t cfg)) st
  if v.1 then
    if v.2.LC_AppData.CurrentLCState ≠ cfg.LC_STATE_DISABLED then
      let r := sampleRange cfg ext msg v.2
      if msg.UpdateAge ≠ 0 ∧ r.1 = true then
        match ageWatchpoints cfg r.2.LC_OperData.WRTPtr with
        | none => none
        | some wrt => some (r.2.setWRT wrt)
      else some r.2
    else some v.2
  else some v.2

/-! ## Housekeeping: telemetry packing -/

/-- The `switch` on a `WatchResult` in the watch-result packing loop: the housekeeping code
that is shifted into the byte. -/
def switchWatchResult (cfg : LC_Config) (WatchResult : Nat) : Nat :=
  if WatchResult = cfg.LC_WATCH_STALE then cfg.LC_HKWR_STALE
  else if WatchResult = cfg.LC_WATCH_FALSE then cfg.LC_HKWR_FALSE
  else if WatchResult = cfg.LC_WATCH_TRUE then cfg.LC_HKWR_TRUE
  else cfg.LC_HKWR_ERROR

/-- Body of the watch-result packing loop of `LC_HousekeepingReq` for one `TableIndex`:
entries `TableIndex + 3` down to `TableIndex` are packed into the 8-bit `ByteData`, which
is stored at `HKIndex = TableIndex / 4`. -/
def packWPBody (cfg : LC_Config) (WRT : List LC_WRTEntry_t) (TableIndex : Nat)
    (WPResults : List Nat) : Option (List Nat) :=
  let HKIndex := u16 (TableIndex / 4)
  match WRT[TableIndex + 3]?, WRT[TableIndex + 2]?, WRT[TableIndex + 1]?, WRT[TableIndex]? with
  | some e3, some e2, some e1, some e0 =>
    let ByteData := u8 (switchWatchResult cfg e3.WatchResult <<< 6)
    let ByteData := u8 (ByteData ||| (switchWatchResult cfg e2.WatchResult <<< 4))
    let ByteData := u8 (ByteData ||| (switchWatchResult cfg e1.WatchResult <<< 2))
    let ByteData := u8 (ByteData ||| switchWatchResult cfg e0.WatchResult)
    arrayWrite WPResults HKIndex ByteData
  | _, _, _, _ => none

/-- The watch-result packing loop:
`for (TableIndex = 0; TableIndex < LC_MAX_WATCHPOINTS; TableIndex += 4)`, 16-bit index.
The state is the array `HkPacket.WPResults`. -/
def packWPResults (cfg : LC_Config) (WRT : List LC_WRTEntry_t) (WPResults : List Nat) :
    Option (List Nat) :=
  forLoop (fun i => decide (i < cfg.LC_MAX_WATCHPOINTS)) (fun i => u16 (i + 4))
    (packWPBody cfg WRT) (cfg.LC_MAX_WATCHPOINTS + 1) 0 WPResults

/-- The `switch` on a `CurrentState` in the action-result packing loop: the housekeeping
state code, and the value of `HkPacket.ActiveAPs` after the switch. -/
def switchAPState (cfg : LC_Config) (CurrentState : Nat) (ActiveAPs : Nat) : Nat × Nat :=
  if CurrentState = cfg.LC_ACTION_NOT_USED then (cfg.LC_HKAR_STATE_NOT_USED, ActiveAPs)
  else if CurrentState = cfg.LC_APSTATE_ACTIVE then (cfg.LC_HKAR_STATE_ACTIVE, u16 (ActiveAPs + 1))
  else if CurrentState = cfg.LC_APSTATE_PASSIVE then (cfg.LC_HKAR_STATE_PASSIVE, ActiveAPs)
  else if CurrentState = cfg.LC_APSTATE_DISABLED then (cfg.LC_HKAR_STATE_DISABLED, ActiveAPs)
  else (cfg.LC_HKAR_STATE_NOT_USED, ActiveAPs)

/-- The `switch` on an `ActionResult` in the action-result packing loop. -/
def switchActionResult (cfg : LC_Config) (ActionResult : Nat) : Nat :=
  if ActionResult = cfg.LC_ACTION_STALE then cfg.LC_HKAR_STALE
  else if ActionResult = cfg.LC_ACTION_PASS then cfg.LC_HKAR_PASS
  else if ActionResult = cfg.LC_ACTION_FAIL then cfg.LC_HKAR_FAIL
  else cfg.LC_HKAR_ERROR

/-- Body of the action-result packing loop for one `TableIndex`; the state is the pair
`(APResults, ActiveAPs)` of housekeeping packet fields that the loop writes. -/
def packAPBody (cfg : LC_Config) (ART : List LC_ARTEntry_t) (TableIndex : Nat)
    (s : List Nat × Nat) : Option (List Nat × Nat) :=
  let HKIndex := u16 (TableIndex / 2)
  match ART[TableIndex + 1]?, ART[TableIndex]? with
  | some e1, some e0 =>
    let r1 := switchAPState cfg e1.CurrentState s.2
    let ByteData := u8 (r1.1 <<< 6)
    let ByteData := u8 (ByteData ||| (switchActionResult cfg e1.ActionResult <<< 4))
    let r0 := switchAPState cfg e0.CurrentState r1.2
    let ByteData := u8 (ByteData ||| (r0.1 <<< 2))
    let ByteData := u8 (ByteData ||| switchActionResult cfg e0.ActionResult)
    match arrayWrite s.1 HKIndex ByteData with
    | none => none
    | some APResults => some (APResults, r0.2)
  | _, _ => none

/-- The action-result packing loop:
`for (TableIndex = 0; TableIndex < LC_MAX_ACTIONPOINTS; TableIndex += 2)`, 16-bit index. -/
def packAPResults (cfg : LC_Config) (ART : List LC_ARTEntry_t) (s : List Nat × Nat) :
    Option (List Nat × Nat) :=
  forLoop (fun i => decide (i < cfg.LC_MAX_ACTIONPOINTS)) (fun i => u16 (i + 2))
    (packAPBody cfg ART) (cfg.LC_MAX_ACTIONPOINTS + 1) 0 s

/-- The part of `LC_HousekeepingReq` executed for a request of the right length: copy the
scalar fields, clear `ActiveAPs`, pack both result tables, then time-stamp and send. -/
def packHousekeeping (cfg : LC_Config) (st : LC_State) : Option LC_State :=
  let hk : LC_HkPacket_t :=
    { st.LC_OperData.HkPacket with
      CmdCount := u8 st.LC_AppData.CmdCount
      CmdErrCount := u8 st.LC_AppData.CmdErrCount
      APSampleCount := u32 st.LC_AppData.APSampleCount
      MonitoredMsgCount := u32 st.LC_AppData.MonitoredMsgCount
      RTSExecCount := u32 st.LC_AppData.RTSExecCount
      PassiveRTSExecCount := u16 st.LC_AppData.PassiveRTSExecCount
      CurrentLCState := u8 st.LC_AppData.CurrentLCState
      WPsInUse := u16 st.LC_OperData.WatchpointCount
      ActiveAPs := 0 }
  match packWPResults cfg st.LC_OperData.WRTPtr hk.WPResults with
  | none => none
  | some wp =>
    match packAPResults cfg st.LC_OperData.ARTPtr (hk.APResults, hk.ActiveAPs) with
    | none => none
    | some ap =>
      let hk := { hk with WPResults := wp, APResults := ap.1, ActiveAPs := ap.2 }
      some ({ st with LC_OperData := { st.LC_OperData with HkPacket := hk } }.call
        (LC_Call.CFE_SB_SendMsg hk))

/-! ## Result table resets -/

/-- Body of the loop of `LC_ResetResultsAP` for one `TableIndex`. -/
def resetAPBody (cfg : LC_Config) (ADT : List LC_ADTEntry_t) (ResetStatsCmd : Bool)
    (TableIndex : Nat) (ART : List LC_ARTEntry_t) : Option (List LC_ARTEntry_t) :=
  match ART[TableIndex]? with
  | none => none
  | some e =>
    let e1 : Option LC_ARTEntry_t :=
      if !ResetStatsCmd then
        match ADT[TableIndex]? with
        | none => none
        | some d => some { e with ActionResult := cfg.LC_ACTION_STALE, CurrentState := d.DefaultState }
      else some e
    match e1 with
    | none => none
    | some e1 =>
      arrayWrite ART TableIndex
        { e1 with
          PassiveAPCount := 0
          FailToPassCount := 0
          PassToFailCount := 0
          ConsecutiveFailCount := 0
          CumulativeFailCount := 0
          CumulativeRTSExecCount := 0
          CumulativeEventMsgsSent := 0 }

/-- Embedding of `LC_ResetResultsAP`, on the actionpoint results table:
`for (TableIndex = StartIndex; TableIndex <= EndIndex; TableIndex++)`, 32-bit index.
A terminating run tests the condition at most `EndIndex + 2` times. -/
def LC_ResetResultsAP (cfg : LC_Config) (ADT : List LC_ADTEntry_t) (StartIndex EndIndex : Nat)
    (ResetStatsCmd : Bool) (ART : List LC_ARTEntry_t) : Option (List LC_ARTEntry_t) :=
  forLoop (fun i => decide (i ≤ EndIndex)) (fun i => u32 (i + 1))
    (resetAPBody cfg ADT ResetStatsCmd) (EndIndex + 2) StartIndex ART

/-- Body of the loop of `LC_ResetResultsWP` for one `TableIndex`. -/
def resetWPBody (cfg : LC_Config) (ResetStatsCmd : Bool) (TableIndex : Nat)
    (WRT : List LC_WRTEntry_t) : Option (List LC_WRTEntry_t) :=
  match WRT[TableIndex]? with
  | none => none
  | some e =>
    let e1 : LC_WRTEntry_t :=
      if !ResetStatsCmd then
        { e with WatchResult := cfg.LC_WATCH_STALE, CountdownToStale := 0 }
      else e
    arrayWrite WRT TableIndex
      { e1 with
        EvaluationCount := 0
        FalseToTrueCount := 0
        ConsecutiveTrueCount := 0
        CumulativeTrueCount := 0
        LastFalseToTrue := { Value := 0, Seconds := 0, Subseconds := 0 }
        LastTrueToFalse := { Value := 0, Seconds := 0, Subseconds := 0 } }

/-- Embedding of `LC_ResetResultsWP`, on the watchpoint results table. -/
def LC_ResetResultsWP (cfg : LC_Config) (StartIndex EndIndex : Nat) (ResetStatsCmd : Bool)
    (WRT : List LC_WRTEntry_t) : Option (List LC_WRTEntry_t) :=
  forLoop (fun i => decide (i ≤ EndIndex)) (fun i => u32 (i + 1))
    (resetWPBody cfg ResetStatsCmd) (EndIndex + 2) StartIndex WRT

/-! ## Table management and critical data store -/

/-- First half of `LC_ManageTables`: let table services manage the four tables, re-acquire
the watchpoint definition table and react to the result.  The first component is the
code of an early `return`, if any.  `LC_CreateHashTable` works on the hash tables and the
subscriptions, which are not part of the state modelled here; the call is recorded. -/
def manageWDT (cfg : LC_Config) (env : CFE_Env) (st : LC_State) :
    Option (Option Int × LC_State) :=
  let st := st.call (LC_Call.CFE_TBL_Manage LC_TableHandle.WRTHandle)
  let st := st.call (LC_Call.CFE_TBL_Manage LC_TableHandle.ARTHandle)
  let st := st.call (LC_Call.CFE_TBL_ReleaseAddress LC_TableHandle.WDTHandle)
  let st := st.call (LC_Call.CFE_TBL_ReleaseAddress LC_TableHandle.ADTHandle)
  let st := st.call (LC_Call.CFE_TBL_Manage LC_TableHandle.WDTHandle)
  let st := st.call (LC_Call.CFE_TBL_Manage LC_TableHandle.ADTHandle)
  let st := st.call (LC_Call.CFE_TBL_GetAddress LC_TableHandle.WDTHandle)
  let Result := env.WDT_GetAddress
  if Result = cfg.CFE_TBL_INFO_UPDATED then
    match LC_ResetResultsWP cfg 0 (u32Pred cfg.LC_MAX_WATCHPOINTS) false st.LC_OperData.WRTPtr with
    | none => none
    | some wrt => some (none, (st.setWRT wrt).call LC_Call.LC_CreateHashTable)
  else if Result ≠ cfg.CFE_SUCCESS then
    some (some Result, st.sendEvent LC_EventID.LC_WDT_GETADDR_ERR_EID)
  else some (none, st)

/-- Second half of `LC_ManageTables`: re-acquire the actionpoint definition table and react
to the result; the returned code is the function result. -/
def manageADT (cfg : LC_Config) (env : CFE_Env) (st : LC_State) : Option (Int × LC_State) :=
  let st := st.call (LC_Call.CFE_TBL_GetAddress LC_TableHandle.ADTHandle)
  let st := { st with LC_OperData := { st.LC_OperData with ADTPtr := env.ADTPtr } }
  let Result := env.ADT_GetAddress
  if Result = cfg.CFE_TBL_INFO_UPDATED then
    match LC_ResetResultsAP cfg st.LC_OperData.ADTPtr 0 (u32Pred cfg.LC_MAX_ACTIONPOINTS) false
        st.LC_OperData.ARTPtr with
    | none => none
    | some art => some (cfg.CFE_SUCCESS, st.setART art)
  else if Result ≠ cfg.CFE_SUCCESS then
    some (Result, st.sendEvent LC_EventID.LC_ADT_GETADDR_ERR_EID)
  else some (cfg.CFE_SUCCESS, st)

/-- Embedding of `LC_ManageTables`. -/
def LC_ManageTables (cfg : LC_Config) (env : CFE_Env) (st : LC_State) : Option (Int × LC_State) :=
  match manageWDT cfg env st with
  | none => none
  | some (some Result, st) => some (Result, st)
  | some (none, st) => manageADT cfg env st

/-- Embedding of `LC_UpdateTaskCDS`. -/
def LC_UpdateTaskCDS (cfg : LC_Config) (env : CFE_Env) (st : LC_State) : Int × LC_State :=
  let st := st.call (LC_Call.CFE_ES_CopyToCDS_WRT st.LC_OperData.WRTPtr)
  let Result := env.CopyToCDS_WRT
  if Result ≠ cfg.CFE_SUCCESS then
    (Result, st.sendEvent LC_EventID.LC_WRT_NO_SAVE_ERR_EID)
  else
    let st := st.call (LC_Call.CFE_ES_CopyToCDS_ART st.LC_OperData.ARTPtr)
    let Result := env.CopyToCDS_ART
    if Result ≠ cfg.CFE_SUCCESS then
      (Result, st.sendEvent LC_EventID.LC_ART_NO_SAVE_ERR_EID)
    else
      let st := { st with LC_AppData := { st.LC_AppData with CDSSavedOnExit := cfg.LC_CDS_SAVED } }
      let st := st.call (LC_Call.CFE_ES_CopyToCDS_AppData st.LC_AppData)
      let Result := env.CopyToCDS_AppData
      if Result ≠ cfg.CFE_SUCCESS then
        (Result, st.sendEvent LC_EventID.LC_APP_NO_SAVE_START_ERR_EID)
      else (cfg.CFE_SUCCESS, st)

/-- The tail of `LC_HousekeepingReq` after table management has succeeded: update the
critical data store when it is active, and switch it off when the update fails. -/
def updateCDS (cfg : LC_Config) (env : CFE_Env) (st : LC_State) : LC_State :=
  if st.LC_OperData.HaveActiveCDS then
    let r := LC_UpdateTaskCDS cfg env st
    if r.1 ≠ cfg.CFE_SUCCESS then
      { r.2 with LC_OperData := { r.2.LC_OperData with HaveActiveCDS := false } }
    else r.2
  else st

/-- Embedding of `LC_HousekeepingReq`. -/
def LC_HousekeepingReq (cfg : LC_Config) (env : CFE_Env) (msg : CFE_SB_Msg) (st : LC_State) :
    Option (Int × LC_State) :=
  let v := LC_VerifyMsgLength msg (u16 (sizeof_LC_NoArgsCmd_t cfg)) st
  match (if v.1 then packHousekeeping cfg v.2 else some v.2) with
  | none => none
  | some st =>
    match LC_ManageTables cfg env st with
    | none => none
    | some (Result, st) =>
      if Result ≠ cfg.CFE_SUCCESS then some (Result, st)
      else some (cfg.CFE_SUCCESS, updateCDS cfg env st)

/-! ## Ground commands -/

/-- Embedding of `LC_NoopCmd`. -/
def LC_NoopCmd (cfg : LC_Config) (msg : CFE_SB_Msg) (st : LC_State) : LC_State :=
  let v := LC_VerifyMsgLength msg (u16 (sizeof_LC_NoArgsCmd_t cfg)) st
  if v.1 then v.2.incCmdCount.sendEvent LC_EventID.LC_NOOP_INF_EID else v.2

/-- Embedding of `LC_ResetCounters`. -/
def LC_ResetCounters (st : LC_State) : LC_State :=
  { st with
    LC_AppData :=
      { st.LC_AppData with
        CmdCount := 0
        CmdErrCount := 0
        APSampleCount := 0
        MonitoredMsgCount := 0
        RTSExecCount := 0
        PassiveRTSExecCount := 0 } }

/-- Embedding of `LC_ResetCmd`. -/
def LC_ResetCmd (cfg : LC_Config) (msg : CFE_SB_Msg) (st : LC_State) : LC_State :=
  let v := LC_VerifyMsgLength msg (u16 (sizeof_LC_NoArgsCmd_t cfg)) st
  if v.1 then (LC_ResetCounters v.2).sendEvent LC_EventID.LC_RESET_DBG_EID else v.2

/-- Embedding of `LC_SetLCStateCmd`. -/
def LC_SetLCStateCmd (cfg : LC_Config) (msg : CFE_SB_Msg) (st : LC_State) : LC_State :=
  let v := LC_VerifyMsgLength msg (u16 (sizeof_LC_TwoWordCmd_t cfg)) st
  if v.1 then
    if msg.NewLCState = cfg.LC_STATE_ACTIVE ∨ msg.NewLCState = cfg.LC_STATE_PASSIVE
        ∨ msg.NewLCState = cfg.LC_STATE_DISABLED then
      let st := { v.2 with LC_AppData := { v.2.LC_AppData with CurrentLCState := msg.NewLCState } }
      st.incCmdCount.sendEvent LC_EventID.LC_LCSTATE_INF_EID
    else
      (v.2.sendEvent LC_EventID.LC_LCSTATE_ERR_EID).incCmdErrCount
  else v.2

/-- Body of the "all actionpoints" loop of `LC_SetAPStateCmd` for one `TableIndex`. -/
def setAllBody (cfg : LC_Config) (NewAPState : Nat) (TableIndex : Nat)
    (ART : List LC_ARTEntry_t) : Option (List LC_ARTEntry_t) :=
  match ART[TableIndex]? with
  | none => none
  | some e =>
    let CurrentAPState := e.CurrentState
    if CurrentAPState ≠ cfg.LC_ACTION_NOT_USED ∧ CurrentAPState ≠ cfg.LC_APSTATE_PERMOFF then
      arrayWrite ART TableIndex { e with CurrentState := NewAPState }
    else some ART

/-- The "all actionpoints" loop of `LC_SetAPStateCmd`:
`for (TableIndex = 0; TableIndex < LC_MAX_ACTIONPOINTS; TableIndex++)`, 32-bit index. -/
def setAllAPState (cfg : LC_Config) (NewAPState : Nat) (ART : List LC_ARTEntry_t) :
    Option (List LC_ARTEntry_t) :=
  forLoop (fun i => decide (i < cfg.LC_MAX_ACTIONPOINTS)) (fun i => u32 (i + 1))
    (setAllBody cfg NewAPState) (cfg.LC_MAX_ACTIONPOINTS + 1) 0 ART

/-- The part of `LC_SetAPStateCmd` executed when `ValidState` is true; the boolean is
`CmdSuccess`. -/
def setAPStateTarget (cfg : LC_Config) (msg : CFE_SB_Msg) (st : LC_State) :
    Option (Bool × LC_State) :=
  if msg.APNumber = LC_ALL_ACTIONPOINTS then
    match setAllAPState cfg msg.NewAPState st.LC_OperData.ARTPtr with
    | none => none
    | some art => some (true, st.setART art)
  else if msg.APNumber < cfg.LC_MAX_ACTIONPOINTS then
    let TableIndex := msg.APNumber
    match st.LC_OperData.ARTPtr[TableIndex]? with
    | none => none
    | some e =>
      let CurrentAPState := e.CurrentState
      if CurrentAPState ≠ cfg.LC_ACTION_NOT_USED ∧ CurrentAPState ≠ cfg.LC_APSTATE_PERMOFF then
        match arrayWrite st.LC_OperData.ARTPtr TableIndex { e with CurrentState := msg.NewAPState } with
        | none => none
        | some art => some (true, st.setART art)
      else
        some (false, (st.sendEvent LC_EventID.LC_APSTATE_CURR_ERR_EID).incCmdErrCount)
  else
    some (false, (st.sendEvent LC_EventID.LC_APSTATE_APNUM_ERR_EID).incCmdErrCount)

/-- Embedding of `LC_SetAPStateCmd`. -/
def LC_SetAPStateCmd (cfg : LC_Config) (msg : CFE_SB_Msg) (st : LC_State) : Option LC_State :=
  let v := LC_VerifyMsgLength msg (u16 (sizeof_LC_TwoWordCmd_t cfg)) st
  if v.1 then
    if msg.NewAPState = cfg.LC_APSTATE_ACTIVE ∨ msg.NewAPState = cfg.LC_APSTATE_PASSIVE
        ∨ msg.NewAPState = cfg.LC_APSTATE_DISABLED then
      match setAPStateTarget cfg msg v.2 with
      | none => none
      | some (CmdSuccess, st) =>
        if CmdSuccess then some (st.incCmdCount.sendEvent LC_EventID.LC_APSTATE_INF_EID)
        else some st
    else
      some ((v.2.sendEvent LC_EventID.LC_APSTATE_NEW_ERR_EID).incCmdErrCount)
  else some v.2

/-- Embedding of `LC_SetAPPermOffCmd`. -/
def LC_SetAPPermOffCmd (cfg : LC_Config) (msg : CFE_SB_Msg) (st : LC_State) : Option LC_State :=
  let v := LC_VerifyMsgLength msg (u16 (sizeof_LC_TwoWordCmd_t cfg)) st
  if v.1 then
    if msg.APNumber = LC_ALL_ACTIONPOINTS ∨ msg.APNumber ≥ cfg.LC_MAX_ACTIONPOINTS then
      some ((v.2.sendEvent LC_EventID.LC_APOFF_APNUM_ERR_EID).incCmdErrCount)
    else
      let TableIndex := msg.APNumber
      match v.2.LC_OperData.ARTPtr[TableIndex]? with
      | none => none
      | some e =>
        let CurrentAPState := e.CurrentState
        if CurrentAPState ≠ cfg.LC_APSTATE_DISABLED then
          some ((v.2.sendEvent LC_EventID.LC_APOFF_CURR_ERR_EID).incCmdErrCount)
        else
          match arrayWrite v.2.LC_OperData.ARTPtr TableIndex
              { e with CurrentState := cfg.LC_APSTATE_PERMOFF } with
          | none => none
          | some art => some ((v.2.setART art).incCmdCount.sendEvent LC_EventID.LC_APOFF_INF_EID)
  else some v.2

/-- The argument check of `LC_ResetAPStatsCmd` with the reset it guards; the boolean is
`CmdSuccess`. -/
def resetAPStatsTarget (cfg : LC_Config) (msg : CFE_SB_Msg) (st : LC_State) :
    Option (Bool × LC_State) :=
  if msg.APNumber = LC_ALL_ACTIONPOINTS then
    match LC_ResetResultsAP cfg st.LC_OperData.ADTPtr 0 (u32Pred cfg.LC_MAX_ACTIONPOINTS) true
        st.LC_OperData.ARTPtr with
    | none => none
    | some art => some (true, st.setART art)
  else if msg.APNumber < cfg.LC_MAX_ACTIONPOINTS then
    match LC_ResetResultsAP cfg st.LC_OperData.ADTPtr msg.APNumber msg.APNumber true
        st.LC_OperData.ARTPtr with
    | none => none
    | some art => some (true, st.setART art)
  else
    some (false, st.incCmdErrCount.sendEvent LC_EventID.LC_APSTATS_APNUM_ERR_EID)

/-- Embedding of `LC_ResetAPStatsCmd`. -/
def LC_ResetAPStatsCmd (cfg : LC_Config) (msg : CFE_SB_Msg) (st : LC_State) : Option LC_State :=
  let v := LC_VerifyMsgLength msg (u16 (sizeof_LC_TwoWordCmd_t cfg)) st
  if v.1 then
    match resetAPStatsTarget cfg msg v.2 with
    | none => none
    | some (CmdSuccess, st) =>
      if CmdSuccess then some (st.incCmdCount.sendEvent LC_EventID.LC_APSTATS_INF_EID)
      else some st
  else some v.2

/-- The argument check of `LC_ResetWPStatsCmd` with the reset it guards; the boolean is
`CmdSuccess`. -/
def resetWPStatsTarget (cfg : LC_Config) (msg : CFE_SB_Msg) (st : LC_State) :
    Option (Bool × LC_State) :=
  if msg.WPNumber = LC_ALL_WATCHPOINTS then
    match LC_ResetResultsWP cfg 0 (u32Pred cfg.LC_MAX_WATCHPOINTS) true
        st.LC_OperData.WRTPtr with
    | none => none
    | some wrt => some (true, st.setWRT wrt)
  else if msg.WPNumber < cfg.LC_MAX_WATCHPOINTS then
    match LC_ResetResultsWP cfg msg.WPNumber msg.WPNumber true st.LC_OperData.WRTPtr with
    | none => none
    | some wrt => some (true, st.setWRT wrt)
  else
    some (false, st.incCmdErrCount.sendEvent LC_EventID.LC_WPSTATS_WPNUM_ERR_EID)

/-- Embedding of `LC_ResetWPStatsCmd`. -/
def LC_ResetWPStatsCmd (cfg : LC_Config) (msg : CFE_SB_Msg) (st : LC_State) : Option LC_State :=
  let v := LC_VerifyMsgLength msg (u16 (sizeof_LC_TwoWordCmd_t cfg)) st
  if v.1 then
    match resetWPStatsTarget cfg msg v.2 with
    | none => none
    | some (CmdSuccess, st) =>
      if CmdSuccess then some (st.incCmdCount.sendEvent LC_EventID.LC_WPSTATS_INF_EID)
      else some st
  else some v.2

/-! ## Message dispatch -/

/-- Embedding of `LC_AppPipe`: the returned code is `Status`. -/
def LC_AppPipe (cfg : LC_Config) (ext : LC_Externals) (env : CFE_Env) (msg : CFE_SB_Msg)
    (st : LC_State) : Option (Int × LC_State) :=
  let ok (r : Option LC_State) : Option (Int × LC_State) := r.map (fun s => (cfg.CFE_SUCCESS, s))
  if msg.MsgId = LC_SAMPLE_AP_MID then ok (LC_SampleAPReq cfg ext msg st)
  else if msg.MsgId = LC_SEND_HK_MID then LC_HousekeepingReq cfg env msg st
  else if msg.MsgId = LC_CMD_MID then
    let CommandCode := msg.CmdCode
    if CommandCode = cfg.LC_NOOP_CC then ok (some (LC_NoopCmd cfg msg st))
    else if CommandCode = cfg.LC_RESET_CC then ok (some (LC_ResetCmd cfg msg st))
    else if CommandCode = cfg.LC_SET_LC_STATE_CC then ok (some (LC_SetLCStateCmd cfg msg st))
    else if CommandCode = cfg.LC_SET_AP_STATE_CC then ok (LC_SetAPStateCmd cfg msg st)
    else if CommandCode = cfg.LC_SET_AP_PERMOFF_CC then ok (LC_SetAPPermOffCmd cfg msg st)
    else if CommandCode = cfg.LC_RESET_AP_STATS_CC then ok (LC_ResetAPStatsCmd cfg msg st)
    else if CommandCode = cfg.LC_RESET_WP_STATS_CC then ok (LC_ResetWPStatsCmd cfg msg st)
    else ok (some ((st.sendEvent LC_EventID.LC_CC_ERR_EID).incCmdErrCount))
  else
    ok (some (ext.LC_CheckMsgForWPs msg.MsgId msg
      (st.call (LC_Call.LC_CheckMsgForWPs msg.MsgId))))

/-! ## Well-formedness conditions -/

/-- The case labels of every `switch` in `lc_cmds.c` are pairwise distinct (a C compiler
rejects duplicate case labels). -/
def LC_Config.LabelsDistinct (cfg : LC_Config) : Prop :=
  [cfg.LC_WATCH_STALE, cfg.LC_WATCH_FALSE, cfg.LC_WATCH_TRUE, cfg.LC_WATCH_ERROR].Nodup ∧
  [cfg.LC_ACTION_NOT_USED, cfg.LC_APSTATE_ACTIVE, cfg.LC_APSTATE_PASSIVE,
    cfg.LC_APSTATE_DISABLED, cfg.LC_APSTATE_PERMOFF].Nodup ∧
  [cfg.LC_ACTION_STALE, cfg.LC_ACTION_PASS, cfg.LC_ACTION_FAIL, cfg.LC_ACTION_ERROR].Nodup ∧
  [cfg.LC_STATE_ACTIVE, cfg.LC_STATE_PASSIVE, cfg.LC_STATE_DISABLED].Nodup ∧
  [cfg.LC_NOOP_CC, cfg.LC_RESET_CC, cfg.LC_SET_LC_STATE_CC, cfg.LC_SET_AP_STATE_CC,
    cfg.LC_SET_AP_PERMOFF_CC, cfg.LC_RESET_AP_STATS_CC, cfg.LC_RESET_WP_STATS_CC].Nodup

instance (cfg : LC_Config) : Decidable cfg.LabelsDistinct := by
  unfold LC_Config.LabelsDistinct; infer_instance

/-- The table dimensions fit the packing loops: the watchpoint count is a positive multiple
of 4 and the actionpoint count a positive multiple of 2, both within reach of the 16-bit
loop index, and the packed arrays have a byte for every group of entries. -/
def LC_Config.SizesOK (cfg : LC_Config) : Prop :=
  0 < cfg.LC_MAX_WATCHPOINTS ∧ cfg.LC_MAX_WATCHPOINTS % 4 = 0 ∧ cfg.LC_MAX_WATCHPOINTS ≤ 65532 ∧
  0 < cfg.LC_MAX_ACTIONPOINTS ∧ cfg.LC_MAX_ACTIONPOINTS % 2 = 0 ∧ cfg.LC_MAX_ACTIONPOINTS ≤ 65534 ∧
  cfg.LC_MAX_WATCHPOINTS ≤ 4 * cfg.LC_HKWR_NUM_BYTES ∧
  cfg.LC_MAX_ACTIONPOINTS ≤ 2 * cfg.LC_HKAR_NUM_BYTES

instance (cfg : LC_Config) : Decidable cfg.SizesOK := by
  unfold LC_Config.SizesOK; infer_instance

/-- The housekeeping codes for watch results are 2-bit values. -/
def LC_Config.HKWR2Bit (cfg : LC_Config) : Prop :=
  cfg.LC_HKWR_STALE < 4 ∧ cfg.LC_HKWR_FALSE < 4 ∧ cfg.LC_HKWR_TRUE < 4 ∧ cfg.LC_HKWR_ERROR < 4

instance (cfg : LC_Config) : Decidable cfg.HKWR2Bit := by
  unfold LC_Config.HKWR2Bit; infer_instance

/-- The housekeeping codes for actionpoint states and action results are 2-bit values. -/
def LC_Config.HKAR2Bit (cfg : LC_Config) : Prop :=
  cfg.LC_HKAR_STATE_NOT_USED < 4 ∧ cfg.LC_HKAR_STATE_ACTIVE < 4 ∧
  cfg.LC_HKAR_STATE_PASSIVE < 4 ∧ cfg.LC_HKAR_STATE_DISABLED < 4 ∧
  cfg.LC_HKAR_STALE < 4 ∧ cfg.LC_HKAR_PASS < 4 ∧ cfg.LC_HKAR_FAIL < 4 ∧ cfg.LC_HKAR_ERROR < 4

instance (cfg : LC_Config) : Decidable cfg.HKAR2Bit := by
  unfold LC_Config.HKAR2Bit; infer_instance

/-- The tables and packet arrays of a state have their declared dimensions. -/
def LC_State.Sized (cfg : LC_Config) (st : LC_State) : Prop :=
  st.LC_OperData.WRTPtr.length = cfg.LC_MAX_WATCHPOINTS ∧
  st.LC_OperData.ARTPtr.length = cfg.LC_MAX_ACTIONPOINTS ∧
  st.LC_OperData.ADTPtr.length = cfg.LC_MAX_ACTIONPOINTS ∧
  st.LC_OperData.HkPacket.WPResults.length = cfg.LC_HKWR_NUM_BYTES ∧
  st.LC_OperData.HkPacket.APResults.length = cfg.LC_HKAR_NUM_BYTES

instance (cfg : LC_Config) (st : LC_State) : Decidable (st.Sized cfg) := by
  unfold LC_State.Sized; infer_instance

/-! ## A small configuration and state for concrete evaluation -/

/-- A configuration with pairwise distinct enumerators, 2-bit housekeeping codes and small
tables: eight watchpoints and four actionpoints. -/
def demoCfg : LC_Config :=
  { LC_MAX_WATCHPOINTS := 8, LC_MAX_ACTIONPOINTS := 4
    LC_HKWR_NUM_BYTES := 2, LC_HKAR_NUM_BYTES := 2
    LC_WATCH_STALE := 0xFF, LC_WATCH_FALSE := 0, LC_WATCH_TRUE := 1, LC_WATCH_ERROR := 2
    LC_HKWR_STALE := 3, LC_HKWR_FALSE := 0, LC_HKWR_TRUE := 1, LC_HKWR_ERROR := 2
    LC_ACTION_NOT_USED := 0xFF, LC_APSTATE_ACTIVE := 1, LC_APSTATE_PASSIVE := 2
    LC_APSTATE_DISABLED := 3, LC_APSTATE_PERMOFF := 4
    LC_ACTION_STALE := 0xFF, LC_ACTION_PASS := 0, LC_ACTION_FAIL := 1, LC_ACTION_ERROR := 2
    LC_HKAR_STATE_NOT_USED := 0, LC_HKAR_STATE_ACTIVE := 1, LC_HKAR_STATE_PASSIVE := 2
    LC_HKAR_STATE_DISABLED := 3
    LC_HKAR_STALE := 3, LC_HKAR_PASS := 0, LC_HKAR_FAIL := 1, LC_HKAR_ERROR := 2
    LC_STATE_ACTIVE := 1, LC_STATE_PASSIVE := 2, LC_STATE_DISABLED := 3
    LC_CDS_SAVED := 0xF0F0
    LC_NOOP_CC := 0, LC_RESET_CC := 1, LC_SET_LC_STATE_CC := 2, LC_SET_AP_STATE_CC := 3
    LC_SET_AP_PERMOFF_CC := 4, LC_RESET_AP_STATS_CC := 5, LC_RESET_WP_STATS_CC := 6
    CFE_SUCCESS := 0, CFE_TBL_INFO_UPDATED := 0x4C000001
    sizeof_CFE_SB_CmdHdr_t := 8 }

/-- A watchpoint result entry with the given verdict and countdown. -/
def demoWP (WatchResult CountdownToStale : Nat) : LC_WRTEntry_t :=
  { WatchResult := WatchResult, CountdownToStale := CountdownToStale
    EvaluationCount := 5, FalseToTrueCount := 1, ConsecutiveTrueCount := 2
    CumulativeTrueCount := 3
    LastFalseToTrue := { Value := 7, Seconds := 100, Subseconds := 0 }
    LastTrueToFalse := { Value := 6, Seconds := 90, Subseconds := 0 } }

/-- An actionpoint result entry with the given state and result. -/
def demoAP (CurrentState ActionResult : Nat) : LC_ARTEntry_t :=
  { ActionResult := ActionResult, CurrentState := CurrentState
    PassiveAPCount := 1, FailToPassCount := 2, PassToFailCount := 3
    ConsecutiveFailCount := 4, CumulativeFailCount := 5
    CumulativeRTSExecCount := 6, CumulativeEventMsgsSent := 7 }

/-- A state for `demoCfg`: verdicts stale, false, true, error and an out-of-enumeration
value; actionpoints active, disabled, permanently off and not used. -/
def demoState : LC_State :=
  { LC_AppData :=
      { CmdCount := 10, CmdErrCount := 2, APSampleCount := 30, MonitoredMsgCount := 40
        RTSExecCount := 5, PassiveRTSExecCount := 6, CDSSavedOnExit := 0, CurrentLCState := 1 }
    LC_OperData :=
      { WRTPtr := [demoWP 0xFF 0, demoWP 0 3, demoWP 1 1, demoWP 2 2,
                   demoWP 1 0, demoWP 77 4, demoWP 0 1, demoWP 0xFF 0]
        ARTPtr := [demoAP 1 0, demoAP 3 1, demoAP 4 0xFF, demoAP 0xFF 0xFF]
        ADTPtr := [⟨1⟩, ⟨2⟩, ⟨3⟩, ⟨0xFF⟩]
        HkPacket :=
          { CmdCount := 0, CmdErrCount := 0, CurrentLCState := 0
            WPResults := [0, 0], APResults := [0, 0]
            PassiveRTSExecCount := 0, WPsInUse := 0, ActiveAPs := 9
            APSampleCount := 0, MonitoredMsgCount := 0, RTSExecCount := 0 }
        WatchpointCount := 6
        HaveActiveCDS := true }
    Calls := [] }

/-- Table services report no change and every store to the critical data store succeeds. -/
def demoEnv : CFE_Env :=
  { WDT_GetAddress := 0, ADT_GetAddress := 0
    ADTPtr := [⟨1⟩, ⟨2⟩, ⟨3⟩, ⟨0xFF⟩]
    CopyToCDS_WRT := 0, CopyToCDS_ART := 0, CopyToCDS_AppData := 0 }

/-- A message of command code `cc` and length `len` with payload words `w0`, `w1`, `w2`. -/
def demoMsg (mid cc len w0 w1 w2 : Nat) : CFE_SB_Msg :=
  { MsgId := mid, CmdCode := cc, TotalMsgLength := len, Word0 := w0, Word1 := w1, Word2 := w2
    Word3 := 0 }

/-- Stand-ins for the sampling and monitoring functions that leave the state as it is. -/
def demoExt : LC_Externals :=
  { LC_SampleAPs := fun _ _ st => st
    LC_CheckMsgForWPs := fun _ _ st => st }

/-! ## Closed forms used to state what the loops compute -/

/-- Effect of one aging step on a watchpoint result entry. -/
def ageEntry (cfg : LC_Config) (e : LC_WRTEntry_t) : LC_WRTEntry_t :=
  if e.CountdownToStale = 0 then e
  else if e.CountdownToStale = 1 then
    { e with CountdownToStale := 0, WatchResult := cfg.LC_WATCH_STALE }
  else { e with CountdownToStale := e.CountdownToStale - 1 }

/-- Effect of the "all actionpoints" state change on one entry. -/
def setAllEntry (cfg : LC_Config) (NewAPState : Nat) (e : LC_ARTEntry_t) : LC_ARTEntry_t :=
  if e.CurrentState ≠ cfg.LC_ACTION_NOT_USED ∧ e.CurrentState ≠ cfg.LC_APSTATE_PERMOFF then
    { e with CurrentState := NewAPState }
  else e

/-- Effect of `LC_ResetResultsAP` on the entry at `TableIndex`. -/
def resetAPEntry (cfg : LC_Config) (ADT : List LC_ADTEntry_t) (ResetStatsCmd : Bool)
    (TableIndex : Nat) (e : LC_ARTEntry_t) : LC_ARTEntry_t :=
  { ActionResult := if ResetStatsCmd then e.ActionResult else cfg.LC_ACTION_STALE
    CurrentState :=
      if ResetStatsCmd then e.CurrentState
      else (ADT[TableIndex]?.map LC_ADTEntry_t.DefaultState).getD e.CurrentState
    PassiveAPCount := 0
    FailToPassCount := 0
    PassToFailCount := 0
    ConsecutiveFailCount := 0
    CumulativeFailCount := 0
    CumulativeRTSExecCount := 0
    CumulativeEventMsgsSent := 0 }

/-- Effect of `LC_ResetResultsWP` on one entry. -/
def resetWPEntry (cfg : LC_Config) (ResetStatsCmd : Bool) (e : LC_WRTEntry_t) : LC_WRTEntry_t :=
  { WatchResult := if ResetStatsCmd then e.WatchResult else cfg.LC_WATCH_STALE
    CountdownToStale := if ResetStatsCmd then e.CountdownToStale else 0
    EvaluationCount := 0
    FalseToTrueCount := 0
    ConsecutiveTrueCount := 0
    CumulativeTrueCount := 0
    LastFalseToTrue := { Value := 0, Seconds := 0, Subseconds := 0 }
    LastTrueToFalse := { Value := 0, Seconds := 0, Subseconds := 0 } }

/-- The byte the watch-result packing loop stores for four verdicts, highest index first. -/
def watchByte (cfg : LC_Config) (w3 w2 w1 w0 : Nat) : Nat :=
  u8 (u8 (u8 (u8 (switchWatchResult cfg w3 <<< 6) ||| (switchWatchResult cfg w2 <<< 4))
    ||| (switchWatchResult cfg w1 <<< 2)) ||| switchWatchResult cfg w0)

/-- The housekeeping state code chosen by the `switch` on a `CurrentState`. -/
def stateCode (cfg : LC_Config) (CurrentState : Nat) : Nat :=
  (switchAPState cfg CurrentState 0).1

/-- Whether the `switch` on a `CurrentState` takes the branch that increments `ActiveAPs`. -/
def countsActive (cfg : LC_Config) (e : LC_ARTEntry_t) : Bool :=
  decide (e.CurrentState ≠ cfg.LC_ACTION_NOT_USED ∧ e.CurrentState = cfg.LC_APSTATE_ACTIVE)

/-- The byte the action-result packing loop stores for two entries, higher index first. -/
def actionByte (cfg : LC_Config) (e1 e0 : LC_ARTEntry_t) : Nat :=
  u8 (u8 (u8 (u8 (stateCode cfg e1.CurrentState <<< 6)
    ||| (switchActionResult cfg e1.ActionResult <<< 4))
    ||| (stateCode cfg e0.CurrentState <<< 2)) ||| switchActionResult cfg e0.ActionResult)

/-- The second state differs from the first at most in the result tables, the definition
table pointer and the record of calls. -/
def TablesOnly (st st' : LC_State) : Prop :=
  st'.LC_AppData = st.LC_AppData ∧
  st'.LC_OperData.HkPacket = st.LC_OperData.HkPacket ∧
  st'.LC_OperData.HaveActiveCDS = st.LC_OperData.HaveActiveCDS ∧
  st'.LC_OperData.WatchpointCount = st.LC_OperData.WatchpointCount

/-- The rejection condition of the set-state command in the words of the specification:
the new state is not one of active, passive, disabled; or the number is not the "all"
sentinel and lies outside the table; or it names a single record that is not used or
permanently off. -/
def setAPStateRejected (cfg : LC_Config) (msg : CFE_SB_Msg) (st : LC_State) : Prop :=
  ¬ (msg.NewAPState = cfg.LC_APSTATE_ACTIVE ∨ msg.NewAPState = cfg.LC_APSTATE_PASSIVE
      ∨ msg.NewAPState = cfg.LC_APSTATE_DISABLED) ∨
  (msg.APNumber ≠ LC_ALL_ACTIONPOINTS ∧ msg.APNumber ≥ cfg.LC_MAX_ACTIONPOINTS) ∨
  (msg.APNumber ≠ LC_ALL_ACTIONPOINTS ∧ msg.APNumber < cfg.LC_MAX_ACTIONPOINTS ∧
    ∃ e, st.LC_OperData.ARTPtr[msg.APNumber]? = some e ∧
      (e.CurrentState = cfg.LC_ACTION_NOT_USED ∨ e.CurrentState = cfg.LC_APSTATE_PERMOFF))

/-- Like `demoEnv`, but table services report the actionpoint definition table updated. -/
def reloadEnv : CFE_Env :=
  { demoEnv with ADT_GetAddress := 0x4C000001 }

/-- A sample request that passes every check of `LC_SampleAPReq` and asks for aging:
the right length, a valid index range (both "all", or start not after end and end inside
the table) and a non-zero `UpdateAge`. -/
def agingSampleReq (cfg : LC_Config) (msg : CFE_SB_Msg) : Prop :=
  msg.TotalMsgLength = u16 (sizeof_LC_SampleAP_t cfg) ∧
  ((msg.StartIndex = LC_ALL_ACTIONPOINTS ∧ msg.EndIndex = LC_ALL_ACTIONPOINTS) ∨
    (msg.StartIndex ≤ msg.EndIndex ∧ msg.EndIndex < cfg.LC_MAX_ACTIONPOINTS)) ∧
  msg.UpdateAge ≠ 0

instance (cfg : LC_Config) (msg : CFE_SB_Msg) : Decidable (agingSampleReq cfg msg) := by
  unfold agingSampleReq; infer_instance

/-- Handle a sequence of sample requests, one after the other. -/
def sampleRequests (cfg : LC_Config) (ext : LC_Externals) : List CFE_SB_Msg → LC_State →
    Option LC_State
  | [], st => some st
  | msg :: rest, st =>
    match LC_SampleAPReq cfg ext msg st with
    | none => none
    | some st' => sampleRequests cfg ext rest st'

/-- The calls `LC_ManageTables` makes before it looks at the result of re-acquiring the
watchpoint definition table, in order. -/
def manageCalls : List LC_Call :=
  [LC_Call.CFE_TBL_Manage LC_TableHandle.WRTHandle,
   LC_Call.CFE_TBL_Manage LC_TableHandle.ARTHandle,
   LC_Call.CFE_TBL_ReleaseAddress LC_TableHandle.WDTHandle,
   LC_Call.CFE_TBL_ReleaseAddress LC_TableHandle.ADTHandle,
   LC_Call.CFE_TBL_Manage LC_TableHandle.WDTHandle,
   LC_Call.CFE_TBL_Manage LC_TableHandle.ADTHandle,
   LC_Call.CFE_TBL_GetAddress LC_TableHandle.WDTHandle]

/-- Whether a call is a write to the critical data store. -/
def LC_Call.isCopyToCDS : LC_Call → Bool
  | LC_Call.CFE_ES_CopyToCDS_WRT _ => true
  | LC_Call.CFE_ES_CopyToCDS_ART _ => true
  | LC_Call.CFE_ES_CopyToCDS_AppData _ => true
  | _ => false

/-- The watchpoint result record that a table reload leaves: stale, no countdown, cleared
statistics and transition snapshots. -/
def clearedWP (cfg : LC_Config) : LC_WRTEntry_t :=
  { WatchResult := cfg.LC_WATCH_STALE, CountdownToStale := 0
    EvaluationCount := 0, FalseToTrueCount := 0, ConsecutiveTrueCount := 0
    CumulativeTrueCount := 0
    LastFalseToTrue := { Value := 0, Seconds := 0, Subseconds := 0 }
    LastTrueToFalse := { Value := 0, Seconds := 0, Subseconds := 0 } }

/-- Like `demoEnv`, but the watchpoint definition table is reported updated and the
actionpoint definition table address cannot be obtained (code `-1`). -/
def updatedThenErrorEnv : CFE_Env :=
  { demoEnv with WDT_GetAddress := 0x4C000001, ADT_GetAddress := -1 }

/-- The calls `LC_ManageTables` makes, in order, as a function of the two codes returned by
`CFE_TBL_GetAddress`: the seven table-service calls; the hash table rebuild or the error
event; and, unless the function has returned, the second address acquisition and its
error event. -/
def manageTablesCalls (cfg : LC_Config) (env : CFE_Env) : List LC_Call :=
  manageCalls ++
    (if env.WDT_GetAddress = cfg.CFE_TBL_INFO_UPDATED then [LC_Call.LC_CreateHashTable]
     else if env.WDT_GetAddress = cfg.CFE_SUCCESS then []
     else [LC_Call.CFE_EVS_SendEvent LC_EventID.LC_WDT_GETADDR_ERR_EID]) ++
    (if env.WDT_GetAddress = cfg.CFE_TBL_INFO_UPDATED ∨ env.WDT_GetAddress = cfg.CFE_SUCCESS then
       [LC_Call.CFE_TBL_GetAddress LC_TableHandle.ADTHandle] ++
         (if env.ADT_GetAddress = cfg.CFE_TBL_INFO_UPDATED ∨ env.ADT_GetAddress = cfg.CFE_SUCCESS
          then []
          else [LC_Call.CFE_EVS_SendEvent LC_EventID.LC_ADT_GETADDR_ERR_EID])
     else [])

/-- Like `demoEnv`, but table services report both definition tables updated. -/
def reloadBothEnv : CFE_Env :=
  { demoEnv with WDT_GetAddress := 0x4C000001, ADT_GetAddress := 0x4C000001 }

/-- Like `demoEnv`, but the store of the actionpoint results table to the critical data
store fails (code `-2`). -/
def artStoreFailsEnv : CFE_Env :=
  { demoEnv with CopyToCDS_ART := -2 }

/-- A `CurrentState` value that is permanently off or outside the enumeration of
actionpoint states. -/
def permOffOrUnknown (cfg : LC_Config) (s : Nat) : Prop :=
  s = cfg.LC_APSTATE_PERMOFF ∨
    (s ≠ cfg.LC_ACTION_NOT_USED ∧ s ≠ cfg.LC_APSTATE_ACTIVE ∧ s ≠ cfg.LC_APSTATE_PASSIVE ∧
      s ≠ cfg.LC_APSTATE_DISABLED)

instance (cfg : LC_Config) (s : Nat) : Decidable (permOffOrUnknown cfg s) := by
  unfold permOffOrUnknown; infer_instance

/-- Two actionpoint records that are equal, or that differ only in `CurrentState`, which
is `LC_ACTION_NOT_USED` in one of them and permanently off or outside the enumeration in
the other. -/
def notUsedAlias (cfg : LC_Config) (a b : LC_ARTEntry_t) : Prop :=
  a = b ∨ (b = { a with CurrentState := b.CurrentState } ∧
    ((a.CurrentState = cfg.LC_ACTION_NOT_USED ∧ permOffOrUnknown cfg b.CurrentState) ∨
      (b.CurrentState = cfg.LC_ACTION_NOT_USED ∧ permOffOrUnknown cfg a.CurrentState)))

instance (cfg : LC_Config) (a b : LC_ARTEntry_t) : Decidable (notUsedAlias cfg a b) := by
  unfold notUsedAlias; infer_instance

/-- The actionpoint results of `demoState` with "not used" and "permanently off"
exchanged and an out-of-enumeration state in place of "not used". -/
def aliasedART : List LC_ARTEntry_t :=
  [demoAP 1 0, demoAP 3 1, demoAP 0xFF 0xFF, demoAP 9 0xFF]

/-! ## Corrective sequences (`lc_custom.c`) and the evaluation of an actionpoint -/

/-- Modelled from the spec: the update of one record by `applyVerdict(id, verdict,
sampleValue, timestamp)` of section 4.1, which lives in `lc_watch.c` and is not under
`src/`.  Updates `EvaluationCount`; on a False to True transition increments
`FalseToTrueCount` and `ConsecutiveTrueCount` and records `LastFalseToTrue`; on a True to
False transition resets `ConsecutiveTrueCount` to 0 and records `LastTrueToFalse`;
`CumulativeTrueCount` increments whenever the verdict is True; `CountdownToStale` is
reset to the configured maximum `maxAge`; the verdict is stored in `WatchResult`.  The
spec lets counters wrap without giving their width; they are taken as 32 bits wide. -/
def applyVerdictEntry (cfg : LC_Config) (maxAge verdict sampleValue seconds subseconds : Nat)
    (e : LC_WRTEntry_t) : LC_WRTEntry_t :=
  let e1 : LC_WRTEntry_t := { e with EvaluationCount := u32 (e.EvaluationCount + 1) }
  let e2 : LC_WRTEntry_t :=
    if e.WatchResult = cfg.LC_WATCH_FALSE ∧ verdict = cfg.LC_WATCH_TRUE then
      { e1 with
        FalseToTrueCount := u32 (e1.FalseToTrueCount + 1)
        ConsecutiveTrueCount := u32 (e1.ConsecutiveTrueCount + 1)
        LastFalseToTrue := { Value := sampleValue, Seconds := seconds, Subseconds := subseconds } }
    else if e.WatchResult = cfg.LC_WATCH_TRUE ∧ verdict = cfg.LC_WATCH_FALSE then
      { e1 with
        ConsecutiveTrueCount := 0
        LastTrueToFalse := { Value := sampleValue, Seconds := seconds, Subseconds := subseconds } }
    else e1
  let e3 : LC_WRTEntry_t :=
    if verdict = cfg.LC_WATCH_TRUE then
      { e2 with CumulativeTrueCount := u32 (e2.CumulativeTrueCount + 1) }
    else e2
  { e3 with WatchResult := verdict, CountdownToStale := maxAge }

/-- Modelled from the spec: `applyVerdict(id, verdict, sampleValue, timestamp)` of section
4.1 on the watchpoint results table: an `id` outside the valid range is rejected (no-op),
otherwise the record of `id` is updated by `applyVerdictEntry`. -/
def applyVerdict (cfg : LC_Config) (maxAge id verdict sampleValue seconds subseconds : Nat)
    (WRT : List LC_WRTEntry_t) : List LC_WRTEntry_t :=
  match WRT[id]? with
  | none => WRT
  | some e => WRT.set id (applyVerdictEntry cfg maxAge verdict sampleValue seconds subseconds e)

/-! ## Frame conditions -/

/-- The second state comes from the first by steps that keep `CurrentLCState`,
`HaveActiveCDS` and the dimensions of the tables and that make no call writing to the
critical data store. -/
def Frame (cfg : LC_Config) (st st' : LC_State) : Prop :=
  st'.LC_AppData.CurrentLCState = st.LC_AppData.CurrentLCState ∧
  st'.LC_OperData.HaveActiveCDS = st.LC_OperData.HaveActiveCDS ∧
  (st.Sized cfg → st'.Sized cfg) ∧
  ∃ more, st'.Calls = st.Calls ++ more ∧ ∀ c ∈ more, LC_Call.isCopyToCDS c = false

/-- What is assumed of the functions of `lc_action.c` and `lc_watch.c` that `lc_cmds.c`
calls: they work on the result tables and the counters, so they keep `CurrentLCState`,
`HaveActiveCDS` and the table dimensions and do not write to the critical data store. -/
def LC_Externals.Framed (cfg : LC_Config) (ext : LC_Externals) : Prop :=
  (∀ (s e : Nat) (t : LC_State), Frame cfg t (ext.LC_SampleAPs s e t)) ∧
  (∀ (mid : Nat) (msg : CFE_SB_Msg) (t : LC_State), Frame cfg t (ext.LC_CheckMsgForWPs mid msg t))

/-- A run of `LC_AppPipe` over a list of messages, each paired with the answers the cFE
services give while it is handled.  The state is threaded through; the returned status
codes are not looked at, so the run also covers what follows a failed request. -/
def pipeMessages (cfg : LC_Config) (ext : LC_Externals) :
    List (CFE_Env × CFE_SB_Msg) → LC_State → Option LC_State
  | [], st => some st
  | (env, msg) :: rest, st =>
    match LC_AppPipe cfg ext env msg st with
    | none => none
    | some (_, st') => pipeMessages cfg ext rest st'

/-- The monitor mode is one of the three enumerators. -/
def validLCState (cfg : LC_Config) (s : Nat) : Prop :=
  s = cfg.LC_STATE_ACTIVE ∨ s = cfg.LC_STATE_PASSIVE ∨ s = cfg.LC_STATE_DISABLED

instance (cfg : LC_Config) (s : Nat) : Decidable (validLCState cfg s) := by
  unfold validLCState; infer_instance

/-- What one message through `LC_AppPipe` does to the state as far as the monitor mode and
the critical data store go: the table dimensions are kept; `CurrentLCState` is kept, or
the message is a set-LC-state command with a `NewLCState` among the three modes, which
is stored; `HaveActiveCDS` is not switched on; and while it is off no call writes to
the critical data store. -/
def PipeStep (cfg : LC_Config) (msg : CFE_SB_Msg) (st st' : LC_State) : Prop :=
  st'.Sized cfg ∧
  (st'.LC_AppData.CurrentLCState = st.LC_AppData.CurrentLCState ∨
    (msg.MsgId = LC_CMD_MID ∧ msg.CmdCode = cfg.LC_SET_LC_STATE_CC ∧
      validLCState cfg msg.NewLCState ∧ st'.LC_AppData.CurrentLCState = msg.NewLCState)) ∧
  (st'.LC_OperData.HaveActiveCDS = true → st.LC_OperData.HaveActiveCDS = true) ∧
  (st.LC_OperData.HaveActiveCDS = false →
    ∃ more, st'.Calls = st.Calls ++ more ∧ ∀ c ∈ more, LC_Call.isCopyToCDS c = false)

/-- The demonstration state with the critical data store switched off. -/
def degradedState : LC_State :=
  { demoState with LC_OperData := { demoState.LC_OperData with HaveActiveCDS := false } }

/-- A short run of messages: a housekeeping request, a no-op command, a sample request
for all actionpoints with aging, and a set-LC-state command to passive. -/
def demoRun : List (CFE_Env × CFE_SB_Msg) :=
  [(demoEnv, demoMsg LC_SEND_HK_MID 0 8 0 0 0), (demoEnv, demoMsg LC_CMD_MID 0 8 0 0 0),
   (demoEnv, demoMsg LC_SAMPLE_AP_MID 0 16 0xFFFF 0xFFFF 1),
   (demoEnv, demoMsg LC_CMD_MID 2 12 2 0 0)]

/-! ## Records of the indices a loop visits -/

/-- A loop body together with a record of the loop index of every execution, most recent
last.  The record is not part of the C program; it is kept to state which elements of an
array a loop touches, since the body for one index reads and writes at fixed offsets from
it. -/
def logged {σ : Type} (body : Nat → σ → Option σ) (i : Nat) (p : σ × List Nat) :
    Option (σ × List Nat) :=
  match body i p.1 with
  | none => none
  | some s => some (s, p.2 ++ [i])

/-- The watch-result packing loop of `packWPResults` with the record of the values of
`TableIndex` its body is executed for.  For each of them the body reads `WRTPtr` at
`TableIndex + 3`, `TableIndex + 2`, `TableIndex + 1` and `TableIndex` and writes
`WPResults` at `HKIndex = TableIndex / 4`. -/
def packWPResultsLogged (cfg : LC_Config) (WRT : List LC_WRTEntry_t) (WPResults : List Nat) :
    Option (List Nat × List Nat) :=
  forLoop (fun i => decide (i < cfg.LC_MAX_WATCHPOINTS)) (fun i => u16 (i + 4))
    (logged (packWPBody cfg WRT)) (cfg.LC_MAX_WATCHPOINTS + 1) 0 (WPResults, [])

/-- The action-result packing loop of `packAPResults` with the record of the values of
`TableIndex` its body is executed for.  For each of them the body reads `ARTPtr` at
`TableIndex + 1` and `TableIndex` and writes `APResults` at `HKIndex = TableIndex / 2`. -/
def packAPResultsLogged (cfg : LC_Config) (ART : List LC_ARTEntry_t) (s : List Nat × Nat) :
    Option ((List Nat × Nat) × List Nat) :=
  forLoop (fun i => decide (i < cfg.LC_MAX_ACTIONPOINTS)) (fun i => u16 (i + 2))
    (logged (packAPBody cfg ART)) (cfg.LC_MAX_ACTIONPOINTS + 1) 0 (s, [])

/-- The loop of `LC_ResetResultsWP` with the record of the values of `TableIndex` its body
is executed for; the body reads and writes `WRTPtr` at `TableIndex`. -/
def LC_ResetResultsWPLogged (cfg : LC_Config) (StartIndex EndIndex : Nat) (ResetStatsCmd : Bool)
    (WRT : List LC_WRTEntry_t) : Option (List LC_WRTEntry_t × List Nat) :=
  forLoop (fun i => decide (i ≤ EndIndex)) (fun i => u32 (i + 1))
    (logged (resetWPBody cfg ResetStatsCmd)) (EndIndex + 2) StartIndex (WRT, [])

/-- The loop of `LC_ResetResultsAP` with the record of the values of `TableIndex` its body
is executed for; the body reads and writes `ARTPtr` at `TableIndex` and, for a table
reload, reads `ADTPtr` at `TableIndex`. -/
def LC_ResetResultsAPLogged (cfg : LC_Config) (ADT : List LC_ADTEntry_t)
    (StartIndex EndIndex : Nat) (ResetStatsCmd : Bool) (ART : List LC_ARTEntry_t) :
    Option (List LC_ARTEntry_t × List Nat) :=
  forLoop (fun i => decide (i ≤ EndIndex)) (fun i => u32 (i + 1))
    (logged (resetAPBody cfg ADT ResetStatsCmd)) (EndIndex + 2) StartIndex (ART, [])

/-! ## Commands: expected lengths and acceptance -/

/-- The value of `ExpectedLength` in the handler that `LC_AppPipe` passes a message to:
`sizeof (LC_SampleAP_t)` for a sample request, `sizeof (LC_NoArgsCmd_t)` for a
housekeeping request and for the no-op and reset commands, and for the other five
commands the size of their command structure.  A command code outside the `switch` and
a monitored message have no handler that checks a length. -/
def expectedLength (cfg : LC_Config) (msg : CFE_SB_Msg) : Option Nat :=
  if msg.MsgId = LC_SAMPLE_AP_MID then some (u16 (sizeof_LC_SampleAP_t cfg))
  else if msg.MsgId = LC_SEND_HK_MID then some (u16 (sizeof_LC_NoArgsCmd_t cfg))
  else if msg.MsgId = LC_CMD_MID then
    if msg.CmdCode = cfg.LC_NOOP_CC then some (u16 (sizeof_LC_NoArgsCmd_t cfg))
    else if msg.CmdCode = cfg.LC_RESET_CC then some (u16 (sizeof_LC_NoArgsCmd_t cfg))
    else if msg.CmdCode = cfg.LC_SET_LC_STATE_CC ∨ msg.CmdCode = cfg.LC_SET_AP_STATE_CC ∨
        msg.CmdCode = cfg.LC_SET_AP_PERMOFF_CC ∨ msg.CmdCode = cfg.LC_RESET_AP_STATS_CC ∨
        msg.CmdCode = cfg.LC_RESET_WP_STATS_CC then some (u16 (sizeof_LC_TwoWordCmd_t cfg))
    else none
  else none

/-- The `CurrentState` of the actionpoint record with the given number, if there is one. -/
def apStateAt (st : LC_State) (APNumber : Nat) : Option Nat :=
  st.LC_OperData.ARTPtr[APNumber]?.map LC_ARTEntry_t.CurrentState

/-- A ground command that is accepted, in the words of the specification: the command
code is known, the message has the length of the command, and the arguments are valid.
No-op and reset take no argument; set-LC-state needs a mode among active, passive,
disabled; set-AP-state needs a new state among active, passive, disabled and either the
"all" sentinel or the number of a record that is neither not used nor permanently off;
set-permanently-off needs the number of a record that is disabled; the stats resets need
the "all" sentinel or a number inside the table.  The command codes are tried in the
order of the `switch` in `LC_AppPipe`. -/
def commandAccepted (cfg : LC_Config) (msg : CFE_SB_Msg) (st : LC_State) : Prop :=
  if msg.CmdCode = cfg.LC_NOOP_CC ∨ msg.CmdCode = cfg.LC_RESET_CC then
    msg.TotalMsgLength = u16 (sizeof_LC_NoArgsCmd_t cfg)
  else if msg.CmdCode = cfg.LC_SET_LC_STATE_CC then
    msg.TotalMsgLength = u16 (sizeof_LC_TwoWordCmd_t cfg) ∧ validLCState cfg msg.NewLCState
  else if msg.CmdCode = cfg.LC_SET_AP_STATE_CC then
    msg.TotalMsgLength = u16 (sizeof_LC_TwoWordCmd_t cfg) ∧
    (msg.NewAPState = cfg.LC_APSTATE_ACTIVE ∨ msg.NewAPState = cfg.LC_APSTATE_PASSIVE ∨
      msg.NewAPState = cfg.LC_APSTATE_DISABLED) ∧
    (msg.APNumber = LC_ALL_ACTIONPOINTS ∨
      (msg.APNumber < cfg.LC_MAX_ACTIONPOINTS ∧
        apStateAt st msg.APNumber ≠ some cfg.LC_ACTION_NOT_USED ∧
        apStateAt st msg.APNumber ≠ some cfg.LC_APSTATE_PERMOFF))
  else if msg.CmdCode = cfg.LC_SET_AP_PERMOFF_CC then
    msg.TotalMsgLength = u16 (sizeof_LC_TwoWordCmd_t cfg) ∧
    msg.APNumber ≠ LC_ALL_ACTIONPOINTS ∧ msg.APNumber < cfg.LC_MAX_ACTIONPOINTS ∧
    apStateAt st msg.APNumber = some cfg.LC_APSTATE_DISABLED
  else if msg.CmdCode = cfg.LC_RESET_AP_STATS_CC then
    msg.TotalMsgLength = u16 (sizeof_LC_TwoWordCmd_t cfg) ∧
    (msg.APNumber = LC_ALL_ACTIONPOINTS ∨ msg.APNumber < cfg.LC_MAX_ACTIONPOINTS)
  else if msg.CmdCode = cfg.LC_RESET_WP_STATS_CC then
    msg.TotalMsgLength = u16 (sizeof_LC_TwoWordCmd_t cfg) ∧
    (msg.WPNumber = LC_ALL_WATCHPOINTS ∨ msg.WPNumber < cfg.LC_MAX_WATCHPOINTS)
  else False

instance (cfg : LC_Config) (msg : CFE_SB_Msg) (st : LC_State) :
    Decidable (commandAccepted cfg msg st) := by
  unfold commandAccepted; infer_instance

/-- The command counters after a command that was executed: `CmdCount` is one higher,
`CmdErrCount` is kept. -/
def CountedDone (st st' : LC_State) : Prop :=
  st'.LC_AppData.CmdCount = u8 (st.LC_AppData.CmdCount + 1) ∧
  st'.LC_AppData.CmdErrCount = st.LC_AppData.CmdErrCount

/-- The state after a command that was rejected: `CmdErrCount` is one higher, `CmdCount`
and `CurrentLCState` are kept, and so is the whole of `LC_OperData`, tables included. -/
def CountedError (st st' : LC_State) : Prop :=
  st'.LC_AppData.CmdErrCount = u8 (st.LC_AppData.CmdErrCount + 1) ∧
  st'.LC_AppData.CmdCount = st.LC_AppData.CmdCount ∧
  st'.LC_AppData.CurrentLCState = st.LC_AppData.CurrentLCState ∧
  st'.LC_OperData = st.LC_OperData

/-- A sample request that leads to sampling, in the words of the specification: the
length is that of `LC_SampleAP_t`, LC is not disabled, and either both indices are the
"all" sentinel or start is not after end and end lies inside the table. -/
def sampleAccepted (cfg : LC_Config) (msg : CFE_SB_Msg) (st : LC_State) : Prop :=
  msg.TotalMsgLength = u16 (sizeof_LC_SampleAP_t cfg) ∧
  st.LC_AppData.CurrentLCState ≠ cfg.LC_STATE_DISABLED ∧
  ((msg.StartIndex = LC_ALL_ACTIONPOINTS ∧ msg.EndIndex = LC_ALL_ACTIONPOINTS) ∨
    (msg.StartIndex ≤ msg.EndIndex ∧ msg.EndIndex < cfg.LC_MAX_ACTIONPOINTS))

instance (cfg : LC_Config) (msg : CFE_SB_Msg) (st : LC_State) :
    Decidable (sampleAccepted cfg msg st) := by
  unfold sampleAccepted; infer_instance

/-- The range an accepted sample request names, in the words of the specification: the
whole table for the "all" sentinel, otherwise start to end. -/
def sampledRange (cfg : LC_Config) (msg : CFE_SB_Msg) : Nat × Nat :=
  if msg.StartIndex = LC_ALL_ACTIONPOINTS ∧ msg.EndIndex = LC_ALL_ACTIONPOINTS then
    (0, cfg.LC_MAX_ACTIONPOINTS - 1)
  else (msg.StartIndex, msg.EndIndex)

/-- Whether a call is the transmission of the housekeeping packet. -/
def LC_Call.isSendMsg : LC_Call → Bool
  | LC_Call.CFE_SB_SendMsg _ => true
  | _ => false

/-- Whether a call is a call of the actionpoint sampler. -/
def LC_Call.isSampleAPs : LC_Call → Bool
  | LC_Call.LC_SampleAPs _ _ => true
  | _ => false

/-- An actionpoint record that the set-state command may change: neither not used nor
permanently off. -/
def eligibleAP (cfg : LC_Config) (e : LC_ARTEntry_t) : Prop :=
  e.CurrentState ≠ cfg.LC_ACTION_NOT_USED ∧ e.CurrentState ≠ cfg.LC_APSTATE_PERMOFF

instance (cfg : LC_Config) (e : LC_ARTEntry_t) : Decidable (eligibleAP cfg e) := by
  unfold eligibleAP; infer_instance

/-! ## Loop rules -/

/-- Hoare-style rule for a counting loop that visits `a, a + d, ..., a + d * (m - 1)`:
an invariant indexed by the number of completed iterations is carried to the end, and
the loop returns a result when the fuel exceeds the number of iterations. -/
theorem forLoop_count {σ : Type} (cond : Nat → Bool) (next : Nat → Nat)
    (body : Nat → σ → Option σ) (a d m : Nat) (Inv : Nat → σ → Prop)
    (hcond : ∀ t, t < m → cond (a + d * t) = true)
    (hnext : ∀ t, t < m → next (a + d * t) = a + d * (t + 1))
    (hend : cond (a + d * m) = false)
    (hbody : ∀ t s, t < m → Inv t s → ∃ s', body (a + d * t) s = some s' ∧ Inv (t + 1) s')
    (fuel t : Nat) (s : σ) (ht : t ≤ m) (hf : m - t < fuel) (hs : Inv t s) :
    ∃ s', forLoop cond next body fuel (a + d * t) s = some s' ∧ Inv m s' := by
  induction fuel generalizing t s with
  | zero => omega
  | succ fuel ih =>
    by_cases htm : t = m
    · subst htm
      exact ⟨s, by simp [forLoop, hend], hs⟩
    · have hlt : t < m := by omega
      obtain ⟨s1, hb, hinv⟩ := hbody t s hlt hs
      obtain ⟨s2, hrun, hfin⟩ := ih (t + 1) s1 (by omega) (by omega) hinv
      refine ⟨s2, ?_, hfin⟩
      simp only [forLoop, hcond t hlt, if_true, hb, hnext t hlt]
      exact hrun

/-- Writing back the element just read leaves a list as it is. -/
theorem set_same {α : Type} (xs : List α) (i : Nat) (e : α) (h : xs[i]? = some e) :
    xs.set i e = xs := by
  apply List.ext_getElem?
  intro j
  rw [List.getElem?_set]
  by_cases hij : i = j
  · subst hij
    have hlt : i < xs.length := by
      by_contra hc
      rw [List.getElem?_eq_none (by omega)] at h
      cases h
    simp [hlt, h]
  · simp [hij]

/-- Rule for a loop over `a, a + 1, ..., a + m - 1` whose body replaces entry `i` of a table
by `g i` of it: the loop returns the table with exactly the visited entries replaced. -/
theorem forLoop_update {α : Type} (cond : Nat → Bool) (next : Nat → Nat)
    (body : Nat → List α → Option (List α)) (g : Nat → α → α) (a m fuel : Nat) (xs : List α)
    (hcond : ∀ t, t < m → cond (a + t) = true)
    (hnext : ∀ t, t < m → next (a + t) = a + (t + 1))
    (hend : cond (a + m) = false)
    (hbody : ∀ i ys e, a ≤ i → i < a + m → ys[i]? = some e → body i ys = some (ys.set i (g i e)))
    (hlen : a + m ≤ xs.length) (hf : m < fuel) :
    ∃ ys, forLoop cond next body fuel a xs = some ys ∧ ys.length = xs.length ∧
      ∀ i, ys[i]? = if a ≤ i ∧ i < a + m then xs[i]?.map (g i) else xs[i]? := by
  have key := forLoop_count cond next body a 1 m
    (fun t ys => ys.length = xs.length ∧
      ∀ i, ys[i]? = if a ≤ i ∧ i < a + t then xs[i]?.map (g i) else xs[i]?)
    (by intro t ht; simpa using hcond t ht)
    (by intro t ht; simpa using hnext t ht)
    (by simpa using hend)
    (by
      intro t ys ht hinv
      obtain ⟨hl, hpt⟩ := hinv
      have hi : a + t < ys.length := by omega
      have hget : ys[a + t]? = some (ys[a + t]) := List.getElem?_eq_getElem hi
      have hold : ys[a + t]? = xs[a + t]? := by
        rw [hpt (a + t)]; simp
      refine ⟨ys.set (a + t) (g (a + t) ys[a + t]), ?_, ?_, ?_⟩
      · simpa using hbody (a + t) ys _ (by omega) (by omega) hget
      · simp [hl]
      · intro i
        rw [List.getElem?_set]
        by_cases hit : a + t = i
        · subst hit
          have h1 : a ≤ a + t ∧ a + t < a + (t + 1) := ⟨by omega, by omega⟩
          simp only [hi, if_true, h1, and_self]
          rw [← hold, hget]; rfl
        · rw [if_neg hit, hpt i]
          by_cases hin : a ≤ i ∧ i < a + t
          · have h2 : a ≤ i ∧ i < a + (t + 1) := ⟨hin.1, by omega⟩
            rw [if_pos hin, if_pos h2]
          · have h2 : ¬ (a ≤ i ∧ i < a + (t + 1)) := by omega
            rw [if_neg hin, if_neg h2])
    fuel 0 xs (by omega) (by omega)
    ⟨rfl, by intro i; rw [if_neg]; omega⟩
  simpa using key

/-! ## What the table loops compute -/

theorem ageBody_eq (cfg : LC_Config) (i : Nat) (ys : List LC_WRTEntry_t) (e : LC_WRTEntry_t)
    (h : ys[i]? = some e) : ageBody cfg i ys = some (ys.set i (ageEntry cfg e)) := by
  have hlt : i < ys.length := by
    by_contra hc
    rw [List.getElem?_eq_none (by omega)] at h
    cases h
  unfold ageBody ageEntry
  rw [h]
  by_cases h0 : e.CountdownToStale = 0
  · simp [h0, set_same ys i e h]
  · by_cases h1 : e.CountdownToStale = 1
    · simp [h1, arrayWrite, hlt]
    · have h2 : e.CountdownToStale - 1 ≠ 0 := by omega
      simp [h0, h1, h2, arrayWrite, hlt]

/-- The aging loop returns the table with every entry aged by one step. -/
theorem ageWatchpoints_eq (cfg : LC_Config) (WRT : List LC_WRTEntry_t)
    (hlen : WRT.length = cfg.LC_MAX_WATCHPOINTS) (hmax : cfg.LC_MAX_WATCHPOINTS ≤ 65535) :
    ageWatchpoints cfg WRT = some (WRT.map (ageEntry cfg)) := by
  obtain ⟨ys, hrun, _, hpt⟩ := forLoop_update
    (fun i => decide (i < cfg.LC_MAX_WATCHPOINTS)) (fun i => u16 (i + 1)) (ageBody cfg)
    (fun _ e => ageEntry cfg e) 0 cfg.LC_MAX_WATCHPOINTS (cfg.LC_MAX_WATCHPOINTS + 1) WRT
    (by intro t ht; simpa using ht)
    (by intro t ht; simp only [u16]; omega)
    (by simp)
    (by intro i ys e _ _ h; exact ageBody_eq cfg i ys e h)
    (by omega) (by omega)
  unfold ageWatchpoints
  rw [hrun]
  congr 1
  apply List.ext_getElem?
  intro i
  rw [hpt i, List.getElem?_map]
  by_cases hi : i < cfg.LC_MAX_WATCHPOINTS
  · simp [hi]
  · have : WRT[i]? = none := List.getElem?_eq_none (by omega)
    simp [hi, this]

theorem setAllBody_eq (cfg : LC_Config) (n i : Nat) (ys : List LC_ARTEntry_t)
    (e : LC_ARTEntry_t) (h : ys[i]? = some e) :
    setAllBody cfg n i ys = some (ys.set i (setAllEntry cfg n e)) := by
  have hlt : i < ys.length := by
    by_contra hc
    rw [List.getElem?_eq_none (by omega)] at h
    cases h
  unfold setAllBody setAllEntry
  rw [h]
  by_cases hc : e.CurrentState ≠ cfg.LC_ACTION_NOT_USED ∧ e.CurrentState ≠ cfg.LC_APSTATE_PERMOFF
  · rw [if_pos hc]
    simp only [if_pos hc, arrayWrite, hlt, if_true]
  · rw [if_neg hc, set_same ys i e h]
    simp only [if_neg hc]

/-- The "all actionpoints" loop returns the table with every eligible entry changed. -/
theorem setAllAPState_eq (cfg : LC_Config) (n : Nat) (ART : List LC_ARTEntry_t)
    (hlen : ART.length = cfg.LC_MAX_ACTIONPOINTS) (hmax : cfg.LC_MAX_ACTIONPOINTS < 4294967296) :
    setAllAPState cfg n ART = some (ART.map (setAllEntry cfg n)) := by
  obtain ⟨ys, hrun, _, hpt⟩ := forLoop_update
    (fun i => decide (i < cfg.LC_MAX_ACTIONPOINTS)) (fun i => u32 (i + 1)) (setAllBody cfg n)
    (fun _ e => setAllEntry cfg n e) 0 cfg.LC_MAX_ACTIONPOINTS (cfg.LC_MAX_ACTIONPOINTS + 1) ART
    (by intro t ht; simpa using ht)
    (by intro t ht; simp only [u32]; omega)
    (by simp)
    (by intro i ys e _ _ h; exact setAllBody_eq cfg n i ys e h)
    (by omega) (by omega)
  unfold setAllAPState
  rw [hrun]
  congr 1
  apply List.ext_getElem?
  intro i
  rw [hpt i, List.getElem?_map]
  by_cases hi : i < cfg.LC_MAX_ACTIONPOINTS
  · simp [hi]
  · have : ART[i]? = none := List.getElem?_eq_none (by omega)
    simp [hi, this]

theorem resetAPBody_eq (cfg : LC_Config) (ADT : List LC_ADTEntry_t) (flag : Bool) (i : Nat)
    (ys : List LC_ARTEntry_t) (e : LC_ARTEntry_t) (h : ys[i]? = some e)
    (hadt : flag = true ∨ i < ADT.length) :
    resetAPBody cfg ADT flag i ys = some (ys.set i (resetAPEntry cfg ADT flag i e)) := by
  have hlt : i < ys.length := by
    by_contra hc
    rw [List.getElem?_eq_none (by omega)] at h
    cases h
  unfold resetAPBody resetAPEntry
  rw [h]
  cases flag with
  | true => simp [arrayWrite, hlt]
  | false =>
    have hi : i < ADT.length := by
      rcases hadt with h1 | h1
      · cases h1
      · exact h1
    simp [arrayWrite, hlt, List.getElem?_eq_getElem hi]

/-- The actionpoint reset loop returns the table with exactly the entries `StartIndex` to
`EndIndex` reset. -/
theorem LC_ResetResultsAP_spec (cfg : LC_Config) (ADT : List LC_ADTEntry_t) (a b : Nat)
    (flag : Bool) (ART : List LC_ARTEntry_t) (hab : a ≤ b) (hb : b < ART.length)
    (hadt : flag = true ∨ b < ADT.length) (h32 : b < 4294967295) :
    ∃ ys, LC_ResetResultsAP cfg ADT a b flag ART = some ys ∧ ys.length = ART.length ∧
      ∀ i, ys[i]? = if a ≤ i ∧ i ≤ b then ART[i]?.map (resetAPEntry cfg ADT flag i)
        else ART[i]? := by
  obtain ⟨ys, hrun, hl, hpt⟩ := forLoop_update
    (fun i => decide (i ≤ b)) (fun i => u32 (i + 1)) (resetAPBody cfg ADT flag)
    (resetAPEntry cfg ADT flag) a (b + 1 - a) (b + 2) ART
    (by intro t ht; simp; omega)
    (by intro t ht; simp only [u32]; omega)
    (by simp; omega)
    (by
      intro i ys e _ hi h
      refine resetAPBody_eq cfg ADT flag i ys e h ?_
      rcases hadt with h1 | h1
      · exact Or.inl h1
      · exact Or.inr (by omega))
    (by omega) (by omega)
  refine ⟨ys, hrun, hl, ?_⟩
  intro i
  rw [hpt i]
  by_cases hi : a ≤ i ∧ i ≤ b
  · rw [if_pos hi, if_pos (by omega)]
  · rw [if_neg hi, if_neg (by omega)]

theorem resetWPBody_eq (cfg : LC_Config) (flag : Bool) (i : Nat)
    (ys : List LC_WRTEntry_t) (e : LC_WRTEntry_t) (h : ys[i]? = some e) :
    resetWPBody cfg flag i ys = some (ys.set i (resetWPEntry cfg flag e)) := by
  have hlt : i < ys.length := by
    by_contra hc
    rw [List.getElem?_eq_none (by omega)] at h
    cases h
  unfold resetWPBody resetWPEntry
  rw [h]
  cases flag <;> simp [arrayWrite, hlt]

/-- The watchpoint reset loop returns the table with exactly the entries `StartIndex` to
`EndIndex` reset. -/
theorem LC_ResetResultsWP_spec (cfg : LC_Config) (a b : Nat)
    (flag : Bool) (WRT : List LC_WRTEntry_t) (hab : a ≤ b) (hb : b < WRT.length)
    (h32 : b < 4294967295) :
    ∃ ys, LC_ResetResultsWP cfg a b flag WRT = some ys ∧ ys.length = WRT.length ∧
      ∀ i, ys[i]? = if a ≤ i ∧ i ≤ b then WRT[i]?.map (resetWPEntry cfg flag) else WRT[i]? := by
  obtain ⟨ys, hrun, hl, hpt⟩ := forLoop_update
    (fun i => decide (i ≤ b)) (fun i => u32 (i + 1)) (resetWPBody cfg flag)
    (fun _ e => resetWPEntry cfg flag e) a (b + 1 - a) (b + 2) WRT
    (by intro t ht; simp; omega)
    (by intro t ht; simp only [u32]; omega)
    (by simp; omega)
    (by intro i ys e _ _ h; exact resetWPBody_eq cfg flag i ys e h)
    (by omega) (by omega)
  refine ⟨ys, hrun, hl, ?_⟩
  intro i
  rw [hpt i]
  by_cases hi : a ≤ i ∧ i ≤ b
  · rw [if_pos hi, if_pos (by omega)]
  · rw [if_neg hi, if_neg (by omega)]

/-- The watch-result packing loop returns: byte `k` of the result packs entries `4k + 3`
down to `4k`, and the bytes beyond the tables are left alone. -/
theorem packWPResults_spec (cfg : LC_Config) (WRT : List LC_WRTEntry_t) (res0 : List Nat)
    (hlen : WRT.length = cfg.LC_MAX_WATCHPOINTS) (h4 : cfg.LC_MAX_WATCHPOINTS % 4 = 0)
    (hmax : cfg.LC_MAX_WATCHPOINTS ≤ 65532) (hres : cfg.LC_MAX_WATCHPOINTS ≤ 4 * res0.length) :
    ∃ res, packWPResults cfg WRT res0 = some res ∧ res.length = res0.length ∧
      (∀ k e3 e2 e1 e0, k < cfg.LC_MAX_WATCHPOINTS / 4 →
        WRT[4 * k + 3]? = some e3 → WRT[4 * k + 2]? = some e2 →
        WRT[4 * k + 1]? = some e1 → WRT[4 * k]? = some e0 →
        res[k]? = some (watchByte cfg e3.WatchResult e2.WatchResult e1.WatchResult
          e0.WatchResult)) ∧
      (∀ k, cfg.LC_MAX_WATCHPOINTS / 4 ≤ k → res[k]? = res0[k]?) := by
  have key := forLoop_count
    (fun i => decide (i < cfg.LC_MAX_WATCHPOINTS)) (fun i => u16 (i + 4)) (packWPBody cfg WRT)
    0 4 (cfg.LC_MAX_WATCHPOINTS / 4)
    (fun t res => res.length = res0.length ∧
      (∀ k e3 e2 e1 e0, k < t →
        WRT[4 * k + 3]? = some e3 → WRT[4 * k + 2]? = some e2 →
        WRT[4 * k + 1]? = some e1 → WRT[4 * k]? = some e0 →
        res[k]? = some (watchByte cfg e3.WatchResult e2.WatchResult e1.WatchResult
          e0.WatchResult)) ∧
      (∀ k, t ≤ k → res[k]? = res0[k]?))
    (by intro t ht; simp; omega)
    (by intro t ht; simp only [u16]; omega)
    (by simp; omega)
    (by
      intro t res ht hinv
      obtain ⟨hl, hdone, hrest⟩ := hinv
      have i3 : 4 * t + 3 < WRT.length := by omega
      have i2 : 4 * t + 2 < WRT.length := by omega
      have i1 : 4 * t + 1 < WRT.length := by omega
      have i0 : 4 * t < WRT.length := by omega
      have hk : u16 ((0 + 4 * t) / 4) = t := by simp only [u16]; omega
      have htl : t < res.length := by omega
      refine ⟨res.set t (watchByte cfg WRT[4 * t + 3].WatchResult WRT[4 * t + 2].WatchResult
        WRT[4 * t + 1].WatchResult WRT[4 * t].WatchResult), ?_, ?_, ?_, ?_⟩
      · unfold packWPBody
        rw [hk]
        simp only [Nat.zero_add, List.getElem?_eq_getElem i3, List.getElem?_eq_getElem i2,
          List.getElem?_eq_getElem i1, List.getElem?_eq_getElem i0, arrayWrite, htl, if_true,
          watchByte]
      · simp [hl]
      · intro k e3 e2 e1 e0 hk3 g3 g2 g1 g0
        rw [List.getElem?_set]
        by_cases hkt : t = k
        · subst hkt
          rw [List.getElem?_eq_getElem i3] at g3
          rw [List.getElem?_eq_getElem i2] at g2
          rw [List.getElem?_eq_getElem i1] at g1
          rw [List.getElem?_eq_getElem i0] at g0
          cases g3; cases g2; cases g1; cases g0
          simp [htl]
        · rw [if_neg hkt]
          exact hdone k e3 e2 e1 e0 (by omega) g3 g2 g1 g0
      · intro k hk1
        rw [List.getElem?_set, if_neg (by omega)]
        exact hrest k (by omega))
    (cfg.LC_MAX_WATCHPOINTS + 1) 0 res0 (by omega) (by omega)
    ⟨rfl, by intro k _ _ _ _ hk; omega, by intro k _; rfl⟩
  obtain ⟨res, hrun, hl, hdone, hrest⟩ := key
  exact ⟨res, by simpa [packWPResults] using hrun, hl, hdone, hrest⟩

theorem switchAPState_fst (cfg : LC_Config) (s A : Nat) :
    (switchAPState cfg s A).1 = stateCode cfg s := by
  unfold stateCode switchAPState
  split_ifs <;> rfl

theorem switchAPState_snd (cfg : LC_Config) (e : LC_ARTEntry_t) (A : Nat) :
    (switchAPState cfg e.CurrentState A).2 =
      if countsActive cfg e = true then u16 (A + 1) else A := by
  unfold switchAPState countsActive
  by_cases h1 : e.CurrentState = cfg.LC_ACTION_NOT_USED
  · simp [h1]
  · by_cases h2 : e.CurrentState = cfg.LC_APSTATE_ACTIVE
    · have h3 : ¬ cfg.LC_APSTATE_ACTIVE = cfg.LC_ACTION_NOT_USED := by rw [← h2]; exact h1
      rw [if_neg h1, if_pos h2]
      simp [h2, h3]
    · simp only [h1, h2, if_false, false_and, and_false, decide_False]
      split_ifs <;> simp_all

theorem countP_take_succ {α : Type} (p : α → Bool) (xs : List α) (n : Nat) (h : n < xs.length) :
    (xs.take (n + 1)).countP p = (xs.take n).countP p + (if p xs[n] = true then 1 else 0) := by
  rw [List.take_succ, List.countP_append, List.getElem?_eq_getElem h]
  simp [List.countP_cons]

/-- The action-result packing loop returns: byte `k` packs entries `2k + 1` and `2k`, bytes
beyond the table are left alone, and `ActiveAPs` has been incremented (as a 16-bit counter)
once for every entry that takes the active branch of the state `switch`. -/
theorem packAPResults_spec (cfg : LC_Config) (ART : List LC_ARTEntry_t) (res0 : List Nat)
    (A0 : Nat) (hlen : ART.length = cfg.LC_MAX_ACTIONPOINTS)
    (h2 : cfg.LC_MAX_ACTIONPOINTS % 2 = 0) (hmax : cfg.LC_MAX_ACTIONPOINTS ≤ 65534)
    (hres : cfg.LC_MAX_ACTIONPOINTS ≤ 2 * res0.length) (hA : A0 < 65536) :
    ∃ res A, packAPResults cfg ART (res0, A0) = some (res, A) ∧ res.length = res0.length ∧
      (∀ k e1 e0, k < cfg.LC_MAX_ACTIONPOINTS / 2 →
        ART[2 * k + 1]? = some e1 → ART[2 * k]? = some e0 →
        res[k]? = some (actionByte cfg e1 e0)) ∧
      (∀ k, cfg.LC_MAX_ACTIONPOINTS / 2 ≤ k → res[k]? = res0[k]?) ∧
      A = u16 (A0 + ART.countP (countsActive cfg)) := by
  have key := forLoop_count
    (fun i => decide (i < cfg.LC_MAX_ACTIONPOINTS)) (fun i => u16 (i + 2)) (packAPBody cfg ART)
    0 2 (cfg.LC_MAX_ACTIONPOINTS / 2)
    (fun t s => s.1.length = res0.length ∧
      (∀ k e1 e0, k < t → ART[2 * k + 1]? = some e1 → ART[2 * k]? = some e0 →
        s.1[k]? = some (actionByte cfg e1 e0)) ∧
      (∀ k, t ≤ k → s.1[k]? = res0[k]?) ∧
      s.2 = u16 (A0 + (ART.take (2 * t)).countP (countsActive cfg)))
    (by intro t ht; simp; omega)
    (by intro t ht; simp only [u16]; omega)
    (by simp; omega)
    (by
      intro t s ht hinv
      obtain ⟨hl, hdone, hrest, hcnt⟩ := hinv
      have i1 : 2 * t + 1 < ART.length := by omega
      have i0 : 2 * t < ART.length := by omega
      have hk : u16 ((0 + 2 * t) / 2) = t := by simp only [u16]; omega
      have htl : t < s.1.length := by omega
      refine ⟨(s.1.set t (actionByte cfg ART[2 * t + 1] ART[2 * t]),
        (switchAPState cfg ART[2 * t].CurrentState
          (switchAPState cfg ART[2 * t + 1].CurrentState s.2).2).2), ?_, ?_, ?_, ?_, ?_⟩
      · unfold packAPBody
        rw [hk]
        simp only [Nat.zero_add, List.getElem?_eq_getElem i1, List.getElem?_eq_getElem i0,
          arrayWrite, htl, if_true, actionByte, switchAPState_fst]
      · simp [hl]
      · intro k e1 e0 hk3 g1 g0
        show (s.1.set t _)[k]? = _
        rw [List.getElem?_set]
        by_cases hkt : t = k
        · subst hkt
          rw [List.getElem?_eq_getElem i1] at g1
          rw [List.getElem?_eq_getElem i0] at g0
          cases g1; cases g0
          simp [htl]
        · rw [if_neg hkt]
          exact hdone k e1 e0 (by omega) g1 g0
      · intro k hk1
        show (s.1.set t _)[k]? = _
        rw [List.getElem?_set, if_neg (by omega)]
        exact hrest k (by omega)
      · show (switchAPState cfg ART[2 * t].CurrentState
          (switchAPState cfg ART[2 * t + 1].CurrentState s.2).2).2 = _
        have e2 : 2 * (t + 1) = 2 * t + 1 + 1 := by ring
        rw [switchAPState_snd, switchAPState_snd, hcnt, e2, countP_take_succ _ _ _ i1,
          countP_take_succ _ _ _ i0]
        simp only [u16]
        split_ifs <;> omega)
    (cfg.LC_MAX_ACTIONPOINTS + 1) 0 (res0, A0) (by omega) (by omega)
    ⟨rfl, by intro k _ _ hk; omega, by intro k _; rfl, by simp [u16]; omega⟩
  obtain ⟨⟨res, A⟩, hrun, hl, hdone, hrest, hcnt⟩ := key
  refine ⟨res, A, by simpa [packAPResults] using hrun, hl, hdone, hrest, ?_⟩
  have ht : 2 * (cfg.LC_MAX_ACTIONPOINTS / 2) = ART.length := by omega
  rw [ht, List.take_length] at hcnt
  exact hcnt

/-! ## Projections of the state updates -/

@[simp] theorem call_OperData (st : LC_State) (c : LC_Call) :
    (st.call c).LC_OperData = st.LC_OperData := rfl

@[simp] theorem call_AppData (st : LC_State) (c : LC_Call) :
    (st.call c).LC_AppData = st.LC_AppData := rfl

@[simp] theorem sendEvent_OperData (st : LC_State) (e : LC_EventID) :
    (st.sendEvent e).LC_OperData = st.LC_OperData := rfl

@[simp] theorem sendEvent_AppData (st : LC_State) (e : LC_EventID) :
    (st.sendEvent e).LC_AppData = st.LC_AppData := rfl

@[simp] theorem incCmdCount_OperData (st : LC_State) :
    st.incCmdCount.LC_OperData = st.LC_OperData := rfl

@[simp] theorem incCmdErrCount_OperData (st : LC_State) :
    st.incCmdErrCount.LC_OperData = st.LC_OperData := rfl

@[simp] theorem setWRT_AppData (st : LC_State) (wrt : List LC_WRTEntry_t) :
    (st.setWRT wrt).LC_AppData = st.LC_AppData := rfl

@[simp] theorem setART_AppData (st : LC_State) (art : List LC_ARTEntry_t) :
    (st.setART art).LC_AppData = st.LC_AppData := rfl

@[simp] theorem setWRT_WRTPtr (st : LC_State) (wrt : List LC_WRTEntry_t) :
    (st.setWRT wrt).LC_OperData.WRTPtr = wrt := rfl

@[simp] theorem setWRT_ARTPtr (st : LC_State) (wrt : List LC_WRTEntry_t) :
    (st.setWRT wrt).LC_OperData.ARTPtr = st.LC_OperData.ARTPtr := rfl

@[simp] theorem setART_ARTPtr (st : LC_State) (art : List LC_ARTEntry_t) :
    (st.setART art).LC_OperData.ARTPtr = art := rfl

@[simp] theorem setART_WRTPtr (st : LC_State) (art : List LC_ARTEntry_t) :
    (st.setART art).LC_OperData.WRTPtr = st.LC_OperData.WRTPtr := rfl

@[simp] theorem incCmdCount_CmdCount (st : LC_State) :
    st.incCmdCount.LC_AppData.CmdCount = u8 (st.LC_AppData.CmdCount + 1) := rfl

@[simp] theorem incCmdCount_CmdErrCount (st : LC_State) :
    st.incCmdCount.LC_AppData.CmdErrCount = st.LC_AppData.CmdErrCount := rfl

@[simp] theorem incCmdErrCount_CmdErrCount (st : LC_State) :
    st.incCmdErrCount.LC_AppData.CmdErrCount = u8 (st.LC_AppData.CmdErrCount + 1) := rfl

@[simp] theorem incCmdErrCount_CmdCount (st : LC_State) :
    st.incCmdErrCount.LC_AppData.CmdCount = st.LC_AppData.CmdCount := rfl

/-! ## What the handlers compute -/

theorem u32Pred_eq (n : Nat) (h0 : 0 < n) (h : n ≤ 65535) : u32Pred n = n - 1 := by
  unfold u32Pred; omega

/-- The watchpoint half of table management returns; it resets the watchpoint results
exactly when the definitions are reported updated and touches no other table. -/
theorem manageWDT_spec (cfg : LC_Config) (env : CFE_Env) (st : LC_State)
    (hs : cfg.SizesOK) (hst : st.Sized cfg) :
    ∃ r st', manageWDT cfg env st = some (r, st') ∧ TablesOnly st st' ∧ st'.Sized cfg ∧
      st'.LC_OperData.ARTPtr = st.LC_OperData.ARTPtr ∧
      st'.LC_OperData.ADTPtr = st.LC_OperData.ADTPtr ∧
      (∀ i : Nat, st'.LC_OperData.WRTPtr[i]? =
        if env.WDT_GetAddress = cfg.CFE_TBL_INFO_UPDATED then
          st.LC_OperData.WRTPtr[i]?.map (resetWPEntry cfg false)
        else st.LC_OperData.WRTPtr[i]?) ∧
      r = (if env.WDT_GetAddress = cfg.CFE_TBL_INFO_UPDATED ∨ env.WDT_GetAddress = cfg.CFE_SUCCESS
        then none else some env.WDT_GetAddress) := by
  obtain ⟨hw0, hw4, hwmax, ha0, ha2, hamax, hwb, hab⟩ := hs
  obtain ⟨hlw, hla, hld, hlwp, hlap⟩ := hst
  obtain ⟨wrt, hwrun, hwl, hwpt⟩ := LC_ResetResultsWP_spec cfg 0 (cfg.LC_MAX_WATCHPOINTS - 1)
    false st.LC_OperData.WRTPtr (by omega) (by omega) (by omega)
  have hwpt' : ∀ i : Nat, wrt[i]? = st.LC_OperData.WRTPtr[i]?.map (resetWPEntry cfg false) := by
    intro i
    rw [hwpt i]
    by_cases hi : i < cfg.LC_MAX_WATCHPOINTS
    · rw [if_pos (by omega)]
    · rw [if_neg (by omega), List.getElem?_eq_none (by omega)]; rfl
  have pw := u32Pred_eq cfg.LC_MAX_WATCHPOINTS hw0 (by omega)
  unfold manageWDT
  rw [pw]
  by_cases w1 : env.WDT_GetAddress = cfg.CFE_TBL_INFO_UPDATED
  · simp only [call_OperData]
    rw [if_pos w1]
    rw [hwrun]
    refine ⟨_, _, rfl, ⟨rfl, rfl, rfl, rfl⟩, ?_, rfl, rfl, ?_, ?_⟩
    · exact ⟨by simp [LC_State.setWRT, hwl, hlw], hla, hld, hlwp, hlap⟩
    · intro i; rw [if_pos w1]; exact hwpt' i
    · rw [if_pos (Or.inl w1)]
  · by_cases w2 : env.WDT_GetAddress = cfg.CFE_SUCCESS
    · dsimp only
      rw [if_neg w1, if_neg (fun h => h w2)]
      refine ⟨_, _, rfl, ⟨rfl, rfl, rfl, rfl⟩, ⟨hlw, hla, hld, hlwp, hlap⟩, rfl, rfl, ?_, ?_⟩
      · intro i; rw [if_neg w1]; rfl
      · rw [if_pos (Or.inr w2)]
    · dsimp only
      rw [if_neg w1, if_pos w2]
      refine ⟨_, _, rfl, ⟨rfl, rfl, rfl, rfl⟩, ⟨hlw, hla, hld, hlwp, hlap⟩, rfl, rfl, ?_, ?_⟩
      · intro i; rw [if_neg w1]; rfl
      · simp [w1, w2]

/-- The actionpoint half of table management returns; it resets the actionpoint results
from the re-acquired definitions exactly when they are reported updated. -/
theorem manageADT_spec (cfg : LC_Config) (env : CFE_Env) (st : LC_State)
    (hs : cfg.SizesOK) (hst : st.Sized cfg)
    (henv : env.ADTPtr.length = cfg.LC_MAX_ACTIONPOINTS) :
    ∃ rc st', manageADT cfg env st = some (rc, st') ∧ TablesOnly st st' ∧ st'.Sized cfg ∧
      st'.LC_OperData.WRTPtr = st.LC_OperData.WRTPtr ∧
      st'.LC_OperData.ADTPtr = env.ADTPtr ∧
      (∀ i : Nat, st'.LC_OperData.ARTPtr[i]? =
        if env.ADT_GetAddress = cfg.CFE_TBL_INFO_UPDATED then
          st.LC_OperData.ARTPtr[i]?.map (resetAPEntry cfg env.ADTPtr false i)
        else st.LC_OperData.ARTPtr[i]?) ∧
      rc = (if env.ADT_GetAddress = cfg.CFE_TBL_INFO_UPDATED ∨ env.ADT_GetAddress = cfg.CFE_SUCCESS
        then cfg.CFE_SUCCESS else env.ADT_GetAddress) := by
  obtain ⟨hw0, hw4, hwmax, ha0, ha2, hamax, hwb, hab⟩ := hs
  obtain ⟨hlw, hla, hld, hlwp, hlap⟩ := hst
  obtain ⟨art, harun, hal, hapt⟩ := LC_ResetResultsAP_spec cfg env.ADTPtr 0
    (cfg.LC_MAX_ACTIONPOINTS - 1) false st.LC_OperData.ARTPtr (by omega) (by omega)
    (Or.inr (by omega)) (by omega)
  have hapt' : ∀ i : Nat, art[i]? =
      st.LC_OperData.ARTPtr[i]?.map (resetAPEntry cfg env.ADTPtr false i) := by
    intro i
    rw [hapt i]
    by_cases hi : i < cfg.LC_MAX_ACTIONPOINTS
    · rw [if_pos (by omega)]
    · rw [if_neg (by omega), List.getElem?_eq_none (by omega)]; rfl
  have pa := u32Pred_eq cfg.LC_MAX_ACTIONPOINTS ha0 (by omega)
  unfold manageADT
  rw [pa]
  by_cases a1 : env.ADT_GetAddress = cfg.CFE_TBL_INFO_UPDATED
  · simp only [call_OperData]
    rw [if_pos a1]
    rw [harun]
    refine ⟨_, _, rfl, ⟨rfl, rfl, rfl, rfl⟩, ?_, rfl, rfl, ?_, ?_⟩
    · exact ⟨hlw, by simp [LC_State.setART, hal, hla], henv, hlwp, hlap⟩
    · intro i; rw [if_pos a1]; exact hapt' i
    · rw [if_pos (Or.inl a1)]
  · by_cases a2 : env.ADT_GetAddress = cfg.CFE_SUCCESS
    · dsimp only
      rw [if_neg a1, if_neg (fun h => h a2)]
      refine ⟨_, _, rfl, ⟨rfl, rfl, rfl, rfl⟩, ⟨hlw, hla, henv, hlwp, hlap⟩, rfl, rfl, ?_, ?_⟩
      · intro i; rw [if_neg a1]; rfl
      · rw [if_pos (Or.inr a2)]
    · dsimp only
      rw [if_neg a1, if_pos a2]
      refine ⟨_, _, rfl, ⟨rfl, rfl, rfl, rfl⟩, ⟨hlw, hla, henv, hlwp, hlap⟩, rfl, rfl, ?_, ?_⟩
      · intro i; rw [if_neg a1]; rfl
      · simp [a1, a2]

/-- Table management returns whenever the tables have their declared dimensions.  It
resets the watchpoint results exactly when the watchpoint definitions are reported
updated, and the actionpoint results exactly when the second address acquisition is
reached and reports an update. -/
theorem LC_ManageTables_spec (cfg : LC_Config) (env : CFE_Env) (st : LC_State)
    (hs : cfg.SizesOK) (hst : st.Sized cfg)
    (henv : env.ADTPtr.length = cfg.LC_MAX_ACTIONPOINTS) :
    ∃ rc st', LC_ManageTables cfg env st = some (rc, st') ∧ TablesOnly st st' ∧ st'.Sized cfg ∧
      (∀ i : Nat, st'.LC_OperData.WRTPtr[i]? =
        if env.WDT_GetAddress = cfg.CFE_TBL_INFO_UPDATED then
          st.LC_OperData.WRTPtr[i]?.map (resetWPEntry cfg false)
        else st.LC_OperData.WRTPtr[i]?) ∧
      (∀ i : Nat, st'.LC_OperData.ARTPtr[i]? =
        if (env.WDT_GetAddress = cfg.CFE_TBL_INFO_UPDATED ∨ env.WDT_GetAddress = cfg.CFE_SUCCESS)
            ∧ env.ADT_GetAddress = cfg.CFE_TBL_INFO_UPDATED then
          st.LC_OperData.ARTPtr[i]?.map (resetAPEntry cfg env.ADTPtr false i)
        else st.LC_OperData.ARTPtr[i]?) ∧
      rc = (if env.WDT_GetAddress = cfg.CFE_TBL_INFO_UPDATED ∨ env.WDT_GetAddress = cfg.CFE_SUCCESS
        then (if env.ADT_GetAddress = cfg.CFE_TBL_INFO_UPDATED ∨ env.ADT_GetAddress = cfg.CFE_SUCCESS
          then cfg.CFE_SUCCESS else env.ADT_GetAddress)
        else env.WDT_GetAddress) := by
  obtain ⟨r, st1, hrun1, hfr1, hsz1, hart1, hadt1, hwrt1, hr⟩ := manageWDT_spec cfg env st hs hst
  by_cases hw : env.WDT_GetAddress = cfg.CFE_TBL_INFO_UPDATED ∨ env.WDT_GetAddress = cfg.CFE_SUCCESS
  · rw [if_pos hw] at hr
    subst hr
    obtain ⟨rc, st2, hrun2, hfr2, hsz2, hwrt2, hadt2, hart2, hrc⟩ :=
      manageADT_spec cfg env st1 hs hsz1 henv
    refine ⟨rc, st2, ?_, ?_, hsz2, ?_, ?_, ?_⟩
    · unfold LC_ManageTables; rw [hrun1]; exact hrun2
    · obtain ⟨a1, a2, a3, a4⟩ := hfr1
      obtain ⟨b1, b2, b3, b4⟩ := hfr2
      exact ⟨b1.trans a1, b2.trans a2, b3.trans a3, b4.trans a4⟩
    · intro i; rw [hwrt2]; exact hwrt1 i
    · intro i
      rw [hart2 i, hart1]
      by_cases ha : env.ADT_GetAddress = cfg.CFE_TBL_INFO_UPDATED
      · rw [if_pos ha, if_pos ⟨hw, ha⟩]
      · rw [if_neg ha, if_neg (fun h => ha h.2)]
    · rw [if_pos hw]; exact hrc
  · rw [if_neg hw] at hr
    subst hr
    refine ⟨env.WDT_GetAddress, st1, ?_, hfr1, hsz1, hwrt1, ?_, ?_⟩
    · unfold LC_ManageTables; rw [hrun1]
    · intro i; rw [hart1, if_neg (fun h => hw h.1)]
    · rw [if_neg hw]

/-- Packing returns whenever the tables have their declared dimensions; it writes the
housekeeping packet only. -/
theorem packHousekeeping_spec (cfg : LC_Config) (st : LC_State)
    (hs : cfg.SizesOK) (hst : st.Sized cfg) :
    ∃ st', packHousekeeping cfg st = some st' ∧ st'.LC_AppData = st.LC_AppData ∧
      st'.LC_OperData.WRTPtr = st.LC_OperData.WRTPtr ∧
      st'.LC_OperData.ARTPtr = st.LC_OperData.ARTPtr ∧
      st'.LC_OperData.ADTPtr = st.LC_OperData.ADTPtr ∧
      st'.LC_OperData.HaveActiveCDS = st.LC_OperData.HaveActiveCDS ∧
      st'.LC_OperData.WatchpointCount = st.LC_OperData.WatchpointCount ∧
      st'.Sized cfg ∧
      (∀ k e3 e2 e1 e0, k < cfg.LC_MAX_WATCHPOINTS / 4 →
        st.LC_OperData.WRTPtr[4 * k + 3]? = some e3 → st.LC_OperData.WRTPtr[4 * k + 2]? = some e2 →
        st.LC_OperData.WRTPtr[4 * k + 1]? = some e1 → st.LC_OperData.WRTPtr[4 * k]? = some e0 →
        st'.LC_OperData.HkPacket.WPResults[k]? = some (watchByte cfg e3.WatchResult
          e2.WatchResult e1.WatchResult e0.WatchResult)) ∧
      (∀ k e1 e0, k < cfg.LC_MAX_ACTIONPOINTS / 2 →
        st.LC_OperData.ARTPtr[2 * k + 1]? = some e1 → st.LC_OperData.ARTPtr[2 * k]? = some e0 →
        st'.LC_OperData.HkPacket.APResults[k]? = some (actionByte cfg e1 e0)) ∧
      st'.LC_OperData.HkPacket.ActiveAPs =
        u16 (st.LC_OperData.ARTPtr.countP (countsActive cfg)) ∧
      (∀ k, cfg.LC_MAX_WATCHPOINTS / 4 ≤ k →
        st'.LC_OperData.HkPacket.WPResults[k]? = st.LC_OperData.HkPacket.WPResults[k]?) ∧
      (∀ k, cfg.LC_MAX_ACTIONPOINTS / 2 ≤ k →
        st'.LC_OperData.HkPacket.APResults[k]? = st.LC_OperData.HkPacket.APResults[k]?) ∧
      st'.LC_OperData.HkPacket.CmdCount = u8 st.LC_AppData.CmdCount ∧
      st'.LC_OperData.HkPacket.CmdErrCount = u8 st.LC_AppData.CmdErrCount ∧
      st'.LC_OperData.HkPacket.CurrentLCState = u8 st.LC_AppData.CurrentLCState ∧
      st'.LC_OperData.HkPacket.APSampleCount = u32 st.LC_AppData.APSampleCount ∧
      st'.LC_OperData.HkPacket.MonitoredMsgCount = u32 st.LC_AppData.MonitoredMsgCount ∧
      st'.LC_OperData.HkPacket.RTSExecCount = u32 st.LC_AppData.RTSExecCount ∧
      st'.LC_OperData.HkPacket.PassiveRTSExecCount = u16 st.LC_AppData.PassiveRTSExecCount ∧
      st'.LC_OperData.HkPacket.WPsInUse = u16 st.LC_OperData.WatchpointCount := by
  obtain ⟨hw0, hw4, hwmax, ha0, ha2, hamax, hwb, hab⟩ := hs
  obtain ⟨hlw, hla, hld, hlwp, hlap⟩ := hst
  obtain ⟨wp, hwrun, hwl, hwdone, hwrest⟩ := packWPResults_spec cfg st.LC_OperData.WRTPtr
    st.LC_OperData.HkPacket.WPResults hlw hw4 hwmax (by omega)
  obtain ⟨ap, A, harun, hal, hadone, harest, hA⟩ := packAPResults_spec cfg st.LC_OperData.ARTPtr
    st.LC_OperData.HkPacket.APResults 0 hla ha2 hamax (by omega) (by omega)
  rw [Nat.zero_add] at hA
  unfold packHousekeeping
  simp only [hwrun, harun]
  exact ⟨_, rfl, rfl, rfl, rfl, rfl, rfl, rfl, ⟨hlw, hla, hld, by simpa [hwl] using hlwp,
    by simpa [hal] using hlap⟩, hwdone, hadone, hA, hwrest, harest, rfl, rfl, rfl, rfl, rfl,
    rfl, rfl, rfl⟩

/-- The critical data store update leaves the housekeeping packet and the tables alone. -/
theorem updateCDS_frame (cfg : LC_Config) (env : CFE_Env) (st : LC_State) :
    (updateCDS cfg env st).LC_OperData.HkPacket = st.LC_OperData.HkPacket ∧
    (updateCDS cfg env st).LC_OperData.WRTPtr = st.LC_OperData.WRTPtr ∧
    (updateCDS cfg env st).LC_OperData.ARTPtr = st.LC_OperData.ARTPtr := by
  unfold updateCDS LC_UpdateTaskCDS
  dsimp only
  split_ifs <;> exact ⟨rfl, rfl, rfl⟩

/-- A housekeeping request of the right length packs, manages the tables and, when that
succeeds, updates the critical data store. -/
theorem LC_HousekeepingReq_valid (cfg : LC_Config) (env : CFE_Env) (msg : CFE_SB_Msg)
    (st : LC_State) (hs : cfg.SizesOK) (hst : st.Sized cfg)
    (henv : env.ADTPtr.length = cfg.LC_MAX_ACTIONPOINTS)
    (hlen : msg.TotalMsgLength = u16 (sizeof_LC_NoArgsCmd_t cfg)) :
    ∃ st1 rc st2, packHousekeeping cfg st = some st1 ∧
      LC_ManageTables cfg env st1 = some (rc, st2) ∧
      LC_HousekeepingReq cfg env msg st =
        some (rc, if rc ≠ cfg.CFE_SUCCESS then st2 else updateCDS cfg env st2) := by
  obtain ⟨st1, hp, h1⟩ := packHousekeeping_spec cfg st hs hst
  obtain ⟨rc, st2, hm, _⟩ := LC_ManageTables_spec cfg env st1 hs h1.2.2.2.2.2.2.1 henv
  refine ⟨st1, rc, st2, hp, hm, ?_⟩
  unfold LC_HousekeepingReq LC_VerifyMsgLength
  simp only [hlen, ne_eq, not_true_eq_false, if_false, if_true, hp, hm]
  by_cases hrc : rc = cfg.CFE_SUCCESS
  · simp [hrc]
  · simp [hrc]

/-! ## Bit fields of a packed byte -/

theorem pack4_fin : ∀ a b c d : Fin 4,
    u8 (u8 (u8 (u8 (a.val <<< 6) ||| (b.val <<< 4)) ||| (c.val <<< 2)) ||| d.val) =
      (a.val <<< 6) ||| (b.val <<< 4) ||| (c.val <<< 2) ||| d.val := by
  decide

/-- With 2-bit codes none of the 8-bit stores of the packing code truncates. -/
theorem pack4_eq (a b c d : Nat) (ha : a < 4) (hb : b < 4) (hc : c < 4) (hd : d < 4) :
    u8 (u8 (u8 (u8 (a <<< 6) ||| (b <<< 4)) ||| (c <<< 2)) ||| d) =
      (a <<< 6) ||| (b <<< 4) ||| (c <<< 2) ||| d :=
  pack4_fin ⟨a, ha⟩ ⟨b, hb⟩ ⟨c, hc⟩ ⟨d, hd⟩

theorem pack4_field_fin : ∀ a b c d : Fin 4,
    (((a.val <<< 6) ||| (b.val <<< 4) ||| (c.val <<< 2) ||| d.val) >>> 0) &&& 3 = d.val ∧
    (((a.val <<< 6) ||| (b.val <<< 4) ||| (c.val <<< 2) ||| d.val) >>> 2) &&& 3 = c.val ∧
    (((a.val <<< 6) ||| (b.val <<< 4) ||| (c.val <<< 2) ||| d.val) >>> 4) &&& 3 = b.val ∧
    (((a.val <<< 6) ||| (b.val <<< 4) ||| (c.val <<< 2) ||| d.val) >>> 6) &&& 3 = a.val := by
  decide

/-- The four 2-bit fields of a packed byte are the four codes, lowest field last packed. -/
theorem pack4_field (a b c d : Nat) (ha : a < 4) (hb : b < 4) (hc : c < 4) (hd : d < 4) :
    (((a <<< 6) ||| (b <<< 4) ||| (c <<< 2) ||| d) >>> 0) &&& 3 = d ∧
    (((a <<< 6) ||| (b <<< 4) ||| (c <<< 2) ||| d) >>> 2) &&& 3 = c ∧
    (((a <<< 6) ||| (b <<< 4) ||| (c <<< 2) ||| d) >>> 4) &&& 3 = b ∧
    (((a <<< 6) ||| (b <<< 4) ||| (c <<< 2) ||| d) >>> 6) &&& 3 = a :=
  pack4_field_fin ⟨a, ha⟩ ⟨b, hb⟩ ⟨c, hc⟩ ⟨d, hd⟩

theorem switchWatchResult_lt (cfg : LC_Config) (hc : cfg.HKWR2Bit) (w : Nat) :
    switchWatchResult cfg w < 4 := by
  obtain ⟨h1, h2, h3, h4⟩ := hc
  unfold switchWatchResult
  split_ifs <;> assumption

theorem stateCode_lt (cfg : LC_Config) (hc : cfg.HKAR2Bit) (s : Nat) :
    stateCode cfg s < 4 := by
  obtain ⟨h1, h2, h3, h4, _⟩ := hc
  unfold stateCode switchAPState
  split_ifs <;> assumption

theorem switchActionResult_lt (cfg : LC_Config) (hc : cfg.HKAR2Bit) (r : Nat) :
    switchActionResult cfg r < 4 := by
  obtain ⟨_, _, _, _, h1, h2, h3, h4⟩ := hc
  unfold switchActionResult
  split_ifs <;> assumption

/-- A function that maps the three named verdicts to their codes and everything else to the
error code is the `switch` of the packing loop. -/
theorem switchWatchResult_unique (cfg : LC_Config) (c : Nat → Nat)
    (hS : c cfg.LC_WATCH_STALE = cfg.LC_HKWR_STALE)
    (hF : c cfg.LC_WATCH_FALSE = cfg.LC_HKWR_FALSE)
    (hT : c cfg.LC_WATCH_TRUE = cfg.LC_HKWR_TRUE)
    (hE : ∀ v, v ≠ cfg.LC_WATCH_STALE → v ≠ cfg.LC_WATCH_FALSE → v ≠ cfg.LC_WATCH_TRUE →
      c v = cfg.LC_HKWR_ERROR) (w : Nat) :
    switchWatchResult cfg w = c w := by
  unfold switchWatchResult
  by_cases h1 : w = cfg.LC_WATCH_STALE
  · rw [if_pos h1, h1, hS]
  · by_cases h2 : w = cfg.LC_WATCH_FALSE
    · rw [if_neg h1, if_pos h2, h2, hF]
    · by_cases h3 : w = cfg.LC_WATCH_TRUE
      · rw [if_neg h1, if_neg h2, if_pos h3, h3, hT]
      · rw [if_neg h1, if_neg h2, if_neg h3, hE w h1 h2 h3]

/-- A function that maps the four named states to their codes and everything else to the
"not used" code is the state `switch` of the packing loop. -/
theorem stateCode_unique (cfg : LC_Config) (s : Nat → Nat)
    (hN : s cfg.LC_ACTION_NOT_USED = cfg.LC_HKAR_STATE_NOT_USED)
    (hA : s cfg.LC_APSTATE_ACTIVE = cfg.LC_HKAR_STATE_ACTIVE)
    (hP : s cfg.LC_APSTATE_PASSIVE = cfg.LC_HKAR_STATE_PASSIVE)
    (hD : s cfg.LC_APSTATE_DISABLED = cfg.LC_HKAR_STATE_DISABLED)
    (hE : ∀ v, v ≠ cfg.LC_ACTION_NOT_USED → v ≠ cfg.LC_APSTATE_ACTIVE →
      v ≠ cfg.LC_APSTATE_PASSIVE → v ≠ cfg.LC_APSTATE_DISABLED →
      s v = cfg.LC_HKAR_STATE_NOT_USED) (w : Nat) :
    stateCode cfg w = s w := by
  unfold stateCode switchAPState
  by_cases h1 : w = cfg.LC_ACTION_NOT_USED
  · rw [if_pos h1, h1, hN]
  · by_cases h2 : w = cfg.LC_APSTATE_ACTIVE
    · rw [if_neg h1, if_pos h2, h2, hA]
    · by_cases h3 : w = cfg.LC_APSTATE_PASSIVE
      · rw [if_neg h1, if_neg h2, if_pos h3, h3, hP]
      · by_cases h4 : w = cfg.LC_APSTATE_DISABLED
        · rw [if_neg h1, if_neg h2, if_neg h3, if_pos h4, h4, hD]
        · rw [if_neg h1, if_neg h2, if_neg h3, if_neg h4, hE w h1 h2 h3 h4]

/-- A function that maps the three named results to their codes and everything else to the
error code is the result `switch` of the packing loop. -/
theorem switchActionResult_unique (cfg : LC_Config) (r : Nat → Nat)
    (hS : r cfg.LC_ACTION_STALE = cfg.LC_HKAR_STALE)
    (hP : r cfg.LC_ACTION_PASS = cfg.LC_HKAR_PASS)
    (hF : r cfg.LC_ACTION_FAIL = cfg.LC_HKAR_FAIL)
    (hE : ∀ v, v ≠ cfg.LC_ACTION_STALE → v ≠ cfg.LC_ACTION_PASS → v ≠ cfg.LC_ACTION_FAIL →
      r v = cfg.LC_HKAR_ERROR) (w : Nat) :
    switchActionResult cfg w = r w := by
  unfold switchActionResult
  by_cases h1 : w = cfg.LC_ACTION_STALE
  · rw [if_pos h1, h1, hS]
  · by_cases h2 : w = cfg.LC_ACTION_PASS
    · rw [if_neg h1, if_pos h2, h2, hP]
    · by_cases h3 : w = cfg.LC_ACTION_FAIL
      · rw [if_neg h1, if_neg h2, if_pos h3, h3, hF]
      · rw [if_neg h1, if_neg h2, if_neg h3, hE w h1 h2 h3]


/-- On a verdict of the enumeration the watch-result `switch` yields the code that goes
with that verdict. -/
theorem switchWatchResult_enum (cfg : LC_Config) (v : Nat)
    (hv : v = cfg.LC_WATCH_STALE ∨ v = cfg.LC_WATCH_FALSE ∨ v = cfg.LC_WATCH_TRUE
      ∨ v = cfg.LC_WATCH_ERROR) :
    (switchWatchResult cfg v = cfg.LC_HKWR_STALE ∧ v = cfg.LC_WATCH_STALE) ∨
    (switchWatchResult cfg v = cfg.LC_HKWR_FALSE ∧ v = cfg.LC_WATCH_FALSE) ∨
    (switchWatchResult cfg v = cfg.LC_HKWR_TRUE ∧ v = cfg.LC_WATCH_TRUE) ∨
    (switchWatchResult cfg v = cfg.LC_HKWR_ERROR ∧ v = cfg.LC_WATCH_ERROR) := by
  unfold switchWatchResult
  by_cases h1 : v = cfg.LC_WATCH_STALE
  · rw [if_pos h1]; exact Or.inl ⟨rfl, h1⟩
  · by_cases h2 : v = cfg.LC_WATCH_FALSE
    · rw [if_neg h1, if_pos h2]; exact Or.inr (Or.inl ⟨rfl, h2⟩)
    · by_cases h3 : v = cfg.LC_WATCH_TRUE
      · rw [if_neg h1, if_neg h2, if_pos h3]; exact Or.inr (Or.inr (Or.inl ⟨rfl, h3⟩))
      · rw [if_neg h1, if_neg h2, if_neg h3]
        rcases hv with h | h | h | h
        · exact absurd h h1
        · exact absurd h h2
        · exact absurd h h3
        · exact Or.inr (Or.inr (Or.inr ⟨rfl, h⟩))

/-- With pairwise distinct codes the watch-result `switch` is injective on the verdicts
of the enumeration. -/
theorem switchWatchResult_inj (cfg : LC_Config)
    (hd : [cfg.LC_HKWR_STALE, cfg.LC_HKWR_FALSE, cfg.LC_HKWR_TRUE, cfg.LC_HKWR_ERROR].Nodup)
    (v w : Nat)
    (hv : v = cfg.LC_WATCH_STALE ∨ v = cfg.LC_WATCH_FALSE ∨ v = cfg.LC_WATCH_TRUE
      ∨ v = cfg.LC_WATCH_ERROR)
    (hw : w = cfg.LC_WATCH_STALE ∨ w = cfg.LC_WATCH_FALSE ∨ w = cfg.LC_WATCH_TRUE
      ∨ w = cfg.LC_WATCH_ERROR)
    (h : switchWatchResult cfg v = switchWatchResult cfg w) : v = w := by
  simp only [List.nodup_cons, List.mem_cons, List.mem_singleton, List.not_mem_nil, not_or,
    List.nodup_nil, not_false_eq_true, and_true] at hd
  obtain ⟨⟨d1, d2, d3⟩, ⟨d4, d5⟩, d6⟩ := hd
  have hv' := switchWatchResult_enum cfg v hv
  have hw' := switchWatchResult_enum cfg w hw
  clear hv hw
  rcases hv' with ⟨a1, a2⟩ | ⟨a1, a2⟩ | ⟨a1, a2⟩ | ⟨a1, a2⟩ <;>
  rcases hw' with ⟨b1, b2⟩ | ⟨b1, b2⟩ | ⟨b1, b2⟩ | ⟨b1, b2⟩ <;>
  omega

/-- Every field of the packed watch results holds the code of its watchpoint:
field `i mod 4` of byte `i / 4`. -/
theorem packed_watch_field (cfg : LC_Config) (st st' : LC_State)
    (hs : cfg.SizesOK) (hc : cfg.HKWR2Bit) (hst : st.Sized cfg)
    (hp : packHousekeeping cfg st = some st') (i : Nat) (e : LC_WRTEntry_t)
    (hi : i < cfg.LC_MAX_WATCHPOINTS) (he : st.LC_OperData.WRTPtr[i]? = some e) :
    ∃ b, st'.LC_OperData.HkPacket.WPResults[i / 4]? = some b ∧
      (b >>> (2 * (i % 4))) &&& 3 = switchWatchResult cfg e.WatchResult := by
  obtain ⟨st1, hp', _, _, _, _, _, _, _, hwp, _⟩ := packHousekeeping_spec cfg st hs hst
  rw [hp] at hp'
  cases hp'
  obtain ⟨hw0, hw4, hwmax, _⟩ := hs
  have hlw := hst.1
  have i3 : 4 * (i / 4) + 3 < st.LC_OperData.WRTPtr.length := by omega
  have i2 : 4 * (i / 4) + 2 < st.LC_OperData.WRTPtr.length := by omega
  have i1 : 4 * (i / 4) + 1 < st.LC_OperData.WRTPtr.length := by omega
  have i0 : 4 * (i / 4) < st.LC_OperData.WRTPtr.length := by omega
  have hb := hwp (i / 4) _ _ _ _ (by omega) (List.getElem?_eq_getElem i3)
    (List.getElem?_eq_getElem i2) (List.getElem?_eq_getElem i1) (List.getElem?_eq_getElem i0)
  refine ⟨_, hb, ?_⟩
  unfold watchByte
  rw [pack4_eq _ _ _ _ (switchWatchResult_lt cfg hc _) (switchWatchResult_lt cfg hc _)
    (switchWatchResult_lt cfg hc _) (switchWatchResult_lt cfg hc _)]
  obtain ⟨f0, f1, f2, f3⟩ := pack4_field _ _ _ _
    (switchWatchResult_lt cfg hc st.LC_OperData.WRTPtr[4 * (i / 4) + 3].WatchResult)
    (switchWatchResult_lt cfg hc st.LC_OperData.WRTPtr[4 * (i / 4) + 2].WatchResult)
    (switchWatchResult_lt cfg hc st.LC_OperData.WRTPtr[4 * (i / 4) + 1].WatchResult)
    (switchWatchResult_lt cfg hc st.LC_OperData.WRTPtr[4 * (i / 4)].WatchResult)
  have hcases : i % 4 = 0 ∨ i % 4 = 1 ∨ i % 4 = 2 ∨ i % 4 = 3 := by omega
  rcases hcases with h | h | h | h
  · have hidx : i = 4 * (i / 4) := by omega
    rw [hidx, List.getElem?_eq_getElem i0] at he
    cases he
    rw [h]; exact f0
  · have hidx : i = 4 * (i / 4) + 1 := by omega
    rw [hidx, List.getElem?_eq_getElem i1] at he
    cases he
    rw [h]; exact f1
  · have hidx : i = 4 * (i / 4) + 2 := by omega
    rw [hidx, List.getElem?_eq_getElem i2] at he
    cases he
    rw [h]; exact f2
  · have hidx : i = 4 * (i / 4) + 3 := by omega
    rw [hidx, List.getElem?_eq_getElem i3] at he
    cases he
    rw [h]; exact f3

/-! ## Command handlers, case by case -/

theorem LC_VerifyMsgLength_ok (msg : CFE_SB_Msg) (n : Nat) (st : LC_State)
    (h : msg.TotalMsgLength = n) : LC_VerifyMsgLength msg n st = (true, st) := by
  unfold LC_VerifyMsgLength
  simp [h]

/-- Set-permanently-off with the "all" sentinel or a number outside the table. -/
theorem LC_SetAPPermOffCmd_badnum (cfg : LC_Config) (msg : CFE_SB_Msg) (st : LC_State)
    (hlen : msg.TotalMsgLength = u16 (sizeof_LC_TwoWordCmd_t cfg))
    (h : msg.APNumber = LC_ALL_ACTIONPOINTS ∨ msg.APNumber ≥ cfg.LC_MAX_ACTIONPOINTS) :
    LC_SetAPPermOffCmd cfg msg st =
      some ((st.sendEvent LC_EventID.LC_APOFF_APNUM_ERR_EID).incCmdErrCount) := by
  unfold LC_SetAPPermOffCmd
  rw [LC_VerifyMsgLength_ok msg _ st hlen]
  simp only [if_true]
  rw [if_pos h]

/-- Set-permanently-off for an actionpoint that is not disabled. -/
theorem LC_SetAPPermOffCmd_notdisabled (cfg : LC_Config) (msg : CFE_SB_Msg) (st : LC_State)
    (hlen : msg.TotalMsgLength = u16 (sizeof_LC_TwoWordCmd_t cfg))
    (h1 : msg.APNumber ≠ LC_ALL_ACTIONPOINTS) (h2 : msg.APNumber < cfg.LC_MAX_ACTIONPOINTS)
    (e : LC_ARTEntry_t) (he : st.LC_OperData.ARTPtr[msg.APNumber]? = some e)
    (hd : e.CurrentState ≠ cfg.LC_APSTATE_DISABLED) :
    LC_SetAPPermOffCmd cfg msg st =
      some ((st.sendEvent LC_EventID.LC_APOFF_CURR_ERR_EID).incCmdErrCount) := by
  unfold LC_SetAPPermOffCmd
  rw [LC_VerifyMsgLength_ok msg _ st hlen]
  simp only [if_true]
  rw [if_neg (by intro h; rcases h with h | h; exact h1 h; omega)]
  simp only [he]
  rw [if_pos hd]

/-- Set-permanently-off for a disabled actionpoint. -/
theorem LC_SetAPPermOffCmd_accept (cfg : LC_Config) (msg : CFE_SB_Msg) (st : LC_State)
    (hlen : msg.TotalMsgLength = u16 (sizeof_LC_TwoWordCmd_t cfg))
    (h1 : msg.APNumber ≠ LC_ALL_ACTIONPOINTS) (h2 : msg.APNumber < cfg.LC_MAX_ACTIONPOINTS)
    (e : LC_ARTEntry_t) (he : st.LC_OperData.ARTPtr[msg.APNumber]? = some e)
    (hd : e.CurrentState = cfg.LC_APSTATE_DISABLED) :
    LC_SetAPPermOffCmd cfg msg st =
      some (((st.setART (st.LC_OperData.ARTPtr.set msg.APNumber
        { e with CurrentState := cfg.LC_APSTATE_PERMOFF })).incCmdCount).sendEvent
          LC_EventID.LC_APOFF_INF_EID) := by
  have hlt : msg.APNumber < st.LC_OperData.ARTPtr.length := by
    by_contra hc
    rw [List.getElem?_eq_none (by omega)] at he
    cases he
  unfold LC_SetAPPermOffCmd
  rw [LC_VerifyMsgLength_ok msg _ st hlen]
  simp only [if_true]
  rw [if_neg (by intro h; rcases h with h | h; exact h1 h; omega)]
  simp only [he]
  rw [if_neg (fun h => h hd)]
  simp only [arrayWrite, hlt, if_true]

/-- Set-state with a new state outside active, passive, disabled. -/
theorem LC_SetAPStateCmd_badstate (cfg : LC_Config) (msg : CFE_SB_Msg) (st : LC_State)
    (hlen : msg.TotalMsgLength = u16 (sizeof_LC_TwoWordCmd_t cfg))
    (h : ¬ (msg.NewAPState = cfg.LC_APSTATE_ACTIVE ∨ msg.NewAPState = cfg.LC_APSTATE_PASSIVE
      ∨ msg.NewAPState = cfg.LC_APSTATE_DISABLED)) :
    LC_SetAPStateCmd cfg msg st =
      some ((st.sendEvent LC_EventID.LC_APSTATE_NEW_ERR_EID).incCmdErrCount) := by
  unfold LC_SetAPStateCmd
  rw [LC_VerifyMsgLength_ok msg _ st hlen]
  simp only [if_true]
  rw [if_neg h]

/-- Set-state for all actionpoints. -/
theorem LC_SetAPStateCmd_all (cfg : LC_Config) (msg : CFE_SB_Msg) (st : LC_State)
    (hlen : msg.TotalMsgLength = u16 (sizeof_LC_TwoWordCmd_t cfg))
    (h : msg.NewAPState = cfg.LC_APSTATE_ACTIVE ∨ msg.NewAPState = cfg.LC_APSTATE_PASSIVE
      ∨ msg.NewAPState = cfg.LC_APSTATE_DISABLED)
    (hall : msg.APNumber = LC_ALL_ACTIONPOINTS)
    (hl : st.LC_OperData.ARTPtr.length = cfg.LC_MAX_ACTIONPOINTS)
    (hmax : cfg.LC_MAX_ACTIONPOINTS < 4294967296) :
    LC_SetAPStateCmd cfg msg st =
      some (((st.setART (st.LC_OperData.ARTPtr.map (setAllEntry cfg msg.NewAPState))).incCmdCount
        ).sendEvent LC_EventID.LC_APSTATE_INF_EID) := by
  unfold LC_SetAPStateCmd
  rw [LC_VerifyMsgLength_ok msg _ st hlen]
  simp only [if_true]
  rw [if_pos h]
  unfold setAPStateTarget
  rw [if_pos hall, setAllAPState_eq cfg _ _ hl hmax]
  simp

/-- Set-state for a single number outside the table. -/
theorem LC_SetAPStateCmd_badnum (cfg : LC_Config) (msg : CFE_SB_Msg) (st : LC_State)
    (hlen : msg.TotalMsgLength = u16 (sizeof_LC_TwoWordCmd_t cfg))
    (h : msg.NewAPState = cfg.LC_APSTATE_ACTIVE ∨ msg.NewAPState = cfg.LC_APSTATE_PASSIVE
      ∨ msg.NewAPState = cfg.LC_APSTATE_DISABLED)
    (hall : msg.APNumber ≠ LC_ALL_ACTIONPOINTS)
    (hn : ¬ msg.APNumber < cfg.LC_MAX_ACTIONPOINTS) :
    LC_SetAPStateCmd cfg msg st =
      some ((st.sendEvent LC_EventID.LC_APSTATE_APNUM_ERR_EID).incCmdErrCount) := by
  unfold LC_SetAPStateCmd
  rw [LC_VerifyMsgLength_ok msg _ st hlen]
  simp only [if_true]
  rw [if_pos h]
  unfold setAPStateTarget
  rw [if_neg hall, if_neg hn]
  simp

/-- Set-state for a single actionpoint that is not used or permanently off. -/
theorem LC_SetAPStateCmd_badcurrent (cfg : LC_Config) (msg : CFE_SB_Msg) (st : LC_State)
    (hlen : msg.TotalMsgLength = u16 (sizeof_LC_TwoWordCmd_t cfg))
    (h : msg.NewAPState = cfg.LC_APSTATE_ACTIVE ∨ msg.NewAPState = cfg.LC_APSTATE_PASSIVE
      ∨ msg.NewAPState = cfg.LC_APSTATE_DISABLED)
    (hall : msg.APNumber ≠ LC_ALL_ACTIONPOINTS)
    (hn : msg.APNumber < cfg.LC_MAX_ACTIONPOINTS)
    (e : LC_ARTEntry_t) (he : st.LC_OperData.ARTPtr[msg.APNumber]? = some e)
    (hcur : ¬ (e.CurrentState ≠ cfg.LC_ACTION_NOT_USED ∧ e.CurrentState ≠ cfg.LC_APSTATE_PERMOFF)) :
    LC_SetAPStateCmd cfg msg st =
      some ((st.sendEvent LC_EventID.LC_APSTATE_CURR_ERR_EID).incCmdErrCount) := by
  unfold LC_SetAPStateCmd
  rw [LC_VerifyMsgLength_ok msg _ st hlen]
  simp only [if_true]
  rw [if_pos h]
  unfold setAPStateTarget
  rw [if_neg hall, if_pos hn]
  simp only [he]
  rw [if_neg hcur]
  simp

/-- Set-state for a single actionpoint that is active, passive or disabled. -/
theorem LC_SetAPStateCmd_single (cfg : LC_Config) (msg : CFE_SB_Msg) (st : LC_State)
    (hlen : msg.TotalMsgLength = u16 (sizeof_LC_TwoWordCmd_t cfg))
    (h : msg.NewAPState = cfg.LC_APSTATE_ACTIVE ∨ msg.NewAPState = cfg.LC_APSTATE_PASSIVE
      ∨ msg.NewAPState = cfg.LC_APSTATE_DISABLED)
    (hall : msg.APNumber ≠ LC_ALL_ACTIONPOINTS)
    (hn : msg.APNumber < cfg.LC_MAX_ACTIONPOINTS)
    (e : LC_ARTEntry_t) (he : st.LC_OperData.ARTPtr[msg.APNumber]? = some e)
    (hcur : e.CurrentState ≠ cfg.LC_ACTION_NOT_USED ∧ e.CurrentState ≠ cfg.LC_APSTATE_PERMOFF) :
    LC_SetAPStateCmd cfg msg st =
      some (((st.setART (st.LC_OperData.ARTPtr.set msg.APNumber
        { e with CurrentState := msg.NewAPState })).incCmdCount).sendEvent
          LC_EventID.LC_APSTATE_INF_EID) := by
  have hlt : msg.APNumber < st.LC_OperData.ARTPtr.length := by
    by_contra hc
    rw [List.getElem?_eq_none (by omega)] at he
    cases he
  unfold LC_SetAPStateCmd
  rw [LC_VerifyMsgLength_ok msg _ st hlen]
  simp only [if_true]
  rw [if_pos h]
  unfold setAPStateTarget
  rw [if_neg hall, if_pos hn]
  simp only [he]
  rw [if_pos hcur]
  simp only [arrayWrite, hlt, if_true]

/-- The actionpoint stats-reset command of the right length returns; it resets the
statistics of the named record, or of every record for the "all" sentinel, leaves the
watchpoint results alone and counts the command. -/
theorem LC_ResetAPStatsCmd_spec (cfg : LC_Config) (msg : CFE_SB_Msg) (st : LC_State)
    (hs : cfg.SizesOK) (hst : st.Sized cfg)
    (hlen : msg.TotalMsgLength = u16 (sizeof_LC_TwoWordCmd_t cfg)) :
    ∃ st', LC_ResetAPStatsCmd cfg msg st = some st' ∧
      st'.LC_OperData.WRTPtr = st.LC_OperData.WRTPtr ∧
      st'.LC_OperData.ARTPtr.length = st.LC_OperData.ARTPtr.length ∧
      (∀ i : Nat, st'.LC_OperData.ARTPtr[i]? =
        if msg.APNumber = LC_ALL_ACTIONPOINTS ∨ msg.APNumber = i then
          st.LC_OperData.ARTPtr[i]?.map (resetAPEntry cfg st.LC_OperData.ADTPtr true i)
        else st.LC_OperData.ARTPtr[i]?) ∧
      (if msg.APNumber = LC_ALL_ACTIONPOINTS ∨ msg.APNumber < cfg.LC_MAX_ACTIONPOINTS then
        st'.LC_AppData.CmdCount = u8 (st.LC_AppData.CmdCount + 1) ∧
        st'.LC_AppData.CmdErrCount = st.LC_AppData.CmdErrCount
      else
        st'.LC_AppData.CmdErrCount = u8 (st.LC_AppData.CmdErrCount + 1) ∧
        st'.LC_AppData.CmdCount = st.LC_AppData.CmdCount) := by
  obtain ⟨hw0, hw4, hwmax, ha0, ha2, hamax, hwb, hab⟩ := hs
  obtain ⟨hlw, hla, hld, hlwp, hlap⟩ := hst
  unfold LC_ResetAPStatsCmd
  rw [LC_VerifyMsgLength_ok msg _ st hlen]
  simp only [if_true]
  unfold resetAPStatsTarget
  by_cases hall : msg.APNumber = LC_ALL_ACTIONPOINTS
  · obtain ⟨art, hrun, hal, hpt⟩ := LC_ResetResultsAP_spec cfg st.LC_OperData.ADTPtr 0
      (cfg.LC_MAX_ACTIONPOINTS - 1) true st.LC_OperData.ARTPtr (by omega) (by omega)
      (Or.inl rfl) (by omega)
    rw [if_pos hall, u32Pred_eq _ ha0 (by omega), hrun]
    refine ⟨_, rfl, rfl, by simpa [LC_State.sendEvent] using hal, ?_, ?_⟩
    · intro i
      rw [if_pos (Or.inl hall)]
      simp only [LC_State.sendEvent, call_OperData, incCmdCount_OperData, setART_ARTPtr]
      rw [hpt i]
      by_cases hi : i < cfg.LC_MAX_ACTIONPOINTS
      · rw [if_pos (by omega)]
      · rw [if_neg (by omega), List.getElem?_eq_none (by omega)]; rfl
    · rw [if_pos (Or.inl hall)]; exact ⟨rfl, rfl⟩
  · by_cases hn : msg.APNumber < cfg.LC_MAX_ACTIONPOINTS
    · obtain ⟨art, hrun, hal, hpt⟩ := LC_ResetResultsAP_spec cfg st.LC_OperData.ADTPtr
        msg.APNumber msg.APNumber true st.LC_OperData.ARTPtr (by omega) (by omega)
        (Or.inl rfl) (by omega)
      rw [if_neg hall, if_pos hn, hrun]
      refine ⟨_, rfl, rfl, by simpa [LC_State.sendEvent] using hal, ?_, ?_⟩
      · intro i
        simp only [LC_State.sendEvent, call_OperData, incCmdCount_OperData, setART_ARTPtr]
        rw [hpt i]
        by_cases hi : msg.APNumber = i
        · rw [if_pos (by omega), if_pos (Or.inr hi)]
        · rw [if_neg (by omega), if_neg (by intro h; rcases h with h | h; exact hall h; exact hi h)]
      · rw [if_pos (Or.inr hn)]; exact ⟨rfl, rfl⟩
    · rw [if_neg hall, if_neg hn]
      refine ⟨_, rfl, rfl, rfl, ?_, ?_⟩
      · intro i
        by_cases hi : msg.APNumber = i
        · rw [if_pos (Or.inr hi)]
          simp only [LC_State.sendEvent, call_OperData, incCmdErrCount_OperData]
          rw [List.getElem?_eq_none (by omega)]; rfl
        · rw [if_neg (by intro h; rcases h with h | h; exact hall h; exact hi h)]
          rfl
      · rw [if_neg (by intro h; rcases h with h | h; exact hall h; exact hn h)]
        exact ⟨rfl, rfl⟩

/-- The watchpoint stats-reset command of the right length returns; it resets the
statistics of the named record, or of every record for the "all" sentinel, leaves the
actionpoint results alone and counts the command. -/
theorem LC_ResetWPStatsCmd_spec (cfg : LC_Config) (msg : CFE_SB_Msg) (st : LC_State)
    (hs : cfg.SizesOK) (hst : st.Sized cfg)
    (hlen : msg.TotalMsgLength = u16 (sizeof_LC_TwoWordCmd_t cfg)) :
    ∃ st', LC_ResetWPStatsCmd cfg msg st = some st' ∧
      st'.LC_OperData.ARTPtr = st.LC_OperData.ARTPtr ∧
      st'.LC_OperData.WRTPtr.length = st.LC_OperData.WRTPtr.length ∧
      (∀ i : Nat, st'.LC_OperData.WRTPtr[i]? =
        if msg.WPNumber = LC_ALL_WATCHPOINTS ∨ msg.WPNumber = i then
          st.LC_OperData.WRTPtr[i]?.map (resetWPEntry cfg true)
        else st.LC_OperData.WRTPtr[i]?) ∧
      (if msg.WPNumber = LC_ALL_WATCHPOINTS ∨ msg.WPNumber < cfg.LC_MAX_WATCHPOINTS then
        st'.LC_AppData.CmdCount = u8 (st.LC_AppData.CmdCount + 1) ∧
        st'.LC_AppData.CmdErrCount = st.LC_AppData.CmdErrCount
      else
        st'.LC_AppData.CmdErrCount = u8 (st.LC_AppData.CmdErrCount + 1) ∧
        st'.LC_AppData.CmdCount = st.LC_AppData.CmdCount) := by
  obtain ⟨hw0, hw4, hwmax, ha0, ha2, hamax, hwb, hab⟩ := hs
  obtain ⟨hlw, hla, hld, hlwp, hlap⟩ := hst
  unfold LC_ResetWPStatsCmd
  rw [LC_VerifyMsgLength_ok msg _ st hlen]
  simp only [if_true]
  unfold resetWPStatsTarget
  by_cases hall : msg.WPNumber = LC_ALL_WATCHPOINTS
  · obtain ⟨wrt, hrun, hal, hpt⟩ := LC_ResetResultsWP_spec cfg 0
      (cfg.LC_MAX_WATCHPOINTS - 1) true st.LC_OperData.WRTPtr (by omega) (by omega) (by omega)
    rw [if_pos hall, u32Pred_eq _ hw0 (by omega), hrun]
    refine ⟨_, rfl, rfl, by simpa [LC_State.sendEvent] using hal, ?_, ?_⟩
    · intro i
      rw [if_pos (Or.inl hall)]
      simp only [LC_State.sendEvent, call_OperData, incCmdCount_OperData, setWRT_WRTPtr]
      rw [hpt i]
      by_cases hi : i < cfg.LC_MAX_WATCHPOINTS
      · rw [if_pos (by omega)]
      · rw [if_neg (by omega), List.getElem?_eq_none (by omega)]; rfl
    · rw [if_pos (Or.inl hall)]; exact ⟨rfl, rfl⟩
  · by_cases hn : msg.WPNumber < cfg.LC_MAX_WATCHPOINTS
    · obtain ⟨wrt, hrun, hal, hpt⟩ := LC_ResetResultsWP_spec cfg
        msg.WPNumber msg.WPNumber true st.LC_OperData.WRTPtr (by omega) (by omega) (by omega)
      rw [if_neg hall, if_pos hn, hrun]
      refine ⟨_, rfl, rfl, by simpa [LC_State.sendEvent] using hal, ?_, ?_⟩
      · intro i
        simp only [LC_State.sendEvent, call_OperData, incCmdCount_OperData, setWRT_WRTPtr]
        rw [hpt i]
        by_cases hi : msg.WPNumber = i
        · rw [if_pos (by omega), if_pos (Or.inr hi)]
        · rw [if_neg (by omega), if_neg (by intro h; rcases h with h | h; exact hall h; exact hi h)]
      · rw [if_pos (Or.inr hn)]; exact ⟨rfl, rfl⟩
    · rw [if_neg hall, if_neg hn]
      refine ⟨_, rfl, rfl, rfl, ?_, ?_⟩
      · intro i
        by_cases hi : msg.WPNumber = i
        · rw [if_pos (Or.inr hi)]
          simp only [LC_State.sendEvent, call_OperData, incCmdErrCount_OperData]
          rw [List.getElem?_eq_none (by omega)]; rfl
        · rw [if_neg (by intro h; rcases h with h | h; exact hall h; exact hi h)]
          rfl
      · rw [if_neg (by intro h; rcases h with h | h; exact hall h; exact hn h)]
        exact ⟨rfl, rfl⟩

/-! ## Messages of any length -/

theorem LC_VerifyMsgLength_bad (msg : CFE_SB_Msg) (n : Nat) (st : LC_State)
    (h : msg.TotalMsgLength ≠ n) : (LC_VerifyMsgLength msg n st).1 = false := by
  unfold LC_VerifyMsgLength
  dsimp only
  rw [if_pos (fun hc => h hc.symm)]
  split_ifs <;> rfl

/-- The length check never touches the operational data. -/
theorem LC_VerifyMsgLength_OperData (msg : CFE_SB_Msg) (n : Nat) (st : LC_State) :
    (LC_VerifyMsgLength msg n st).2.LC_OperData = st.LC_OperData := by
  unfold LC_VerifyMsgLength
  dsimp only
  split_ifs <;> rfl

theorem LC_NoopCmd_OperData (cfg : LC_Config) (msg : CFE_SB_Msg) (st : LC_State) :
    (LC_NoopCmd cfg msg st).LC_OperData = st.LC_OperData := by
  unfold LC_NoopCmd
  dsimp only
  by_cases h : (LC_VerifyMsgLength msg (u16 (sizeof_LC_NoArgsCmd_t cfg)) st).1 = true
  · rw [if_pos h]; simp [LC_State.sendEvent, LC_VerifyMsgLength_OperData]
  · rw [if_neg h]; exact LC_VerifyMsgLength_OperData _ _ _

theorem LC_ResetCmd_OperData (cfg : LC_Config) (msg : CFE_SB_Msg) (st : LC_State) :
    (LC_ResetCmd cfg msg st).LC_OperData = st.LC_OperData := by
  unfold LC_ResetCmd
  dsimp only
  by_cases h : (LC_VerifyMsgLength msg (u16 (sizeof_LC_NoArgsCmd_t cfg)) st).1 = true
  · rw [if_pos h]; simp [LC_State.sendEvent, LC_ResetCounters, LC_VerifyMsgLength_OperData]
  · rw [if_neg h]; exact LC_VerifyMsgLength_OperData _ _ _

theorem LC_SetLCStateCmd_OperData (cfg : LC_Config) (msg : CFE_SB_Msg) (st : LC_State) :
    (LC_SetLCStateCmd cfg msg st).LC_OperData = st.LC_OperData := by
  unfold LC_SetLCStateCmd
  dsimp only
  by_cases h : (LC_VerifyMsgLength msg (u16 (sizeof_LC_TwoWordCmd_t cfg)) st).1 = true
  · rw [if_pos h]
    split_ifs
    · simp [LC_State.sendEvent, LC_VerifyMsgLength_OperData]
    · simp [LC_State.sendEvent, LC_VerifyMsgLength_OperData]
  · rw [if_neg h]; exact LC_VerifyMsgLength_OperData _ _ _

/-- A set-state command of the right length returns; every actionpoint record is either
kept or, if it was neither not-used nor permanently off, gets the new state. -/
theorem LC_SetAPStateCmd_valid (cfg : LC_Config) (msg : CFE_SB_Msg) (st : LC_State)
    (hl : st.LC_OperData.ARTPtr.length = cfg.LC_MAX_ACTIONPOINTS)
    (hmax : cfg.LC_MAX_ACTIONPOINTS < 4294967296)
    (hlen : msg.TotalMsgLength = u16 (sizeof_LC_TwoWordCmd_t cfg)) :
    ∃ st', LC_SetAPStateCmd cfg msg st = some st' ∧
      st'.LC_OperData.WRTPtr = st.LC_OperData.WRTPtr ∧
      ∀ (i : Nat) (e : LC_ARTEntry_t), st.LC_OperData.ARTPtr[i]? = some e →
        ∃ e', st'.LC_OperData.ARTPtr[i]? = some e' ∧
          (e' = e ∨ (e.CurrentState ≠ cfg.LC_ACTION_NOT_USED ∧
            e.CurrentState ≠ cfg.LC_APSTATE_PERMOFF ∧
            e' = { e with CurrentState := msg.NewAPState })) := by
  by_cases hnew : msg.NewAPState = cfg.LC_APSTATE_ACTIVE ∨ msg.NewAPState = cfg.LC_APSTATE_PASSIVE
      ∨ msg.NewAPState = cfg.LC_APSTATE_DISABLED
  · by_cases hall : msg.APNumber = LC_ALL_ACTIONPOINTS
    · refine ⟨_, LC_SetAPStateCmd_all cfg msg st hlen hnew hall hl hmax, rfl, ?_⟩
      intro i e he
      refine ⟨setAllEntry cfg msg.NewAPState e, by simp [LC_State.sendEvent, he], ?_⟩
      unfold setAllEntry
      by_cases hc : e.CurrentState ≠ cfg.LC_ACTION_NOT_USED
          ∧ e.CurrentState ≠ cfg.LC_APSTATE_PERMOFF
      · rw [if_pos hc]; exact Or.inr ⟨hc.1, hc.2, rfl⟩
      · rw [if_neg hc]; exact Or.inl rfl
    · by_cases hn : msg.APNumber < cfg.LC_MAX_ACTIONPOINTS
      · have hlt : msg.APNumber < st.LC_OperData.ARTPtr.length := by omega
        have he0 := List.getElem?_eq_getElem hlt
        by_cases hcur : st.LC_OperData.ARTPtr[msg.APNumber].CurrentState ≠ cfg.LC_ACTION_NOT_USED
            ∧ st.LC_OperData.ARTPtr[msg.APNumber].CurrentState ≠ cfg.LC_APSTATE_PERMOFF
        · refine ⟨_, LC_SetAPStateCmd_single cfg msg st hlen hnew hall hn _ he0 hcur, rfl, ?_⟩
          intro i e he
          simp only [LC_State.sendEvent, call_OperData, incCmdCount_OperData, setART_ARTPtr]
          rw [List.getElem?_set]
          by_cases hi : msg.APNumber = i
          · rw [if_pos hi, if_pos hlt]
            rw [← hi, he0] at he
            cases he
            exact ⟨_, rfl, Or.inr ⟨hcur.1, hcur.2, rfl⟩⟩
          · rw [if_neg hi]
            exact ⟨e, he, Or.inl rfl⟩
        · refine ⟨_, LC_SetAPStateCmd_badcurrent cfg msg st hlen hnew hall hn _ he0 hcur, rfl, ?_⟩
          intro i e he
          exact ⟨e, he, Or.inl rfl⟩
      · refine ⟨_, LC_SetAPStateCmd_badnum cfg msg st hlen hnew hall hn, rfl, ?_⟩
        intro i e he
        exact ⟨e, he, Or.inl rfl⟩
  · refine ⟨_, LC_SetAPStateCmd_badstate cfg msg st hlen hnew, rfl, ?_⟩
    intro i e he
    exact ⟨e, he, Or.inl rfl⟩

/-- A set-state command of any length returns; every actionpoint record is either kept or,
if it was neither not-used nor permanently off, gets the new state. -/
theorem LC_SetAPStateCmd_total (cfg : LC_Config) (msg : CFE_SB_Msg) (st : LC_State)
    (hl : st.LC_OperData.ARTPtr.length = cfg.LC_MAX_ACTIONPOINTS)
    (hmax : cfg.LC_MAX_ACTIONPOINTS < 4294967296) :
    ∃ st', LC_SetAPStateCmd cfg msg st = some st' ∧
      st'.LC_OperData.WRTPtr = st.LC_OperData.WRTPtr ∧
      ∀ (i : Nat) (e : LC_ARTEntry_t), st.LC_OperData.ARTPtr[i]? = some e →
        ∃ e', st'.LC_OperData.ARTPtr[i]? = some e' ∧
          (e' = e ∨ (e.CurrentState ≠ cfg.LC_ACTION_NOT_USED ∧
            e.CurrentState ≠ cfg.LC_APSTATE_PERMOFF ∧
            e' = { e with CurrentState := msg.NewAPState })) := by
  by_cases hlen : msg.TotalMsgLength = u16 (sizeof_LC_TwoWordCmd_t cfg)
  · obtain ⟨st', hrun, hiff, hacc⟩ := LC_SetAPStateCmd_valid cfg msg st hl hmax hlen
    refine ⟨st', hrun, hiff, hacc⟩
  · refine ⟨(LC_VerifyMsgLength msg (u16 (sizeof_LC_TwoWordCmd_t cfg)) st).2, ?_, ?_, ?_⟩
    · unfold LC_SetAPStateCmd
      simp only [LC_VerifyMsgLength_bad msg _ st hlen]
      rfl
    · rw [LC_VerifyMsgLength_OperData]
    · intro i e he
      rw [LC_VerifyMsgLength_OperData]
      exact ⟨e, he, Or.inl rfl⟩

/-- A set-permanently-off command of any length returns; every actionpoint record is either
kept or, if it was disabled, becomes permanently off. -/
theorem LC_SetAPPermOffCmd_total (cfg : LC_Config) (msg : CFE_SB_Msg) (st : LC_State)
    (hl : st.LC_OperData.ARTPtr.length = cfg.LC_MAX_ACTIONPOINTS) :
    ∃ st', LC_SetAPPermOffCmd cfg msg st = some st' ∧
      st'.LC_OperData.WRTPtr = st.LC_OperData.WRTPtr ∧
      ∀ (i : Nat) (e : LC_ARTEntry_t), st.LC_OperData.ARTPtr[i]? = some e →
        ∃ e', st'.LC_OperData.ARTPtr[i]? = some e' ∧
          (e' = e ∨ (e.CurrentState = cfg.LC_APSTATE_DISABLED ∧
            e' = { e with CurrentState := cfg.LC_APSTATE_PERMOFF })) := by
  by_cases hlen : msg.TotalMsgLength = u16 (sizeof_LC_TwoWordCmd_t cfg)
  · by_cases hbad : msg.APNumber = LC_ALL_ACTIONPOINTS ∨ msg.APNumber ≥ cfg.LC_MAX_ACTIONPOINTS
    · refine ⟨_, LC_SetAPPermOffCmd_badnum cfg msg st hlen hbad, rfl, ?_⟩
      intro i e he
      exact ⟨e, he, Or.inl rfl⟩
    · have h1 : msg.APNumber ≠ LC_ALL_ACTIONPOINTS := fun h => hbad (Or.inl h)
      have h2 : msg.APNumber < cfg.LC_MAX_ACTIONPOINTS := by
        by_contra hc; exact hbad (Or.inr (by omega))
      have hlt : msg.APNumber < st.LC_OperData.ARTPtr.length := by omega
      have he0 := List.getElem?_eq_getElem hlt
      by_cases hd : st.LC_OperData.ARTPtr[msg.APNumber].CurrentState = cfg.LC_APSTATE_DISABLED
      · refine ⟨_, LC_SetAPPermOffCmd_accept cfg msg st hlen h1 h2 _ he0 hd, rfl, ?_⟩
        intro i e he
        simp only [LC_State.sendEvent, call_OperData, incCmdCount_OperData, setART_ARTPtr]
        rw [List.getElem?_set]
        by_cases hi : msg.APNumber = i
        · rw [if_pos hi, if_pos hlt]
          rw [← hi, he0] at he
          cases he
          exact ⟨_, rfl, Or.inr ⟨hd, rfl⟩⟩
        · rw [if_neg hi]
          exact ⟨e, he, Or.inl rfl⟩
      · refine ⟨_, LC_SetAPPermOffCmd_notdisabled cfg msg st hlen h1 h2 _ he0 hd, rfl, ?_⟩
        intro i e he
        exact ⟨e, he, Or.inl rfl⟩
  · refine ⟨(LC_VerifyMsgLength msg (u16 (sizeof_LC_TwoWordCmd_t cfg)) st).2, ?_, ?_, ?_⟩
    · unfold LC_SetAPPermOffCmd
      simp only [LC_VerifyMsgLength_bad msg _ st hlen]
      rfl
    · rw [LC_VerifyMsgLength_OperData]
    · intro i e he
      rw [LC_VerifyMsgLength_OperData]
      exact ⟨e, he, Or.inl rfl⟩

/-- An actionpoint stats-reset command of any length returns and keeps the state and the
result of every actionpoint record. -/
theorem LC_ResetAPStatsCmd_total (cfg : LC_Config) (msg : CFE_SB_Msg) (st : LC_State)
    (hs : cfg.SizesOK) (hst : st.Sized cfg) :
    ∃ st', LC_ResetAPStatsCmd cfg msg st = some st' ∧
      st'.LC_OperData.WRTPtr = st.LC_OperData.WRTPtr ∧
      ∀ (i : Nat) (e : LC_ARTEntry_t), st.LC_OperData.ARTPtr[i]? = some e →
        ∃ e', st'.LC_OperData.ARTPtr[i]? = some e' ∧ e'.CurrentState = e.CurrentState ∧
          e'.ActionResult = e.ActionResult := by
  by_cases hlen : msg.TotalMsgLength = u16 (sizeof_LC_TwoWordCmd_t cfg)
  · obtain ⟨st', hrun, hw, _, hpt, _⟩ := LC_ResetAPStatsCmd_spec cfg msg st hs hst hlen
    refine ⟨st', hrun, hw, ?_⟩
    intro i e he
    rw [hpt i, he]
    split_ifs
    · exact ⟨_, rfl, rfl, rfl⟩
    · exact ⟨e, rfl, rfl, rfl⟩
  · refine ⟨(LC_VerifyMsgLength msg (u16 (sizeof_LC_TwoWordCmd_t cfg)) st).2, ?_, ?_, ?_⟩
    · unfold LC_ResetAPStatsCmd
      simp only [LC_VerifyMsgLength_bad msg _ st hlen]
      rfl
    · rw [LC_VerifyMsgLength_OperData]
    · intro i e he
      rw [LC_VerifyMsgLength_OperData]
      exact ⟨e, he, rfl, rfl⟩

/-- A watchpoint stats-reset command of any length returns and leaves the actionpoint
results table alone. -/
theorem LC_ResetWPStatsCmd_total (cfg : LC_Config) (msg : CFE_SB_Msg) (st : LC_State)
    (hs : cfg.SizesOK) (hst : st.Sized cfg) :
    ∃ st', LC_ResetWPStatsCmd cfg msg st = some st' ∧
      st'.LC_OperData.ARTPtr = st.LC_OperData.ARTPtr := by
  by_cases hlen : msg.TotalMsgLength = u16 (sizeof_LC_TwoWordCmd_t cfg)
  · obtain ⟨st', hrun, ha, _⟩ := LC_ResetWPStatsCmd_spec cfg msg st hs hst hlen
    exact ⟨st', hrun, ha⟩
  · refine ⟨(LC_VerifyMsgLength msg (u16 (sizeof_LC_TwoWordCmd_t cfg)) st).2, ?_, ?_⟩
    · unfold LC_ResetWPStatsCmd
      simp only [LC_VerifyMsgLength_bad msg _ st hlen]
      rfl
    · rw [LC_VerifyMsgLength_OperData]

/-- A housekeeping request of any length returns; the result tables afterwards are the
ones table management leaves. -/
theorem LC_HousekeepingReq_tables (cfg : LC_Config) (env : CFE_Env) (msg : CFE_SB_Msg)
    (st : LC_State) (hs : cfg.SizesOK) (hst : st.Sized cfg)
    (henv : env.ADTPtr.length = cfg.LC_MAX_ACTIONPOINTS) :
    ∃ rc st', LC_HousekeepingReq cfg env msg st = some (rc, st') ∧
      (∀ i : Nat, st'.LC_OperData.WRTPtr[i]? =
        if env.WDT_GetAddress = cfg.CFE_TBL_INFO_UPDATED then
          st.LC_OperData.WRTPtr[i]?.map (resetWPEntry cfg false)
        else st.LC_OperData.WRTPtr[i]?) ∧
      (∀ i : Nat, st'.LC_OperData.ARTPtr[i]? =
        if (env.WDT_GetAddress = cfg.CFE_TBL_INFO_UPDATED ∨ env.WDT_GetAddress = cfg.CFE_SUCCESS)
            ∧ env.ADT_GetAddress = cfg.CFE_TBL_INFO_UPDATED then
          st.LC_OperData.ARTPtr[i]?.map (resetAPEntry cfg env.ADTPtr false i)
        else st.LC_OperData.ARTPtr[i]?) := by
  have hv := LC_VerifyMsgLength_OperData msg (u16 (sizeof_LC_NoArgsCmd_t cfg)) st
  have hvs : (LC_VerifyMsgLength msg (u16 (sizeof_LC_NoArgsCmd_t cfg)) st).2.Sized cfg := by
    unfold LC_State.Sized
    rw [hv]
    exact hst
  have hpack : ∃ st1, (if (LC_VerifyMsgLength msg (u16 (sizeof_LC_NoArgsCmd_t cfg)) st).1 = true
        then packHousekeeping cfg (LC_VerifyMsgLength msg (u16 (sizeof_LC_NoArgsCmd_t cfg)) st).2
        else some (LC_VerifyMsgLength msg (u16 (sizeof_LC_NoArgsCmd_t cfg)) st).2) = some st1 ∧
      st1.Sized cfg ∧ st1.LC_OperData.WRTPtr = st.LC_OperData.WRTPtr ∧
      st1.LC_OperData.ARTPtr = st.LC_OperData.ARTPtr := by
    split_ifs
    · obtain ⟨st1, hp, _, hw, ha, _, _, _, hsz, _⟩ := packHousekeeping_spec cfg _ hs hvs
      exact ⟨st1, hp, hsz, by rw [hw, hv], by rw [ha, hv]⟩
    · exact ⟨_, rfl, hvs, by rw [hv], by rw [hv]⟩
  obtain ⟨st1, hp, hsz1, hw1, ha1⟩ := hpack
  obtain ⟨rc, st2, hm, _, _, hwrt, hart, _⟩ := LC_ManageTables_spec cfg env st1 hs hsz1 henv
  rw [hw1] at hwrt
  rw [ha1] at hart
  unfold LC_HousekeepingReq
  simp only [hp, hm]
  by_cases hrc : rc = cfg.CFE_SUCCESS
  · rw [if_neg (fun h => h hrc)]
    refine ⟨_, _, rfl, ?_, ?_⟩
    · intro i; rw [(updateCDS_frame cfg env st2).2.1]; exact hwrt i
    · intro i; rw [(updateCDS_frame cfg env st2).2.2]; exact hart i
  · rw [if_pos hrc]
    exact ⟨_, _, rfl, hwrt, hart⟩

/-! ## Aging -/

theorem sampleRange_valid (cfg : LC_Config) (ext : LC_Externals) (msg : CFE_SB_Msg)
    (st : LC_State)
    (h : (msg.StartIndex = LC_ALL_ACTIONPOINTS ∧ msg.EndIndex = LC_ALL_ACTIONPOINTS) ∨
      (msg.StartIndex ≤ msg.EndIndex ∧ msg.EndIndex < cfg.LC_MAX_ACTIONPOINTS)) :
    (sampleRange cfg ext msg st).1 = true ∧
    ∃ s e, (sampleRange cfg ext msg st).2 = callSampleAPs ext s e st := by
  unfold sampleRange
  by_cases h1 : msg.StartIndex = LC_ALL_ACTIONPOINTS ∧ msg.EndIndex = LC_ALL_ACTIONPOINTS
  · rw [if_pos h1]; exact ⟨rfl, _, _, rfl⟩
  · rw [if_neg h1]
    have h2 := h.resolve_left h1
    rw [if_pos h2]; exact ⟨rfl, _, _, rfl⟩

/-- A sample request that passes every check and asks for aging returns the state left by
the sampling call with every watchpoint record aged by one step. -/
theorem LC_SampleAPReq_aging (cfg : LC_Config) (ext : LC_Externals) (msg : CFE_SB_Msg)
    (st : LC_State) (hreq : agingSampleReq cfg msg)
    (hstate : st.LC_AppData.CurrentLCState ≠ cfg.LC_STATE_DISABLED)
    (hl : (sampleRange cfg ext msg st).2.LC_OperData.WRTPtr.length = cfg.LC_MAX_WATCHPOINTS)
    (hmax : cfg.LC_MAX_WATCHPOINTS ≤ 65535) :
    LC_SampleAPReq cfg ext msg st =
      some ((sampleRange cfg ext msg st).2.setWRT
        ((sampleRange cfg ext msg st).2.LC_OperData.WRTPtr.map (ageEntry cfg))) := by
  obtain ⟨hlen, hrange, hage⟩ := hreq
  unfold LC_SampleAPReq
  rw [LC_VerifyMsgLength_ok msg _ st hlen]
  simp only [if_true]
  rw [if_pos hstate, if_pos ⟨hage, (sampleRange_valid cfg ext msg st hrange).1⟩,
    ageWatchpoints_eq cfg _ hl hmax]

/-- Iterating the aging step on a record whose countdown is `c`: fewer than `c` steps
lower the countdown and keep the verdict; `c` steps, for `c > 0`, end stale at zero. -/
theorem ageEntry_iterate (cfg : LC_Config) (k : Nat) (e : LC_WRTEntry_t) :
    (k < e.CountdownToStale →
      ((ageEntry cfg)^[k] e).CountdownToStale = e.CountdownToStale - k ∧
      ((ageEntry cfg)^[k] e).WatchResult = e.WatchResult) ∧
    (0 < k → k = e.CountdownToStale →
      ((ageEntry cfg)^[k] e).CountdownToStale = 0 ∧
      ((ageEntry cfg)^[k] e).WatchResult = cfg.LC_WATCH_STALE) := by
  induction k generalizing e with
  | zero => exact ⟨fun _ => ⟨rfl, rfl⟩, fun h => absurd h (by omega)⟩
  | succ k ih =>
    rw [Function.iterate_succ_apply]
    constructor
    · intro hk
      have h0 : e.CountdownToStale ≠ 0 := by omega
      have h1 : e.CountdownToStale ≠ 1 := by omega
      have hag : ageEntry cfg e = { e with CountdownToStale := e.CountdownToStale - 1 } := by
        unfold ageEntry; rw [if_neg h0, if_neg h1]
      rw [hag]
      obtain ⟨a, b⟩ := (ih { e with CountdownToStale := e.CountdownToStale - 1 }).1
        (by show k < e.CountdownToStale - 1; omega)
      exact ⟨by rw [a]; show e.CountdownToStale - 1 - k = _; omega, b⟩
    · intro _ hk
      by_cases hk0 : k = 0
      · subst hk0
        have h1 : e.CountdownToStale = 1 := by omega
        have hag : ageEntry cfg e =
            { e with CountdownToStale := 0, WatchResult := cfg.LC_WATCH_STALE } := by
          unfold ageEntry; rw [if_neg (by omega), if_pos h1]
        rw [hag]
        exact ⟨rfl, rfl⟩
      · have h0 : e.CountdownToStale ≠ 0 := by omega
        have h1 : e.CountdownToStale ≠ 1 := by omega
        have hag : ageEntry cfg e = { e with CountdownToStale := e.CountdownToStale - 1 } := by
          unfold ageEntry; rw [if_neg h0, if_neg h1]
        rw [hag]
        exact (ih { e with CountdownToStale := e.CountdownToStale - 1 }).2 (by omega)
          (by show k = e.CountdownToStale - 1; omega)

/-- A sequence of aging sample requests, with sampling calls that leave record `i` and the
application state alone, returns with record `i` aged once per request. -/
theorem sampleRequests_aging (cfg : LC_Config) (ext : LC_Externals) (i : Nat)
    (hmax : cfg.LC_MAX_WATCHPOINTS ≤ 65535)
    (hext : ∀ s e st,
      (ext.LC_SampleAPs s e st).LC_OperData.WRTPtr.length = st.LC_OperData.WRTPtr.length ∧
      (ext.LC_SampleAPs s e st).LC_OperData.WRTPtr[i]? = st.LC_OperData.WRTPtr[i]? ∧
      (ext.LC_SampleAPs s e st).LC_AppData.CurrentLCState = st.LC_AppData.CurrentLCState)
    (msgs : List CFE_SB_Msg) (hmsgs : ∀ m ∈ msgs, agingSampleReq cfg m)
    (st : LC_State) (hl : st.LC_OperData.WRTPtr.length = cfg.LC_MAX_WATCHPOINTS)
    (hstate : st.LC_AppData.CurrentLCState ≠ cfg.LC_STATE_DISABLED)
    (e : LC_WRTEntry_t) (he : st.LC_OperData.WRTPtr[i]? = some e) :
    ∃ st', sampleRequests cfg ext msgs st = some st' ∧
      st'.LC_OperData.WRTPtr[i]? = some ((ageEntry cfg)^[msgs.length] e) := by
  induction msgs generalizing st e with
  | nil => exact ⟨st, rfl, he⟩
  | cons m rest ih =>
    have hm := hmsgs m (List.mem_cons_self _ _)
    obtain ⟨_, s, t, hsr⟩ := sampleRange_valid cfg ext m st hm.2.1
    obtain ⟨x1, x2, x3⟩ := hext s t (st.call (LC_Call.LC_SampleAPs s t))
    have hl1 : (sampleRange cfg ext m st).2.LC_OperData.WRTPtr.length
        = cfg.LC_MAX_WATCHPOINTS := by
      rw [hsr]; unfold callSampleAPs; rw [x1]; exact hl
    have hrun := LC_SampleAPReq_aging cfg ext m st hm hstate hl1 hmax
    have he1 : (sampleRange cfg ext m st).2.LC_OperData.WRTPtr[i]? = some e := by
      rw [hsr]; unfold callSampleAPs; rw [x2]; exact he
    obtain ⟨st', hrest, hrec⟩ := ih (fun m' hm' => hmsgs m' (List.mem_cons_of_mem _ hm'))
      ((sampleRange cfg ext m st).2.setWRT
        ((sampleRange cfg ext m st).2.LC_OperData.WRTPtr.map (ageEntry cfg)))
      (by simp [hl1])
      (by rw [setWRT_AppData, hsr]; unfold callSampleAPs; rw [x3]; exact hstate)
      (ageEntry cfg e)
      (by rw [setWRT_WRTPtr, List.getElem?_map, he1]; rfl)
    refine ⟨st', ?_, ?_⟩
    · show (match LC_SampleAPReq cfg ext m st with
        | none => none
        | some st' => sampleRequests cfg ext rest st') = some st'
      rw [hrun]; exact hrest
    · rw [hrec, List.length_cons, Function.iterate_succ_apply]

/-! ## Range resets -/

theorem forLoop_skip {σ : Type} (cond : Nat → Bool) (next : Nat → Nat)
    (body : Nat → σ → Option σ) (fuel i : Nat) (s : σ) (h : cond i = false) :
    forLoop cond next body (fuel + 1) i s = some s := by
  simp [forLoop, h]

/-- The actionpoint reset for any range whose end lies in the tables: it returns, and
exactly the entries from `StartIndex` to `EndIndex` are reset (none when the range is
empty). -/
theorem LC_ResetResultsAP_range (cfg : LC_Config) (ADT : List LC_ADTEntry_t) (a b : Nat)
    (flag : Bool) (ART : List LC_ARTEntry_t) (hb : b < ART.length)
    (hadt : flag = true ∨ b < ADT.length) (h32 : b < 4294967295) :
    ∃ ys, LC_ResetResultsAP cfg ADT a b flag ART = some ys ∧ ys.length = ART.length ∧
      ∀ i, ys[i]? = if a ≤ i ∧ i ≤ b then ART[i]?.map (resetAPEntry cfg ADT flag i)
        else ART[i]? := by
  by_cases hab : a ≤ b
  · exact LC_ResetResultsAP_spec cfg ADT a b flag ART hab hb hadt h32
  · refine ⟨ART, ?_, rfl, ?_⟩
    · unfold LC_ResetResultsAP
      exact forLoop_skip _ _ _ _ _ _ (by simpa using hab)
    · intro i
      rw [if_neg (by omega)]

/-- The watchpoint reset for any range whose end lies in the table. -/
theorem LC_ResetResultsWP_range (cfg : LC_Config) (a b : Nat)
    (flag : Bool) (WRT : List LC_WRTEntry_t) (hb : b < WRT.length) (h32 : b < 4294967295) :
    ∃ ys, LC_ResetResultsWP cfg a b flag WRT = some ys ∧ ys.length = WRT.length ∧
      ∀ i, ys[i]? = if a ≤ i ∧ i ≤ b then WRT[i]?.map (resetWPEntry cfg flag) else WRT[i]? := by
  by_cases hab : a ≤ b
  · exact LC_ResetResultsWP_spec cfg a b flag WRT hab hb h32
  · refine ⟨WRT, ?_, rfl, ?_⟩
    · unfold LC_ResetResultsWP
      exact forLoop_skip _ _ _ _ _ _ (by simpa using hab)
    · intro i
      rw [if_neg (by omega)]

/-! ## Sample requests that do not age -/

theorem sampleRange_rejected (cfg : LC_Config) (ext : LC_Externals) (msg : CFE_SB_Msg)
    (st : LC_State)
    (h : ¬ ((msg.StartIndex = LC_ALL_ACTIONPOINTS ∧ msg.EndIndex = LC_ALL_ACTIONPOINTS) ∨
      (msg.StartIndex ≤ msg.EndIndex ∧ msg.EndIndex < cfg.LC_MAX_ACTIONPOINTS))) :
    sampleRange cfg ext msg st = (false, st.sendEvent LC_EventID.LC_APSAMPLE_APNUM_ERR_EID) := by
  unfold sampleRange
  rw [if_neg (fun h1 => h (Or.inl h1)), if_neg (fun h2 => h (Or.inr h2))]

/-- A sample request of the wrong length returns right after the length check. -/
theorem LC_SampleAPReq_badlen (cfg : LC_Config) (ext : LC_Externals) (msg : CFE_SB_Msg)
    (st : LC_State) (h : msg.TotalMsgLength ≠ u16 (sizeof_LC_SampleAP_t cfg)) :
    LC_SampleAPReq cfg ext msg st =
      some (LC_VerifyMsgLength msg (u16 (sizeof_LC_SampleAP_t cfg)) st).2 := by
  unfold LC_SampleAPReq
  simp only [LC_VerifyMsgLength_bad msg _ st h]
  rfl

/-- A sample request received while LC is disabled changes nothing. -/
theorem LC_SampleAPReq_disabled (cfg : LC_Config) (ext : LC_Externals) (msg : CFE_SB_Msg)
    (st : LC_State) (hlen : msg.TotalMsgLength = u16 (sizeof_LC_SampleAP_t cfg))
    (h : st.LC_AppData.CurrentLCState = cfg.LC_STATE_DISABLED) :
    LC_SampleAPReq cfg ext msg st = some st := by
  unfold LC_SampleAPReq
  rw [LC_VerifyMsgLength_ok msg _ st hlen]
  simp only [if_true]
  rw [if_neg (fun hc => hc h)]

/-- A sample request that is accepted but does not reach the aging loop, because the range
is rejected or `UpdateAge` is zero, returns the state the range check leaves. -/
theorem LC_SampleAPReq_noaging (cfg : LC_Config) (ext : LC_Externals) (msg : CFE_SB_Msg)
    (st : LC_State) (hlen : msg.TotalMsgLength = u16 (sizeof_LC_SampleAP_t cfg))
    (hstate : st.LC_AppData.CurrentLCState ≠ cfg.LC_STATE_DISABLED)
    (h : ¬ (msg.UpdateAge ≠ 0 ∧ (sampleRange cfg ext msg st).1 = true)) :
    LC_SampleAPReq cfg ext msg st = some (sampleRange cfg ext msg st).2 := by
  unfold LC_SampleAPReq
  rw [LC_VerifyMsgLength_ok msg _ st hlen]
  simp only [if_true]
  rw [if_pos hstate, if_neg h]

/-! ## Calls made by table management and the housekeeping request -/

/-- The actionpoint half of table management makes one address acquisition, followed by
an error event exactly when the acquisition fails. -/
theorem manageADT_calls (cfg : LC_Config) (env : CFE_Env) (st : LC_State)
    (hs : cfg.SizesOK) (hst : st.Sized cfg)
    (henv : env.ADTPtr.length = cfg.LC_MAX_ACTIONPOINTS) :
    ∃ rc st', manageADT cfg env st = some (rc, st') ∧
      st'.Calls = st.Calls ++ [LC_Call.CFE_TBL_GetAddress LC_TableHandle.ADTHandle] ++
        (if env.ADT_GetAddress = cfg.CFE_TBL_INFO_UPDATED ∨ env.ADT_GetAddress = cfg.CFE_SUCCESS
         then []
         else [LC_Call.CFE_EVS_SendEvent LC_EventID.LC_ADT_GETADDR_ERR_EID]) := by
  obtain ⟨hw0, hw4, hwmax, ha0, ha2, hamax, hwb, hab⟩ := hs
  obtain ⟨hlw, hla, hld, hlwp, hlap⟩ := hst
  obtain ⟨art, harun, hal, hapt⟩ := LC_ResetResultsAP_spec cfg env.ADTPtr 0
    (cfg.LC_MAX_ACTIONPOINTS - 1) false st.LC_OperData.ARTPtr (by omega) (by omega)
    (Or.inr (by omega)) (by omega)
  have pa := u32Pred_eq cfg.LC_MAX_ACTIONPOINTS ha0 (by omega)
  unfold manageADT
  rw [pa]
  by_cases a1 : env.ADT_GetAddress = cfg.CFE_TBL_INFO_UPDATED
  · simp only [call_OperData]
    rw [if_pos a1]
    rw [harun]
    refine ⟨_, _, rfl, ?_⟩
    rw [if_pos (Or.inl a1)]
    simp [LC_State.call, LC_State.setART]
  · by_cases a2 : env.ADT_GetAddress = cfg.CFE_SUCCESS
    · dsimp only
      rw [if_neg a1, if_neg (fun h => h a2)]
      refine ⟨_, _, rfl, ?_⟩
      rw [if_pos (Or.inr a2)]
      simp [LC_State.call]
    · dsimp only
      rw [if_neg a1, if_pos a2]
      refine ⟨_, _, rfl, ?_⟩
      rw [if_neg (fun h => h.elim a1 a2)]
      simp [LC_State.call, LC_State.sendEvent]

/-- The watchpoint half of table management makes the seven table-service calls in the
order of the source, then rebuilds the hash table exactly when the definitions are
reported updated, or sends an error event exactly when the acquisition fails. -/
theorem manageWDT_calls (cfg : LC_Config) (env : CFE_Env) (st : LC_State)
    (hs : cfg.SizesOK) (hst : st.Sized cfg) :
    ∃ r st', manageWDT cfg env st = some (r, st') ∧
      st'.Calls = st.Calls ++ manageCalls ++
        (if env.WDT_GetAddress = cfg.CFE_TBL_INFO_UPDATED then [LC_Call.LC_CreateHashTable]
         else if env.WDT_GetAddress = cfg.CFE_SUCCESS then []
         else [LC_Call.CFE_EVS_SendEvent LC_EventID.LC_WDT_GETADDR_ERR_EID]) := by
  obtain ⟨hw0, hw4, hwmax, ha0, ha2, hamax, hwb, hab⟩ := hs
  obtain ⟨hlw, hla, hld, hlwp, hlap⟩ := hst
  obtain ⟨wrt, hwrun, hwl, hwpt⟩ := LC_ResetResultsWP_spec cfg 0 (cfg.LC_MAX_WATCHPOINTS - 1)
    false st.LC_OperData.WRTPtr (by omega) (by omega) (by omega)
  have pw := u32Pred_eq cfg.LC_MAX_WATCHPOINTS hw0 (by omega)
  unfold manageWDT
  rw [pw]
  by_cases w1 : env.WDT_GetAddress = cfg.CFE_TBL_INFO_UPDATED
  · simp only [call_OperData]
    rw [if_pos w1]
    rw [hwrun]
    refine ⟨_, _, rfl, ?_⟩
    rw [if_pos w1]
    simp [LC_State.call, LC_State.setWRT, manageCalls]
  · by_cases w2 : env.WDT_GetAddress = cfg.CFE_SUCCESS
    · dsimp only
      rw [if_neg w1, if_neg (fun h => h w2)]
      refine ⟨_, _, rfl, ?_⟩
      rw [if_neg w1, if_pos w2]
      simp [LC_State.call, manageCalls]
    · dsimp only
      rw [if_neg w1, if_pos w2]
      refine ⟨_, _, rfl, ?_⟩
      rw [if_neg w1, if_neg w2]
      simp [LC_State.call, LC_State.sendEvent, manageCalls]
/-- Packing adds one call: the housekeeping packet it has filled in is sent. -/
theorem packHousekeeping_calls (cfg : LC_Config) (st st' : LC_State)
    (h : packHousekeeping cfg st = some st') :
    st'.Calls = st.Calls ++ [LC_Call.CFE_SB_SendMsg st'.LC_OperData.HkPacket] := by
  unfold packHousekeeping at h
  dsimp only at h
  split at h
  · cases h
  · split at h
    · cases h
    · cases h
      rfl

/-- Table management makes exactly the calls of `manageTablesCalls`, in that order. -/
theorem LC_ManageTables_calls (cfg : LC_Config) (env : CFE_Env) (st : LC_State)
    (hs : cfg.SizesOK) (hst : st.Sized cfg)
    (henv : env.ADTPtr.length = cfg.LC_MAX_ACTIONPOINTS) :
    ∃ rc st', LC_ManageTables cfg env st = some (rc, st') ∧
      st'.Calls = st.Calls ++ manageTablesCalls cfg env := by
  obtain ⟨r, st1, hrun1, _, hsz1, _, _, _, hr⟩ := manageWDT_spec cfg env st hs hst
  obtain ⟨r', st1', hrun1', hc1⟩ := manageWDT_calls cfg env st hs hst
  rw [hrun1] at hrun1'
  cases hrun1'
  unfold manageTablesCalls
  by_cases hw : env.WDT_GetAddress = cfg.CFE_TBL_INFO_UPDATED ∨ env.WDT_GetAddress = cfg.CFE_SUCCESS
  · rw [if_pos hw] at hr
    subst hr
    obtain ⟨rc, st2, hrun2, hc2⟩ := manageADT_calls cfg env st1 hs hsz1 henv
    refine ⟨rc, st2, ?_, ?_⟩
    · unfold LC_ManageTables; rw [hrun1]; exact hrun2
    · rw [hc2, hc1, if_pos hw]
      simp only [List.append_assoc]
  · rw [if_neg hw] at hr
    subst hr
    refine ⟨env.WDT_GetAddress, st1, ?_, ?_⟩
    · unfold LC_ManageTables; rw [hrun1]
    · rw [hc1, if_neg hw]
      simp only [List.append_assoc, List.append_nil]

/-- The length check records at most an event; it never writes to the critical data
store. -/
theorem LC_VerifyMsgLength_calls (msg : CFE_SB_Msg) (n : Nat) (st : LC_State) :
    ∃ pre, (LC_VerifyMsgLength msg n st).2.Calls = st.Calls ++ pre ∧
      ∀ c ∈ pre, LC_Call.isCopyToCDS c = false := by
  unfold LC_VerifyMsgLength
  dsimp only
  split_ifs
  · exact ⟨[LC_Call.CFE_EVS_SendEvent LC_EventID.LC_HKREQ_LEN_ERR_EID], rfl, by simp [LC_Call.isCopyToCDS]⟩
  · exact ⟨[LC_Call.CFE_EVS_SendEvent LC_EventID.LC_APSAMPLE_LEN_ERR_EID], rfl, by simp [LC_Call.isCopyToCDS]⟩
  · exact ⟨[LC_Call.CFE_EVS_SendEvent LC_EventID.LC_LEN_ERR_EID], rfl, by simp [LC_Call.isCopyToCDS]⟩
  · exact ⟨[], by simp, by simp⟩

/-! ## The dispatcher and the critical data store update -/

/-- A sample request returns when the sampler of `lc_action.c` keeps the dimension of the
watchpoint results table. -/
theorem LC_SampleAPReq_total (cfg : LC_Config) (ext : LC_Externals) (msg : CFE_SB_Msg)
    (st : LC_State) (hl : st.LC_OperData.WRTPtr.length = cfg.LC_MAX_WATCHPOINTS)
    (hmax : cfg.LC_MAX_WATCHPOINTS ≤ 65535)
    (hext : ∀ (s e : Nat) (t : LC_State),
      (ext.LC_SampleAPs s e t).LC_OperData.WRTPtr.length = t.LC_OperData.WRTPtr.length) :
    ∃ st', LC_SampleAPReq cfg ext msg st = some st' := by
  by_cases hlen : msg.TotalMsgLength = u16 (sizeof_LC_SampleAP_t cfg)
  · by_cases hstate : st.LC_AppData.CurrentLCState = cfg.LC_STATE_DISABLED
    · exact ⟨_, LC_SampleAPReq_disabled cfg ext msg st hlen hstate⟩
    · by_cases hage : msg.UpdateAge ≠ 0 ∧ (sampleRange cfg ext msg st).1 = true
      · by_cases hrange : (msg.StartIndex = LC_ALL_ACTIONPOINTS ∧ msg.EndIndex = LC_ALL_ACTIONPOINTS) ∨
            (msg.StartIndex ≤ msg.EndIndex ∧ msg.EndIndex < cfg.LC_MAX_ACTIONPOINTS)
        · obtain ⟨_, s, e, hse⟩ := sampleRange_valid cfg ext msg st hrange
          refine ⟨_, LC_SampleAPReq_aging cfg ext msg st ⟨hlen, hrange, hage.1⟩ hstate ?_ hmax⟩
          rw [hse]
          unfold callSampleAPs
          rw [hext]
          exact hl
        · rw [sampleRange_rejected cfg ext msg st hrange] at hage
          exact absurd hage.2 (by simp)
      · exact ⟨_, LC_SampleAPReq_noaging cfg ext msg st hlen hstate hage⟩
  · exact ⟨_, LC_SampleAPReq_badlen cfg ext msg st hlen⟩

/-- Every message other than a housekeeping request makes `LC_AppPipe` return
`CFE_SUCCESS`. -/
theorem LC_AppPipe_other (cfg : LC_Config) (ext : LC_Externals) (env : CFE_Env)
    (msg : CFE_SB_Msg) (st : LC_State) (hs : cfg.SizesOK) (hst : st.Sized cfg)
    (hext : ∀ (s e : Nat) (t : LC_State),
      (ext.LC_SampleAPs s e t).LC_OperData.WRTPtr.length = t.LC_OperData.WRTPtr.length)
    (hmid : msg.MsgId ≠ LC_SEND_HK_MID) :
    ∃ st', LC_AppPipe cfg ext env msg st = some (cfg.CFE_SUCCESS, st') := by
  have hlw : st.LC_OperData.WRTPtr.length = cfg.LC_MAX_WATCHPOINTS := hst.1
  have hla : st.LC_OperData.ARTPtr.length = cfg.LC_MAX_ACTIONPOINTS := hst.2.1
  have hwmax : cfg.LC_MAX_WATCHPOINTS ≤ 65535 := by
    have := hs.2.2.1
    omega
  have hamax : cfg.LC_MAX_ACTIONPOINTS < 4294967296 := by
    have := hs.2.2.2.2.2.1
    omega
  have h1 := LC_SampleAPReq_total cfg ext msg st hlw hwmax hext
  have h2 := LC_SetAPStateCmd_total cfg msg st hla hamax
  have h3 := LC_SetAPPermOffCmd_total cfg msg st hla
  have h4 := LC_ResetAPStatsCmd_total cfg msg st hs hst
  have h5 := LC_ResetWPStatsCmd_total cfg msg st hs hst
  clear hs hst hext hlw hla hwmax hamax
  unfold LC_AppPipe
  dsimp only
  rw [if_neg hmid]
  split_ifs
  · obtain ⟨st', h⟩ := h1
    exact ⟨st', by rw [h]; rfl⟩
  · exact ⟨_, rfl⟩
  · exact ⟨_, rfl⟩
  · exact ⟨_, rfl⟩
  · obtain ⟨st', h, _⟩ := h2
    exact ⟨st', by rw [h]; rfl⟩
  · obtain ⟨st', h, _⟩ := h3
    exact ⟨st', by rw [h]; rfl⟩
  · obtain ⟨st', h, _⟩ := h4
    exact ⟨st', by rw [h]; rfl⟩
  · obtain ⟨st', h, _⟩ := h5
    exact ⟨st', by rw [h]; rfl⟩
  · exact ⟨_, rfl⟩
  · exact ⟨_, rfl⟩

/-- A housekeeping request goes through `LC_AppPipe` to `LC_HousekeepingReq`, whose result
is returned. -/
theorem LC_AppPipe_hk (cfg : LC_Config) (ext : LC_Externals) (env : CFE_Env)
    (msg : CFE_SB_Msg) (st : LC_State) (hmid : msg.MsgId = LC_SEND_HK_MID) :
    LC_AppPipe cfg ext env msg st = LC_HousekeepingReq cfg env msg st := by
  unfold LC_AppPipe
  dsimp only
  rw [if_neg (by rw [hmid]; decide), if_pos hmid]

/-- The critical data store update, call by call: nothing when the store is not active,
otherwise the calls of `LC_UpdateTaskCDS`; the flag is cleared exactly when that fails. -/
theorem updateCDS_eq (cfg : LC_Config) (env : CFE_Env) (st : LC_State) :
    (updateCDS cfg env st).Calls =
      (if st.LC_OperData.HaveActiveCDS = true then (LC_UpdateTaskCDS cfg env st).2.Calls
       else st.Calls) ∧
    (updateCDS cfg env st).LC_OperData.HaveActiveCDS =
      (st.LC_OperData.HaveActiveCDS &&
        decide ((LC_UpdateTaskCDS cfg env st).1 = cfg.CFE_SUCCESS)) := by
  unfold updateCDS
  dsimp only
  by_cases h : st.LC_OperData.HaveActiveCDS = true
  · rw [if_pos h, if_pos h]
    by_cases hr : (LC_UpdateTaskCDS cfg env st).1 = cfg.CFE_SUCCESS
    · rw [if_neg (fun hc => hc hr)]
      refine ⟨rfl, ?_⟩
      have hfr : (LC_UpdateTaskCDS cfg env st).2.LC_OperData = st.LC_OperData := by
        unfold LC_UpdateTaskCDS
        dsimp only
        split_ifs <;> rfl
      rw [hfr, h]
      simp [hr]
    · rw [if_pos hr]
      refine ⟨rfl, ?_⟩
      simp [hr]
  · rw [if_neg h, if_neg h]
    refine ⟨rfl, ?_⟩
    simp [Bool.not_eq_true] at h
    simp [h]

/-- The calls of `LC_UpdateTaskCDS` by case: each write is followed by the next one exactly
when it returned `CFE_SUCCESS`, and by its error event otherwise. -/
theorem LC_UpdateTaskCDS_cases (cfg : LC_Config) (env : CFE_Env) (st : LC_State) :
    (env.CopyToCDS_WRT ≠ cfg.CFE_SUCCESS →
      (LC_UpdateTaskCDS cfg env st).1 = env.CopyToCDS_WRT ∧
      (LC_UpdateTaskCDS cfg env st).2.Calls = st.Calls ++
        [LC_Call.CFE_ES_CopyToCDS_WRT st.LC_OperData.WRTPtr,
         LC_Call.CFE_EVS_SendEvent LC_EventID.LC_WRT_NO_SAVE_ERR_EID]) ∧
    (env.CopyToCDS_WRT = cfg.CFE_SUCCESS → env.CopyToCDS_ART ≠ cfg.CFE_SUCCESS →
      (LC_UpdateTaskCDS cfg env st).1 = env.CopyToCDS_ART ∧
      (LC_UpdateTaskCDS cfg env st).2.Calls = st.Calls ++
        [LC_Call.CFE_ES_CopyToCDS_WRT st.LC_OperData.WRTPtr,
         LC_Call.CFE_ES_CopyToCDS_ART st.LC_OperData.ARTPtr,
         LC_Call.CFE_EVS_SendEvent LC_EventID.LC_ART_NO_SAVE_ERR_EID]) ∧
    (env.CopyToCDS_WRT = cfg.CFE_SUCCESS → env.CopyToCDS_ART = cfg.CFE_SUCCESS →
      env.CopyToCDS_AppData ≠ cfg.CFE_SUCCESS →
      (LC_UpdateTaskCDS cfg env st).1 = env.CopyToCDS_AppData ∧
      (LC_UpdateTaskCDS cfg env st).2.Calls = st.Calls ++
        [LC_Call.CFE_ES_CopyToCDS_WRT st.LC_OperData.WRTPtr,
         LC_Call.CFE_ES_CopyToCDS_ART st.LC_OperData.ARTPtr,
         LC_Call.CFE_ES_CopyToCDS_AppData
           { st.LC_AppData with CDSSavedOnExit := cfg.LC_CDS_SAVED },
         LC_Call.CFE_EVS_SendEvent LC_EventID.LC_APP_NO_SAVE_START_ERR_EID]) ∧
    (env.CopyToCDS_WRT = cfg.CFE_SUCCESS → env.CopyToCDS_ART = cfg.CFE_SUCCESS →
      env.CopyToCDS_AppData = cfg.CFE_SUCCESS →
      (LC_UpdateTaskCDS cfg env st).1 = cfg.CFE_SUCCESS ∧
      (LC_UpdateTaskCDS cfg env st).2.Calls = st.Calls ++
        [LC_Call.CFE_ES_CopyToCDS_WRT st.LC_OperData.WRTPtr,
         LC_Call.CFE_ES_CopyToCDS_ART st.LC_OperData.ARTPtr,
         LC_Call.CFE_ES_CopyToCDS_AppData
           { st.LC_AppData with CDSSavedOnExit := cfg.LC_CDS_SAVED }]) := by
  refine ⟨?_, ?_, ?_, ?_⟩
  · intro h1
    unfold LC_UpdateTaskCDS
    dsimp only
    rw [if_pos h1]
    exact ⟨rfl, by simp [LC_State.sendEvent, LC_State.call]⟩
  · intro h1 h2
    unfold LC_UpdateTaskCDS
    dsimp only
    rw [if_neg (fun hc => hc h1), if_pos h2]
    exact ⟨rfl, by simp [LC_State.sendEvent, LC_State.call]⟩
  · intro h1 h2 h3
    unfold LC_UpdateTaskCDS
    dsimp only
    rw [if_neg (fun hc => hc h1), if_neg (fun hc => hc h2), if_pos h3]
    exact ⟨rfl, by simp [LC_State.sendEvent, LC_State.call]⟩
  · intro h1 h2 h3
    unfold LC_UpdateTaskCDS
    dsimp only
    rw [if_neg (fun hc => hc h1), if_neg (fun hc => hc h2), if_neg (fun hc => hc h3)]
    exact ⟨rfl, by simp [LC_State.call]⟩

/-- How often table management rebuilds the hash table and acquires each definition
table: the rebuild once exactly when the watchpoint definitions are reported updated, the
watchpoint definition table once, the actionpoint definition table once unless the
function has returned before. -/
theorem manageTablesCalls_count (cfg : LC_Config) (env : CFE_Env) :
    (manageTablesCalls cfg env).count LC_Call.LC_CreateHashTable =
      (if env.WDT_GetAddress = cfg.CFE_TBL_INFO_UPDATED then 1 else 0) ∧
    (manageTablesCalls cfg env).count (LC_Call.CFE_TBL_GetAddress LC_TableHandle.WDTHandle) = 1 ∧
    (manageTablesCalls cfg env).count (LC_Call.CFE_TBL_GetAddress LC_TableHandle.ADTHandle) =
      (if env.WDT_GetAddress = cfg.CFE_TBL_INFO_UPDATED ∨ env.WDT_GetAddress = cfg.CFE_SUCCESS
       then 1 else 0) := by
  unfold manageTablesCalls manageCalls
  refine ⟨?_, ?_, ?_⟩ <;> split_ifs <;> rfl

/-- Table management never writes to the critical data store. -/
theorem manageTablesCalls_noCDS (cfg : LC_Config) (env : CFE_Env) :
    ∀ c ∈ manageTablesCalls cfg env, LC_Call.isCopyToCDS c = false := by
  unfold manageTablesCalls manageCalls
  split_ifs <;> decide

/-- A housekeeping request, phase by phase.  The first part (length check and, for the
right length, packing and transmission of the packet) leaves the tables alone; table
management follows, with the return code, the tables and the calls of
`LC_ManageTables_spec` and `manageTablesCalls`; the critical data store update comes last
and only when table management returned `CFE_SUCCESS`. -/
theorem LC_HousekeepingReq_full (cfg : LC_Config) (env : CFE_Env) (msg : CFE_SB_Msg)
    (st : LC_State) (hs : cfg.SizesOK) (hst : st.Sized cfg)
    (henv : env.ADTPtr.length = cfg.LC_MAX_ACTIONPOINTS) :
    ∃ st1 rc st2 pre,
      (msg.TotalMsgLength = u16 (sizeof_LC_NoArgsCmd_t cfg) →
        packHousekeeping cfg st = some st1 ∧
        pre = [LC_Call.CFE_SB_SendMsg st1.LC_OperData.HkPacket]) ∧
      st1.Calls = st.Calls ++ pre ∧ (∀ c ∈ pre, LC_Call.isCopyToCDS c = false) ∧
      LC_ManageTables cfg env st1 = some (rc, st2) ∧
      rc = (if env.WDT_GetAddress = cfg.CFE_TBL_INFO_UPDATED ∨ env.WDT_GetAddress = cfg.CFE_SUCCESS
        then (if env.ADT_GetAddress = cfg.CFE_TBL_INFO_UPDATED ∨ env.ADT_GetAddress = cfg.CFE_SUCCESS
          then cfg.CFE_SUCCESS else env.ADT_GetAddress)
        else env.WDT_GetAddress) ∧
      (∀ i : Nat, st2.LC_OperData.WRTPtr[i]? =
        if env.WDT_GetAddress = cfg.CFE_TBL_INFO_UPDATED then
          st.LC_OperData.WRTPtr[i]?.map (resetWPEntry cfg false)
        else st.LC_OperData.WRTPtr[i]?) ∧
      (∀ i : Nat, st2.LC_OperData.ARTPtr[i]? =
        if (env.WDT_GetAddress = cfg.CFE_TBL_INFO_UPDATED ∨ env.WDT_GetAddress = cfg.CFE_SUCCESS)
            ∧ env.ADT_GetAddress = cfg.CFE_TBL_INFO_UPDATED then
          st.LC_OperData.ARTPtr[i]?.map (resetAPEntry cfg env.ADTPtr false i)
        else st.LC_OperData.ARTPtr[i]?) ∧
      st2.LC_OperData.HaveActiveCDS = st.LC_OperData.HaveActiveCDS ∧
      st2.LC_OperData.HkPacket = st1.LC_OperData.HkPacket ∧
      st2.Calls = st.Calls ++ pre ++ manageTablesCalls cfg env ∧
      LC_HousekeepingReq cfg env msg st =
        some (if rc ≠ cfg.CFE_SUCCESS then (rc, st2)
          else (cfg.CFE_SUCCESS, updateCDS cfg env st2)) := by
  have hv := LC_VerifyMsgLength_OperData msg (u16 (sizeof_LC_NoArgsCmd_t cfg)) st
  have hvs : (LC_VerifyMsgLength msg (u16 (sizeof_LC_NoArgsCmd_t cfg)) st).2.Sized cfg := by
    unfold LC_State.Sized
    rw [hv]
    exact hst
  have hpre : ∃ st1 pre, (if (LC_VerifyMsgLength msg (u16 (sizeof_LC_NoArgsCmd_t cfg)) st).1 = true
        then packHousekeeping cfg (LC_VerifyMsgLength msg (u16 (sizeof_LC_NoArgsCmd_t cfg)) st).2
        else some (LC_VerifyMsgLength msg (u16 (sizeof_LC_NoArgsCmd_t cfg)) st).2) = some st1 ∧
      (msg.TotalMsgLength = u16 (sizeof_LC_NoArgsCmd_t cfg) →
        packHousekeeping cfg st = some st1 ∧
        pre = [LC_Call.CFE_SB_SendMsg st1.LC_OperData.HkPacket]) ∧
      st1.Sized cfg ∧ st1.LC_OperData.WRTPtr = st.LC_OperData.WRTPtr ∧
      st1.LC_OperData.ARTPtr = st.LC_OperData.ARTPtr ∧
      st1.LC_OperData.HaveActiveCDS = st.LC_OperData.HaveActiveCDS ∧
      st1.Calls = st.Calls ++ pre ∧ ∀ c ∈ pre, LC_Call.isCopyToCDS c = false := by
    by_cases hlen : msg.TotalMsgLength = u16 (sizeof_LC_NoArgsCmd_t cfg)
    · rw [LC_VerifyMsgLength_ok msg _ st hlen]
      obtain ⟨st1, hp, _, hw, ha, _, hc, _, hsz, _⟩ := packHousekeeping_spec cfg st hs hst
      refine ⟨st1, [LC_Call.CFE_SB_SendMsg st1.LC_OperData.HkPacket], ?_, fun _ => ⟨hp, rfl⟩,
        hsz, hw, ha, hc, packHousekeeping_calls cfg st st1 hp, ?_⟩
      · simp only [if_true]; exact hp
      · intro c hc
        rw [List.mem_singleton.mp hc]; rfl
    · obtain ⟨pre, hpre, hno⟩ := LC_VerifyMsgLength_calls msg (u16 (sizeof_LC_NoArgsCmd_t cfg)) st
      refine ⟨_, pre, ?_, fun h => absurd h hlen, hvs, by rw [hv], by rw [hv], by rw [hv],
        hpre, hno⟩
      rw [LC_VerifyMsgLength_bad msg _ st hlen]
      rfl
  obtain ⟨st1, pre, hp, hpk, hsz1, hw1, ha1, hc1, hcalls1, hno⟩ := hpre
  obtain ⟨rc, st2, hm, hfr, _, hwrt, hart, hrc⟩ := LC_ManageTables_spec cfg env st1 hs hsz1 henv
  obtain ⟨rc', st2', hm', hcalls2⟩ := LC_ManageTables_calls cfg env st1 hs hsz1 henv
  rw [hm] at hm'
  cases hm'
  rw [hw1] at hwrt
  rw [ha1] at hart
  refine ⟨st1, rc, st2, pre, hpk, hcalls1, hno, hm, hrc, hwrt, hart, ?_, hfr.2.1, ?_, ?_⟩
  · rw [hfr.2.2.1, hc1]
  · rw [hcalls2, hcalls1]
  · unfold LC_HousekeepingReq
    simp only [hp, hm]
    by_cases hcode : rc = cfg.CFE_SUCCESS
    · rw [if_neg (fun h => h hcode), if_neg (fun h => h hcode)]
    · rw [if_pos hcode, if_pos hcode]

/-- The first call of `LC_UpdateTaskCDS` writes the watchpoint results table of the state
it is called in; when that write succeeds the next call writes the actionpoint results
table. -/
theorem LC_UpdateTaskCDS_calls (cfg : LC_Config) (env : CFE_Env) (st : LC_State) :
    ∃ rest, (LC_UpdateTaskCDS cfg env st).2.Calls =
        st.Calls ++ LC_Call.CFE_ES_CopyToCDS_WRT st.LC_OperData.WRTPtr :: rest ∧
      (env.CopyToCDS_WRT = cfg.CFE_SUCCESS →
        ∃ rest', rest = LC_Call.CFE_ES_CopyToCDS_ART st.LC_OperData.ARTPtr :: rest') := by
  obtain ⟨h1, h2, h3, h4⟩ := LC_UpdateTaskCDS_cases cfg env st
  by_cases c1 : env.CopyToCDS_WRT = cfg.CFE_SUCCESS
  · by_cases c2 : env.CopyToCDS_ART = cfg.CFE_SUCCESS
    · by_cases c3 : env.CopyToCDS_AppData = cfg.CFE_SUCCESS
      · exact ⟨_, (h4 c1 c2 c3).2, fun _ => ⟨_, rfl⟩⟩
      · exact ⟨_, (h3 c1 c2 c3).2, fun _ => ⟨_, rfl⟩⟩
    · exact ⟨_, (h2 c1 c2).2, fun _ => ⟨_, rfl⟩⟩
  · exact ⟨_, (h1 c1).2, fun h => absurd h c1⟩

/-! ## Persistence failures -/

/-- Table management reads the service answers only through the two address acquisitions
and the acquired actionpoint definition table. -/
theorem LC_ManageTables_congr (cfg : LC_Config) (env env' : CFE_Env) (st : LC_State)
    (h1 : env'.WDT_GetAddress = env.WDT_GetAddress)
    (h2 : env'.ADT_GetAddress = env.ADT_GetAddress) (h3 : env'.ADTPtr = env.ADTPtr) :
    LC_ManageTables cfg env' st = LC_ManageTables cfg env st := by
  unfold LC_ManageTables manageWDT manageADT
  rw [h1, h2, h3]

/-- The critical data store update changes, of the application data, at most the
saved-on-exit marker, and keeps everything of the operational data but the flag. -/
theorem updateCDS_AppData (cfg : LC_Config) (env : CFE_Env) (st : LC_State) :
    ((updateCDS cfg env st).LC_AppData = st.LC_AppData ∨
      (updateCDS cfg env st).LC_AppData =
        { st.LC_AppData with CDSSavedOnExit := cfg.LC_CDS_SAVED }) ∧
    (updateCDS cfg env st).LC_OperData =
      { st.LC_OperData with HaveActiveCDS := (updateCDS cfg env st).LC_OperData.HaveActiveCDS } := by
  unfold updateCDS LC_UpdateTaskCDS
  dsimp only
  split_ifs <;> first | exact ⟨Or.inl rfl, rfl⟩ | exact ⟨Or.inr rfl, rfl⟩

/-- The first part of a housekeeping request, up to the call of `LC_ManageTables`, returns
a state with tables of the declared dimensions; it does not consult the services. -/
theorem hkPrefix_total (cfg : LC_Config) (msg : CFE_SB_Msg) (st : LC_State)
    (hs : cfg.SizesOK) (hst : st.Sized cfg) :
    ∃ st1, (if (LC_VerifyMsgLength msg (u16 (sizeof_LC_NoArgsCmd_t cfg)) st).1 = true
        then packHousekeeping cfg (LC_VerifyMsgLength msg (u16 (sizeof_LC_NoArgsCmd_t cfg)) st).2
        else some (LC_VerifyMsgLength msg (u16 (sizeof_LC_NoArgsCmd_t cfg)) st).2) = some st1 ∧
      st1.Sized cfg := by
  have hv := LC_VerifyMsgLength_OperData msg (u16 (sizeof_LC_NoArgsCmd_t cfg)) st
  have hvs : (LC_VerifyMsgLength msg (u16 (sizeof_LC_NoArgsCmd_t cfg)) st).2.Sized cfg := by
    unfold LC_State.Sized
    rw [hv]
    exact hst
  split_ifs
  · obtain ⟨st1, hp, _, _, _, _, _, _, hsz, _⟩ := packHousekeeping_spec cfg _ hs hvs
    exact ⟨st1, hp, hsz⟩
  · exact ⟨_, rfl, hvs⟩

/-- Two housekeeping requests on the same state that get the same answers from table
services run alike up to the critical data store update. -/
theorem LC_HousekeepingReq_pair (cfg : LC_Config) (env env' : CFE_Env) (msg : CFE_SB_Msg)
    (st : LC_State) (hs : cfg.SizesOK) (hst : st.Sized cfg)
    (henv : env.ADTPtr.length = cfg.LC_MAX_ACTIONPOINTS)
    (h1 : env'.WDT_GetAddress = env.WDT_GetAddress)
    (h2 : env'.ADT_GetAddress = env.ADT_GetAddress) (h3 : env'.ADTPtr = env.ADTPtr) :
    ∃ rc sb,
      rc = (if env.WDT_GetAddress = cfg.CFE_TBL_INFO_UPDATED ∨ env.WDT_GetAddress = cfg.CFE_SUCCESS
        then (if env.ADT_GetAddress = cfg.CFE_TBL_INFO_UPDATED ∨ env.ADT_GetAddress = cfg.CFE_SUCCESS
          then cfg.CFE_SUCCESS else env.ADT_GetAddress)
        else env.WDT_GetAddress) ∧
      LC_HousekeepingReq cfg env msg st =
        some (if rc ≠ cfg.CFE_SUCCESS then (rc, sb)
          else (cfg.CFE_SUCCESS, updateCDS cfg env sb)) ∧
      LC_HousekeepingReq cfg env' msg st =
        some (if rc ≠ cfg.CFE_SUCCESS then (rc, sb)
          else (cfg.CFE_SUCCESS, updateCDS cfg env' sb)) := by
  obtain ⟨st1, hp, hsz1⟩ := hkPrefix_total cfg msg st hs hst
  obtain ⟨rc, sb, hm, _, _, _, _, hrc⟩ := LC_ManageTables_spec cfg env st1 hs hsz1 henv
  have hm' := LC_ManageTables_congr cfg env env' st1 h1 h2 h3
  rw [hm] at hm'
  refine ⟨rc, sb, hrc, ?_, ?_⟩
  · unfold LC_HousekeepingReq
    simp only [hp, hm]
    by_cases hcode : rc = cfg.CFE_SUCCESS
    · rw [if_neg (fun h => h hcode), if_neg (fun h => h hcode)]
    · rw [if_pos hcode, if_pos hcode]
  · unfold LC_HousekeepingReq
    simp only [hp, hm']
    by_cases hcode : rc = cfg.CFE_SUCCESS
    · rw [if_neg (fun h => h hcode), if_neg (fun h => h hcode)]
    · rw [if_pos hcode, if_pos hcode]

/-- A housekeeping request of the right length returns with the packet that packing the
incoming state produces; sending that packet is the first call it makes. -/
theorem LC_HousekeepingReq_packet (cfg : LC_Config) (env : CFE_Env) (msg : CFE_SB_Msg)
    (st : LC_State) (hs : cfg.SizesOK) (hst : st.Sized cfg)
    (henv : env.ADTPtr.length = cfg.LC_MAX_ACTIONPOINTS)
    (hlen : msg.TotalMsgLength = u16 (sizeof_LC_NoArgsCmd_t cfg)) :
    ∃ st1 rc st', packHousekeeping cfg st = some st1 ∧
      LC_HousekeepingReq cfg env msg st = some (rc, st') ∧
      st'.LC_OperData.HkPacket = st1.LC_OperData.HkPacket ∧
      ∃ rest, st'.Calls =
        st.Calls ++ LC_Call.CFE_SB_SendMsg st1.LC_OperData.HkPacket :: rest := by
  obtain ⟨st1, rc, st2, pre, hpk, _, _, _, _, _, _, hcds, hpkt, hcalls, hrun⟩ :=
    LC_HousekeepingReq_full cfg env msg st hs hst henv
  obtain ⟨hp, hpre⟩ := hpk hlen
  subst hpre
  by_cases hrc : rc = cfg.CFE_SUCCESS
  · rw [if_neg (fun h => h hrc)] at hrun
    refine ⟨st1, cfg.CFE_SUCCESS, updateCDS cfg env st2, hp, hrun,
      by rw [(updateCDS_frame cfg env st2).1, hpkt], ?_⟩
    by_cases hactive : st2.LC_OperData.HaveActiveCDS = true
    · obtain ⟨rest, hrest, _⟩ := LC_UpdateTaskCDS_calls cfg env st2
      refine ⟨manageTablesCalls cfg env ++
        LC_Call.CFE_ES_CopyToCDS_WRT st2.LC_OperData.WRTPtr :: rest, ?_⟩
      rw [(updateCDS_eq cfg env st2).1, if_pos hactive, hrest, hcalls]
      simp
    · refine ⟨manageTablesCalls cfg env, ?_⟩
      rw [(updateCDS_eq cfg env st2).1, if_neg hactive, hcalls]
      simp
  · rw [if_pos hrc] at hrun
    refine ⟨st1, rc, st2, hp, hrun, hpkt, manageTablesCalls cfg env, ?_⟩
    rw [hcalls]
    simp

/-! ## States reported as not used -/

/-- Counting is determined by the values of the predicate, position by position. -/
theorem countP_congr_getElem {α : Type} (p : α → Bool) (xs ys : List α)
    (hl : xs.length = ys.length)
    (h : ∀ (i : Nat) (a b : α), xs[i]? = some a → ys[i]? = some b → p a = p b) :
    xs.countP p = ys.countP p := by
  induction xs generalizing ys with
  | nil =>
    cases ys with
    | nil => rfl
    | cons y ys => simp at hl
  | cons x xs ih =>
    cases ys with
    | nil => simp at hl
    | cons y ys =>
      have hxy : p x = p y := h 0 x y (by simp) (by simp)
      have htail : xs.countP p = ys.countP p := by
        apply ih ys (by simpa using hl)
        intro i a b ha hb
        exact h (i + 1) a b (by simpa using ha) (by simpa using hb)
      simp only [List.countP_cons, hxy, htail]

/-- The housekeeping `switch` on a `CurrentState` reports "not used" both for
`LC_ACTION_NOT_USED` and for a state that is permanently off or unknown, and counts
neither as active. -/
theorem stateCode_notUsed (cfg : LC_Config) (hl : cfg.LabelsDistinct) (s : Nat)
    (h : s = cfg.LC_ACTION_NOT_USED ∨ permOffOrUnknown cfg s) :
    stateCode cfg s = cfg.LC_HKAR_STATE_NOT_USED ∧
    ¬ (s ≠ cfg.LC_ACTION_NOT_USED ∧ s = cfg.LC_APSTATE_ACTIVE) := by
  obtain ⟨_, hst, _⟩ := hl
  simp only [List.nodup_cons, List.mem_cons, List.mem_singleton, not_or, List.not_mem_nil,
    not_false_eq_true, List.nodup_nil, and_true] at hst
  obtain ⟨⟨n1, n2, n3, n4⟩, ⟨a1, a2, a3⟩, ⟨p1, p2⟩, d1⟩ := hst
  unfold stateCode switchAPState
  rcases h with h | h | ⟨h1, h2, h3, h4⟩
  · subst h
    rw [if_pos rfl]
    exact ⟨rfl, fun hc => hc.1 rfl⟩
  · subst h
    rw [if_neg (fun hc => n4 hc.symm), if_neg (fun hc => a3 hc.symm),
      if_neg (fun hc => p2 hc.symm), if_neg (fun hc => d1 hc.symm)]
    exact ⟨rfl, fun hc => a3 hc.2.symm⟩
  · rw [if_neg h1, if_neg h2, if_neg h3, if_neg h4]
    exact ⟨rfl, fun hc => h2 hc.2⟩

/-- Aliased records have the same housekeeping codes and count alike. -/
theorem notUsedAlias_codes (cfg : LC_Config) (hl : cfg.LabelsDistinct) (a b : LC_ARTEntry_t)
    (h : notUsedAlias cfg a b) :
    stateCode cfg a.CurrentState = stateCode cfg b.CurrentState ∧
    a.ActionResult = b.ActionResult ∧ countsActive cfg a = countsActive cfg b := by
  rcases h with h | ⟨hb, hcase⟩
  · subst h; exact ⟨rfl, rfl, rfl⟩
  · have hres : a.ActionResult = b.ActionResult := by rw [hb]
    have ha : a.CurrentState = cfg.LC_ACTION_NOT_USED ∨ permOffOrUnknown cfg a.CurrentState := by
      rcases hcase with ⟨h1, _⟩ | ⟨_, h2⟩
      · exact Or.inl h1
      · exact Or.inr h2
    have hb' : b.CurrentState = cfg.LC_ACTION_NOT_USED ∨ permOffOrUnknown cfg b.CurrentState := by
      rcases hcase with ⟨_, h2⟩ | ⟨h1, _⟩
      · exact Or.inr h2
      · exact Or.inl h1
    obtain ⟨ca, na⟩ := stateCode_notUsed cfg hl a.CurrentState ha
    obtain ⟨cb, nb⟩ := stateCode_notUsed cfg hl b.CurrentState hb'
    refine ⟨by rw [ca, cb], hres, ?_⟩
    unfold countsActive
    rw [decide_eq_false na, decide_eq_false nb]

/-! ## Evaluation of an actionpoint and verdict of a watchpoint -/

/-- The record of `id` after `applyVerdict`. -/
theorem applyVerdict_get (cfg : LC_Config) (maxAge id verdict v t u : Nat)
    (WRT : List LC_WRTEntry_t) (e : LC_WRTEntry_t) (h : WRT[id]? = some e) :
    (applyVerdict cfg maxAge id verdict v t u WRT)[id]? =
      some (applyVerdictEntry cfg maxAge verdict v t u e) := by
  have hlt : id < WRT.length := by
    by_contra hc
    rw [List.getElem?_eq_none (by omega)] at h
    cases h
  unfold applyVerdict
  simp only [h]
  rw [List.getElem?_set]
  simp [hlt]

/-- A False verdict: the verdict is stored, `FalseToTrueCount` is kept, and
`ConsecutiveTrueCount` is 0 when the record was true. -/
theorem applyVerdictEntry_false (cfg : LC_Config) (maxAge v t u : Nat) (e : LC_WRTEntry_t)
    (hne : cfg.LC_WATCH_FALSE ≠ cfg.LC_WATCH_TRUE) :
    (applyVerdictEntry cfg maxAge cfg.LC_WATCH_FALSE v t u e).WatchResult
      = cfg.LC_WATCH_FALSE ∧
    (applyVerdictEntry cfg maxAge cfg.LC_WATCH_FALSE v t u e).FalseToTrueCount
      = e.FalseToTrueCount ∧
    (e.WatchResult = cfg.LC_WATCH_TRUE →
      (applyVerdictEntry cfg maxAge cfg.LC_WATCH_FALSE v t u e).ConsecutiveTrueCount = 0) := by
  unfold applyVerdictEntry
  by_cases h : e.WatchResult = cfg.LC_WATCH_TRUE
  · simp [hne, h]
  · simp [hne, h]

/-- A True verdict on a record that was false: the verdict is stored and
`FalseToTrueCount` is incremented. -/
theorem applyVerdictEntry_true (cfg : LC_Config) (maxAge v t u : Nat) (e : LC_WRTEntry_t)
    (h : e.WatchResult = cfg.LC_WATCH_FALSE) :
    (applyVerdictEntry cfg maxAge cfg.LC_WATCH_TRUE v t u e).WatchResult
      = cfg.LC_WATCH_TRUE ∧
    (applyVerdictEntry cfg maxAge cfg.LC_WATCH_TRUE v t u e).FalseToTrueCount
      = u32 (e.FalseToTrueCount + 1) := by
  unfold applyVerdictEntry
  simp [h]

/-! ## Frame conditions of the handlers -/

theorem Frame_refl (cfg : LC_Config) (st : LC_State) : Frame cfg st st :=
  ⟨rfl, rfl, id, [], by simp, by simp⟩

theorem Frame_trans {cfg : LC_Config} {a b c : LC_State} (h1 : Frame cfg a b)
    (h2 : Frame cfg b c) : Frame cfg a c := by
  obtain ⟨m1, f1, s1, more1, c1, n1⟩ := h1
  obtain ⟨m2, f2, s2, more2, c2, n2⟩ := h2
  refine ⟨m2.trans m1, f2.trans f1, fun h => s2 (s1 h), more1 ++ more2, ?_, ?_⟩
  · rw [c2, c1, List.append_assoc]
  · intro c hc
    rcases List.mem_append.mp hc with h | h
    · exact n1 c h
    · exact n2 c h

theorem Frame_call (cfg : LC_Config) (st : LC_State) (c : LC_Call)
    (hc : LC_Call.isCopyToCDS c = false) : Frame cfg st (st.call c) :=
  ⟨rfl, rfl, id, [c], rfl, by intro x hx; rw [List.mem_singleton.mp hx]; exact hc⟩

theorem Frame_sendEvent (cfg : LC_Config) (st : LC_State) (e : LC_EventID) :
    Frame cfg st (st.sendEvent e) :=
  Frame_call cfg st _ rfl

theorem Frame_incCmdCount (cfg : LC_Config) (st : LC_State) : Frame cfg st st.incCmdCount :=
  ⟨rfl, rfl, id, [], by simp [LC_State.incCmdCount], by simp⟩

theorem Frame_incCmdErrCount (cfg : LC_Config) (st : LC_State) :
    Frame cfg st st.incCmdErrCount :=
  ⟨rfl, rfl, id, [], by simp [LC_State.incCmdErrCount], by simp⟩

theorem Frame_setART (cfg : LC_Config) (st : LC_State) (art : List LC_ARTEntry_t)
    (h : art.length = st.LC_OperData.ARTPtr.length) : Frame cfg st (st.setART art) :=
  ⟨rfl, rfl, fun ⟨a, b, c, d, e⟩ => ⟨a, by rw [setART_ARTPtr, h, b], c, d, e⟩, [],
    by simp [LC_State.setART], by simp⟩

theorem Frame_setWRT (cfg : LC_Config) (st : LC_State) (wrt : List LC_WRTEntry_t)
    (h : wrt.length = st.LC_OperData.WRTPtr.length) : Frame cfg st (st.setWRT wrt) :=
  ⟨rfl, rfl, fun ⟨a, b, c, d, e⟩ => ⟨by rw [setWRT_WRTPtr, h, a], b, c, d, e⟩, [],
    by simp [LC_State.setWRT], by simp⟩

/-- The length check keeps the frame. -/
theorem Frame_verify (cfg : LC_Config) (msg : CFE_SB_Msg) (n : Nat) (st : LC_State) :
    Frame cfg st (LC_VerifyMsgLength msg n st).2 := by
  unfold LC_VerifyMsgLength
  dsimp only
  split_ifs
  · exact Frame_sendEvent cfg st _
  · exact Frame_sendEvent cfg st _
  · exact Frame_trans (Frame_sendEvent cfg st _) (Frame_incCmdErrCount cfg _)
  · exact Frame_refl cfg st

/-- A loop over a table whose body keeps the length of the table keeps it. -/
theorem forLoop_length {α : Type} (cond : Nat → Bool) (next : Nat → Nat)
    (body : Nat → List α → Option (List α))
    (hbody : ∀ (i : Nat) (s s' : List α), body i s = some s' → s'.length = s.length)
    (fuel i : Nat) (s s' : List α) (h : forLoop cond next body fuel i s = some s') :
    s'.length = s.length := by
  induction fuel generalizing i s with
  | zero => simp [forLoop] at h
  | succ fuel ih =>
    rw [forLoop] at h
    by_cases hc : cond i = true
    · rw [if_pos hc] at h
      cases hb : body i s with
      | none => rw [hb] at h; cases h
      | some s1 =>
        rw [hb] at h
        rw [ih _ _ h, hbody i s s1 hb]
    · rw [if_neg hc] at h
      cases h
      rfl

theorem arrayWrite_length {α : Type} (xs ys : List α) (i : Nat) (v : α)
    (h : arrayWrite xs i v = some ys) : ys.length = xs.length := by
  unfold arrayWrite at h
  split_ifs at h
  cases h
  simp

theorem ageBody_length (cfg : LC_Config) (i : Nat) (s s' : List LC_WRTEntry_t)
    (h : ageBody cfg i s = some s') : s'.length = s.length := by
  unfold ageBody at h
  split at h
  · cases h
  · dsimp only at h
    split_ifs at h
    · exact arrayWrite_length _ _ _ _ h
    · exact arrayWrite_length _ _ _ _ h
    · cases h; rfl

theorem setAllBody_length (cfg : LC_Config) (n i : Nat) (s s' : List LC_ARTEntry_t)
    (h : setAllBody cfg n i s = some s') : s'.length = s.length := by
  unfold setAllBody at h
  split at h
  · cases h
  · dsimp only at h
    split_ifs at h
    · exact arrayWrite_length _ _ _ _ h
    · cases h; rfl

theorem resetAPBody_length (cfg : LC_Config) (ADT : List LC_ADTEntry_t) (b : Bool) (i : Nat)
    (s s' : List LC_ARTEntry_t) (h : resetAPBody cfg ADT b i s = some s') :
    s'.length = s.length := by
  unfold resetAPBody at h
  split at h
  · cases h
  · dsimp only at h
    split at h
    · cases h
    · exact arrayWrite_length _ _ _ _ h

theorem resetWPBody_length (cfg : LC_Config) (b : Bool) (i : Nat)
    (s s' : List LC_WRTEntry_t) (h : resetWPBody cfg b i s = some s') :
    s'.length = s.length := by
  unfold resetWPBody at h
  split at h
  · cases h
  · exact arrayWrite_length _ _ _ _ h

/-- The reset of actionpoint results keeps the dimension of the table. -/
theorem LC_ResetResultsAP_length (cfg : LC_Config) (ADT : List LC_ADTEntry_t) (s e : Nat)
    (b : Bool) (ART ART' : List LC_ARTEntry_t)
    (h : LC_ResetResultsAP cfg ADT s e b ART = some ART') : ART'.length = ART.length :=
  forLoop_length _ _ _ (resetAPBody_length cfg ADT b) _ _ _ _ h

/-- The reset of watchpoint results keeps the dimension of the table. -/
theorem LC_ResetResultsWP_length (cfg : LC_Config) (s e : Nat) (b : Bool)
    (WRT WRT' : List LC_WRTEntry_t)
    (h : LC_ResetResultsWP cfg s e b WRT = some WRT') : WRT'.length = WRT.length :=
  forLoop_length _ _ _ (resetWPBody_length cfg b) _ _ _ _ h

theorem setAllAPState_length (cfg : LC_Config) (n : Nat) (ART ART' : List LC_ARTEntry_t)
    (h : setAllAPState cfg n ART = some ART') : ART'.length = ART.length :=
  forLoop_length _ _ _ (setAllBody_length cfg n) _ _ _ _ h

theorem ageWatchpoints_length (cfg : LC_Config) (WRT WRT' : List LC_WRTEntry_t)
    (h : ageWatchpoints cfg WRT = some WRT') : WRT'.length = WRT.length :=
  forLoop_length _ _ _ (ageBody_length cfg) _ _ _ _ h

/-- The target part of the actionpoint stats reset keeps the frame. -/
theorem resetAPStatsTarget_frame (cfg : LC_Config) (msg : CFE_SB_Msg) (st : LC_State) :
    ∀ r : Bool × LC_State, resetAPStatsTarget cfg msg st = some r → Frame cfg st r.2 := by
  unfold resetAPStatsTarget
  by_cases hall : msg.APNumber = LC_ALL_ACTIONPOINTS
  · rw [if_pos hall]
    generalize hloop : LC_ResetResultsAP cfg st.LC_OperData.ADTPtr 0
      (u32Pred cfg.LC_MAX_ACTIONPOINTS) true st.LC_OperData.ARTPtr = res
    cases res with
    | none => intro r h; cases h
    | some art =>
      intro r h
      cases h
      exact Frame_setART cfg st art (LC_ResetResultsAP_length _ _ _ _ _ _ _ hloop)
  · rw [if_neg hall]
    by_cases hn : msg.APNumber < cfg.LC_MAX_ACTIONPOINTS
    · rw [if_pos hn]
      generalize hloop : LC_ResetResultsAP cfg st.LC_OperData.ADTPtr msg.APNumber
        msg.APNumber true st.LC_OperData.ARTPtr = res
      cases res with
      | none => intro r h; cases h
      | some art =>
        intro r h
        cases h
        exact Frame_setART cfg st art (LC_ResetResultsAP_length _ _ _ _ _ _ _ hloop)
    · rw [if_neg hn]
      intro r h
      cases h
      exact Frame_trans (Frame_incCmdErrCount cfg st) (Frame_sendEvent cfg _ _)

/-- The target part of the watchpoint stats reset keeps the frame. -/
theorem resetWPStatsTarget_frame (cfg : LC_Config) (msg : CFE_SB_Msg) (st : LC_State) :
    ∀ r : Bool × LC_State, resetWPStatsTarget cfg msg st = some r → Frame cfg st r.2 := by
  unfold resetWPStatsTarget
  by_cases hall : msg.WPNumber = LC_ALL_WATCHPOINTS
  · rw [if_pos hall]
    generalize hloop : LC_ResetResultsWP cfg 0 (u32Pred cfg.LC_MAX_WATCHPOINTS) true
      st.LC_OperData.WRTPtr = res
    cases res with
    | none => intro r h; cases h
    | some wrt =>
      intro r h
      cases h
      exact Frame_setWRT cfg st wrt (LC_ResetResultsWP_length _ _ _ _ _ _ hloop)
  · rw [if_neg hall]
    by_cases hn : msg.WPNumber < cfg.LC_MAX_WATCHPOINTS
    · rw [if_pos hn]
      generalize hloop : LC_ResetResultsWP cfg msg.WPNumber msg.WPNumber true
        st.LC_OperData.WRTPtr = res
      cases res with
      | none => intro r h; cases h
      | some wrt =>
        intro r h
        cases h
        exact Frame_setWRT cfg st wrt (LC_ResetResultsWP_length _ _ _ _ _ _ hloop)
    · rw [if_neg hn]
      intro r h
      cases h
      exact Frame_trans (Frame_incCmdErrCount cfg st) (Frame_sendEvent cfg _ _)

/-- The target part of the set-state command keeps the frame. -/
theorem setAPStateTarget_frame (cfg : LC_Config) (msg : CFE_SB_Msg) (st : LC_State) :
    ∀ r : Bool × LC_State, setAPStateTarget cfg msg st = some r → Frame cfg st r.2 := by
  unfold setAPStateTarget
  by_cases hall : msg.APNumber = LC_ALL_ACTIONPOINTS
  · rw [if_pos hall]
    generalize hloop : setAllAPState cfg msg.NewAPState st.LC_OperData.ARTPtr = res
    cases res with
    | none => intro r h; cases h
    | some art =>
      intro r h
      cases h
      exact Frame_setART cfg st art (setAllAPState_length _ _ _ _ hloop)
  · rw [if_neg hall]
    by_cases hn : msg.APNumber < cfg.LC_MAX_ACTIONPOINTS
    · rw [if_pos hn]
      dsimp only
      cases hrec : st.LC_OperData.ARTPtr[msg.APNumber]? with
      | none => intro r h; cases h
      | some e =>
        dsimp only
        by_cases hcur : e.CurrentState ≠ cfg.LC_ACTION_NOT_USED ∧
            e.CurrentState ≠ cfg.LC_APSTATE_PERMOFF
        · rw [if_pos hcur]
          generalize hw : arrayWrite st.LC_OperData.ARTPtr msg.APNumber
            { e with CurrentState := msg.NewAPState } = res
          cases res with
          | none => intro r h; cases h
          | some art =>
            intro r h
            cases h
            exact Frame_setART cfg st art (arrayWrite_length _ _ _ _ hw)
        · rw [if_neg hcur]
          intro r h
          cases h
          exact Frame_trans (Frame_sendEvent cfg st _) (Frame_incCmdErrCount cfg _)
    · rw [if_neg hn]
      intro r h
      cases h
      exact Frame_trans (Frame_sendEvent cfg st _) (Frame_incCmdErrCount cfg _)

/-- The success bookkeeping of a command keeps the frame. -/
theorem Frame_counted (cfg : LC_Config) (st s st' : LC_State) (b : Bool) (e : LC_EventID)
    (hs : Frame cfg st s)
    (h : (if b = true then some (s.incCmdCount.sendEvent e) else some s) = some st') :
    Frame cfg st st' := by
  split_ifs at h
  · cases h
    exact Frame_trans hs (Frame_trans (Frame_incCmdCount cfg s) (Frame_sendEvent cfg _ _))
  · cases h
    exact hs

/-- The actionpoint stats-reset command keeps the frame. -/
theorem LC_ResetAPStatsCmd_frame (cfg : LC_Config) (msg : CFE_SB_Msg) (st st' : LC_State)
    (h : LC_ResetAPStatsCmd cfg msg st = some st') : Frame cfg st st' := by
  have hv := Frame_verify cfg msg (u16 (sizeof_LC_TwoWordCmd_t cfg)) st
  unfold LC_ResetAPStatsCmd at h
  dsimp only at h
  split_ifs at h
  · cases htar : resetAPStatsTarget cfg msg
        (LC_VerifyMsgLength msg (u16 (sizeof_LC_TwoWordCmd_t cfg)) st).2 with
    | none => rw [htar] at h; cases h
    | some r =>
      obtain ⟨b, s⟩ := r
      rw [htar] at h
      exact Frame_counted cfg st s st' b _
        (Frame_trans hv (resetAPStatsTarget_frame cfg msg _ _ htar)) h
  · cases h; exact hv

/-- The watchpoint stats-reset command keeps the frame. -/
theorem LC_ResetWPStatsCmd_frame (cfg : LC_Config) (msg : CFE_SB_Msg) (st st' : LC_State)
    (h : LC_ResetWPStatsCmd cfg msg st = some st') : Frame cfg st st' := by
  have hv := Frame_verify cfg msg (u16 (sizeof_LC_TwoWordCmd_t cfg)) st
  unfold LC_ResetWPStatsCmd at h
  dsimp only at h
  split_ifs at h
  · cases htar : resetWPStatsTarget cfg msg
        (LC_VerifyMsgLength msg (u16 (sizeof_LC_TwoWordCmd_t cfg)) st).2 with
    | none => rw [htar] at h; cases h
    | some r =>
      obtain ⟨b, s⟩ := r
      rw [htar] at h
      exact Frame_counted cfg st s st' b _
        (Frame_trans hv (resetWPStatsTarget_frame cfg msg _ _ htar)) h
  · cases h; exact hv

/-- The set-state command keeps the frame. -/
theorem LC_SetAPStateCmd_frame (cfg : LC_Config) (msg : CFE_SB_Msg) (st st' : LC_State)
    (h : LC_SetAPStateCmd cfg msg st = some st') : Frame cfg st st' := by
  have hv := Frame_verify cfg msg (u16 (sizeof_LC_TwoWordCmd_t cfg)) st
  unfold LC_SetAPStateCmd at h
  dsimp only at h
  split_ifs at h
  · cases htar : setAPStateTarget cfg msg
        (LC_VerifyMsgLength msg (u16 (sizeof_LC_TwoWordCmd_t cfg)) st).2 with
    | none => rw [htar] at h; cases h
    | some r =>
      obtain ⟨b, s⟩ := r
      rw [htar] at h
      exact Frame_counted cfg st s st' b _
        (Frame_trans hv (setAPStateTarget_frame cfg msg _ _ htar)) h
  · cases h
    exact Frame_trans hv (Frame_trans (Frame_sendEvent cfg _ _) (Frame_incCmdErrCount cfg _))
  · cases h; exact hv

/-- The set-permanently-off command keeps the frame. -/
theorem LC_SetAPPermOffCmd_frame (cfg : LC_Config) (msg : CFE_SB_Msg) (st st' : LC_State)
    (h : LC_SetAPPermOffCmd cfg msg st = some st') : Frame cfg st st' := by
  have hv := Frame_verify cfg msg (u16 (sizeof_LC_TwoWordCmd_t cfg)) st
  unfold LC_SetAPPermOffCmd at h
  dsimp only at h
  split_ifs at h
  · cases h
    exact Frame_trans hv (Frame_trans (Frame_sendEvent cfg _ _) (Frame_incCmdErrCount cfg _))
  · cases hrec : (LC_VerifyMsgLength msg (u16 (sizeof_LC_TwoWordCmd_t cfg))
        st).2.LC_OperData.ARTPtr[msg.APNumber]? with
    | none => rw [hrec] at h; cases h
    | some e =>
      rw [hrec] at h
      dsimp only at h
      split_ifs at h
      · cases h
        exact Frame_trans hv
          (Frame_trans (Frame_sendEvent cfg _ _) (Frame_incCmdErrCount cfg _))
      · cases hw : arrayWrite (LC_VerifyMsgLength msg (u16 (sizeof_LC_TwoWordCmd_t cfg))
            st).2.LC_OperData.ARTPtr msg.APNumber
            { e with CurrentState := cfg.LC_APSTATE_PERMOFF } with
        | none => rw [hw] at h; cases h
        | some art =>
          rw [hw] at h
          cases h
          exact Frame_trans hv (Frame_trans (Frame_setART cfg _ art (arrayWrite_length _ _ _ _ hw))
            (Frame_trans (Frame_incCmdCount cfg _) (Frame_sendEvent cfg _ _)))
  · cases h; exact hv

/-- The no-op command keeps the frame. -/
theorem LC_NoopCmd_frame (cfg : LC_Config) (msg : CFE_SB_Msg) (st : LC_State) :
    Frame cfg st (LC_NoopCmd cfg msg st) := by
  have hv := Frame_verify cfg msg (u16 (sizeof_LC_NoArgsCmd_t cfg)) st
  unfold LC_NoopCmd
  dsimp only
  split_ifs
  · exact Frame_trans hv (Frame_trans (Frame_incCmdCount cfg _) (Frame_sendEvent cfg _ _))
  · exact hv

/-- The counter reset keeps the frame. -/
theorem LC_ResetCmd_frame (cfg : LC_Config) (msg : CFE_SB_Msg) (st : LC_State) :
    Frame cfg st (LC_ResetCmd cfg msg st) := by
  have hv := Frame_verify cfg msg (u16 (sizeof_LC_NoArgsCmd_t cfg)) st
  have hr : ∀ s : LC_State, Frame cfg s (LC_ResetCounters s) :=
    fun s => ⟨rfl, rfl, id, [], by simp [LC_ResetCounters], by simp⟩
  unfold LC_ResetCmd
  dsimp only
  split_ifs
  · exact Frame_trans hv (Frame_trans (hr _) (Frame_sendEvent cfg _ _))
  · exact hv

/-- The length check leaves the command counter alone and the mode. -/
theorem LC_VerifyMsgLength_CmdCount (msg : CFE_SB_Msg) (n : Nat) (st : LC_State) :
    (LC_VerifyMsgLength msg n st).2.LC_AppData.CmdCount = st.LC_AppData.CmdCount ∧
    (LC_VerifyMsgLength msg n st).2.LC_AppData.CurrentLCState
      = st.LC_AppData.CurrentLCState := by
  unfold LC_VerifyMsgLength
  dsimp only
  split_ifs <;> exact ⟨rfl, rfl⟩

/-- The set-LC-state command, case by case: with the right length and a `NewLCState` that
is one of the three modes it stores `NewLCState` and counts the command; with the right
length and another `NewLCState` it counts an error; otherwise it leaves the mode and the
command counter alone.  It never touches the operational data and makes no call
writing to the critical data store. -/
theorem LC_SetLCStateCmd_effect (cfg : LC_Config) (msg : CFE_SB_Msg) (st : LC_State) :
    (LC_SetLCStateCmd cfg msg st).LC_OperData = st.LC_OperData ∧
    (∃ more, (LC_SetLCStateCmd cfg msg st).Calls = st.Calls ++ more ∧
      ∀ c ∈ more, LC_Call.isCopyToCDS c = false) ∧
    (msg.TotalMsgLength = u16 (sizeof_LC_TwoWordCmd_t cfg) → validLCState cfg msg.NewLCState →
      (LC_SetLCStateCmd cfg msg st).LC_AppData.CurrentLCState = msg.NewLCState ∧
      (LC_SetLCStateCmd cfg msg st).LC_AppData.CmdCount = u8 (st.LC_AppData.CmdCount + 1) ∧
      (LC_SetLCStateCmd cfg msg st).LC_AppData.CmdErrCount = st.LC_AppData.CmdErrCount) ∧
    (msg.TotalMsgLength = u16 (sizeof_LC_TwoWordCmd_t cfg) → ¬ validLCState cfg msg.NewLCState →
      (LC_SetLCStateCmd cfg msg st).LC_AppData.CurrentLCState = st.LC_AppData.CurrentLCState ∧
      (LC_SetLCStateCmd cfg msg st).LC_AppData.CmdCount = st.LC_AppData.CmdCount ∧
      (LC_SetLCStateCmd cfg msg st).LC_AppData.CmdErrCount
        = u8 (st.LC_AppData.CmdErrCount + 1)) ∧
    (msg.TotalMsgLength ≠ u16 (sizeof_LC_TwoWordCmd_t cfg) →
      (LC_SetLCStateCmd cfg msg st).LC_AppData.CurrentLCState = st.LC_AppData.CurrentLCState ∧
      (LC_SetLCStateCmd cfg msg st).LC_AppData.CmdCount = st.LC_AppData.CmdCount) := by
  refine ⟨LC_SetLCStateCmd_OperData cfg msg st, ?_, ?_, ?_, ?_⟩
  · obtain ⟨pre, hpre, hno⟩ :=
      LC_VerifyMsgLength_calls msg (u16 (sizeof_LC_TwoWordCmd_t cfg)) st
    unfold LC_SetLCStateCmd
    dsimp only
    split_ifs
    · refine ⟨pre ++ [LC_Call.CFE_EVS_SendEvent LC_EventID.LC_LCSTATE_INF_EID], ?_, ?_⟩
      · simp [LC_State.sendEvent, LC_State.call, LC_State.incCmdCount, hpre]
      · intro c hc
        rcases List.mem_append.mp hc with h | h
        · exact hno c h
        · rw [List.mem_singleton.mp h]; rfl
    · refine ⟨pre ++ [LC_Call.CFE_EVS_SendEvent LC_EventID.LC_LCSTATE_ERR_EID], ?_, ?_⟩
      · simp [LC_State.sendEvent, LC_State.call, LC_State.incCmdErrCount, hpre]
      · intro c hc
        rcases List.mem_append.mp hc with h | h
        · exact hno c h
        · rw [List.mem_singleton.mp h]; rfl
    · exact ⟨pre, hpre, hno⟩
  · intro hlen hv
    unfold validLCState at hv
    unfold LC_SetLCStateCmd
    rw [LC_VerifyMsgLength_ok msg _ st hlen]
    simp only [if_true]
    rw [if_pos hv]
    exact ⟨rfl, rfl, rfl⟩
  · intro hlen hv
    unfold validLCState at hv
    unfold LC_SetLCStateCmd
    rw [LC_VerifyMsgLength_ok msg _ st hlen]
    simp only [if_true]
    rw [if_neg hv]
    exact ⟨rfl, rfl, rfl⟩
  · intro hlen
    unfold LC_SetLCStateCmd
    dsimp only
    rw [LC_VerifyMsgLength_bad msg _ st hlen]
    exact ⟨(LC_VerifyMsgLength_CmdCount msg _ st).2, (LC_VerifyMsgLength_CmdCount msg _ st).1⟩

/-- The range check of a sample request with the sampling call keeps the frame when the
sampler does. -/
theorem sampleRange_frame (cfg : LC_Config) (ext : LC_Externals) (msg : CFE_SB_Msg)
    (st : LC_State) (hext : ext.Framed cfg) : Frame cfg st (sampleRange cfg ext msg st).2 := by
  unfold sampleRange callSampleAPs
  split_ifs
  · exact Frame_trans (Frame_call cfg st (LC_Call.LC_SampleAPs _ _) rfl) (hext.1 _ _ _)
  · exact Frame_trans (Frame_call cfg st (LC_Call.LC_SampleAPs _ _) rfl) (hext.1 _ _ _)
  · exact Frame_sendEvent cfg st _

/-- A sample request keeps the frame when the sampler does. -/
theorem LC_SampleAPReq_frame (cfg : LC_Config) (ext : LC_Externals) (msg : CFE_SB_Msg)
    (st st' : LC_State) (hext : ext.Framed cfg)
    (h : LC_SampleAPReq cfg ext msg st = some st') : Frame cfg st st' := by
  have hv := Frame_verify cfg msg (u16 (sizeof_LC_SampleAP_t cfg)) st
  have hr := sampleRange_frame cfg ext msg
    (LC_VerifyMsgLength msg (u16 (sizeof_LC_SampleAP_t cfg)) st).2 hext
  unfold LC_SampleAPReq at h
  dsimp only at h
  split_ifs at h
  · cases hage : ageWatchpoints cfg (sampleRange cfg ext msg
        (LC_VerifyMsgLength msg (u16 (sizeof_LC_SampleAP_t cfg)) st).2).2.LC_OperData.WRTPtr with
    | none => rw [hage] at h; cases h
    | some wrt =>
      rw [hage] at h
      cases h
      exact Frame_trans hv (Frame_trans hr
        (Frame_setWRT cfg _ wrt (ageWatchpoints_length cfg _ _ hage)))
  · cases h; exact Frame_trans hv hr
  · cases h; exact hv
  · cases h; exact hv

/-! ## One message through the dispatcher -/

/-- The first part of a housekeeping request returns and keeps the frame. -/
theorem hkPrefix_frame (cfg : LC_Config) (msg : CFE_SB_Msg) (st : LC_State)
    (hs : cfg.SizesOK) (hst : st.Sized cfg) :
    ∃ st1, (if (LC_VerifyMsgLength msg (u16 (sizeof_LC_NoArgsCmd_t cfg)) st).1 = true
        then packHousekeeping cfg (LC_VerifyMsgLength msg (u16 (sizeof_LC_NoArgsCmd_t cfg)) st).2
        else some (LC_VerifyMsgLength msg (u16 (sizeof_LC_NoArgsCmd_t cfg)) st).2) = some st1 ∧
      Frame cfg st st1 := by
  have hv := Frame_verify cfg msg (u16 (sizeof_LC_NoArgsCmd_t cfg)) st
  have hvs := hv.2.2.1 hst
  by_cases h1 : (LC_VerifyMsgLength msg (u16 (sizeof_LC_NoArgsCmd_t cfg)) st).1 = true
  · rw [if_pos h1]
    obtain ⟨st1, hp, ha, _, _, _, hc, _, hsz, _⟩ := packHousekeeping_spec cfg _ hs hvs
    refine ⟨st1, hp, Frame_trans hv ⟨by rw [ha], hc, fun _ => hsz,
      [LC_Call.CFE_SB_SendMsg st1.LC_OperData.HkPacket],
      packHousekeeping_calls cfg _ st1 hp, ?_⟩⟩
    intro c hc
    rw [List.mem_singleton.mp hc]; rfl
  · rw [if_neg h1]
    exact ⟨_, rfl, hv⟩

/-- Table management returns and keeps the frame. -/
theorem LC_ManageTables_frame (cfg : LC_Config) (env : CFE_Env) (st : LC_State)
    (hs : cfg.SizesOK) (hst : st.Sized cfg)
    (henv : env.ADTPtr.length = cfg.LC_MAX_ACTIONPOINTS) :
    ∃ rc st', LC_ManageTables cfg env st = some (rc, st') ∧ Frame cfg st st' ∧
      rc = (if env.WDT_GetAddress = cfg.CFE_TBL_INFO_UPDATED ∨ env.WDT_GetAddress = cfg.CFE_SUCCESS
        then (if env.ADT_GetAddress = cfg.CFE_TBL_INFO_UPDATED ∨ env.ADT_GetAddress = cfg.CFE_SUCCESS
          then cfg.CFE_SUCCESS else env.ADT_GetAddress)
        else env.WDT_GetAddress) := by
  obtain ⟨rc, st', hm, hfr, hsz, _, _, hrc⟩ := LC_ManageTables_spec cfg env st hs hst henv
  obtain ⟨rc2, st2, hm2, hcalls⟩ := LC_ManageTables_calls cfg env st hs hst henv
  rw [hm] at hm2
  cases hm2
  exact ⟨rc, st', hm, ⟨by rw [hfr.1], hfr.2.2.1, fun _ => hsz, manageTablesCalls cfg env,
    hcalls, manageTablesCalls_noCDS cfg env⟩, hrc⟩

/-- `LC_UpdateTaskCDS` returns `CFE_SUCCESS` exactly when all three stores do. -/
theorem LC_UpdateTaskCDS_success_iff (cfg : LC_Config) (env : CFE_Env) (st : LC_State) :
    (LC_UpdateTaskCDS cfg env st).1 = cfg.CFE_SUCCESS ↔
      env.CopyToCDS_WRT = cfg.CFE_SUCCESS ∧ env.CopyToCDS_ART = cfg.CFE_SUCCESS ∧
        env.CopyToCDS_AppData = cfg.CFE_SUCCESS := by
  obtain ⟨h1, h2, h3, h4⟩ := LC_UpdateTaskCDS_cases cfg env st
  constructor
  · intro hr
    by_cases c1 : env.CopyToCDS_WRT = cfg.CFE_SUCCESS
    · by_cases c2 : env.CopyToCDS_ART = cfg.CFE_SUCCESS
      · by_cases c3 : env.CopyToCDS_AppData = cfg.CFE_SUCCESS
        · exact ⟨c1, c2, c3⟩
        · rw [(h3 c1 c2 c3).1] at hr; exact absurd hr c3
      · rw [(h2 c1 c2).1] at hr; exact absurd hr c2
    · rw [(h1 c1).1] at hr; exact absurd hr c1
  · rintro ⟨c1, c2, c3⟩
    exact (h4 c1 c2 c3).1

/-- A housekeeping request returns; it keeps the table dimensions and the mode, clears
`HaveActiveCDS` exactly when it reaches the critical data store update with the store
active and a store fails, and writes nothing to the store when it is not active. -/
theorem LC_HousekeepingReq_step (cfg : LC_Config) (env : CFE_Env) (msg : CFE_SB_Msg)
    (st : LC_State) (hs : cfg.SizesOK) (hst : st.Sized cfg)
    (henv : env.ADTPtr.length = cfg.LC_MAX_ACTIONPOINTS) :
    ∃ rc st', LC_HousekeepingReq cfg env msg st = some (rc, st') ∧
      st'.Sized cfg ∧
      st'.LC_AppData.CurrentLCState = st.LC_AppData.CurrentLCState ∧
      st'.LC_OperData.HaveActiveCDS =
        (st.LC_OperData.HaveActiveCDS &&
          (decide (rc ≠ cfg.CFE_SUCCESS) ||
            decide (env.CopyToCDS_WRT = cfg.CFE_SUCCESS ∧ env.CopyToCDS_ART = cfg.CFE_SUCCESS ∧
              env.CopyToCDS_AppData = cfg.CFE_SUCCESS))) ∧
      (st.LC_OperData.HaveActiveCDS = false →
        ∃ more, st'.Calls = st.Calls ++ more ∧ ∀ c ∈ more, LC_Call.isCopyToCDS c = false) ∧
      rc = (if env.WDT_GetAddress = cfg.CFE_TBL_INFO_UPDATED ∨ env.WDT_GetAddress = cfg.CFE_SUCCESS
        then (if env.ADT_GetAddress = cfg.CFE_TBL_INFO_UPDATED ∨ env.ADT_GetAddress = cfg.CFE_SUCCESS
          then cfg.CFE_SUCCESS else env.ADT_GetAddress)
        else env.WDT_GetAddress) := by
  obtain ⟨st1, hp, hf1⟩ := hkPrefix_frame cfg msg st hs hst
  obtain ⟨rc, st2, hm, hf2, hrc⟩ := LC_ManageTables_frame cfg env st1 hs (hf1.2.2.1 hst) henv
  obtain ⟨hmode, hflag, hsz, more, hcalls, hno⟩ := Frame_trans hf1 hf2
  have hrun : LC_HousekeepingReq cfg env msg st =
      some (if rc ≠ cfg.CFE_SUCCESS then (rc, st2)
        else (cfg.CFE_SUCCESS, updateCDS cfg env st2)) := by
    unfold LC_HousekeepingReq
    simp only [hp, hm]
    by_cases hcode : rc = cfg.CFE_SUCCESS
    · rw [if_neg (fun h => h hcode), if_neg (fun h => h hcode)]
    · rw [if_pos hcode, if_pos hcode]
  by_cases hcode : rc = cfg.CFE_SUCCESS
  · rw [if_neg (fun h => h hcode)] at hrun
    obtain ⟨hcl, hfl⟩ := updateCDS_eq cfg env st2
    obtain ⟨happ, hoper⟩ := updateCDS_AppData cfg env st2
    refine ⟨rc, updateCDS cfg env st2, by rw [hrun, hcode], ?_, ?_, ?_, ?_, hrc⟩
    · obtain ⟨a, b, c, d, e⟩ := hsz hst
      rw [LC_State.Sized, hoper]
      exact ⟨a, b, c, d, e⟩
    · rcases happ with h | h <;> rw [h] <;> exact hmode
    · rw [hfl, hflag]
      have hiff := LC_UpdateTaskCDS_success_iff cfg env st2
      by_cases hall : env.CopyToCDS_WRT = cfg.CFE_SUCCESS ∧ env.CopyToCDS_ART = cfg.CFE_SUCCESS ∧
          env.CopyToCDS_AppData = cfg.CFE_SUCCESS
      · rw [decide_eq_true (hiff.mpr hall), decide_eq_true hall]
        simp
      · rw [decide_eq_false (fun h => hall (hiff.mp h)), decide_eq_false hall]
        simp [hcode]
    · intro hoff
      refine ⟨more, ?_, hno⟩
      rw [hcl, if_neg (by rw [hflag, hoff]; decide), hcalls]
  · rw [if_pos hcode] at hrun
    refine ⟨rc, st2, hrun, hsz hst, hmode, ?_, fun _ => ⟨more, hcalls, hno⟩, hrc⟩
    rw [hflag]
    simp [hcode]

/-- A step that keeps the frame is a step of the dispatcher. -/
theorem PipeStep_of_frame (cfg : LC_Config) (msg : CFE_SB_Msg) (st st' : LC_State)
    (hst : st.Sized cfg) (hf : Frame cfg st st') : PipeStep cfg msg st st' := by
  obtain ⟨hmode, hflag, hsz, more, hcalls, hno⟩ := hf
  exact ⟨hsz hst, Or.inl hmode, fun h => by rw [← hflag]; exact h, fun _ => ⟨more, hcalls, hno⟩⟩

/-- A sample request returns and keeps the frame when the tables have their dimensions
and the sampler keeps the frame. -/
theorem LC_SampleAPReq_step (cfg : LC_Config) (ext : LC_Externals) (msg : CFE_SB_Msg)
    (st : LC_State) (hs : cfg.SizesOK) (hst : st.Sized cfg) (hext : ext.Framed cfg) :
    ∃ st', LC_SampleAPReq cfg ext msg st = some st' ∧ Frame cfg st st' := by
  have hmax : cfg.LC_MAX_WATCHPOINTS ≤ 65535 := by
    have := hs.2.2.1
    omega
  have htotal : ∃ st', LC_SampleAPReq cfg ext msg st = some st' := by
    by_cases hlen : msg.TotalMsgLength = u16 (sizeof_LC_SampleAP_t cfg)
    · by_cases hstate : st.LC_AppData.CurrentLCState = cfg.LC_STATE_DISABLED
      · exact ⟨_, LC_SampleAPReq_disabled cfg ext msg st hlen hstate⟩
      · by_cases hage : msg.UpdateAge ≠ 0 ∧ (sampleRange cfg ext msg st).1 = true
        · by_cases hrange : (msg.StartIndex = LC_ALL_ACTIONPOINTS ∧
              msg.EndIndex = LC_ALL_ACTIONPOINTS) ∨
              (msg.StartIndex ≤ msg.EndIndex ∧ msg.EndIndex < cfg.LC_MAX_ACTIONPOINTS)
          · exact ⟨_, LC_SampleAPReq_aging cfg ext msg st ⟨hlen, hrange, hage.1⟩ hstate
              ((sampleRange_frame cfg ext msg st hext).2.2.1 hst).1 hmax⟩
          · rw [sampleRange_rejected cfg ext msg st hrange] at hage
            exact absurd hage.2 (by simp)
        · exact ⟨_, LC_SampleAPReq_noaging cfg ext msg st hlen hstate hage⟩
    · exact ⟨_, LC_SampleAPReq_badlen cfg ext msg st hlen⟩
  obtain ⟨st', h⟩ := htotal
  exact ⟨st', h, LC_SampleAPReq_frame cfg ext msg st st' hext h⟩

/-- Every message through `LC_AppPipe` returns, as a step in the sense of `PipeStep`,
when the tables have their declared dimensions and the functions of the other modules
keep the frame. -/
theorem LC_AppPipe_step (cfg : LC_Config) (ext : LC_Externals) (env : CFE_Env)
    (msg : CFE_SB_Msg) (st : LC_State) (hs : cfg.SizesOK) (hst : st.Sized cfg)
    (henv : env.ADTPtr.length = cfg.LC_MAX_ACTIONPOINTS) (hext : ext.Framed cfg) :
    ∃ rc st', LC_AppPipe cfg ext env msg st = some (rc, st') ∧ PipeStep cfg msg st st' := by
  have hla : st.LC_OperData.ARTPtr.length = cfg.LC_MAX_ACTIONPOINTS := hst.2.1
  have hamax : cfg.LC_MAX_ACTIONPOINTS < 4294967296 := by
    have := hs.2.2.2.2.2.1
    omega
  have fr := fun st' => PipeStep_of_frame cfg msg st st' hst
  have g1 := LC_SampleAPReq_step cfg ext msg st hs hst hext
  have g2 : ∃ rc st', LC_HousekeepingReq cfg env msg st = some (rc, st') ∧
      PipeStep cfg msg st st' := by
    obtain ⟨rc, st', hrun, hsz, hmode, hflag, hcalls, _⟩ :=
      LC_HousekeepingReq_step cfg env msg st hs hst henv
    refine ⟨rc, st', hrun, hsz, Or.inl hmode, ?_, hcalls⟩
    intro h
    rw [hflag] at h
    exact (Bool.and_eq_true _ _ ▸ h).1
  have g3 := fr _ (LC_NoopCmd_frame cfg msg st)
  have g4 := fr _ (LC_ResetCmd_frame cfg msg st)
  have g5 := LC_SetLCStateCmd_effect cfg msg st
  have g6 : ∃ st', LC_SetAPStateCmd cfg msg st = some st' ∧ PipeStep cfg msg st st' := by
    obtain ⟨st', h, _⟩ := LC_SetAPStateCmd_total cfg msg st hla hamax
    exact ⟨st', h, fr _ (LC_SetAPStateCmd_frame cfg msg st st' h)⟩
  have g7 : ∃ st', LC_SetAPPermOffCmd cfg msg st = some st' ∧ PipeStep cfg msg st st' := by
    obtain ⟨st', h, _⟩ := LC_SetAPPermOffCmd_total cfg msg st hla
    exact ⟨st', h, fr _ (LC_SetAPPermOffCmd_frame cfg msg st st' h)⟩
  have g8 : ∃ st', LC_ResetAPStatsCmd cfg msg st = some st' ∧ PipeStep cfg msg st st' := by
    obtain ⟨st', h, _⟩ := LC_ResetAPStatsCmd_total cfg msg st hs hst
    exact ⟨st', h, fr _ (LC_ResetAPStatsCmd_frame cfg msg st st' h)⟩
  have g9 : ∃ st', LC_ResetWPStatsCmd cfg msg st = some st' ∧ PipeStep cfg msg st st' := by
    obtain ⟨st', h, _⟩ := LC_ResetWPStatsCmd_total cfg msg st hs hst
    exact ⟨st', h, fr _ (LC_ResetWPStatsCmd_frame cfg msg st st' h)⟩
  have g10 := fr _ (Frame_trans (Frame_sendEvent cfg st LC_EventID.LC_CC_ERR_EID)
    (Frame_incCmdErrCount cfg _))
  have g11 := fr _ (Frame_trans (Frame_call cfg st (LC_Call.LC_CheckMsgForWPs msg.MsgId) rfl)
    (hext.2 msg.MsgId msg _))
  have g1' : ∃ st', LC_SampleAPReq cfg ext msg st = some st' ∧ PipeStep cfg msg st st' := by
    obtain ⟨st', h, hf⟩ := g1
    exact ⟨st', h, fr _ hf⟩
  have hszset : (LC_SetLCStateCmd cfg msg st).Sized cfg := by
    unfold LC_State.Sized
    rw [g5.1]
    exact hst
  clear fr g1 hs hext henv hla hamax
  unfold LC_AppPipe
  dsimp only
  by_cases m1 : msg.MsgId = LC_SAMPLE_AP_MID
  · rw [if_pos m1]
    obtain ⟨st', h, hp⟩ := g1'
    exact ⟨_, st', by rw [h]; rfl, hp⟩
  rw [if_neg m1]
  by_cases m2 : msg.MsgId = LC_SEND_HK_MID
  · rw [if_pos m2]
    exact g2
  rw [if_neg m2]
  by_cases m3 : msg.MsgId = LC_CMD_MID
  · rw [if_pos m3]
    by_cases c1 : msg.CmdCode = cfg.LC_NOOP_CC
    · rw [if_pos c1]
      exact ⟨_, _, rfl, g3⟩
    rw [if_neg c1]
    by_cases c2 : msg.CmdCode = cfg.LC_RESET_CC
    · rw [if_pos c2]
      exact ⟨_, _, rfl, g4⟩
    rw [if_neg c2]
    by_cases c3 : msg.CmdCode = cfg.LC_SET_LC_STATE_CC
    · rw [if_pos c3]
      refine ⟨_, _, rfl, hszset, ?_, ?_, ?_⟩
      · by_cases hlen : msg.TotalMsgLength = u16 (sizeof_LC_TwoWordCmd_t cfg)
        · by_cases hv : validLCState cfg msg.NewLCState
          · exact Or.inr ⟨m3, c3, hv, (g5.2.2.1 hlen hv).1⟩
          · exact Or.inl (g5.2.2.2.1 hlen hv).1
        · exact Or.inl (g5.2.2.2.2 hlen).1
      · intro h
        rw [g5.1] at h
        exact h
      · intro _
        exact g5.2.1
    rw [if_neg c3]
    by_cases c4 : msg.CmdCode = cfg.LC_SET_AP_STATE_CC
    · rw [if_pos c4]
      obtain ⟨st', h, hp⟩ := g6
      exact ⟨_, st', by rw [h]; rfl, hp⟩
    rw [if_neg c4]
    by_cases c5 : msg.CmdCode = cfg.LC_SET_AP_PERMOFF_CC
    · rw [if_pos c5]
      obtain ⟨st', h, hp⟩ := g7
      exact ⟨_, st', by rw [h]; rfl, hp⟩
    rw [if_neg c5]
    by_cases c6 : msg.CmdCode = cfg.LC_RESET_AP_STATS_CC
    · rw [if_pos c6]
      obtain ⟨st', h, hp⟩ := g8
      exact ⟨_, st', by rw [h]; rfl, hp⟩
    rw [if_neg c6]
    by_cases c7 : msg.CmdCode = cfg.LC_RESET_WP_STATS_CC
    · rw [if_pos c7]
      obtain ⟨st', h, hp⟩ := g9
      exact ⟨_, st', by rw [h]; rfl, hp⟩
    rw [if_neg c7]
    exact ⟨_, _, rfl, g10⟩
  rw [if_neg m3]
  exact ⟨_, _, rfl, g11⟩

/-- A step of the dispatcher keeps a mode that is one of the three enumerators. -/
theorem PipeStep_mode (cfg : LC_Config) (msg : CFE_SB_Msg) (st st' : LC_State)
    (h : PipeStep cfg msg st st') (hv : validLCState cfg st.LC_AppData.CurrentLCState) :
    validLCState cfg st'.LC_AppData.CurrentLCState := by
  rcases h.2.1 with hm | ⟨_, _, hnew, hm⟩
  · rw [hm]; exact hv
  · rw [hm]; exact hnew

/-- A step of the dispatcher from a state with the critical data store off leaves it off
and writes nothing to it. -/
theorem PipeStep_off (cfg : LC_Config) (msg : CFE_SB_Msg) (st st' : LC_State)
    (h : PipeStep cfg msg st st') (hoff : st.LC_OperData.HaveActiveCDS = false) :
    st'.LC_OperData.HaveActiveCDS = false ∧
    ∃ more, st'.Calls = st.Calls ++ more ∧ ∀ c ∈ more, LC_Call.isCopyToCDS c = false := by
  refine ⟨?_, h.2.2.2 hoff⟩
  cases hflag : st'.LC_OperData.HaveActiveCDS with
  | false => rfl
  | true =>
    have := h.2.2.1 hflag
    rw [hoff] at this
    cases this

/-- A run of messages returns; it keeps the table dimensions and a valid mode, and from a
state with the critical data store off it leaves the store off and writes nothing. -/
theorem pipeMessages_steps (cfg : LC_Config) (ext : LC_Externals) (hs : cfg.SizesOK)
    (hext : ext.Framed cfg) (msgs : List (CFE_Env × CFE_SB_Msg)) :
    ∀ st : LC_State, st.Sized cfg →
      (∀ p ∈ msgs, p.1.ADTPtr.length = cfg.LC_MAX_ACTIONPOINTS) →
      ∃ st', pipeMessages cfg ext msgs st = some st' ∧ st'.Sized cfg ∧
        (validLCState cfg st.LC_AppData.CurrentLCState →
          validLCState cfg st'.LC_AppData.CurrentLCState) ∧
        (st.LC_OperData.HaveActiveCDS = false →
          st'.LC_OperData.HaveActiveCDS = false ∧
          ∃ more, st'.Calls = st.Calls ++ more ∧
            ∀ c ∈ more, LC_Call.isCopyToCDS c = false) := by
  induction msgs with
  | nil =>
    intro st hst _
    exact ⟨st, rfl, hst, id, fun h => ⟨h, [], by simp, by simp⟩⟩
  | cons p rest ih =>
    intro st hst henvs
    obtain ⟨env, msg⟩ := p
    obtain ⟨rc, st1, hrun, hstep⟩ := LC_AppPipe_step cfg ext env msg st hs hst
      (henvs (env, msg) (List.mem_cons_self _ _)) hext
    obtain ⟨st2, hrest, hsz2, hmode2, hoff2⟩ := ih st1 hstep.1
      (fun q hq => henvs q (List.mem_cons_of_mem _ hq))
    refine ⟨st2, ?_, hsz2, ?_, ?_⟩
    · rw [pipeMessages, hrun]
      exact hrest
    · intro hv
      exact hmode2 (PipeStep_mode cfg msg st st1 hstep hv)
    · intro hoff
      obtain ⟨hoff1, more1, hc1, hn1⟩ := PipeStep_off cfg msg st st1 hstep hoff
      obtain ⟨hoffr, more2, hc2, hn2⟩ := hoff2 hoff1
      refine ⟨hoffr, more1 ++ more2, by rw [hc2, hc1, List.append_assoc], ?_⟩
      intro c hc
      rcases List.mem_append.mp hc with h | h
      · exact hn1 c h
      · exact hn2 c h

/-- The stand-ins of the demonstration keep the frame. -/
theorem demoExt_framed (cfg : LC_Config) : demoExt.Framed cfg :=
  ⟨fun _ _ t => Frame_refl cfg t, fun _ _ t => Frame_refl cfg t⟩

/-! ## Indices visited by the loops -/

/-- A counting loop that returns visits `a + d * t`, ..., `a + d * (m - 1)` in this order:
the loop with the record returns the same result and has recorded these indices. -/
theorem forLoop_logged {σ : Type} (cond : Nat → Bool) (next : Nat → Nat)
    (body : Nat → σ → Option σ) (a d m : Nat)
    (hcond : ∀ t, t < m → cond (a + d * t) = true)
    (hnext : ∀ t, t < m → next (a + d * t) = a + d * (t + 1))
    (hend : cond (a + d * m) = false)
    (fuel t : Nat) (s s' : σ) (l : List Nat) (ht : t ≤ m)
    (h : forLoop cond next body fuel (a + d * t) s = some s') :
    forLoop cond next (logged body) fuel (a + d * t) (s, l) =
      some (s', l ++ (List.range' t (m - t)).map (fun k => a + d * k)) := by
  induction fuel generalizing t s l with
  | zero => simp [forLoop] at h
  | succ fuel ih =>
    by_cases htm : t = m
    · subst htm
      simp only [forLoop, hend] at h ⊢
      simp only [Bool.false_eq_true, if_false, Option.some.injEq] at h ⊢
      subst h
      simp
    · have hlt : t < m := by omega
      cases hb : body (a + d * t) s with
      | none =>
        simp only [forLoop, hcond t hlt, if_true, hb] at h
        cases h
      | some s1 =>
        simp only [forLoop, hcond t hlt, if_true, hb, hnext t hlt] at h
        simp only [forLoop, hcond t hlt, if_true, logged, hb, hnext t hlt]
        rw [ih (t + 1) s1 (l ++ [a + d * t]) (by omega) h]
        have hr : m - t = (m - (t + 1)) + 1 := by omega
        rw [hr, List.range'_succ]
        simp

/-- The indices `s, s + 1, ..., s + m - 1` written as an image of `0, ..., m - 1`. -/
theorem map_range'_unit (s m : Nat) :
    (List.range' 0 (m - 0)).map (fun k => s + 1 * k) = List.range' s m := by
  rw [Nat.sub_zero, List.range'_eq_map_range s m, List.range_eq_range']
  apply List.map_congr_left
  intro k _
  omega

/-- The watchpoint reset with the record of visited indices: for a range inside the table
it visits `StartIndex`, ..., `EndIndex`, each once and in this order. -/
theorem LC_ResetResultsWPLogged_spec (cfg : LC_Config) (a b : Nat) (flag : Bool)
    (WRT : List LC_WRTEntry_t) (hab : a ≤ b) (hb : b < WRT.length) (h32 : b < 4294967295) :
    ∃ ys, LC_ResetResultsWP cfg a b flag WRT = some ys ∧
      LC_ResetResultsWPLogged cfg a b flag WRT = some (ys, List.range' a (b - a + 1)) ∧
      ys.length = WRT.length := by
  obtain ⟨ys, hrun, hlen, _⟩ := LC_ResetResultsWP_spec cfg a b flag WRT hab hb h32
  refine ⟨ys, hrun, ?_, hlen⟩
  unfold LC_ResetResultsWP at hrun
  unfold LC_ResetResultsWPLogged
  have key := forLoop_logged (fun i => decide (i ≤ b)) (fun i => u32 (i + 1))
    (resetWPBody cfg flag) a 1 (b - a + 1)
    (by intro t ht; simp; omega)
    (by intro t ht; simp only [u32]; omega)
    (by simp; omega)
    (b + 2) 0 WRT ys [] (by omega) (by simpa using hrun)
  rw [map_range'_unit] at key
  simpa using key

/-- The actionpoint reset with the record of visited indices. -/
theorem LC_ResetResultsAPLogged_spec (cfg : LC_Config) (ADT : List LC_ADTEntry_t) (a b : Nat)
    (flag : Bool) (ART : List LC_ARTEntry_t) (hab : a ≤ b) (hb : b < ART.length)
    (hadt : flag = true ∨ b < ADT.length) (h32 : b < 4294967295) :
    ∃ ys, LC_ResetResultsAP cfg ADT a b flag ART = some ys ∧
      LC_ResetResultsAPLogged cfg ADT a b flag ART = some (ys, List.range' a (b - a + 1)) ∧
      ys.length = ART.length := by
  obtain ⟨ys, hrun, hlen, _⟩ := LC_ResetResultsAP_spec cfg ADT a b flag ART hab hb hadt h32
  refine ⟨ys, hrun, ?_, hlen⟩
  unfold LC_ResetResultsAP at hrun
  unfold LC_ResetResultsAPLogged
  have key := forLoop_logged (fun i => decide (i ≤ b)) (fun i => u32 (i + 1))
    (resetAPBody cfg ADT flag) a 1 (b - a + 1)
    (by intro t ht; simp; omega)
    (by intro t ht; simp only [u32]; omega)
    (by simp; omega)
    (b + 2) 0 ART ys [] (by omega) (by simpa using hrun)
  rw [map_range'_unit] at key
  simpa using key

/-- The bytes written by a packing loop that handles `g` table entries per byte: the
visited indices `0, g, 2 g, ...` divided by `g` are `0, 1, 2, ...`. -/
theorem map_range'_div (g n : Nat) (hg : 0 < g) (hn : n ≤ 65536) :
    ((List.range' 0 (n - 0)).map (fun k => 0 + g * k)).map (fun i => u16 (i / g)) =
      List.range n := by
  rw [Nat.sub_zero, List.map_map, ← List.range_eq_range']
  conv_rhs => rw [← List.map_id (List.range n)]
  apply List.map_congr_left
  intro k hk
  have hk' : k < n := List.mem_range.mp hk
  simp only [Function.comp, id, u16, Nat.zero_add, Nat.mul_div_cancel_left _ hg]
  omega

/-- The watch-result packing loop with the record of visited indices. -/
theorem packWPResultsLogged_spec (cfg : LC_Config) (WRT : List LC_WRTEntry_t) (res0 : List Nat)
    (hlen : WRT.length = cfg.LC_MAX_WATCHPOINTS) (h4 : cfg.LC_MAX_WATCHPOINTS % 4 = 0)
    (hmax : cfg.LC_MAX_WATCHPOINTS ≤ 65532) (hres : cfg.LC_MAX_WATCHPOINTS ≤ 4 * res0.length) :
    ∃ res, packWPResults cfg WRT res0 = some res ∧ res.length = res0.length ∧
      packWPResultsLogged cfg WRT res0 =
        some (res, (List.range' 0 (cfg.LC_MAX_WATCHPOINTS / 4 - 0)).map (fun k => 0 + 4 * k)) := by
  obtain ⟨res, hrun, hl, _⟩ := packWPResults_spec cfg WRT res0 hlen h4 hmax hres
  refine ⟨res, hrun, hl, ?_⟩
  unfold packWPResults at hrun
  unfold packWPResultsLogged
  have key := forLoop_logged (fun i => decide (i < cfg.LC_MAX_WATCHPOINTS)) (fun i => u16 (i + 4))
    (packWPBody cfg WRT) 0 4 (cfg.LC_MAX_WATCHPOINTS / 4)
    (by intro t ht; simp; omega)
    (by intro t ht; simp only [u16]; omega)
    (by simp; omega)
    (cfg.LC_MAX_WATCHPOINTS + 1) 0 res0 res [] (by omega) (by simpa using hrun)
  simpa using key

/-- The action-result packing loop with the record of visited indices. -/
theorem packAPResultsLogged_spec (cfg : LC_Config) (ART : List LC_ARTEntry_t) (res0 : List Nat)
    (A0 : Nat) (hlen : ART.length = cfg.LC_MAX_ACTIONPOINTS)
    (h2 : cfg.LC_MAX_ACTIONPOINTS % 2 = 0) (hmax : cfg.LC_MAX_ACTIONPOINTS ≤ 65534)
    (hres : cfg.LC_MAX_ACTIONPOINTS ≤ 2 * res0.length) (hA : A0 < 65536) :
    ∃ res A, packAPResults cfg ART (res0, A0) = some (res, A) ∧ res.length = res0.length ∧
      packAPResultsLogged cfg ART (res0, A0) =
        some ((res, A),
          (List.range' 0 (cfg.LC_MAX_ACTIONPOINTS / 2 - 0)).map (fun k => 0 + 2 * k)) := by
  obtain ⟨res, A, hrun, hl, _⟩ := packAPResults_spec cfg ART res0 A0 hlen h2 hmax hres hA
  refine ⟨res, A, hrun, hl, ?_⟩
  unfold packAPResults at hrun
  unfold packAPResultsLogged
  have key := forLoop_logged (fun i => decide (i < cfg.LC_MAX_ACTIONPOINTS)) (fun i => u16 (i + 2))
    (packAPBody cfg ART) 0 2 (cfg.LC_MAX_ACTIONPOINTS / 2)
    (by intro t ht; simp; omega)
    (by intro t ht; simp only [u16]; omega)
    (by simp; omega)
    (cfg.LC_MAX_ACTIONPOINTS + 1) 0 (res0, A0) (res, A) [] (by omega) (by simpa using hrun)
  simpa using key

/-! ## Counting of ground commands -/

/-- The length check of a ground command of the wrong length: the length event is sent
and the command error counter incremented. -/
theorem LC_VerifyMsgLength_cmd (msg : CFE_SB_Msg) (n : Nat) (st : LC_State)
    (hmid : msg.MsgId = LC_CMD_MID) (h : msg.TotalMsgLength ≠ n) :
    LC_VerifyMsgLength msg n st =
      (false, (st.sendEvent LC_EventID.LC_LEN_ERR_EID).incCmdErrCount) := by
  unfold LC_VerifyMsgLength
  dsimp only
  rw [if_pos (fun hc => h hc.symm), if_neg (by rw [hmid]; decide),
    if_neg (by rw [hmid]; decide)]

/-- The length check of a housekeeping request of the wrong length: the event is sent and
no counter changes. -/
theorem LC_VerifyMsgLength_hk (msg : CFE_SB_Msg) (n : Nat) (st : LC_State)
    (hmid : msg.MsgId = LC_SEND_HK_MID) (h : msg.TotalMsgLength ≠ n) :
    LC_VerifyMsgLength msg n st = (false, st.sendEvent LC_EventID.LC_HKREQ_LEN_ERR_EID) := by
  unfold LC_VerifyMsgLength
  dsimp only
  rw [if_pos (fun hc => h hc.symm), if_pos hmid]

/-- The length check of a sample request of the wrong length: the event is sent and no
counter changes. -/
theorem LC_VerifyMsgLength_sample (msg : CFE_SB_Msg) (n : Nat) (st : LC_State)
    (hmid : msg.MsgId = LC_SAMPLE_AP_MID) (h : msg.TotalMsgLength ≠ n) :
    LC_VerifyMsgLength msg n st =
      (false, st.sendEvent LC_EventID.LC_APSAMPLE_LEN_ERR_EID) := by
  unfold LC_VerifyMsgLength
  dsimp only
  rw [if_pos (fun hc => h hc.symm), if_neg (by rw [hmid]; decide), if_pos hmid]

theorem CountedError_event (st : LC_State) (e : LC_EventID) :
    CountedError st ((st.sendEvent e).incCmdErrCount) := ⟨rfl, rfl, rfl, rfl⟩

theorem CountedError_inc (st : LC_State) (e : LC_EventID) :
    CountedError st (st.incCmdErrCount.sendEvent e) := ⟨rfl, rfl, rfl, rfl⟩

/-- Each handler of a ground command returns right after the length check when the length
is wrong. -/
theorem handlers_badlen (cfg : LC_Config) (msg : CFE_SB_Msg) (st : LC_State)
    (hmid : msg.MsgId = LC_CMD_MID) :
    (msg.TotalMsgLength ≠ u16 (sizeof_LC_NoArgsCmd_t cfg) →
      LC_NoopCmd cfg msg st = (st.sendEvent LC_EventID.LC_LEN_ERR_EID).incCmdErrCount ∧
      LC_ResetCmd cfg msg st = (st.sendEvent LC_EventID.LC_LEN_ERR_EID).incCmdErrCount) ∧
    (msg.TotalMsgLength ≠ u16 (sizeof_LC_TwoWordCmd_t cfg) →
      LC_SetLCStateCmd cfg msg st = (st.sendEvent LC_EventID.LC_LEN_ERR_EID).incCmdErrCount ∧
      LC_SetAPStateCmd cfg msg st
        = some ((st.sendEvent LC_EventID.LC_LEN_ERR_EID).incCmdErrCount) ∧
      LC_SetAPPermOffCmd cfg msg st
        = some ((st.sendEvent LC_EventID.LC_LEN_ERR_EID).incCmdErrCount) ∧
      LC_ResetAPStatsCmd cfg msg st
        = some ((st.sendEvent LC_EventID.LC_LEN_ERR_EID).incCmdErrCount) ∧
      LC_ResetWPStatsCmd cfg msg st
        = some ((st.sendEvent LC_EventID.LC_LEN_ERR_EID).incCmdErrCount)) := by
  refine ⟨?_, ?_⟩
  · intro h
    have hv := LC_VerifyMsgLength_cmd msg _ st hmid h
    refine ⟨?_, ?_⟩
    · unfold LC_NoopCmd
      rw [hv]
      rfl
    · unfold LC_ResetCmd
      rw [hv]
      rfl
  · intro h
    have hv := LC_VerifyMsgLength_cmd msg _ st hmid h
    refine ⟨?_, ?_, ?_, ?_, ?_⟩
    · unfold LC_SetLCStateCmd
      rw [hv]
      rfl
    · unfold LC_SetAPStateCmd
      rw [hv]
      rfl
    · unfold LC_SetAPPermOffCmd
      rw [hv]
      rfl
    · unfold LC_ResetAPStatsCmd
      rw [hv]
      rfl
    · unfold LC_ResetWPStatsCmd
      rw [hv]
      rfl

/-- The no-op command is counted as executed exactly when its length is right. -/
theorem LC_NoopCmd_counted (cfg : LC_Config) (msg : CFE_SB_Msg) (st : LC_State)
    (hmid : msg.MsgId = LC_CMD_MID) :
    (msg.TotalMsgLength = u16 (sizeof_LC_NoArgsCmd_t cfg) ∧
      CountedDone st (LC_NoopCmd cfg msg st)) ∨
    (¬ msg.TotalMsgLength = u16 (sizeof_LC_NoArgsCmd_t cfg) ∧
      CountedError st (LC_NoopCmd cfg msg st)) := by
  by_cases hlen : msg.TotalMsgLength = u16 (sizeof_LC_NoArgsCmd_t cfg)
  · left
    refine ⟨hlen, ?_⟩
    unfold LC_NoopCmd
    rw [LC_VerifyMsgLength_ok msg _ st hlen]
    exact ⟨rfl, rfl⟩
  · right
    rw [((handlers_badlen cfg msg st hmid).1 hlen).1]
    exact ⟨hlen, CountedError_event _ _⟩

/-- The set-LC-state command is counted as executed exactly when its length is right and
the new mode is one of the three modes. -/
theorem LC_SetLCStateCmd_counted (cfg : LC_Config) (msg : CFE_SB_Msg) (st : LC_State)
    (hmid : msg.MsgId = LC_CMD_MID) :
    ((msg.TotalMsgLength = u16 (sizeof_LC_TwoWordCmd_t cfg) ∧ validLCState cfg msg.NewLCState) ∧
      CountedDone st (LC_SetLCStateCmd cfg msg st)) ∨
    (¬ (msg.TotalMsgLength = u16 (sizeof_LC_TwoWordCmd_t cfg) ∧
        validLCState cfg msg.NewLCState) ∧
      CountedError st (LC_SetLCStateCmd cfg msg st)) := by
  by_cases hlen : msg.TotalMsgLength = u16 (sizeof_LC_TwoWordCmd_t cfg)
  · by_cases hv : validLCState cfg msg.NewLCState
    · left
      refine ⟨⟨hlen, hv⟩, ?_⟩
      unfold validLCState at hv
      unfold LC_SetLCStateCmd
      rw [LC_VerifyMsgLength_ok msg _ st hlen]
      simp only [if_true]
      rw [if_pos hv]
      exact ⟨rfl, rfl⟩
    · right
      refine ⟨fun h => hv h.2, ?_⟩
      unfold validLCState at hv
      unfold LC_SetLCStateCmd
      rw [LC_VerifyMsgLength_ok msg _ st hlen]
      simp only [if_true]
      rw [if_neg hv]
      exact CountedError_event _ _
  · right
    rw [((handlers_badlen cfg msg st hmid).2 hlen).1]
    exact ⟨fun h => hlen h.1, CountedError_event _ _⟩

/-- The state of a record inside the table. -/
theorem apStateAt_some (st : LC_State) (n : Nat) (e : LC_ARTEntry_t)
    (he : st.LC_OperData.ARTPtr[n]? = some e) : apStateAt st n = some e.CurrentState := by
  unfold apStateAt
  rw [he]
  rfl

/-- The set-AP-state command is counted as executed exactly when its length is right, the
new state is active, passive or disabled, and the number is the "all" sentinel or names
a record that is neither not used nor permanently off. -/
theorem LC_SetAPStateCmd_counted (cfg : LC_Config) (msg : CFE_SB_Msg) (st : LC_State)
    (hmid : msg.MsgId = LC_CMD_MID)
    (hl : st.LC_OperData.ARTPtr.length = cfg.LC_MAX_ACTIONPOINTS)
    (hmax : cfg.LC_MAX_ACTIONPOINTS < 4294967296) :
    ∃ st', LC_SetAPStateCmd cfg msg st = some st' ∧
      (((msg.TotalMsgLength = u16 (sizeof_LC_TwoWordCmd_t cfg) ∧
          (msg.NewAPState = cfg.LC_APSTATE_ACTIVE ∨ msg.NewAPState = cfg.LC_APSTATE_PASSIVE ∨
            msg.NewAPState = cfg.LC_APSTATE_DISABLED) ∧
          (msg.APNumber = LC_ALL_ACTIONPOINTS ∨
            (msg.APNumber < cfg.LC_MAX_ACTIONPOINTS ∧
              apStateAt st msg.APNumber ≠ some cfg.LC_ACTION_NOT_USED ∧
              apStateAt st msg.APNumber ≠ some cfg.LC_APSTATE_PERMOFF))) ∧
        CountedDone st st') ∨
      (¬ (msg.TotalMsgLength = u16 (sizeof_LC_TwoWordCmd_t cfg) ∧
          (msg.NewAPState = cfg.LC_APSTATE_ACTIVE ∨ msg.NewAPState = cfg.LC_APSTATE_PASSIVE ∨
            msg.NewAPState = cfg.LC_APSTATE_DISABLED) ∧
          (msg.APNumber = LC_ALL_ACTIONPOINTS ∨
            (msg.APNumber < cfg.LC_MAX_ACTIONPOINTS ∧
              apStateAt st msg.APNumber ≠ some cfg.LC_ACTION_NOT_USED ∧
              apStateAt st msg.APNumber ≠ some cfg.LC_APSTATE_PERMOFF))) ∧
        CountedError st st')) := by
  by_cases hlen : msg.TotalMsgLength = u16 (sizeof_LC_TwoWordCmd_t cfg)
  · by_cases hv : msg.NewAPState = cfg.LC_APSTATE_ACTIVE ∨ msg.NewAPState = cfg.LC_APSTATE_PASSIVE ∨
        msg.NewAPState = cfg.LC_APSTATE_DISABLED
    · by_cases hall : msg.APNumber = LC_ALL_ACTIONPOINTS
      · exact ⟨_, LC_SetAPStateCmd_all cfg msg st hlen hv hall hl hmax,
          Or.inl ⟨⟨hlen, hv, Or.inl hall⟩, rfl, rfl⟩⟩
      · by_cases hn : msg.APNumber < cfg.LC_MAX_ACTIONPOINTS
        · have hlt : msg.APNumber < st.LC_OperData.ARTPtr.length := by omega
          have he := List.getElem?_eq_getElem hlt
          have hs := apStateAt_some st msg.APNumber _ he
          by_cases hcur : (st.LC_OperData.ARTPtr[msg.APNumber]).CurrentState
                ≠ cfg.LC_ACTION_NOT_USED ∧
              (st.LC_OperData.ARTPtr[msg.APNumber]).CurrentState ≠ cfg.LC_APSTATE_PERMOFF
          · refine ⟨_, LC_SetAPStateCmd_single cfg msg st hlen hv hall hn _ he hcur,
              Or.inl ⟨⟨hlen, hv, Or.inr ⟨hn, ?_, ?_⟩⟩, rfl, rfl⟩⟩
            · rw [hs]; intro hc; exact hcur.1 (Option.some.inj hc)
            · rw [hs]; intro hc; exact hcur.2 (Option.some.inj hc)
          · refine ⟨_, LC_SetAPStateCmd_badcurrent cfg msg st hlen hv hall hn _ he hcur,
              Or.inr ⟨?_, CountedError_event _ _⟩⟩
            rintro ⟨_, _, h | ⟨_, h1, h2⟩⟩
            · exact hall h
            · rw [hs] at h1 h2
              exact hcur ⟨fun hc => h1 (by rw [hc]), fun hc => h2 (by rw [hc])⟩
        · refine ⟨_, LC_SetAPStateCmd_badnum cfg msg st hlen hv hall hn,
            Or.inr ⟨?_, CountedError_event _ _⟩⟩
          rintro ⟨_, _, h | ⟨h, _⟩⟩
          · exact hall h
          · exact hn h
    · exact ⟨_, LC_SetAPStateCmd_badstate cfg msg st hlen hv,
        Or.inr ⟨fun h => hv h.2.1, CountedError_event _ _⟩⟩
  · exact ⟨_, ((handlers_badlen cfg msg st hmid).2 hlen).2.1,
      Or.inr ⟨fun h => hlen h.1, CountedError_event _ _⟩⟩

/-- The set-permanently-off command is counted as executed exactly when its length is
right and the number names a record that is disabled. -/
theorem LC_SetAPPermOffCmd_counted (cfg : LC_Config) (msg : CFE_SB_Msg) (st : LC_State)
    (hmid : msg.MsgId = LC_CMD_MID)
    (hl : st.LC_OperData.ARTPtr.length = cfg.LC_MAX_ACTIONPOINTS) :
    ∃ st', LC_SetAPPermOffCmd cfg msg st = some st' ∧
      (((msg.TotalMsgLength = u16 (sizeof_LC_TwoWordCmd_t cfg) ∧
          msg.APNumber ≠ LC_ALL_ACTIONPOINTS ∧ msg.APNumber < cfg.LC_MAX_ACTIONPOINTS ∧
          apStateAt st msg.APNumber = some cfg.LC_APSTATE_DISABLED) ∧
        CountedDone st st') ∨
      (¬ (msg.TotalMsgLength = u16 (sizeof_LC_TwoWordCmd_t cfg) ∧
          msg.APNumber ≠ LC_ALL_ACTIONPOINTS ∧ msg.APNumber < cfg.LC_MAX_ACTIONPOINTS ∧
          apStateAt st msg.APNumber = some cfg.LC_APSTATE_DISABLED) ∧
        CountedError st st')) := by
  by_cases hlen : msg.TotalMsgLength = u16 (sizeof_LC_TwoWordCmd_t cfg)
  · by_cases hbad : msg.APNumber = LC_ALL_ACTIONPOINTS ∨ msg.APNumber ≥ cfg.LC_MAX_ACTIONPOINTS
    · refine ⟨_, LC_SetAPPermOffCmd_badnum cfg msg st hlen hbad,
        Or.inr ⟨?_, CountedError_event _ _⟩⟩
      rintro ⟨_, h1, h2, _⟩
      rcases hbad with h | h
      · exact h1 h
      · omega
    · have hall : msg.APNumber ≠ LC_ALL_ACTIONPOINTS := fun h => hbad (Or.inl h)
      have hn : msg.APNumber < cfg.LC_MAX_ACTIONPOINTS := by
        by_contra hc
        exact hbad (Or.inr (by omega))
      have hlt : msg.APNumber < st.LC_OperData.ARTPtr.length := by omega
      have he := List.getElem?_eq_getElem hlt
      have hs := apStateAt_some st msg.APNumber _ he
      by_cases hd : (st.LC_OperData.ARTPtr[msg.APNumber]).CurrentState = cfg.LC_APSTATE_DISABLED
      · refine ⟨_, LC_SetAPPermOffCmd_accept cfg msg st hlen hall hn _ he hd,
          Or.inl ⟨⟨hlen, hall, hn, ?_⟩, rfl, rfl⟩⟩
        rw [hs, hd]
      · refine ⟨_, LC_SetAPPermOffCmd_notdisabled cfg msg st hlen hall hn _ he hd,
          Or.inr ⟨?_, CountedError_event _ _⟩⟩
        rintro ⟨_, _, _, h⟩
        rw [hs] at h
        exact hd (Option.some.inj h)
  · exact ⟨_, ((handlers_badlen cfg msg st hmid).2 hlen).2.2.1,
      Or.inr ⟨fun h => hlen h.1, CountedError_event _ _⟩⟩

/-- The actionpoint stats-reset command is counted as executed exactly when its length is
right and the number is the "all" sentinel or lies inside the table. -/
theorem LC_ResetAPStatsCmd_counted (cfg : LC_Config) (msg : CFE_SB_Msg) (st : LC_State)
    (hmid : msg.MsgId = LC_CMD_MID) (hs : cfg.SizesOK) (hst : st.Sized cfg) :
    ∃ st', LC_ResetAPStatsCmd cfg msg st = some st' ∧
      (((msg.TotalMsgLength = u16 (sizeof_LC_TwoWordCmd_t cfg) ∧
          (msg.APNumber = LC_ALL_ACTIONPOINTS ∨ msg.APNumber < cfg.LC_MAX_ACTIONPOINTS)) ∧
        CountedDone st st') ∨
      (¬ (msg.TotalMsgLength = u16 (sizeof_LC_TwoWordCmd_t cfg) ∧
          (msg.APNumber = LC_ALL_ACTIONPOINTS ∨ msg.APNumber < cfg.LC_MAX_ACTIONPOINTS)) ∧
        CountedError st st')) := by
  by_cases hlen : msg.TotalMsgLength = u16 (sizeof_LC_TwoWordCmd_t cfg)
  · by_cases hok : msg.APNumber = LC_ALL_ACTIONPOINTS ∨ msg.APNumber < cfg.LC_MAX_ACTIONPOINTS
    · obtain ⟨st', hrun, _, _, _, hc⟩ := LC_ResetAPStatsCmd_spec cfg msg st hs hst hlen
      rw [if_pos hok] at hc
      exact ⟨st', hrun, Or.inl ⟨⟨hlen, hok⟩, hc⟩⟩
    · refine ⟨st.incCmdErrCount.sendEvent LC_EventID.LC_APSTATS_APNUM_ERR_EID, ?_,
        Or.inr ⟨fun h => hok h.2, CountedError_inc _ _⟩⟩
      unfold LC_ResetAPStatsCmd
      rw [LC_VerifyMsgLength_ok msg _ st hlen]
      simp only [if_true]
      unfold resetAPStatsTarget
      rw [if_neg (fun h => hok (Or.inl h)), if_neg (fun h => hok (Or.inr h))]
      rfl
  · exact ⟨_, ((handlers_badlen cfg msg st hmid).2 hlen).2.2.2.1,
      Or.inr ⟨fun h => hlen h.1, CountedError_event _ _⟩⟩

/-- The watchpoint stats-reset command is counted as executed exactly when its length is
right and the number is the "all" sentinel or lies inside the table. -/
theorem LC_ResetWPStatsCmd_counted (cfg : LC_Config) (msg : CFE_SB_Msg) (st : LC_State)
    (hmid : msg.MsgId = LC_CMD_MID) (hs : cfg.SizesOK) (hst : st.Sized cfg) :
    ∃ st', LC_ResetWPStatsCmd cfg msg st = some st' ∧
      (((msg.TotalMsgLength = u16 (sizeof_LC_TwoWordCmd_t cfg) ∧
          (msg.WPNumber = LC_ALL_WATCHPOINTS ∨ msg.WPNumber < cfg.LC_MAX_WATCHPOINTS)) ∧
        CountedDone st st') ∨
      (¬ (msg.TotalMsgLength = u16 (sizeof_LC_TwoWordCmd_t cfg) ∧
          (msg.WPNumber = LC_ALL_WATCHPOINTS ∨ msg.WPNumber < cfg.LC_MAX_WATCHPOINTS)) ∧
        CountedError st st')) := by
  by_cases hlen : msg.TotalMsgLength = u16 (sizeof_LC_TwoWordCmd_t cfg)
  · by_cases hok : msg.WPNumber = LC_ALL_WATCHPOINTS ∨ msg.WPNumber < cfg.LC_MAX_WATCHPOINTS
    · obtain ⟨st', hrun, _, _, _, hc⟩ := LC_ResetWPStatsCmd_spec cfg msg st hs hst hlen
      rw [if_pos hok] at hc
      exact ⟨st', hrun, Or.inl ⟨⟨hlen, hok⟩, hc⟩⟩
    · refine ⟨st.incCmdErrCount.sendEvent LC_EventID.LC_WPSTATS_WPNUM_ERR_EID, ?_,
        Or.inr ⟨fun h => hok h.2, CountedError_inc _ _⟩⟩
      unfold LC_ResetWPStatsCmd
      rw [LC_VerifyMsgLength_ok msg _ st hlen]
      simp only [if_true]
      unfold resetWPStatsTarget
      rw [if_neg (fun h => hok (Or.inl h)), if_neg (fun h => hok (Or.inr h))]
      rfl
  · exact ⟨_, ((handlers_badlen cfg msg st hmid).2 hlen).2.2.2.2,
      Or.inr ⟨fun h => hlen h.1, CountedError_event _ _⟩⟩

/-- Dispatch of a ground command: what holds of the result of the handler chosen by the
`switch` on the command code holds of the state `LC_AppPipe` returns, and the status is
`CFE_SUCCESS`. -/
theorem LC_AppPipe_cmd (cfg : LC_Config) (ext : LC_Externals) (env : CFE_Env)
    (msg : CFE_SB_Msg) (st : LC_State) (P : LC_State → Prop) (hmid : msg.MsgId = LC_CMD_MID)
    (h1 : msg.CmdCode = cfg.LC_NOOP_CC → P (LC_NoopCmd cfg msg st))
    (h2 : msg.CmdCode ≠ cfg.LC_NOOP_CC → msg.CmdCode = cfg.LC_RESET_CC →
      P (LC_ResetCmd cfg msg st))
    (h3 : msg.CmdCode ≠ cfg.LC_NOOP_CC → msg.CmdCode ≠ cfg.LC_RESET_CC →
      msg.CmdCode = cfg.LC_SET_LC_STATE_CC → P (LC_SetLCStateCmd cfg msg st))
    (h4 : msg.CmdCode ≠ cfg.LC_NOOP_CC → msg.CmdCode ≠ cfg.LC_RESET_CC →
      msg.CmdCode ≠ cfg.LC_SET_LC_STATE_CC → msg.CmdCode = cfg.LC_SET_AP_STATE_CC →
      ∃ st', LC_SetAPStateCmd cfg msg st = some st' ∧ P st')
    (h5 : msg.CmdCode ≠ cfg.LC_NOOP_CC → msg.CmdCode ≠ cfg.LC_RESET_CC →
      msg.CmdCode ≠ cfg.LC_SET_LC_STATE_CC → msg.CmdCode ≠ cfg.LC_SET_AP_STATE_CC →
      msg.CmdCode = cfg.LC_SET_AP_PERMOFF_CC →
      ∃ st', LC_SetAPPermOffCmd cfg msg st = some st' ∧ P st')
    (h6 : msg.CmdCode ≠ cfg.LC_NOOP_CC → msg.CmdCode ≠ cfg.LC_RESET_CC →
      msg.CmdCode ≠ cfg.LC_SET_LC_STATE_CC → msg.CmdCode ≠ cfg.LC_SET_AP_STATE_CC →
      msg.CmdCode ≠ cfg.LC_SET_AP_PERMOFF_CC → msg.CmdCode = cfg.LC_RESET_AP_STATS_CC →
      ∃ st', LC_ResetAPStatsCmd cfg msg st = some st' ∧ P st')
    (h7 : msg.CmdCode ≠ cfg.LC_NOOP_CC → msg.CmdCode ≠ cfg.LC_RESET_CC →
      msg.CmdCode ≠ cfg.LC_SET_LC_STATE_CC → msg.CmdCode ≠ cfg.LC_SET_AP_STATE_CC →
      msg.CmdCode ≠ cfg.LC_SET_AP_PERMOFF_CC → msg.CmdCode ≠ cfg.LC_RESET_AP_STATS_CC →
      msg.CmdCode = cfg.LC_RESET_WP_STATS_CC →
      ∃ st', LC_ResetWPStatsCmd cfg msg st = some st' ∧ P st')
    (h8 : msg.CmdCode ≠ cfg.LC_NOOP_CC → msg.CmdCode ≠ cfg.LC_RESET_CC →
      msg.CmdCode ≠ cfg.LC_SET_LC_STATE_CC → msg.CmdCode ≠ cfg.LC_SET_AP_STATE_CC →
      msg.CmdCode ≠ cfg.LC_SET_AP_PERMOFF_CC → msg.CmdCode ≠ cfg.LC_RESET_AP_STATS_CC →
      msg.CmdCode ≠ cfg.LC_RESET_WP_STATS_CC →
      P ((st.sendEvent LC_EventID.LC_CC_ERR_EID).incCmdErrCount)) :
    ∃ st', LC_AppPipe cfg ext env msg st = some (cfg.CFE_SUCCESS, st') ∧ P st' := by
  unfold LC_AppPipe
  dsimp only
  rw [if_neg (by rw [hmid]; decide), if_neg (by rw [hmid]; decide), if_pos hmid]
  by_cases c1 : msg.CmdCode = cfg.LC_NOOP_CC
  · rw [if_pos c1]
    exact ⟨_, rfl, h1 c1⟩
  rw [if_neg c1]
  by_cases c2 : msg.CmdCode = cfg.LC_RESET_CC
  · rw [if_pos c2]
    exact ⟨_, rfl, h2 c1 c2⟩
  rw [if_neg c2]
  by_cases c3 : msg.CmdCode = cfg.LC_SET_LC_STATE_CC
  · rw [if_pos c3]
    exact ⟨_, rfl, h3 c1 c2 c3⟩
  rw [if_neg c3]
  by_cases c4 : msg.CmdCode = cfg.LC_SET_AP_STATE_CC
  · rw [if_pos c4]
    obtain ⟨st', h, hp⟩ := h4 c1 c2 c3 c4
    exact ⟨st', by rw [h]; rfl, hp⟩
  rw [if_neg c4]
  by_cases c5 : msg.CmdCode = cfg.LC_SET_AP_PERMOFF_CC
  · rw [if_pos c5]
    obtain ⟨st', h, hp⟩ := h5 c1 c2 c3 c4 c5
    exact ⟨st', by rw [h]; rfl, hp⟩
  rw [if_neg c5]
  by_cases c6 : msg.CmdCode = cfg.LC_RESET_AP_STATS_CC
  · rw [if_pos c6]
    obtain ⟨st', h, hp⟩ := h6 c1 c2 c3 c4 c5 c6
    exact ⟨st', by rw [h]; rfl, hp⟩
  rw [if_neg c6]
  by_cases c7 : msg.CmdCode = cfg.LC_RESET_WP_STATS_CC
  · rw [if_pos c7]
    obtain ⟨st', h, hp⟩ := h7 c1 c2 c3 c4 c5 c6 c7
    exact ⟨st', by rw [h]; rfl, hp⟩
  rw [if_neg c7]
  exact ⟨_, rfl, h8 c1 c2 c3 c4 c5 c6 c7⟩

/-! ## What a housekeeping request leaves alone -/

/-- After table management `ADTPtr` designates the table it designated before, or the one
table services hand out at the second address acquisition. -/
theorem LC_ManageTables_ADTPtr (cfg : LC_Config) (env : CFE_Env) (st : LC_State)
    (hs : cfg.SizesOK) (hst : st.Sized cfg)
    (henv : env.ADTPtr.length = cfg.LC_MAX_ACTIONPOINTS) :
    ∃ rc st', LC_ManageTables cfg env st = some (rc, st') ∧
      (st'.LC_OperData.ADTPtr = st.LC_OperData.ADTPtr ∨ st'.LC_OperData.ADTPtr = env.ADTPtr) := by
  obtain ⟨r, st1, hrun1, _, hsz1, _, hadt1, _, hr⟩ := manageWDT_spec cfg env st hs hst
  by_cases hw : env.WDT_GetAddress = cfg.CFE_TBL_INFO_UPDATED ∨ env.WDT_GetAddress = cfg.CFE_SUCCESS
  · rw [if_pos hw] at hr
    subst hr
    obtain ⟨rc, st2, hrun2, _, _, _, hadt2, _⟩ := manageADT_spec cfg env st1 hs hsz1 henv
    refine ⟨rc, st2, ?_, Or.inr hadt2⟩
    unfold LC_ManageTables; rw [hrun1]; exact hrun2
  · rw [if_neg hw] at hr
    subst hr
    refine ⟨env.WDT_GetAddress, st1, ?_, Or.inl hadt1⟩
    unfold LC_ManageTables; rw [hrun1]

/-- The calls of table management do not transmit the housekeeping packet. -/
theorem manageTablesCalls_noSend (cfg : LC_Config) (env : CFE_Env) :
    ∀ c ∈ manageTablesCalls cfg env, LC_Call.isSendMsg c = false := by
  unfold manageTablesCalls manageCalls
  split_ifs <;> decide

/-- The calls of the critical data store update: none when the store is not active,
otherwise a run that starts with the write of the watchpoint results table; the packet is
not transmitted. -/
theorem updateCDS_calls (cfg : LC_Config) (env : CFE_Env) (st : LC_State) :
    ∃ more, (updateCDS cfg env st).Calls = st.Calls ++ more ∧
      (∀ c ∈ more, LC_Call.isSendMsg c = false) ∧
      (st.LC_OperData.HaveActiveCDS = false → more = []) ∧
      (st.LC_OperData.HaveActiveCDS = true →
        ∃ rest, more = LC_Call.CFE_ES_CopyToCDS_WRT st.LC_OperData.WRTPtr :: rest) := by
  obtain ⟨h1, h2, h3, h4⟩ := LC_UpdateTaskCDS_cases cfg env st
  have hc := (updateCDS_eq cfg env st).1
  by_cases ha : st.LC_OperData.HaveActiveCDS = true
  · rw [if_pos ha] at hc
    have hf : ¬ st.LC_OperData.HaveActiveCDS = false := by rw [ha]; decide
    by_cases c1 : env.CopyToCDS_WRT = cfg.CFE_SUCCESS
    · by_cases c2 : env.CopyToCDS_ART = cfg.CFE_SUCCESS
      · by_cases c3 : env.CopyToCDS_AppData = cfg.CFE_SUCCESS
        · exact ⟨_, hc.trans (h4 c1 c2 c3).2, by simp [LC_Call.isSendMsg],
            fun h => absurd h hf, fun _ => ⟨_, rfl⟩⟩
        · exact ⟨_, hc.trans (h3 c1 c2 c3).2, by simp [LC_Call.isSendMsg],
            fun h => absurd h hf, fun _ => ⟨_, rfl⟩⟩
      · exact ⟨_, hc.trans (h2 c1 c2).2, by simp [LC_Call.isSendMsg],
          fun h => absurd h hf, fun _ => ⟨_, rfl⟩⟩
    · exact ⟨_, hc.trans (h1 c1).2, by simp [LC_Call.isSendMsg],
        fun h => absurd h hf, fun _ => ⟨_, rfl⟩⟩
  · rw [if_neg ha] at hc
    exact ⟨[], by rw [hc]; simp, by simp, fun _ => rfl, fun h => absurd h ha⟩

/-- A housekeeping request of the wrong length: the length event, then table management
on the state as it was, then the critical data store update when table management
returned `CFE_SUCCESS`. -/
theorem LC_HousekeepingReq_badlen (cfg : LC_Config) (env : CFE_Env) (msg : CFE_SB_Msg)
    (st : LC_State) (hs : cfg.SizesOK) (hst : st.Sized cfg)
    (henv : env.ADTPtr.length = cfg.LC_MAX_ACTIONPOINTS)
    (hmid : msg.MsgId = LC_SEND_HK_MID)
    (hlen : msg.TotalMsgLength ≠ u16 (sizeof_LC_NoArgsCmd_t cfg)) :
    ∃ rc st2,
      LC_ManageTables cfg env (st.sendEvent LC_EventID.LC_HKREQ_LEN_ERR_EID) = some (rc, st2) ∧
      rc = (if env.WDT_GetAddress = cfg.CFE_TBL_INFO_UPDATED ∨ env.WDT_GetAddress = cfg.CFE_SUCCESS
        then (if env.ADT_GetAddress = cfg.CFE_TBL_INFO_UPDATED ∨ env.ADT_GetAddress = cfg.CFE_SUCCESS
          then cfg.CFE_SUCCESS else env.ADT_GetAddress)
        else env.WDT_GetAddress) ∧
      st2.LC_OperData.HkPacket = st.LC_OperData.HkPacket ∧
      st2.LC_OperData.HaveActiveCDS = st.LC_OperData.HaveActiveCDS ∧
      st2.Calls = st.Calls ++ [LC_Call.CFE_EVS_SendEvent LC_EventID.LC_HKREQ_LEN_ERR_EID]
        ++ manageTablesCalls cfg env ∧
      LC_HousekeepingReq cfg env msg st =
        some (if rc ≠ cfg.CFE_SUCCESS then (rc, st2)
          else (cfg.CFE_SUCCESS, updateCDS cfg env st2)) := by
  have hsz : (st.sendEvent LC_EventID.LC_HKREQ_LEN_ERR_EID).Sized cfg := hst
  obtain ⟨rc, st2, hm, hfr, _, _, _, hrc⟩ := LC_ManageTables_spec cfg env _ hs hsz henv
  obtain ⟨rc', st2', hm', hcalls⟩ := LC_ManageTables_calls cfg env _ hs hsz henv
  rw [hm] at hm'
  cases hm'
  refine ⟨rc, st2, hm, hrc, hfr.2.1, hfr.2.2.1, hcalls, ?_⟩
  unfold LC_HousekeepingReq
  rw [LC_VerifyMsgLength_hk msg _ st hmid hlen]
  simp only [Bool.false_eq_true, if_false, hm]
  by_cases hcode : rc = cfg.CFE_SUCCESS
  · rw [if_neg (fun h => h hcode), if_neg (fun h => h hcode)]
  · rw [if_pos hcode, if_pos hcode]

/-- A housekeeping request of any length returns; of the application data it changes at
most the saved-on-exit marker, it keeps the number of watchpoints in use, and the
result tables are the ones table management leaves. -/
theorem LC_HousekeepingReq_engine (cfg : LC_Config) (env : CFE_Env) (msg : CFE_SB_Msg)
    (st : LC_State) (hs : cfg.SizesOK) (hst : st.Sized cfg)
    (henv : env.ADTPtr.length = cfg.LC_MAX_ACTIONPOINTS)
    (hmid : msg.MsgId = LC_SEND_HK_MID) :
    ∃ rc st', LC_HousekeepingReq cfg env msg st = some (rc, st') ∧
      st'.LC_AppData =
        { st.LC_AppData with CDSSavedOnExit := st'.LC_AppData.CDSSavedOnExit } ∧
      st'.LC_OperData.WatchpointCount = st.LC_OperData.WatchpointCount ∧
      (st'.LC_OperData.ADTPtr = st.LC_OperData.ADTPtr ∨ st'.LC_OperData.ADTPtr = env.ADTPtr) ∧
      (∀ i : Nat, st'.LC_OperData.WRTPtr[i]? =
        if env.WDT_GetAddress = cfg.CFE_TBL_INFO_UPDATED then
          st.LC_OperData.WRTPtr[i]?.map (resetWPEntry cfg false)
        else st.LC_OperData.WRTPtr[i]?) ∧
      (∀ i : Nat, st'.LC_OperData.ARTPtr[i]? =
        if (env.WDT_GetAddress = cfg.CFE_TBL_INFO_UPDATED ∨ env.WDT_GetAddress = cfg.CFE_SUCCESS)
            ∧ env.ADT_GetAddress = cfg.CFE_TBL_INFO_UPDATED then
          st.LC_OperData.ARTPtr[i]?.map (resetAPEntry cfg env.ADTPtr false i)
        else st.LC_OperData.ARTPtr[i]?) := by
  have hpre : ∃ st1, (if (LC_VerifyMsgLength msg (u16 (sizeof_LC_NoArgsCmd_t cfg)) st).1 = true
        then packHousekeeping cfg (LC_VerifyMsgLength msg (u16 (sizeof_LC_NoArgsCmd_t cfg)) st).2
        else some (LC_VerifyMsgLength msg (u16 (sizeof_LC_NoArgsCmd_t cfg)) st).2) = some st1 ∧
      st1.Sized cfg ∧ st1.LC_AppData = st.LC_AppData ∧
      st1.LC_OperData.WRTPtr = st.LC_OperData.WRTPtr ∧
      st1.LC_OperData.ARTPtr = st.LC_OperData.ARTPtr ∧
      st1.LC_OperData.ADTPtr = st.LC_OperData.ADTPtr ∧
      st1.LC_OperData.WatchpointCount = st.LC_OperData.WatchpointCount := by
    by_cases hlen : msg.TotalMsgLength = u16 (sizeof_LC_NoArgsCmd_t cfg)
    · rw [LC_VerifyMsgLength_ok msg _ st hlen]
      obtain ⟨st1, hp, ha, hw, hr, hd, _, hc, hsz, _⟩ := packHousekeeping_spec cfg st hs hst
      exact ⟨st1, by simp only [if_true]; exact hp, hsz, ha, hw, hr, hd, hc⟩
    · rw [LC_VerifyMsgLength_hk msg _ st hmid hlen]
      exact ⟨st.sendEvent LC_EventID.LC_HKREQ_LEN_ERR_EID, by simp, hst, rfl, rfl, rfl, rfl, rfl⟩
  obtain ⟨st1, hp, hsz1, ha1, hw1, hr1, hd1, hc1⟩ := hpre
  obtain ⟨rc, st2, hm, hfr, _, hwrt, hart, _⟩ := LC_ManageTables_spec cfg env st1 hs hsz1 henv
  obtain ⟨rc', st2', hm', hadt⟩ := LC_ManageTables_ADTPtr cfg env st1 hs hsz1 henv
  rw [hm] at hm'
  cases hm'
  rw [hw1] at hwrt
  rw [hr1] at hart
  rw [hd1] at hadt
  have happ : st2.LC_AppData = st.LC_AppData := hfr.1.trans ha1
  have hcnt : st2.LC_OperData.WatchpointCount = st.LC_OperData.WatchpointCount :=
    hfr.2.2.2.trans hc1
  unfold LC_HousekeepingReq
  simp only [hp, hm]
  by_cases hcode : rc = cfg.CFE_SUCCESS
  · rw [if_neg (fun h => h hcode)]
    obtain ⟨hua, huo⟩ := updateCDS_AppData cfg env st2
    refine ⟨_, _, rfl, ?_, ?_, ?_, ?_, ?_⟩
    · rcases hua with h | h
      · rw [h, happ]
      · rw [h, happ]
    · rw [huo]; exact hcnt
    · rw [huo]; exact hadt
    · intro i; rw [(updateCDS_frame cfg env st2).2.1]; exact hwrt i
    · intro i; rw [(updateCDS_frame cfg env st2).2.2]; exact hart i
  · rw [if_pos hcode]
    refine ⟨_, _, rfl, ?_, hcnt, hadt, hwrt, hart⟩
    rw [happ]

/-! ## Sample requests: when the sampler is called -/

/-- The range check of a sample request with a valid range calls the sampler with the
range the request names. -/
theorem sampleRange_eq (cfg : LC_Config) (ext : LC_Externals) (msg : CFE_SB_Msg)
    (st : LC_State)
    (h : (msg.StartIndex = LC_ALL_ACTIONPOINTS ∧ msg.EndIndex = LC_ALL_ACTIONPOINTS) ∨
      (msg.StartIndex ≤ msg.EndIndex ∧ msg.EndIndex < cfg.LC_MAX_ACTIONPOINTS)) :
    sampleRange cfg ext msg st =
      (true, callSampleAPs ext (sampledRange cfg msg).1 (sampledRange cfg msg).2 st) := by
  unfold sampleRange sampledRange
  by_cases h1 : msg.StartIndex = LC_ALL_ACTIONPOINTS ∧ msg.EndIndex = LC_ALL_ACTIONPOINTS
  · rw [if_pos h1, if_pos h1]
  · rw [if_neg h1, if_neg h1, if_pos (h.resolve_left h1)]

/-- A sample request that is not accepted returns the incoming state, at most with an
error event recorded, whatever the sampler is. -/
theorem LC_SampleAPReq_rejected (cfg : LC_Config) (msg : CFE_SB_Msg)
    (st : LC_State) (hmid : msg.MsgId = LC_SAMPLE_AP_MID) (h : ¬ sampleAccepted cfg msg st) :
    ∃ st', (∀ ext' : LC_Externals, LC_SampleAPReq cfg ext' msg st = some st') ∧
      (st' = st ∨ ∃ e, st' = st.sendEvent e) := by
  by_cases hlen : msg.TotalMsgLength = u16 (sizeof_LC_SampleAP_t cfg)
  · by_cases hstate : st.LC_AppData.CurrentLCState = cfg.LC_STATE_DISABLED
    · exact ⟨st, fun ext' => LC_SampleAPReq_disabled cfg ext' msg st hlen hstate, Or.inl rfl⟩
    · have hrange : ¬ ((msg.StartIndex = LC_ALL_ACTIONPOINTS ∧ msg.EndIndex = LC_ALL_ACTIONPOINTS) ∨
          (msg.StartIndex ≤ msg.EndIndex ∧ msg.EndIndex < cfg.LC_MAX_ACTIONPOINTS)) :=
        fun hr => h ⟨hlen, hstate, hr⟩
      refine ⟨st.sendEvent LC_EventID.LC_APSAMPLE_APNUM_ERR_EID, ?_, Or.inr ⟨_, rfl⟩⟩
      intro ext'
      have hno : ¬ (msg.UpdateAge ≠ 0 ∧ (sampleRange cfg ext' msg st).1 = true) := by
        rw [sampleRange_rejected cfg ext' msg st hrange]
        simp
      rw [LC_SampleAPReq_noaging cfg ext' msg st hlen hstate hno,
        sampleRange_rejected cfg ext' msg st hrange]
  · refine ⟨st.sendEvent LC_EventID.LC_APSAMPLE_LEN_ERR_EID, ?_, Or.inr ⟨_, rfl⟩⟩
    intro ext'
    rw [LC_SampleAPReq_badlen cfg ext' msg st hlen, LC_VerifyMsgLength_sample msg _ st hmid hlen]

/-- A sample request that is accepted returns the state the sampler leaves for the named
range, aged by one step when `UpdateAge` is not zero. -/
theorem LC_SampleAPReq_accepted (cfg : LC_Config) (ext : LC_Externals) (msg : CFE_SB_Msg)
    (st : LC_State) (hl : st.LC_OperData.WRTPtr.length = cfg.LC_MAX_WATCHPOINTS)
    (hmax : cfg.LC_MAX_WATCHPOINTS ≤ 65535)
    (hext : ∀ (s e : Nat) (t : LC_State),
      (ext.LC_SampleAPs s e t).LC_OperData.WRTPtr.length = t.LC_OperData.WRTPtr.length)
    (h : sampleAccepted cfg msg st) :
    LC_SampleAPReq cfg ext msg st =
      some (if msg.UpdateAge ≠ 0 then
          (callSampleAPs ext (sampledRange cfg msg).1 (sampledRange cfg msg).2 st).setWRT
            ((callSampleAPs ext (sampledRange cfg msg).1 (sampledRange cfg msg).2
              st).LC_OperData.WRTPtr.map (ageEntry cfg))
        else callSampleAPs ext (sampledRange cfg msg).1 (sampledRange cfg msg).2 st) := by
  obtain ⟨hlen, hstate, hrange⟩ := h
  have hsr := sampleRange_eq cfg ext msg st hrange
  by_cases hage : msg.UpdateAge ≠ 0
  · rw [if_pos hage, LC_SampleAPReq_aging cfg ext msg st ⟨hlen, hrange, hage⟩ hstate
      (by rw [hsr]; unfold callSampleAPs; rw [hext]; exact hl) hmax, hsr]
  · rw [if_neg hage, LC_SampleAPReq_noaging cfg ext msg st hlen hstate (fun hc => hage hc.1), hsr]

/-! ## The set-state command for all actionpoints, twice -/

/-- Setting an eligible record to active, passive or disabled keeps it eligible, and a
record that is not eligible is not changed: the set of eligible records stays. -/
theorem eligibleAP_setAllEntry (cfg : LC_Config) (hl : cfg.LabelsDistinct) (s : Nat)
    (hv : s = cfg.LC_APSTATE_ACTIVE ∨ s = cfg.LC_APSTATE_PASSIVE ∨ s = cfg.LC_APSTATE_DISABLED)
    (e : LC_ARTEntry_t) : eligibleAP cfg (setAllEntry cfg s e) ↔ eligibleAP cfg e := by
  obtain ⟨_, hst, _⟩ := hl
  simp only [List.nodup_cons, List.mem_cons, List.mem_singleton, not_or, List.not_mem_nil,
    not_false_eq_true, List.nodup_nil, and_true] at hst
  obtain ⟨⟨n1, n2, n3, n4⟩, ⟨a1, a2, a3⟩, ⟨p1, p2⟩, d1⟩ := hst
  unfold setAllEntry
  by_cases he : e.CurrentState ≠ cfg.LC_ACTION_NOT_USED ∧ e.CurrentState ≠ cfg.LC_APSTATE_PERMOFF
  · rw [if_pos he]
    unfold eligibleAP
    refine ⟨fun _ => he, fun _ => ?_⟩
    rcases hv with h | h | h
    · subst h; exact ⟨fun hc => n1 hc.symm, a3⟩
    · subst h; exact ⟨fun hc => n2 hc.symm, p2⟩
    · subst h; exact ⟨fun hc => n3 hc.symm, d1⟩
  · rw [if_neg he]

/-- The state change for all actionpoints on a record that is neither not used nor
permanently off. -/
theorem setAllEntry_eligible (cfg : LC_Config) (s : Nat) (e : LC_ARTEntry_t)
    (he : e.CurrentState ≠ cfg.LC_ACTION_NOT_USED ∧ e.CurrentState ≠ cfg.LC_APSTATE_PERMOFF) :
    setAllEntry cfg s e = { e with CurrentState := s } := by
  unfold setAllEntry
  rw [if_pos he]

/-- The state change for all actionpoints overwrites: after a first change to a valid
state a second one gives what it gives alone. -/
theorem setAllEntry_twice (cfg : LC_Config) (hl : cfg.LabelsDistinct) (s1 s2 : Nat)
    (hv : s1 = cfg.LC_APSTATE_ACTIVE ∨ s1 = cfg.LC_APSTATE_PASSIVE ∨
      s1 = cfg.LC_APSTATE_DISABLED)
    (e : LC_ARTEntry_t) :
    setAllEntry cfg s2 (setAllEntry cfg s1 e) = setAllEntry cfg s2 e := by
  have hel := eligibleAP_setAllEntry cfg hl s1 hv e
  by_cases he : e.CurrentState ≠ cfg.LC_ACTION_NOT_USED ∧ e.CurrentState ≠ cfg.LC_APSTATE_PERMOFF
  · have he1 : eligibleAP cfg (setAllEntry cfg s1 e) := hel.mpr he
    unfold eligibleAP at he1
    rw [setAllEntry_eligible cfg s2 _ he1, setAllEntry_eligible cfg s2 e he,
      setAllEntry_eligible cfg s1 e he]
  · have h1 : setAllEntry cfg s1 e = e := by
      unfold setAllEntry
      rw [if_neg he]
    rw [h1]

/-! ## Array accesses of the packing loop bodies -/

/-- The body of the watch-result packing loop for a `TableIndex` whose four table entries
exist: whatever the packet array holds, it replaces exactly the byte at
`HKIndex = TableIndex / 4`, by a value that depends on the four entries only, and fails
when that byte lies outside the array. -/
theorem packWPBody_write (cfg : LC_Config) (WRT : List LC_WRTEntry_t) (i : Nat)
    (h : i + 3 < WRT.length) :
    ∃ b, ∀ s : List Nat,
      packWPBody cfg WRT i s = if u16 (i / 4) < s.length then some (s.set (u16 (i / 4)) b)
        else none := by
  have b2 : i + 2 < WRT.length := by omega
  have b1 : i + 1 < WRT.length := by omega
  have b0 : i < WRT.length := by omega
  have h3 : WRT[i + 3]? = some WRT[i + 3] := List.getElem?_eq_getElem h
  have h2 : WRT[i + 2]? = some WRT[i + 2] := List.getElem?_eq_getElem b2
  have h1 : WRT[i + 1]? = some WRT[i + 1] := List.getElem?_eq_getElem b1
  have h0 : WRT[i]? = some WRT[i] := List.getElem?_eq_getElem b0
  refine ⟨watchByte cfg (WRT[i + 3]).WatchResult (WRT[i + 2]).WatchResult
    (WRT[i + 1]).WatchResult (WRT[i]).WatchResult, ?_⟩
  intro s
  unfold packWPBody
  simp only [h3, h2, h1, h0]
  rfl

/-- The body of the watch-result packing loop reads the results table at `TableIndex + 3`,
`TableIndex + 2`, `TableIndex + 1` and `TableIndex` only: two tables that agree there
give the same result. -/
theorem packWPBody_reads (cfg : LC_Config) (WRT WRT' : List LC_WRTEntry_t) (i : Nat)
    (s : List Nat) (h3 : WRT'[i + 3]? = WRT[i + 3]?) (h2 : WRT'[i + 2]? = WRT[i + 2]?)
    (h1 : WRT'[i + 1]? = WRT[i + 1]?) (h0 : WRT'[i]? = WRT[i]?) :
    packWPBody cfg WRT' i s = packWPBody cfg WRT i s := by
  unfold packWPBody
  rw [h3, h2, h1, h0]

/-- The body of the action-result packing loop for a `TableIndex` whose two table entries
exist: whatever the packet array and the count of active actionpoints hold, it replaces
exactly the byte at `HKIndex = TableIndex / 2`, by a value that depends on the two
entries only, and fails when that byte lies outside the array. -/
theorem packAPBody_write (cfg : LC_Config) (ART : List LC_ARTEntry_t) (i : Nat)
    (h : i + 1 < ART.length) :
    ∃ b, ∀ s : List Nat × Nat, ∃ A,
      packAPBody cfg ART i s = if u16 (i / 2) < s.1.length then some (s.1.set (u16 (i / 2)) b, A)
        else none := by
  have b0 : i < ART.length := by omega
  have h1 : ART[i + 1]? = some ART[i + 1] := List.getElem?_eq_getElem h
  have h0 : ART[i]? = some ART[i] := List.getElem?_eq_getElem b0
  refine ⟨actionByte cfg ART[i + 1] ART[i], ?_⟩
  intro s
  refine ⟨(switchAPState cfg (ART[i]).CurrentState
    (switchAPState cfg (ART[i + 1]).CurrentState s.2).2).2, ?_⟩
  unfold packAPBody
  simp only [h1, h0, switchAPState_fst, arrayWrite]
  by_cases hk : u16 (i / 2) < s.1.length
  · simp only [hk, if_true]
    rfl
  · simp only [hk, if_false]

/-- The body of the action-result packing loop reads the results table at `TableIndex + 1`
and `TableIndex` only. -/
theorem packAPBody_reads (cfg : LC_Config) (ART ART' : List LC_ARTEntry_t) (i : Nat)
    (s : List Nat × Nat) (h1 : ART'[i + 1]? = ART[i + 1]?) (h0 : ART'[i]? = ART[i]?) :
    packAPBody cfg ART' i s = packAPBody cfg ART i s := by
  unfold packAPBody
  rw [h1, h0]


/-! ## Telemetry packing -/

/-- C1: a housekeeping request of the right length returns, and for every byte index
`k < LC_MAX_WATCHPOINTS / 4` it leaves in `HkPacket.WPResults[k]` the value
`(c w3 << 6) | (c w2 << 4) | (c w1 << 2) | c w0`, where `w3 .. w0` are the `WatchResult`s of
watchpoints `4k + 3 .. 4k` and `c` is any function that sends `LC_WATCH_STALE`,
`LC_WATCH_FALSE`, `LC_WATCH_TRUE` to `LC_HKWR_STALE`, `LC_HKWR_FALSE`, `LC_HKWR_TRUE` and
every other value to `LC_HKWR_ERROR`. -/
theorem C1_watch_results_packed (cfg : LC_Config) (env : CFE_Env) (msg : CFE_SB_Msg)
    (st : LC_State) (hs : cfg.SizesOK) (hc : cfg.HKWR2Bit) (hst : st.Sized cfg)
    (henv : env.ADTPtr.length = cfg.LC_MAX_ACTIONPOINTS)
    (hlen : msg.TotalMsgLength = u16 (sizeof_LC_NoArgsCmd_t cfg))
    (c : Nat → Nat)
    (hS : c cfg.LC_WATCH_STALE = cfg.LC_HKWR_STALE)
    (hF : c cfg.LC_WATCH_FALSE = cfg.LC_HKWR_FALSE)
    (hT : c cfg.LC_WATCH_TRUE = cfg.LC_HKWR_TRUE)
    (hE : ∀ v, v ≠ cfg.LC_WATCH_STALE → v ≠ cfg.LC_WATCH_FALSE → v ≠ cfg.LC_WATCH_TRUE →
      c v = cfg.LC_HKWR_ERROR)
    (k : Nat) (hk : k < cfg.LC_MAX_WATCHPOINTS / 4) (e3 e2 e1 e0 : LC_WRTEntry_t)
    (h3 : st.LC_OperData.WRTPtr[4 * k + 3]? = some e3)
    (h2 : st.LC_OperData.WRTPtr[4 * k + 2]? = some e2)
    (h1 : st.LC_OperData.WRTPtr[4 * k + 1]? = some e1)
    (h0 : st.LC_OperData.WRTPtr[4 * k]? = some e0) :
    ∃ rc st', LC_HousekeepingReq cfg env msg st = some (rc, st') ∧
      st'.LC_OperData.HkPacket.WPResults[k]? =
        some ((c e3.WatchResult <<< 6) ||| (c e2.WatchResult <<< 4)
          ||| (c e1.WatchResult <<< 2) ||| c e0.WatchResult) := by
  obtain ⟨st1, rc, st2, hp, hm, hrun⟩ := LC_HousekeepingReq_valid cfg env msg st hs hst henv hlen
  obtain ⟨st1', hp', _, _, _, _, _, _, hsz1, hwp, _⟩ := packHousekeeping_spec cfg st hs hst
  rw [hp] at hp'
  cases hp'
  obtain ⟨rc', st2', hm', hfr, _⟩ := LC_ManageTables_spec cfg env st1 hs hsz1 henv
  rw [hm] at hm'
  cases hm'
  refine ⟨rc, _, hrun, ?_⟩
  have hhk : (if rc ≠ cfg.CFE_SUCCESS then st2 else updateCDS cfg env st2).LC_OperData.HkPacket
      = st1.LC_OperData.HkPacket := by
    split_ifs
    · exact hfr.2.1
    · rw [(updateCDS_frame cfg env st2).1]; exact hfr.2.1
  rw [hhk, hwp k e3 e2 e1 e0 hk h3 h2 h1 h0]
  unfold watchByte
  rw [pack4_eq _ _ _ _ (switchWatchResult_lt cfg hc _) (switchWatchResult_lt cfg hc _)
    (switchWatchResult_lt cfg hc _) (switchWatchResult_lt cfg hc _)]
  simp only [switchWatchResult_unique cfg c hS hF hT hE]

/-- Concrete instance of C1: in the demonstration state the verdicts of watchpoints 3, 2,
1, 0 are error, true, false, stale, and byte 0 becomes `(2 << 6) | (1 << 4) | (0 << 2) | 3`. -/
theorem C1_watch_results_packed_witness :
    demoCfg.SizesOK ∧ demoCfg.HKWR2Bit ∧ demoState.Sized demoCfg ∧
    ∃ rc st', LC_HousekeepingReq demoCfg demoEnv (demoMsg LC_SEND_HK_MID 0 8 0 0 0) demoState
        = some (rc, st') ∧
      st'.LC_OperData.HkPacket.WPResults[0]? = some 147 :=
  ⟨by decide, by decide, by decide,
    C1_watch_results_packed demoCfg demoEnv (demoMsg LC_SEND_HK_MID 0 8 0 0 0) demoState
      (by decide) (by decide) (by decide) (by decide) (by decide)
      (switchWatchResult demoCfg) (by decide) (by decide) (by decide)
      (by intro v a b c; unfold switchWatchResult; rw [if_neg a, if_neg b, if_neg c])
      0 (by decide) (demoWP 2 2) (demoWP 1 1) (demoWP 0 3) (demoWP 0xFF 0) rfl rfl rfl rfl⟩

/-- C2: a housekeeping request of the right length returns, and for every byte index
`k < LC_MAX_ACTIONPOINTS / 2` it leaves in `HkPacket.APResults[k]` the value
`(s a1 << 6) | (r a1 << 4) | (s a0 << 2) | r a0` for the entries `a1`, `a0` of actionpoints
`2k + 1` and `2k`, where `s` sends the states not-used, active, passive, disabled to their
`LC_HKAR_STATE_*` codes and anything else to `LC_HKAR_STATE_NOT_USED`, and `r` sends the
results stale, pass, fail to their `LC_HKAR_*` codes and anything else to `LC_HKAR_ERROR`. -/
theorem C2_action_results_packed (cfg : LC_Config) (env : CFE_Env) (msg : CFE_SB_Msg)
    (st : LC_State) (hs : cfg.SizesOK) (hc : cfg.HKAR2Bit) (hst : st.Sized cfg)
    (henv : env.ADTPtr.length = cfg.LC_MAX_ACTIONPOINTS)
    (hlen : msg.TotalMsgLength = u16 (sizeof_LC_NoArgsCmd_t cfg))
    (s r : Nat → Nat)
    (hsN : s cfg.LC_ACTION_NOT_USED = cfg.LC_HKAR_STATE_NOT_USED)
    (hsA : s cfg.LC_APSTATE_ACTIVE = cfg.LC_HKAR_STATE_ACTIVE)
    (hsP : s cfg.LC_APSTATE_PASSIVE = cfg.LC_HKAR_STATE_PASSIVE)
    (hsD : s cfg.LC_APSTATE_DISABLED = cfg.LC_HKAR_STATE_DISABLED)
    (hsE : ∀ v, v ≠ cfg.LC_ACTION_NOT_USED → v ≠ cfg.LC_APSTATE_ACTIVE →
      v ≠ cfg.LC_APSTATE_PASSIVE → v ≠ cfg.LC_APSTATE_DISABLED →
      s v = cfg.LC_HKAR_STATE_NOT_USED)
    (hrS : r cfg.LC_ACTION_STALE = cfg.LC_HKAR_STALE)
    (hrP : r cfg.LC_ACTION_PASS = cfg.LC_HKAR_PASS)
    (hrF : r cfg.LC_ACTION_FAIL = cfg.LC_HKAR_FAIL)
    (hrE : ∀ v, v ≠ cfg.LC_ACTION_STALE → v ≠ cfg.LC_ACTION_PASS → v ≠ cfg.LC_ACTION_FAIL →
      r v = cfg.LC_HKAR_ERROR)
    (k : Nat) (hk : k < cfg.LC_MAX_ACTIONPOINTS / 2) (a1 a0 : LC_ARTEntry_t)
    (h1 : st.LC_OperData.ARTPtr[2 * k + 1]? = some a1)
    (h0 : st.LC_OperData.ARTPtr[2 * k]? = some a0) :
    ∃ rc st', LC_HousekeepingReq cfg env msg st = some (rc, st') ∧
      st'.LC_OperData.HkPacket.APResults[k]? =
        some ((s a1.CurrentState <<< 6) ||| (r a1.ActionResult <<< 4)
          ||| (s a0.CurrentState <<< 2) ||| r a0.ActionResult) := by
  obtain ⟨st1, rc, st2, hp, hm, hrun⟩ := LC_HousekeepingReq_valid cfg env msg st hs hst henv hlen
  obtain ⟨st1', hp', _, _, _, _, _, _, hsz1, _, hap, _⟩ := packHousekeeping_spec cfg st hs hst
  rw [hp] at hp'
  cases hp'
  obtain ⟨rc', st2', hm', hfr, _⟩ := LC_ManageTables_spec cfg env st1 hs hsz1 henv
  rw [hm] at hm'
  cases hm'
  refine ⟨rc, _, hrun, ?_⟩
  have hhk : (if rc ≠ cfg.CFE_SUCCESS then st2 else updateCDS cfg env st2).LC_OperData.HkPacket
      = st1.LC_OperData.HkPacket := by
    split_ifs
    · exact hfr.2.1
    · rw [(updateCDS_frame cfg env st2).1]; exact hfr.2.1
  rw [hhk, hap k a1 a0 hk h1 h0]
  unfold actionByte
  rw [pack4_eq _ _ _ _ (stateCode_lt cfg hc _) (switchActionResult_lt cfg hc _)
    (stateCode_lt cfg hc _) (switchActionResult_lt cfg hc _)]
  simp only [stateCode_unique cfg s hsN hsA hsP hsD hsE,
    switchActionResult_unique cfg r hrS hrP hrF hrE]

/-- Concrete instance of C2: actionpoint 3 is not used and actionpoint 2 is permanently
off, both with a stale result, and byte 1 becomes `(0 << 6) | (3 << 4) | (0 << 2) | 3`. -/
theorem C2_action_results_packed_witness :
    demoCfg.SizesOK ∧ demoCfg.HKAR2Bit ∧ demoState.Sized demoCfg ∧
    ∃ rc st', LC_HousekeepingReq demoCfg demoEnv (demoMsg LC_SEND_HK_MID 0 8 0 0 0) demoState
        = some (rc, st') ∧
      st'.LC_OperData.HkPacket.APResults[1]? = some 51 :=
  ⟨by decide, by decide, by decide,
    C2_action_results_packed demoCfg demoEnv (demoMsg LC_SEND_HK_MID 0 8 0 0 0) demoState
      (by decide) (by decide) (by decide) (by decide) (by decide)
      (stateCode demoCfg) (switchActionResult demoCfg)
      (by decide) (by decide) (by decide) (by decide)
      (by intro v a b c d; unfold stateCode switchAPState
          rw [if_neg a, if_neg b, if_neg c, if_neg d])
      (by decide) (by decide) (by decide)
      (by intro v a b c; unfold switchActionResult; rw [if_neg a, if_neg b, if_neg c])
      1 (by decide) (demoAP 0xFF 0xFF) (demoAP 4 0xFF) rfl rfl⟩

/-- C3: watch-result packing round-trips.  Provided the four `LC_HKWR_*` codes are
pairwise distinct values below 4, after a housekeeping request of the right length the
2-bit field `(WPResults[i / 4] >> (2 * (i mod 4))) & 3` equals the code of watchpoint `i`'s
verdict for every `i < LC_MAX_WATCHPOINTS`; hence two results tables whose verdicts all lie
in stale, false, true, error and that produce the same `WPResults` array have equal
verdicts at every index. -/
theorem C3_watch_results_round_trip (cfg : LC_Config)
    (envA envB : CFE_Env) (msgA msgB : CFE_SB_Msg) (stA stB : LC_State)
    (hs : cfg.SizesOK) (hc : cfg.HKWR2Bit)
    (hd : [cfg.LC_HKWR_STALE, cfg.LC_HKWR_FALSE, cfg.LC_HKWR_TRUE, cfg.LC_HKWR_ERROR].Nodup)
    (hstA : stA.Sized cfg) (hstB : stB.Sized cfg)
    (henvA : envA.ADTPtr.length = cfg.LC_MAX_ACTIONPOINTS)
    (henvB : envB.ADTPtr.length = cfg.LC_MAX_ACTIONPOINTS)
    (hlenA : msgA.TotalMsgLength = u16 (sizeof_LC_NoArgsCmd_t cfg))
    (hlenB : msgB.TotalMsgLength = u16 (sizeof_LC_NoArgsCmd_t cfg)) :
    ∃ rcA stA' rcB stB',
      LC_HousekeepingReq cfg envA msgA stA = some (rcA, stA') ∧
      LC_HousekeepingReq cfg envB msgB stB = some (rcB, stB') ∧
      (∀ i e, i < cfg.LC_MAX_WATCHPOINTS → stA.LC_OperData.WRTPtr[i]? = some e →
        ∃ b, stA'.LC_OperData.HkPacket.WPResults[i / 4]? = some b ∧
          (b >>> (2 * (i % 4))) &&& 3 = switchWatchResult cfg e.WatchResult) ∧
      ((∀ e ∈ stA.LC_OperData.WRTPtr, e.WatchResult = cfg.LC_WATCH_STALE ∨
          e.WatchResult = cfg.LC_WATCH_FALSE ∨ e.WatchResult = cfg.LC_WATCH_TRUE ∨
          e.WatchResult = cfg.LC_WATCH_ERROR) →
        (∀ e ∈ stB.LC_OperData.WRTPtr, e.WatchResult = cfg.LC_WATCH_STALE ∨
          e.WatchResult = cfg.LC_WATCH_FALSE ∨ e.WatchResult = cfg.LC_WATCH_TRUE ∨
          e.WatchResult = cfg.LC_WATCH_ERROR) →
        stA'.LC_OperData.HkPacket.WPResults = stB'.LC_OperData.HkPacket.WPResults →
        ∀ (i : Nat) (eA eB : LC_WRTEntry_t), stA.LC_OperData.WRTPtr[i]? = some eA → stB.LC_OperData.WRTPtr[i]? = some eB →
          eA.WatchResult = eB.WatchResult) := by
  have field : ∀ (env : CFE_Env) (msg : CFE_SB_Msg) (st : LC_State), st.Sized cfg →
      env.ADTPtr.length = cfg.LC_MAX_ACTIONPOINTS →
      msg.TotalMsgLength = u16 (sizeof_LC_NoArgsCmd_t cfg) →
      ∃ rc st', LC_HousekeepingReq cfg env msg st = some (rc, st') ∧
        ∀ i e, i < cfg.LC_MAX_WATCHPOINTS → st.LC_OperData.WRTPtr[i]? = some e →
          ∃ b, st'.LC_OperData.HkPacket.WPResults[i / 4]? = some b ∧
            (b >>> (2 * (i % 4))) &&& 3 = switchWatchResult cfg e.WatchResult := by
    intro env msg st hst henv hlen
    obtain ⟨st1, rc, st2, hp, hm, hrun⟩ :=
      LC_HousekeepingReq_valid cfg env msg st hs hst henv hlen
    obtain ⟨st1', hp', _, _, _, _, _, _, hsz1, _⟩ := packHousekeeping_spec cfg st hs hst
    rw [hp] at hp'
    cases hp'
    obtain ⟨rc', st2', hm', hfr, _⟩ := LC_ManageTables_spec cfg env st1 hs hsz1 henv
    rw [hm] at hm'
    cases hm'
    refine ⟨rc, _, hrun, ?_⟩
    have hhk : (if rc ≠ cfg.CFE_SUCCESS then st2 else updateCDS cfg env st2).LC_OperData.HkPacket
        = st1.LC_OperData.HkPacket := by
      split_ifs
      · exact hfr.2.1
      · rw [(updateCDS_frame cfg env st2).1]; exact hfr.2.1
    intro i e hi he
    rw [hhk]
    exact packed_watch_field cfg st st1 hs hc hst hp i e hi he
  obtain ⟨rcA, stA', hrunA, hfA⟩ := field envA msgA stA hstA henvA hlenA
  obtain ⟨rcB, stB', hrunB, hfB⟩ := field envB msgB stB hstB henvB hlenB
  refine ⟨rcA, stA', rcB, stB', hrunA, hrunB, hfA, ?_⟩
  intro hA hB heq i eA eB hiA hiB
  have hi : i < cfg.LC_MAX_WATCHPOINTS := by
    by_contra hcon
    rw [List.getElem?_eq_none (by rw [hstA.1]; omega)] at hiA
    cases hiA
  obtain ⟨bA, hbA, hcA⟩ := hfA i eA hi hiA
  obtain ⟨bB, hbB, hcB⟩ := hfB i eB hi hiB
  rw [heq, hbB] at hbA
  cases hbA
  exact switchWatchResult_inj cfg hd _ _ (hA eA (List.mem_iff_getElem?.mpr ⟨i, hiA⟩))
    (hB eB (List.mem_iff_getElem?.mpr ⟨i, hiB⟩)) (hcA.symm.trans hcB)

/-- Concrete instance of C3 on two copies of the demonstration state. -/
theorem C3_watch_results_round_trip_witness :
    demoCfg.SizesOK ∧ demoCfg.HKWR2Bit ∧ demoState.Sized demoCfg ∧
    ∃ rcA stA' rcB stB',
      LC_HousekeepingReq demoCfg demoEnv (demoMsg LC_SEND_HK_MID 0 8 0 0 0) demoState
        = some (rcA, stA') ∧
      LC_HousekeepingReq demoCfg demoEnv (demoMsg LC_SEND_HK_MID 0 8 0 0 0) demoState
        = some (rcB, stB') ∧
      (∀ i e, i < demoCfg.LC_MAX_WATCHPOINTS → demoState.LC_OperData.WRTPtr[i]? = some e →
        ∃ b, stA'.LC_OperData.HkPacket.WPResults[i / 4]? = some b ∧
          (b >>> (2 * (i % 4))) &&& 3 = switchWatchResult demoCfg e.WatchResult) ∧
      ((∀ e ∈ demoState.LC_OperData.WRTPtr, e.WatchResult = demoCfg.LC_WATCH_STALE ∨
          e.WatchResult = demoCfg.LC_WATCH_FALSE ∨ e.WatchResult = demoCfg.LC_WATCH_TRUE ∨
          e.WatchResult = demoCfg.LC_WATCH_ERROR) →
        (∀ e ∈ demoState.LC_OperData.WRTPtr, e.WatchResult = demoCfg.LC_WATCH_STALE ∨
          e.WatchResult = demoCfg.LC_WATCH_FALSE ∨ e.WatchResult = demoCfg.LC_WATCH_TRUE ∨
          e.WatchResult = demoCfg.LC_WATCH_ERROR) →
        stA'.LC_OperData.HkPacket.WPResults = stB'.LC_OperData.HkPacket.WPResults →
        ∀ (i : Nat) (eA eB : LC_WRTEntry_t), demoState.LC_OperData.WRTPtr[i]? = some eA →
          demoState.LC_OperData.WRTPtr[i]? = some eB → eA.WatchResult = eB.WatchResult) :=
  ⟨by decide, by decide, by decide,
    C3_watch_results_round_trip demoCfg demoEnv demoEnv (demoMsg LC_SEND_HK_MID 0 8 0 0 0)
      (demoMsg LC_SEND_HK_MID 0 8 0 0 0) demoState demoState
      (by decide) (by decide) (by decide) (by decide) (by decide) (by decide) (by decide)
      (by decide) (by decide)⟩

/-- C4: after a housekeeping request of the right length `HkPacket.ActiveAPs` is the number
of actionpoint records whose `CurrentState` is `LC_APSTATE_ACTIVE`, as a 16-bit value,
whatever `ActiveAPs` held before; records in any other state are not counted. -/
theorem C4_active_count_recomputed (cfg : LC_Config) (env : CFE_Env) (msg : CFE_SB_Msg)
    (st : LC_State) (hs : cfg.SizesOK) (hst : st.Sized cfg)
    (hne : cfg.LC_APSTATE_ACTIVE ≠ cfg.LC_ACTION_NOT_USED)
    (henv : env.ADTPtr.length = cfg.LC_MAX_ACTIONPOINTS)
    (hlen : msg.TotalMsgLength = u16 (sizeof_LC_NoArgsCmd_t cfg)) :
    ∃ rc st', LC_HousekeepingReq cfg env msg st = some (rc, st') ∧
      st'.LC_OperData.HkPacket.ActiveAPs =
        u16 (st.LC_OperData.ARTPtr.countP
          (fun e => decide (e.CurrentState = cfg.LC_APSTATE_ACTIVE))) := by
  obtain ⟨st1, rc, st2, hp, hm, hrun⟩ := LC_HousekeepingReq_valid cfg env msg st hs hst henv hlen
  obtain ⟨st1', hp', _, _, _, _, _, _, hsz1, _, _, hact, _⟩ := packHousekeeping_spec cfg st hs hst
  rw [hp] at hp'
  cases hp'
  obtain ⟨rc', st2', hm', hfr, _⟩ := LC_ManageTables_spec cfg env st1 hs hsz1 henv
  rw [hm] at hm'
  cases hm'
  refine ⟨rc, _, hrun, ?_⟩
  have hhk : (if rc ≠ cfg.CFE_SUCCESS then st2 else updateCDS cfg env st2).LC_OperData.HkPacket
      = st1.LC_OperData.HkPacket := by
    split_ifs
    · exact hfr.2.1
    · rw [(updateCDS_frame cfg env st2).1]; exact hfr.2.1
  rw [hhk, hact]
  congr 2
  funext e
  unfold countsActive
  by_cases h : e.CurrentState = cfg.LC_APSTATE_ACTIVE
  · have h2 : e.CurrentState ≠ cfg.LC_ACTION_NOT_USED := by rw [h]; exact hne
    simp [h, h2]
    rw [← h]; exact h2
  · simp [h]

/-- Concrete instance of C4: the demonstration state has one active actionpoint, and the
stale count 9 in the packet is replaced by 1. -/
theorem C4_active_count_recomputed_witness :
    demoState.LC_OperData.HkPacket.ActiveAPs = 9 ∧
    ∃ rc st', LC_HousekeepingReq demoCfg demoEnv (demoMsg LC_SEND_HK_MID 0 8 0 0 0) demoState
        = some (rc, st') ∧
      st'.LC_OperData.HkPacket.ActiveAPs = 1 :=
  ⟨rfl, C4_active_count_recomputed demoCfg demoEnv (demoMsg LC_SEND_HK_MID 0 8 0 0 0) demoState
    (by decide) (by decide) (by decide) (by decide) (by decide)⟩

/-! ## Actionpoint state commands -/

/-- C5: a set-permanently-off command of the right length returns, and it succeeds (the
command counter is incremented and the error counter is not) if and only if `APNumber` is
not the "all" sentinel, `APNumber < LC_MAX_ACTIONPOINTS` and the record's `CurrentState` is
`LC_APSTATE_DISABLED`.  On success only that record's `CurrentState` changes, to
`LC_APSTATE_PERMOFF`; otherwise the actionpoint results table is unchanged, `CmdErrCount`
is incremented and `CmdCount` is not. -/
theorem C5_set_permoff (cfg : LC_Config) (msg : CFE_SB_Msg) (st : LC_State)
    (hl : st.LC_OperData.ARTPtr.length = cfg.LC_MAX_ACTIONPOINTS)
    (hlen : msg.TotalMsgLength = u16 (sizeof_LC_TwoWordCmd_t cfg)) :
    ∃ st', LC_SetAPPermOffCmd cfg msg st = some st' ∧
      ((st'.LC_AppData.CmdCount = u8 (st.LC_AppData.CmdCount + 1) ∧
          st'.LC_AppData.CmdErrCount = st.LC_AppData.CmdErrCount) ↔
        (msg.APNumber ≠ LC_ALL_ACTIONPOINTS ∧ msg.APNumber < cfg.LC_MAX_ACTIONPOINTS ∧
          ∃ e, st.LC_OperData.ARTPtr[msg.APNumber]? = some e ∧
            e.CurrentState = cfg.LC_APSTATE_DISABLED)) ∧
      (∀ e, msg.APNumber ≠ LC_ALL_ACTIONPOINTS → msg.APNumber < cfg.LC_MAX_ACTIONPOINTS →
        st.LC_OperData.ARTPtr[msg.APNumber]? = some e →
        e.CurrentState = cfg.LC_APSTATE_DISABLED →
        st'.LC_OperData.ARTPtr = st.LC_OperData.ARTPtr.set msg.APNumber
          { e with CurrentState := cfg.LC_APSTATE_PERMOFF }) ∧
      (¬ (msg.APNumber ≠ LC_ALL_ACTIONPOINTS ∧ msg.APNumber < cfg.LC_MAX_ACTIONPOINTS ∧
          ∃ e, st.LC_OperData.ARTPtr[msg.APNumber]? = some e ∧
            e.CurrentState = cfg.LC_APSTATE_DISABLED) →
        st'.LC_OperData.ARTPtr = st.LC_OperData.ARTPtr ∧
        st'.LC_AppData.CmdErrCount = u8 (st.LC_AppData.CmdErrCount + 1) ∧
        st'.LC_AppData.CmdCount = st.LC_AppData.CmdCount) := by
  have hu : ∀ n : Nat, u8 (n + 1) ≠ n := by intro n; unfold u8; omega
  by_cases hbad : msg.APNumber = LC_ALL_ACTIONPOINTS ∨ msg.APNumber ≥ cfg.LC_MAX_ACTIONPOINTS
  · refine ⟨_, LC_SetAPPermOffCmd_badnum cfg msg st hlen hbad, ?_, ?_, ?_⟩
    · constructor
      · intro h; exact absurd h.1.symm (by simpa using hu _)
      · intro h; rcases hbad with hb | hb
        · exact absurd hb h.1
        · omega
    · intro e h1 h2; rcases hbad with hb | hb
      · exact absurd hb h1
      · omega
    · intro _; exact ⟨rfl, rfl, rfl⟩
  · have h1 : msg.APNumber ≠ LC_ALL_ACTIONPOINTS := fun h => hbad (Or.inl h)
    have h2 : msg.APNumber < cfg.LC_MAX_ACTIONPOINTS := by
      by_contra hc; exact hbad (Or.inr (by omega))
    have hlt : msg.APNumber < st.LC_OperData.ARTPtr.length := by omega
    have he := List.getElem?_eq_getElem hlt
    by_cases hd : st.LC_OperData.ARTPtr[msg.APNumber].CurrentState = cfg.LC_APSTATE_DISABLED
    · refine ⟨_, LC_SetAPPermOffCmd_accept cfg msg st hlen h1 h2 _ he hd, ?_, ?_, ?_⟩
      · constructor
        · intro _; exact ⟨h1, h2, _, he, hd⟩
        · intro _; exact ⟨rfl, rfl⟩
      · intro e _ _ hee _
        rw [he] at hee
        cases hee
        rfl
      · intro hn; exact absurd ⟨h1, h2, _, he, hd⟩ hn
    · refine ⟨_, LC_SetAPPermOffCmd_notdisabled cfg msg st hlen h1 h2 _ he hd, ?_, ?_, ?_⟩
      · constructor
        · intro h; exact absurd h.1.symm (by simpa using hu _)
        · intro h
          obtain ⟨_, _, e, hee, hde⟩ := h
          rw [he] at hee
          cases hee
          exact absurd hde hd
      · intro e _ _ hee hde
        rw [he] at hee
        cases hee
        exact absurd hde hd
      · intro _; exact ⟨rfl, rfl, rfl⟩

/-- Concrete instance of C5: actionpoint 1 of the demonstration state is disabled. -/
theorem C5_set_permoff_witness :
    ∃ st', LC_SetAPPermOffCmd demoCfg (demoMsg LC_CMD_MID 4 12 1 0 0) demoState = some st' ∧
      st'.LC_OperData.ARTPtr = demoState.LC_OperData.ARTPtr.set 1 (demoAP 4 1) := by
  obtain ⟨st', hrun, _, hacc, _⟩ :=
    C5_set_permoff demoCfg (demoMsg LC_CMD_MID 4 12 1 0 0) demoState (by decide) (by decide)
  exact ⟨st', hrun, hacc (demoAP 3 1) (by decide) (by decide) rfl rfl⟩

/-- C6: a set-state command of the right length for all actionpoints with a new state among
active, passive, disabled returns; every record that was neither not-used nor permanently
off gets the new state, the state of every not-used or permanently-off record is kept, and
no other field of any record changes. -/
theorem C6_set_state_all (cfg : LC_Config) (msg : CFE_SB_Msg) (st : LC_State)
    (hl : st.LC_OperData.ARTPtr.length = cfg.LC_MAX_ACTIONPOINTS)
    (hmax : cfg.LC_MAX_ACTIONPOINTS < 4294967296)
    (hlen : msg.TotalMsgLength = u16 (sizeof_LC_TwoWordCmd_t cfg))
    (hall : msg.APNumber = LC_ALL_ACTIONPOINTS)
    (hnew : msg.NewAPState = cfg.LC_APSTATE_ACTIVE ∨ msg.NewAPState = cfg.LC_APSTATE_PASSIVE
      ∨ msg.NewAPState = cfg.LC_APSTATE_DISABLED) :
    ∃ st', LC_SetAPStateCmd cfg msg st = some st' ∧
      st'.LC_OperData.ARTPtr.length = st.LC_OperData.ARTPtr.length ∧
      ∀ (i : Nat) (e : LC_ARTEntry_t), st.LC_OperData.ARTPtr[i]? = some e →
        ∃ e', st'.LC_OperData.ARTPtr[i]? = some e' ∧
          (e.CurrentState ≠ cfg.LC_ACTION_NOT_USED → e.CurrentState ≠ cfg.LC_APSTATE_PERMOFF →
            e'.CurrentState = msg.NewAPState) ∧
          (e.CurrentState = cfg.LC_ACTION_NOT_USED ∨ e.CurrentState = cfg.LC_APSTATE_PERMOFF →
            e'.CurrentState = e.CurrentState) ∧
          { e' with CurrentState := e.CurrentState } = e := by
  refine ⟨_, LC_SetAPStateCmd_all cfg msg st hlen hnew hall hl hmax, by simp [LC_State.sendEvent],
    ?_⟩
  intro i e he
  refine ⟨setAllEntry cfg msg.NewAPState e, by simp [LC_State.sendEvent, he], ?_, ?_, ?_⟩
  · intro h1 h2
    unfold setAllEntry
    rw [if_pos ⟨h1, h2⟩]
  · intro h
    unfold setAllEntry
    rw [if_neg (by intro hc; rcases h with h | h; exact hc.1 h; exact hc.2 h)]
  · unfold setAllEntry
    split_ifs <;> rfl

/-- Concrete instance of C6 on the demonstration state, setting every eligible actionpoint
passive. -/
theorem C6_set_state_all_witness :
    ∃ st', LC_SetAPStateCmd demoCfg (demoMsg LC_CMD_MID 3 12 0xFFFF 2 0) demoState = some st' ∧
      ∃ e0 e2, st'.LC_OperData.ARTPtr[0]? = some e0 ∧ e0.CurrentState = 2 ∧
        st'.LC_OperData.ARTPtr[2]? = some e2 ∧ e2.CurrentState = 4 := by
  obtain ⟨st', hrun, _, hall⟩ :=
    C6_set_state_all demoCfg (demoMsg LC_CMD_MID 3 12 0xFFFF 2 0) demoState (by decide)
      (by decide) (by decide) (by decide) (by decide)
  obtain ⟨e0, h0, hset, _, _⟩ := hall 0 (demoAP 1 0) rfl
  obtain ⟨e2, h2, _, hkeep, _⟩ := hall 2 (demoAP 4 0xFF) rfl
  exact ⟨st', hrun, e0, e2, h0, hset (by decide) (by decide), h2, hkeep (Or.inr rfl)⟩

/-- C7: a set-state command of the right length returns, and it is rejected (the actionpoint
results table is unchanged, `CmdErrCount` is incremented by one and `CmdCount` is
unchanged) if and only if the new state is not one of active, passive, disabled, or the
number is a single one outside the table, or it names a single record that is not used or
permanently off.  Otherwise it is accepted: `CmdCount` is incremented, `CmdErrCount` is
not, and the targeted records take the new state (every eligible record for "all", the
named record otherwise). -/
theorem C7_set_state_rejection (cfg : LC_Config) (msg : CFE_SB_Msg) (st : LC_State)
    (hl : st.LC_OperData.ARTPtr.length = cfg.LC_MAX_ACTIONPOINTS)
    (hmax : cfg.LC_MAX_ACTIONPOINTS < 4294967296)
    (hlen : msg.TotalMsgLength = u16 (sizeof_LC_TwoWordCmd_t cfg)) :
    ∃ st', LC_SetAPStateCmd cfg msg st = some st' ∧
      ((st'.LC_OperData.ARTPtr = st.LC_OperData.ARTPtr ∧
          st'.LC_AppData.CmdErrCount = u8 (st.LC_AppData.CmdErrCount + 1) ∧
          st'.LC_AppData.CmdCount = st.LC_AppData.CmdCount) ↔ setAPStateRejected cfg msg st) ∧
      (¬ setAPStateRejected cfg msg st →
        st'.LC_AppData.CmdCount = u8 (st.LC_AppData.CmdCount + 1) ∧
        st'.LC_AppData.CmdErrCount = st.LC_AppData.CmdErrCount ∧
        (msg.APNumber = LC_ALL_ACTIONPOINTS →
          st'.LC_OperData.ARTPtr =
            st.LC_OperData.ARTPtr.map (fun e =>
              if e.CurrentState ≠ cfg.LC_ACTION_NOT_USED ∧ e.CurrentState ≠ cfg.LC_APSTATE_PERMOFF
              then { e with CurrentState := msg.NewAPState } else e)) ∧
        (msg.APNumber ≠ LC_ALL_ACTIONPOINTS →
          ∃ e, st.LC_OperData.ARTPtr[msg.APNumber]? = some e ∧
            st'.LC_OperData.ARTPtr = st.LC_OperData.ARTPtr.set msg.APNumber
              { e with CurrentState := msg.NewAPState })) := by
  have hu : ∀ n : Nat, u8 (n + 1) ≠ n := by intro n; unfold u8; omega
  by_cases hnew : msg.NewAPState = cfg.LC_APSTATE_ACTIVE ∨ msg.NewAPState = cfg.LC_APSTATE_PASSIVE
      ∨ msg.NewAPState = cfg.LC_APSTATE_DISABLED
  · by_cases hall : msg.APNumber = LC_ALL_ACTIONPOINTS
    · have hnr : ¬ setAPStateRejected cfg msg st := by
        intro h
        rcases h with h | h | h
        · exact h hnew
        · exact h.1 hall
        · exact h.1 hall
      refine ⟨_, LC_SetAPStateCmd_all cfg msg st hlen hnew hall hl hmax, ?_, ?_⟩
      · constructor
        · intro h; exact absurd h.2.1.symm (by simpa [LC_State.sendEvent] using hu _)
        · intro h; exact absurd h hnr
      · intro _
        refine ⟨rfl, rfl, ?_, fun h => absurd hall h⟩
        intro _
        rfl
    · by_cases hn : msg.APNumber < cfg.LC_MAX_ACTIONPOINTS
      · have hlt : msg.APNumber < st.LC_OperData.ARTPtr.length := by omega
        have he := List.getElem?_eq_getElem hlt
        by_cases hcur : st.LC_OperData.ARTPtr[msg.APNumber].CurrentState ≠ cfg.LC_ACTION_NOT_USED
            ∧ st.LC_OperData.ARTPtr[msg.APNumber].CurrentState ≠ cfg.LC_APSTATE_PERMOFF
        · have hnr : ¬ setAPStateRejected cfg msg st := by
            intro h
            rcases h with h | h | h
            · exact h hnew
            · omega
            · obtain ⟨_, _, e, hee, hs⟩ := h
              rw [he] at hee
              cases hee
              rcases hs with hs | hs
              · exact hcur.1 hs
              · exact hcur.2 hs
          refine ⟨_, LC_SetAPStateCmd_single cfg msg st hlen hnew hall hn _ he hcur, ?_, ?_⟩
          · constructor
            · intro h; exact absurd h.2.1.symm (by simpa [LC_State.sendEvent] using hu _)
            · intro h; exact absurd h hnr
          · intro _
            exact ⟨rfl, rfl, fun h => absurd h hall, fun _ => ⟨_, he, rfl⟩⟩
        · have hr : setAPStateRejected cfg msg st := by
            refine Or.inr (Or.inr ⟨hall, hn, _, he, ?_⟩)
            by_cases h1 : st.LC_OperData.ARTPtr[msg.APNumber].CurrentState = cfg.LC_ACTION_NOT_USED
            · exact Or.inl h1
            · by_cases h2 : st.LC_OperData.ARTPtr[msg.APNumber].CurrentState
                  = cfg.LC_APSTATE_PERMOFF
              · exact Or.inr h2
              · exact absurd ⟨h1, h2⟩ hcur
          refine ⟨_, LC_SetAPStateCmd_badcurrent cfg msg st hlen hnew hall hn _ he hcur, ?_, ?_⟩
          · exact ⟨fun _ => hr, fun _ => ⟨rfl, rfl, rfl⟩⟩
          · intro h; exact absurd hr h
      · have hr : setAPStateRejected cfg msg st := Or.inr (Or.inl ⟨hall, by omega⟩)
        refine ⟨_, LC_SetAPStateCmd_badnum cfg msg st hlen hnew hall hn, ?_, ?_⟩
        · exact ⟨fun _ => hr, fun _ => ⟨rfl, rfl, rfl⟩⟩
        · intro h; exact absurd hr h
  · have hr : setAPStateRejected cfg msg st := Or.inl hnew
    refine ⟨_, LC_SetAPStateCmd_badstate cfg msg st hlen hnew, ?_, ?_⟩
    · exact ⟨fun _ => hr, fun _ => ⟨rfl, rfl, rfl⟩⟩
    · intro h; exact absurd hr h

/-- Concrete instance of C7: setting the permanently-off actionpoint 2 of the demonstration
state active is rejected. -/
theorem C7_set_state_rejection_witness :
    ∃ st', LC_SetAPStateCmd demoCfg (demoMsg LC_CMD_MID 3 12 2 1 0) demoState = some st' ∧
      st'.LC_OperData.ARTPtr = demoState.LC_OperData.ARTPtr ∧
      st'.LC_AppData.CmdErrCount = 3 ∧ st'.LC_AppData.CmdCount = 10 := by
  obtain ⟨st', hrun, hiff, _⟩ :=
    C7_set_state_rejection demoCfg (demoMsg LC_CMD_MID 3 12 2 1 0) demoState (by decide)
      (by decide) (by decide)
  exact ⟨st', hrun, hiff.mpr (Or.inr (Or.inr ⟨by decide, by decide, demoAP 4 0xFF, rfl,
    Or.inr rfl⟩))⟩

/-- C8, as stated, fails: in the demonstration state actionpoint 2 is permanently off; a
housekeeping request during which table services report the actionpoint definition table
updated resets it to the default state of its definition, here disabled. -/
theorem C8_permoff_terminal_counterexample :
    (demoState.LC_OperData.ARTPtr[2]?).map LC_ARTEntry_t.CurrentState
      = some demoCfg.LC_APSTATE_PERMOFF ∧
    ((LC_AppPipe demoCfg demoExt reloadEnv (demoMsg LC_SEND_HK_MID 0 8 0 0 0) demoState).bind
      (fun r => r.2.LC_OperData.ARTPtr[2]?)).map LC_ARTEntry_t.CurrentState
      = some demoCfg.LC_APSTATE_DISABLED ∧
    demoCfg.LC_APSTATE_DISABLED ≠ demoCfg.LC_APSTATE_PERMOFF := by
  decide

/-- C8, amended: a record whose `CurrentState` is `LC_APSTATE_PERMOFF` is still
`LC_APSTATE_PERMOFF` after every ground command handled by `lc_cmds.c` (no-op, counter
reset, set LC state, set actionpoint state, set permanently off, either stats reset, or an
unknown command code, of any length), and after every housekeeping request during which
the actionpoint definition table is not reported updated. -/
theorem C8_permoff_kept_without_reload (cfg : LC_Config) (ext : LC_Externals) (env : CFE_Env)
    (msg : CFE_SB_Msg) (st : LC_State) (hs : cfg.SizesOK) (hst : st.Sized cfg)
    (henv : env.ADTPtr.length = cfg.LC_MAX_ACTIONPOINTS)
    (hmid : msg.MsgId = LC_CMD_MID ∨ msg.MsgId = LC_SEND_HK_MID)
    (hnr : msg.MsgId = LC_SEND_HK_MID → env.ADT_GetAddress ≠ cfg.CFE_TBL_INFO_UPDATED)
    (i : Nat) (e : LC_ARTEntry_t) (he : st.LC_OperData.ARTPtr[i]? = some e)
    (hp : e.CurrentState = cfg.LC_APSTATE_PERMOFF) :
    ∃ rc st', LC_AppPipe cfg ext env msg st = some (rc, st') ∧
      ∃ e', st'.LC_OperData.ARTPtr[i]? = some e' ∧
        e'.CurrentState = cfg.LC_APSTATE_PERMOFF := by
  have hmax : cfg.LC_MAX_ACTIONPOINTS < 4294967296 := by
    obtain ⟨_, _, _, _, _, h, _⟩ := hs; omega
  have hl : st.LC_OperData.ARTPtr.length = cfg.LC_MAX_ACTIONPOINTS := hst.2.1
  have n1 : LC_CMD_MID ≠ LC_SAMPLE_AP_MID := by decide
  have n2 : LC_CMD_MID ≠ LC_SEND_HK_MID := by decide
  have n3 : LC_SEND_HK_MID ≠ LC_SAMPLE_AP_MID := by decide
  unfold LC_AppPipe
  rcases hmid with hm | hm
  · rw [hm, if_neg n1, if_neg n2, if_pos rfl]
    dsimp only
    by_cases c1 : msg.CmdCode = cfg.LC_NOOP_CC
    · rw [if_pos c1]
      exact ⟨_, _, rfl, e, by rw [LC_NoopCmd_OperData]; exact he, hp⟩
    rw [if_neg c1]
    by_cases c2 : msg.CmdCode = cfg.LC_RESET_CC
    · rw [if_pos c2]
      exact ⟨_, _, rfl, e, by rw [LC_ResetCmd_OperData]; exact he, hp⟩
    rw [if_neg c2]
    by_cases c3 : msg.CmdCode = cfg.LC_SET_LC_STATE_CC
    · rw [if_pos c3]
      exact ⟨_, _, rfl, e, by rw [LC_SetLCStateCmd_OperData]; exact he, hp⟩
    rw [if_neg c3]
    by_cases c4 : msg.CmdCode = cfg.LC_SET_AP_STATE_CC
    · rw [if_pos c4]
      obtain ⟨st', hrun, _, hrec⟩ := LC_SetAPStateCmd_total cfg msg st hl hmax
      obtain ⟨e', he', hk⟩ := hrec i e he
      rw [hrun]
      refine ⟨_, _, rfl, e', he', ?_⟩
      rcases hk with hk | hk
      · rw [hk]; exact hp
      · exact absurd hp hk.2.1
    rw [if_neg c4]
    by_cases c5 : msg.CmdCode = cfg.LC_SET_AP_PERMOFF_CC
    · rw [if_pos c5]
      obtain ⟨st', hrun, _, hrec⟩ := LC_SetAPPermOffCmd_total cfg msg st hl
      obtain ⟨e', he', hk⟩ := hrec i e he
      rw [hrun]
      refine ⟨_, _, rfl, e', he', ?_⟩
      rcases hk with hk | hk
      · rw [hk]; exact hp
      · rw [hk.2]
    rw [if_neg c5]
    by_cases c6 : msg.CmdCode = cfg.LC_RESET_AP_STATS_CC
    · rw [if_pos c6]
      obtain ⟨st', hrun, _, hrec⟩ := LC_ResetAPStatsCmd_total cfg msg st hs hst
      obtain ⟨e', he', hk, _⟩ := hrec i e he
      rw [hrun]
      exact ⟨_, _, rfl, e', he', hk.trans hp⟩
    rw [if_neg c6]
    by_cases c7 : msg.CmdCode = cfg.LC_RESET_WP_STATS_CC
    · rw [if_pos c7]
      obtain ⟨st', hrun, ha⟩ := LC_ResetWPStatsCmd_total cfg msg st hs hst
      rw [hrun]
      exact ⟨_, _, rfl, e, by rw [ha]; exact he, hp⟩
    rw [if_neg c7]
    exact ⟨_, _, rfl, e, he, hp⟩
  · rw [hm, if_neg n3, if_pos rfl]
    obtain ⟨rc, st', hrun, _, hart⟩ := LC_HousekeepingReq_tables cfg env msg st hs hst henv
    refine ⟨rc, st', hrun, e, ?_, hp⟩
    rw [hart i, if_neg (fun h => hnr hm h.2)]
    exact he

/-- Concrete instance of amended C8: setting all actionpoints of the demonstration state
active leaves actionpoint 2 permanently off. -/
theorem C8_permoff_kept_without_reload_witness :
    ∃ rc st', LC_AppPipe demoCfg demoExt demoEnv (demoMsg LC_CMD_MID 3 12 0xFFFF 1 0) demoState
        = some (rc, st') ∧
      ∃ e', st'.LC_OperData.ARTPtr[2]? = some e' ∧ e'.CurrentState = 4 :=
  C8_permoff_kept_without_reload demoCfg demoExt demoEnv (demoMsg LC_CMD_MID 3 12 0xFFFF 1 0)
    demoState (by decide) (by decide) (by decide) (by decide) (by decide) 2 (demoAP 4 0xFF)
    rfl rfl

/-! ## Watchpoint aging -/

/-- C9: a sample request of the right length, received while LC is not disabled, with a
valid index range and a non-zero `UpdateAge`, returns and runs one aging pass over the
watchpoint results as the sampling call left them: a record whose `CountdownToStale` is 0
is unchanged; a record whose countdown is `c > 0` gets countdown `c - 1`, its `WatchResult`
becomes `LC_WATCH_STALE` when `c = 1` and is unchanged otherwise, and no other field of
the record changes. -/
theorem C9_aging_pass (cfg : LC_Config) (ext : LC_Externals) (msg : CFE_SB_Msg)
    (st : LC_State) (hreq : agingSampleReq cfg msg)
    (hstate : st.LC_AppData.CurrentLCState ≠ cfg.LC_STATE_DISABLED)
    (hl : (sampleRange cfg ext msg st).2.LC_OperData.WRTPtr.length = cfg.LC_MAX_WATCHPOINTS)
    (hmax : cfg.LC_MAX_WATCHPOINTS ≤ 65535) :
    ∃ st', LC_SampleAPReq cfg ext msg st = some st' ∧
      st'.LC_OperData.WRTPtr.length = cfg.LC_MAX_WATCHPOINTS ∧
      ∀ (i : Nat) (e : LC_WRTEntry_t),
        (sampleRange cfg ext msg st).2.LC_OperData.WRTPtr[i]? = some e →
        ∃ e', st'.LC_OperData.WRTPtr[i]? = some e' ∧
          (e.CountdownToStale = 0 → e' = e) ∧
          (0 < e.CountdownToStale →
            e'.CountdownToStale = e.CountdownToStale - 1 ∧
            (e.CountdownToStale = 1 → e'.WatchResult = cfg.LC_WATCH_STALE) ∧
            (e.CountdownToStale ≠ 1 → e'.WatchResult = e.WatchResult) ∧
            { e' with CountdownToStale := e.CountdownToStale, WatchResult := e.WatchResult }
              = e) := by
  refine ⟨_, LC_SampleAPReq_aging cfg ext msg st hreq hstate hl hmax, by simp [hl], ?_⟩
  intro i e he
  refine ⟨ageEntry cfg e, by rw [setWRT_WRTPtr, List.getElem?_map, he]; rfl, ?_, ?_⟩
  · intro h0
    unfold ageEntry
    rw [if_pos h0]
  · intro hpos
    unfold ageEntry
    rw [if_neg (by omega)]
    by_cases h1 : e.CountdownToStale = 1
    · rw [if_pos h1]
      exact ⟨by show 0 = _; omega, fun _ => rfl, fun h => absurd h1 h, rfl⟩
    · rw [if_neg h1]
      exact ⟨rfl, fun h => absurd h h1, fun _ => rfl, rfl⟩

/-- Concrete instance of C9: a sample request for all actionpoints with `UpdateAge = 1` on
the demonstration state; watchpoint 2 has countdown 1 and goes stale. -/
theorem C9_aging_pass_witness :
    agingSampleReq demoCfg (demoMsg LC_SAMPLE_AP_MID 0 16 0xFFFF 0xFFFF 1) ∧
    ∃ st', LC_SampleAPReq demoCfg demoExt (demoMsg LC_SAMPLE_AP_MID 0 16 0xFFFF 0xFFFF 1)
        demoState = some st' ∧
      ∃ e', st'.LC_OperData.WRTPtr[2]? = some e' ∧ e'.CountdownToStale = 0 ∧
        e'.WatchResult = 0xFF := by
  obtain ⟨st', hrun, _, hall⟩ :=
    C9_aging_pass demoCfg demoExt (demoMsg LC_SAMPLE_AP_MID 0 16 0xFFFF 0xFFFF 1) demoState
      (by decide) (by decide) (by decide) (by decide)
  obtain ⟨e', he', _, hpos⟩ := hall 2 (demoWP 1 1) rfl
  obtain ⟨hc, hs, _, _⟩ := hpos (by decide)
  exact ⟨by decide, st', hrun, e', he', hc, hs rfl⟩

/-- C10: let record `i` have `CountdownToStale = n > 0`, and let the sampling calls leave
that record, the table length and the application state alone.  After `n` sample requests
that pass every check and ask for aging the record has `WatchResult = LC_WATCH_STALE` and
`CountdownToStale = 0`; after any `m < n` of them its `WatchResult` is still the original
verdict and its countdown is `n - m`. -/
theorem C10_stale_after_countdown (cfg : LC_Config) (ext : LC_Externals) (i n : Nat)
    (hmax : cfg.LC_MAX_WATCHPOINTS ≤ 65535)
    (hext : ∀ s e st,
      (ext.LC_SampleAPs s e st).LC_OperData.WRTPtr.length = st.LC_OperData.WRTPtr.length ∧
      (ext.LC_SampleAPs s e st).LC_OperData.WRTPtr[i]? = st.LC_OperData.WRTPtr[i]? ∧
      (ext.LC_SampleAPs s e st).LC_AppData.CurrentLCState = st.LC_AppData.CurrentLCState)
    (msgs : List CFE_SB_Msg) (hmsgs : ∀ m ∈ msgs, agingSampleReq cfg m)
    (st : LC_State) (hl : st.LC_OperData.WRTPtr.length = cfg.LC_MAX_WATCHPOINTS)
    (hstate : st.LC_AppData.CurrentLCState ≠ cfg.LC_STATE_DISABLED)
    (e : LC_WRTEntry_t) (he : st.LC_OperData.WRTPtr[i]? = some e)
    (hn : 0 < n) (hc : e.CountdownToStale = n) :
    ∃ st' e', sampleRequests cfg ext msgs st = some st' ∧
      st'.LC_OperData.WRTPtr[i]? = some e' ∧
      (msgs.length = n → e'.WatchResult = cfg.LC_WATCH_STALE ∧ e'.CountdownToStale = 0) ∧
      (msgs.length < n →
        e'.WatchResult = e.WatchResult ∧ e'.CountdownToStale = n - msgs.length) := by
  obtain ⟨st', hrun, hrec⟩ :=
    sampleRequests_aging cfg ext i hmax hext msgs hmsgs st hl hstate e he
  refine ⟨st', _, hrun, hrec, ?_, ?_⟩
  · intro hlen
    obtain ⟨a, b⟩ := (ageEntry_iterate cfg msgs.length e).2 (by omega) (by omega)
    exact ⟨b, a⟩
  · intro hlt
    obtain ⟨a, b⟩ := (ageEntry_iterate cfg msgs.length e).1 (by omega)
    exact ⟨b, by rw [a, hc]⟩

/-- Concrete instance of C10: watchpoint 3 of the demonstration state has countdown 2 and
verdict error; two aging sample requests leave it stale with countdown 0. -/
theorem C10_stale_after_countdown_witness :
    ∃ st' e', sampleRequests demoCfg demoExt
        [demoMsg LC_SAMPLE_AP_MID 0 16 0xFFFF 0xFFFF 1, demoMsg LC_SAMPLE_AP_MID 0 16 0 3 1]
        demoState = some st' ∧
      st'.LC_OperData.WRTPtr[3]? = some e' ∧ e'.WatchResult = 0xFF ∧
      e'.CountdownToStale = 0 := by
  obtain ⟨st', e', hrun, hrec, hfull, _⟩ :=
    C10_stale_after_countdown demoCfg demoExt 3 2 (by decide)
      (fun _ _ _ => ⟨rfl, rfl, rfl⟩)
      [demoMsg LC_SAMPLE_AP_MID 0 16 0xFFFF 0xFFFF 1, demoMsg LC_SAMPLE_AP_MID 0 16 0 3 1]
      (by decide) demoState (by decide) (by decide) (demoWP 2 2) rfl (by decide) rfl
  exact ⟨st', e', hrun, hrec, (hfull rfl).1, (hfull rfl).2⟩

/-! ## Result table resets -/

/-- C12, as stated, fails: the stats reset of watchpoint 1 of the demonstration state keeps
its verdict and countdown but sets its last false-to-true snapshot, which was value 7 at
100 seconds, to zero. -/
theorem C12_stats_reset_keeps_timing_counterexample :
    (demoState.LC_OperData.WRTPtr[1]?).map LC_WRTEntry_t.LastFalseToTrue
      = some { Value := 7, Seconds := 100, Subseconds := 0 } ∧
    ((LC_ResetResultsWP demoCfg 1 1 true demoState.LC_OperData.WRTPtr).bind
      (fun wrt => wrt[1]?)).map LC_WRTEntry_t.LastFalseToTrue
      = some { Value := 0, Seconds := 0, Subseconds := 0 } ∧
    ((LC_ResetWPStatsCmd demoCfg (demoMsg LC_CMD_MID 6 12 1 0 0) demoState).bind
      (fun st => st.LC_OperData.WRTPtr[1]?)).map LC_WRTEntry_t.LastFalseToTrue
      = some { Value := 0, Seconds := 0, Subseconds := 0 } := by
  decide

/-- C12, amended: `LC_ResetResultsWP` with `ResetStatsCmd` true returns; for every record in
the range it clears `EvaluationCount`, `FalseToTrueCount`, `ConsecutiveTrueCount` and
`CumulativeTrueCount` and sets both transition snapshots (value, seconds, subseconds) to
zero, and it keeps `WatchResult` and `CountdownToStale`; records outside the range are
unchanged. -/
theorem C12_stats_reset_keeps_verdict (cfg : LC_Config) (s e : Nat) (WRT : List LC_WRTEntry_t)
    (he : e < WRT.length) (h32 : e < 4294967295) :
    ∃ ys, LC_ResetResultsWP cfg s e true WRT = some ys ∧ ys.length = WRT.length ∧
      ∀ (i : Nat) (x : LC_WRTEntry_t), WRT[i]? = some x →
        ∃ y, ys[i]? = some y ∧
          (s ≤ i → i ≤ e →
            y.EvaluationCount = 0 ∧ y.FalseToTrueCount = 0 ∧ y.ConsecutiveTrueCount = 0 ∧
            y.CumulativeTrueCount = 0 ∧
            y.LastFalseToTrue = { Value := 0, Seconds := 0, Subseconds := 0 } ∧
            y.LastTrueToFalse = { Value := 0, Seconds := 0, Subseconds := 0 } ∧
            y.WatchResult = x.WatchResult ∧ y.CountdownToStale = x.CountdownToStale) ∧
          (¬ (s ≤ i ∧ i ≤ e) → y = x) := by
  obtain ⟨ys, hrun, hl, hpt⟩ := LC_ResetResultsWP_range cfg s e true WRT he h32
  refine ⟨ys, hrun, hl, ?_⟩
  intro i x hx
  by_cases hin : s ≤ i ∧ i ≤ e
  · refine ⟨resetWPEntry cfg true x, by rw [hpt i, if_pos hin, hx]; rfl, ?_, ?_⟩
    · intro _ _
      exact ⟨rfl, rfl, rfl, rfl, rfl, rfl, rfl, rfl⟩
    · intro h; exact absurd hin h
  · refine ⟨x, by rw [hpt i, if_neg hin, hx], ?_, ?_⟩
    · intro h1 h2; exact absurd ⟨h1, h2⟩ hin
    · intro _; rfl

/-- Concrete instance of amended C12: stats reset of watchpoint 1 of the demonstration
state. -/
theorem C12_stats_reset_keeps_verdict_witness :
    ∃ ys, LC_ResetResultsWP demoCfg 1 1 true demoState.LC_OperData.WRTPtr = some ys ∧
      ∃ y, ys[1]? = some y ∧ y.EvaluationCount = 0 ∧ y.WatchResult = 0 ∧
        y.CountdownToStale = 3 := by
  obtain ⟨ys, hrun, _, hall⟩ :=
    C12_stats_reset_keeps_verdict demoCfg 1 1 demoState.LC_OperData.WRTPtr (by decide)
      (by decide)
  obtain ⟨y, hy, hin, _⟩ := hall 1 (demoWP 0 3) rfl
  obtain ⟨h1, _, _, _, _, _, h7, h8⟩ := hin (by decide) (by decide)
  exact ⟨ys, hrun, y, hy, h1, h7, h8⟩

/-- C13: the table-reload reset `LC_ResetResultsWP (0, LC_MAX_WATCHPOINTS - 1, false)` returns
and leaves every record from 0 to `LC_MAX_WATCHPOINTS - 1` in the default posture, whatever
the table held: `WatchResult = LC_WATCH_STALE`, `CountdownToStale = 0`, the four counters 0
and both transition snapshots (value, seconds, subseconds) 0. -/
theorem C13_reload_reset_default_posture (cfg : LC_Config) (WRT : List LC_WRTEntry_t)
    (hl : WRT.length = cfg.LC_MAX_WATCHPOINTS) (h0 : 0 < cfg.LC_MAX_WATCHPOINTS)
    (h32 : cfg.LC_MAX_WATCHPOINTS ≤ 4294967295) :
    ∃ ys, LC_ResetResultsWP cfg 0 (u32Pred cfg.LC_MAX_WATCHPOINTS) false WRT = some ys ∧
      ys.length = cfg.LC_MAX_WATCHPOINTS ∧
      ∀ i : Nat, i < cfg.LC_MAX_WATCHPOINTS →
        ys[i]? = some
          { WatchResult := cfg.LC_WATCH_STALE, CountdownToStale := 0
            EvaluationCount := 0, FalseToTrueCount := 0, ConsecutiveTrueCount := 0
            CumulativeTrueCount := 0
            LastFalseToTrue := { Value := 0, Seconds := 0, Subseconds := 0 }
            LastTrueToFalse := { Value := 0, Seconds := 0, Subseconds := 0 } } := by
  have hp : u32Pred cfg.LC_MAX_WATCHPOINTS = cfg.LC_MAX_WATCHPOINTS - 1 := by
    unfold u32Pred; omega
  rw [hp]
  obtain ⟨ys, hrun, hlen, hpt⟩ :=
    LC_ResetResultsWP_range cfg 0 (cfg.LC_MAX_WATCHPOINTS - 1) false WRT (by omega) (by omega)
  refine ⟨ys, hrun, by rw [hlen, hl], ?_⟩
  intro i hi
  rw [hpt i, if_pos (by omega), List.getElem?_eq_getElem (by omega)]
  rfl

/-- Concrete instance of C13 on the watchpoint results of the demonstration state. -/
theorem C13_reload_reset_default_posture_witness :
    ∃ ys, LC_ResetResultsWP demoCfg 0 (u32Pred demoCfg.LC_MAX_WATCHPOINTS) false
        demoState.LC_OperData.WRTPtr = some ys ∧
      ys.length = 8 ∧ ys[5]? = some (clearedWP demoCfg) := by
  obtain ⟨ys, hrun, hlen, hall⟩ :=
    C13_reload_reset_default_posture demoCfg demoState.LC_OperData.WRTPtr (by decide)
      (by decide) (by decide)
  exact ⟨ys, hrun, hlen, hall 5 (by decide)⟩

/-- C14: the two actionpoint reset paths.  `LC_ResetResultsAP (s, e, false)` returns and, for
every index in `[s, e]`, sets `ActionResult` to `LC_ACTION_STALE`, `CurrentState` to
the definition table's `DefaultState` for that index and the seven statistics counters to 0.
`LC_ResetResultsAP (s, e, true)` returns and sets the same seven counters to 0, keeping
`CurrentState` and `ActionResult`.  In both cases records outside `[s, e]` are unchanged. -/
theorem C14_actionpoint_reset_paths (cfg : LC_Config) (ADT : List LC_ADTEntry_t) (s e : Nat)
    (ART : List LC_ARTEntry_t) (he : e < ART.length) (h32 : e < 4294967295) :
    (e < ADT.length →
      ∃ ys, LC_ResetResultsAP cfg ADT s e false ART = some ys ∧ ys.length = ART.length ∧
        ∀ (i : Nat) (x : LC_ARTEntry_t), ART[i]? = some x →
          ∃ y, ys[i]? = some y ∧
            (s ≤ i → i ≤ e → ∃ d, ADT[i]? = some d ∧
              y = { ActionResult := cfg.LC_ACTION_STALE, CurrentState := d.DefaultState
                    PassiveAPCount := 0, FailToPassCount := 0, PassToFailCount := 0
                    ConsecutiveFailCount := 0, CumulativeFailCount := 0
                    CumulativeRTSExecCount := 0, CumulativeEventMsgsSent := 0 }) ∧
            (¬ (s ≤ i ∧ i ≤ e) → y = x)) ∧
    (∃ ys, LC_ResetResultsAP cfg ADT s e true ART = some ys ∧ ys.length = ART.length ∧
      ∀ (i : Nat) (x : LC_ARTEntry_t), ART[i]? = some x →
        ∃ y, ys[i]? = some y ∧
          (s ≤ i → i ≤ e →
            y = { x with
                  PassiveAPCount := 0, FailToPassCount := 0, PassToFailCount := 0
                  ConsecutiveFailCount := 0, CumulativeFailCount := 0
                  CumulativeRTSExecCount := 0, CumulativeEventMsgsSent := 0 }) ∧
          (¬ (s ≤ i ∧ i ≤ e) → y = x)) := by
  constructor
  · intro hd
    obtain ⟨ys, hrun, hl, hpt⟩ :=
      LC_ResetResultsAP_range cfg ADT s e false ART he (Or.inr hd) h32
    refine ⟨ys, hrun, hl, ?_⟩
    intro i x hx
    by_cases hin : s ≤ i ∧ i ≤ e
    · have hi : i < ADT.length := by omega
      refine ⟨resetAPEntry cfg ADT false i x, by rw [hpt i, if_pos hin, hx]; rfl, ?_, ?_⟩
      · intro _ _
        refine ⟨ADT[i], List.getElem?_eq_getElem hi, ?_⟩
        unfold resetAPEntry
        simp [List.getElem?_eq_getElem hi]
      · intro h; exact absurd hin h
    · refine ⟨x, by rw [hpt i, if_neg hin, hx], ?_, ?_⟩
      · intro h1 h2; exact absurd ⟨h1, h2⟩ hin
      · intro _; rfl
  · obtain ⟨ys, hrun, hl, hpt⟩ :=
      LC_ResetResultsAP_range cfg ADT s e true ART he (Or.inl rfl) h32
    refine ⟨ys, hrun, hl, ?_⟩
    intro i x hx
    by_cases hin : s ≤ i ∧ i ≤ e
    · refine ⟨resetAPEntry cfg ADT true i x, by rw [hpt i, if_pos hin, hx]; rfl, ?_, ?_⟩
      · intro _ _; rfl
      · intro h; exact absurd hin h
    · refine ⟨x, by rw [hpt i, if_neg hin, hx], ?_, ?_⟩
      · intro h1 h2; exact absurd ⟨h1, h2⟩ hin
      · intro _; rfl

/-- Concrete instance of C14: resetting actionpoints 1 to 2 of the demonstration state with
both settings of `ResetStatsCmd`. -/
theorem C14_actionpoint_reset_paths_witness :
    (∃ ys, LC_ResetResultsAP demoCfg demoState.LC_OperData.ADTPtr 1 2 false
        demoState.LC_OperData.ARTPtr = some ys ∧
      ∃ y, ys[2]? = some y ∧ y.CurrentState = 3 ∧ y.ActionResult = 0xFF) ∧
    (∃ ys, LC_ResetResultsAP demoCfg demoState.LC_OperData.ADTPtr 1 2 true
        demoState.LC_OperData.ARTPtr = some ys ∧
      ∃ y, ys[2]? = some y ∧ y.CurrentState = 4 ∧ y.PassiveAPCount = 0) := by
  obtain ⟨hf, ht⟩ := C14_actionpoint_reset_paths demoCfg demoState.LC_OperData.ADTPtr 1 2
    demoState.LC_OperData.ARTPtr (by decide) (by decide)
  obtain ⟨ys, hrun, _, hall⟩ := hf (by decide)
  obtain ⟨y, hy, hin, _⟩ := hall 2 (demoAP 4 0xFF) rfl
  obtain ⟨d, hd, hyd⟩ := hin (by decide) (by decide)
  obtain ⟨zs, hrun2, _, hall2⟩ := ht
  obtain ⟨z, hz, hin2, _⟩ := hall2 2 (demoAP 4 0xFF) rfl
  have hz2 := hin2 (by decide) (by decide)
  have hd3 : d = ⟨3⟩ := by
    have : demoState.LC_OperData.ADTPtr[2]? = some ⟨3⟩ := rfl
    rw [this] at hd
    cases hd
    rfl
  refine ⟨⟨ys, hrun, y, hy, ?_, ?_⟩, ⟨zs, hrun2, z, hz, ?_, ?_⟩⟩
  · rw [hyd, hd3]
  · rw [hyd]; rfl
  · rw [hz2]; rfl
  · rw [hz2]

/-! ## Aging only on request -/

/-- C11: aging happens only when requested.  A sample request of the wrong length, or
received while LC is disabled, or with a rejected index range, returns with the watchpoint
results table exactly as it came in; an accepted request with `UpdateAge = 0` returns the
state the sampling call left, so no record is aged.  In every case the table a sample
request leaves is the incoming table, the table left by the sampling call, or that table
aged by exactly one pass. -/
theorem C11_aging_only_on_request (cfg : LC_Config) (ext : LC_Externals) (msg : CFE_SB_Msg)
    (st : LC_State) :
    ((msg.TotalMsgLength ≠ u16 (sizeof_LC_SampleAP_t cfg) ∨
        st.LC_AppData.CurrentLCState = cfg.LC_STATE_DISABLED ∨
        ¬ ((msg.StartIndex = LC_ALL_ACTIONPOINTS ∧ msg.EndIndex = LC_ALL_ACTIONPOINTS) ∨
          (msg.StartIndex ≤ msg.EndIndex ∧ msg.EndIndex < cfg.LC_MAX_ACTIONPOINTS))) →
      ∃ st', LC_SampleAPReq cfg ext msg st = some st' ∧
        st'.LC_OperData.WRTPtr = st.LC_OperData.WRTPtr) ∧
    (msg.UpdateAge = 0 → msg.TotalMsgLength = u16 (sizeof_LC_SampleAP_t cfg) →
      st.LC_AppData.CurrentLCState ≠ cfg.LC_STATE_DISABLED →
      LC_SampleAPReq cfg ext msg st = some (sampleRange cfg ext msg st).2) ∧
    ((sampleRange cfg ext msg st).2.LC_OperData.WRTPtr.length = cfg.LC_MAX_WATCHPOINTS →
      cfg.LC_MAX_WATCHPOINTS ≤ 65535 →
      ∃ st', LC_SampleAPReq cfg ext msg st = some st' ∧
        (st'.LC_OperData.WRTPtr = st.LC_OperData.WRTPtr ∨
          st'.LC_OperData.WRTPtr = (sampleRange cfg ext msg st).2.LC_OperData.WRTPtr ∨
          st'.LC_OperData.WRTPtr =
            (sampleRange cfg ext msg st).2.LC_OperData.WRTPtr.map (ageEntry cfg))) := by
  have frame : (msg.TotalMsgLength ≠ u16 (sizeof_LC_SampleAP_t cfg) ∨
        st.LC_AppData.CurrentLCState = cfg.LC_STATE_DISABLED ∨
        ¬ ((msg.StartIndex = LC_ALL_ACTIONPOINTS ∧ msg.EndIndex = LC_ALL_ACTIONPOINTS) ∨
          (msg.StartIndex ≤ msg.EndIndex ∧ msg.EndIndex < cfg.LC_MAX_ACTIONPOINTS))) →
      ∃ st', LC_SampleAPReq cfg ext msg st = some st' ∧
        st'.LC_OperData.WRTPtr = st.LC_OperData.WRTPtr := by
    intro h
    by_cases hlen : msg.TotalMsgLength = u16 (sizeof_LC_SampleAP_t cfg)
    · by_cases hstate : st.LC_AppData.CurrentLCState = cfg.LC_STATE_DISABLED
      · exact ⟨st, LC_SampleAPReq_disabled cfg ext msg st hlen hstate, rfl⟩
      · have hr := (h.resolve_left (fun hc => hc hlen)).resolve_left hstate
        have hsr := sampleRange_rejected cfg ext msg st hr
        refine ⟨_, LC_SampleAPReq_noaging cfg ext msg st hlen hstate ?_, ?_⟩
        · rw [hsr]; exact fun hc => Bool.false_ne_true hc.2
        · rw [hsr]; rfl
    · exact ⟨_, LC_SampleAPReq_badlen cfg ext msg st hlen, by rw [LC_VerifyMsgLength_OperData]⟩
  refine ⟨frame, ?_, ?_⟩
  · intro hage hlen hstate
    exact LC_SampleAPReq_noaging cfg ext msg st hlen hstate (fun hc => hc.1 hage)
  · intro hl hmax
    by_cases hlen : msg.TotalMsgLength = u16 (sizeof_LC_SampleAP_t cfg)
    · by_cases hstate : st.LC_AppData.CurrentLCState = cfg.LC_STATE_DISABLED
      · obtain ⟨st', hrun, hw⟩ := frame (Or.inr (Or.inl hstate))
        exact ⟨st', hrun, Or.inl hw⟩
      · by_cases hr : (msg.StartIndex = LC_ALL_ACTIONPOINTS ∧ msg.EndIndex = LC_ALL_ACTIONPOINTS)
            ∨ (msg.StartIndex ≤ msg.EndIndex ∧ msg.EndIndex < cfg.LC_MAX_ACTIONPOINTS)
        · by_cases hage : msg.UpdateAge = 0
          · exact ⟨_, LC_SampleAPReq_noaging cfg ext msg st hlen hstate (fun hc => hc.1 hage),
              Or.inr (Or.inl rfl)⟩
          · exact ⟨_, LC_SampleAPReq_aging cfg ext msg st ⟨hlen, hr, hage⟩ hstate hl hmax,
              Or.inr (Or.inr rfl)⟩
        · obtain ⟨st', hrun, hw⟩ := frame (Or.inr (Or.inr hr))
          exact ⟨st', hrun, Or.inl hw⟩
    · obtain ⟨st', hrun, hw⟩ := frame (Or.inl hlen)
      exact ⟨st', hrun, Or.inl hw⟩

/-- Concrete instance of C11: a sample request for actionpoints 0 to 3 with `UpdateAge = 0`
on the demonstration state leaves the watchpoint results as they were. -/
theorem C11_aging_only_on_request_witness :
    LC_SampleAPReq demoCfg demoExt (demoMsg LC_SAMPLE_AP_MID 0 16 0 3 0) demoState
        = some (sampleRange demoCfg demoExt (demoMsg LC_SAMPLE_AP_MID 0 16 0 3 0) demoState).2 ∧
    (sampleRange demoCfg demoExt (demoMsg LC_SAMPLE_AP_MID 0 16 0 3 0)
        demoState).2.LC_OperData.WRTPtr = demoState.LC_OperData.WRTPtr :=
  ⟨(C11_aging_only_on_request demoCfg demoExt (demoMsg LC_SAMPLE_AP_MID 0 16 0 3 0)
      demoState).2.1 (by decide) (by decide) (by decide), by decide⟩

/-! ## Table management on a housekeeping cycle -/

/-- C15: `LC_ManageTables` returns.  If re-acquiring the watchpoint definition table reports
`CFE_TBL_INFO_UPDATED`, every watchpoint result record from 0 to `LC_MAX_WATCHPOINTS - 1`
is afterwards the record a table reload leaves (stale, no countdown, counters and
snapshots zero) and `LC_CreateHashTable` is called exactly once.  If it reports
`CFE_SUCCESS` (a code different from `CFE_TBL_INFO_UPDATED`), the watchpoint results table
is unchanged and `LC_CreateHashTable` is not called. -/
theorem C15_watchpoint_reload (cfg : LC_Config) (env : CFE_Env) (st : LC_State)
    (hs : cfg.SizesOK) (hst : st.Sized cfg)
    (henv : env.ADTPtr.length = cfg.LC_MAX_ACTIONPOINTS) :
    ∃ rc st', LC_ManageTables cfg env st = some (rc, st') ∧
      (env.WDT_GetAddress = cfg.CFE_TBL_INFO_UPDATED →
        st'.LC_OperData.WRTPtr.length = cfg.LC_MAX_WATCHPOINTS ∧
        (∀ i : Nat, i < cfg.LC_MAX_WATCHPOINTS →
          st'.LC_OperData.WRTPtr[i]? = some (clearedWP cfg)) ∧
        (st'.Calls.drop st.Calls.length).count LC_Call.LC_CreateHashTable = 1) ∧
      (env.WDT_GetAddress = cfg.CFE_SUCCESS → cfg.CFE_SUCCESS ≠ cfg.CFE_TBL_INFO_UPDATED →
        st'.LC_OperData.WRTPtr = st.LC_OperData.WRTPtr ∧
        (st'.Calls.drop st.Calls.length).count LC_Call.LC_CreateHashTable = 0) := by
  obtain ⟨rc, st', hm, _, hsz, hwrt, _, _⟩ := LC_ManageTables_spec cfg env st hs hst henv
  obtain ⟨rc2, st2, hm2, hcalls⟩ := LC_ManageTables_calls cfg env st hs hst henv
  rw [hm] at hm2
  cases hm2
  have hdrop : st'.Calls.drop st.Calls.length = manageTablesCalls cfg env := by
    rw [hcalls]; simp
  refine ⟨rc, st', hm, ?_, ?_⟩
  · intro hu
    refine ⟨hsz.1, ?_, ?_⟩
    · intro i hi
      rw [hwrt i, if_pos hu, List.getElem?_eq_getElem (by rw [hst.1]; exact hi)]
      rfl
    · rw [hdrop, (manageTablesCalls_count cfg env).1, if_pos hu]
  · intro hok hne
    have hnu : env.WDT_GetAddress ≠ cfg.CFE_TBL_INFO_UPDATED := by rw [hok]; exact hne
    refine ⟨?_, ?_⟩
    · apply List.ext_getElem?
      intro i
      rw [hwrt i, if_neg hnu]
    · rw [hdrop, (manageTablesCalls_count cfg env).1, if_neg hnu]

/-- Concrete instance of C15: table management on the demonstration state, with the
watchpoint definition table reported updated and the actionpoint one failing, and with
both reported unchanged. -/
theorem C15_watchpoint_reload_witness :
    (∃ rc st', LC_ManageTables demoCfg updatedThenErrorEnv demoState = some (rc, st') ∧
      st'.LC_OperData.WRTPtr[2]? = some (clearedWP demoCfg) ∧
      (st'.Calls.drop demoState.Calls.length).count LC_Call.LC_CreateHashTable = 1) ∧
    (∃ rc st', LC_ManageTables demoCfg demoEnv demoState = some (rc, st') ∧
      st'.LC_OperData.WRTPtr = demoState.LC_OperData.WRTPtr ∧
      (st'.Calls.drop demoState.Calls.length).count LC_Call.LC_CreateHashTable = 0) := by
  constructor
  · obtain ⟨rc, st', hm, hu, _⟩ :=
      C15_watchpoint_reload demoCfg updatedThenErrorEnv demoState (by decide) (by decide)
        (by decide)
    obtain ⟨_, hall, hcount⟩ := hu (by decide)
    exact ⟨rc, st', hm, hall 2 (by decide), hcount⟩
  · obtain ⟨rc, st', hm, _, hk⟩ :=
      C15_watchpoint_reload demoCfg demoEnv demoState (by decide) (by decide) (by decide)
    obtain ⟨hsame, hcount⟩ := hk (by decide) (by decide)
    exact ⟨rc, st', hm, hsame, hcount⟩

/-- C16: when `LC_ManageTables` reaches the acquisition of the actionpoint definition table
(the watchpoint definition table was acquired without error), it returns with the newly
acquired table as `ADTPtr`.  If the acquisition reports `CFE_TBL_INFO_UPDATED`, every
actionpoint record `i` from 0 to `LC_MAX_ACTIONPOINTS - 1` afterwards has `CurrentState`
equal to the `DefaultState` of definition `i` of that table, `ActionResult` equal to
`LC_ACTION_STALE` and all seven counters 0.  If it reports `CFE_SUCCESS` (a code different
from `CFE_TBL_INFO_UPDATED`), the actionpoint results table is unchanged. -/
theorem C16_actionpoint_reload (cfg : LC_Config) (env : CFE_Env) (st : LC_State)
    (hs : cfg.SizesOK) (hst : st.Sized cfg)
    (henv : env.ADTPtr.length = cfg.LC_MAX_ACTIONPOINTS)
    (hw : env.WDT_GetAddress = cfg.CFE_TBL_INFO_UPDATED ∨ env.WDT_GetAddress = cfg.CFE_SUCCESS) :
    ∃ rc st', LC_ManageTables cfg env st = some (rc, st') ∧
      (env.ADT_GetAddress = cfg.CFE_TBL_INFO_UPDATED →
        st'.LC_OperData.ARTPtr.length = cfg.LC_MAX_ACTIONPOINTS ∧
        ∀ i : Nat, i < cfg.LC_MAX_ACTIONPOINTS →
          ∃ d, env.ADTPtr[i]? = some d ∧
            st'.LC_OperData.ARTPtr[i]? = some
              { ActionResult := cfg.LC_ACTION_STALE, CurrentState := d.DefaultState
                PassiveAPCount := 0, FailToPassCount := 0, PassToFailCount := 0
                ConsecutiveFailCount := 0, CumulativeFailCount := 0
                CumulativeRTSExecCount := 0, CumulativeEventMsgsSent := 0 }) ∧
      (env.ADT_GetAddress = cfg.CFE_SUCCESS → cfg.CFE_SUCCESS ≠ cfg.CFE_TBL_INFO_UPDATED →
        st'.LC_OperData.ARTPtr = st.LC_OperData.ARTPtr) := by
  obtain ⟨rc, st', hm, _, hsz, _, hart, _⟩ := LC_ManageTables_spec cfg env st hs hst henv
  refine ⟨rc, st', hm, ?_, ?_⟩
  · intro hu
    refine ⟨hsz.2.1, ?_⟩
    intro i hi
    have hie : i < env.ADTPtr.length := by rw [henv]; exact hi
    refine ⟨env.ADTPtr[i], List.getElem?_eq_getElem hie, ?_⟩
    rw [hart i, if_pos ⟨hw, hu⟩, List.getElem?_eq_getElem (by rw [hst.2.1]; exact hi)]
    unfold resetAPEntry
    simp [List.getElem?_eq_getElem hie]
  · intro hok hne
    have hnu : env.ADT_GetAddress ≠ cfg.CFE_TBL_INFO_UPDATED := by rw [hok]; exact hne
    apply List.ext_getElem?
    intro i
    rw [hart i, if_neg (fun h => hnu h.2)]

/-- Concrete instance of C16: table management on the demonstration state with the
actionpoint definition table reported updated, and with it reported unchanged. -/
theorem C16_actionpoint_reload_witness :
    (∃ rc st', LC_ManageTables demoCfg reloadEnv demoState = some (rc, st') ∧
      ∃ d, reloadEnv.ADTPtr[2]? = some d ∧
        st'.LC_OperData.ARTPtr[2]? = some
          { ActionResult := demoCfg.LC_ACTION_STALE, CurrentState := d.DefaultState
            PassiveAPCount := 0, FailToPassCount := 0, PassToFailCount := 0
            ConsecutiveFailCount := 0, CumulativeFailCount := 0
            CumulativeRTSExecCount := 0, CumulativeEventMsgsSent := 0 }) ∧
    (∃ rc st', LC_ManageTables demoCfg demoEnv demoState = some (rc, st') ∧
      st'.LC_OperData.ARTPtr = demoState.LC_OperData.ARTPtr) := by
  constructor
  · obtain ⟨rc, st', hm, hu, _⟩ :=
      C16_actionpoint_reload demoCfg reloadEnv demoState (by decide) (by decide) (by decide)
        (by decide)
    exact ⟨rc, st', hm, (hu (by decide)).2 2 (by decide)⟩
  · obtain ⟨rc, st', hm, _, hk⟩ :=
      C16_actionpoint_reload demoCfg demoEnv demoState (by decide) (by decide) (by decide)
        (by decide)
    exact ⟨rc, st', hm, hk (by decide) (by decide)⟩

/-- C17: a failure to obtain a definition-table address is propagated and not retried.
Let `code` be neither `CFE_SUCCESS` nor `CFE_TBL_INFO_UPDATED`, and let it be the result
of the watchpoint definition table acquisition, or of the actionpoint definition table
acquisition after the former went without error.  Then `LC_ManageTables` returns `code`
having called `CFE_TBL_GetAddress` once for the watchpoint definition table and at most
once (not at all in the first case) for the actionpoint definition table;
`LC_HousekeepingReq` returns `code`, none of the calls it made is a write to the critical
data store, and `HaveActiveCDS` is unchanged; `LC_AppPipe` returns the same result for a
housekeeping request.  For every message that is not a housekeeping request `LC_AppPipe`
returns `CFE_SUCCESS` (the sampler of `lc_action.c` is assumed to keep the dimension of the
watchpoint results table). -/
theorem C17_address_error_propagated (cfg : LC_Config) (ext : LC_Externals) (env : CFE_Env)
    (msg : CFE_SB_Msg) (st : LC_State) (hs : cfg.SizesOK) (hst : st.Sized cfg)
    (henv : env.ADTPtr.length = cfg.LC_MAX_ACTIONPOINTS)
    (hext : ∀ (s e : Nat) (t : LC_State),
      (ext.LC_SampleAPs s e t).LC_OperData.WRTPtr.length = t.LC_OperData.WRTPtr.length) :
    (∀ code : Int, code ≠ cfg.CFE_SUCCESS → code ≠ cfg.CFE_TBL_INFO_UPDATED →
      (env.WDT_GetAddress = code ∨
        ((env.WDT_GetAddress = cfg.CFE_TBL_INFO_UPDATED ∨ env.WDT_GetAddress = cfg.CFE_SUCCESS) ∧
          env.ADT_GetAddress = code)) →
      (∃ st', LC_ManageTables cfg env st = some (code, st') ∧
        (st'.Calls.drop st.Calls.length).count
          (LC_Call.CFE_TBL_GetAddress LC_TableHandle.WDTHandle) = 1 ∧
        (st'.Calls.drop st.Calls.length).count
          (LC_Call.CFE_TBL_GetAddress LC_TableHandle.ADTHandle) =
            (if env.WDT_GetAddress = code then 0 else 1)) ∧
      (∃ st', LC_HousekeepingReq cfg env msg st = some (code, st') ∧
        (∀ c ∈ st'.Calls.drop st.Calls.length, LC_Call.isCopyToCDS c = false) ∧
        st'.LC_OperData.HaveActiveCDS = st.LC_OperData.HaveActiveCDS ∧
        (msg.MsgId = LC_SEND_HK_MID →
          LC_AppPipe cfg ext env msg st = some (code, st')))) ∧
    (msg.MsgId ≠ LC_SEND_HK_MID →
      ∃ st', LC_AppPipe cfg ext env msg st = some (cfg.CFE_SUCCESS, st')) := by
  refine ⟨?_, fun hmid => LC_AppPipe_other cfg ext env msg st hs hst hext hmid⟩
  intro code hc1 hc2 hcase
  have hcode : (if env.WDT_GetAddress = cfg.CFE_TBL_INFO_UPDATED ∨
        env.WDT_GetAddress = cfg.CFE_SUCCESS
      then (if env.ADT_GetAddress = cfg.CFE_TBL_INFO_UPDATED ∨
          env.ADT_GetAddress = cfg.CFE_SUCCESS
        then cfg.CFE_SUCCESS else env.ADT_GetAddress)
      else env.WDT_GetAddress) = code := by
    rcases hcase with h | ⟨hok, h⟩
    · rw [if_neg (by rw [h]; exact fun hc => hc.elim hc2 hc1)]
      exact h
    · rw [if_pos hok, if_neg (by rw [h]; exact fun hc => hc.elim hc2 hc1)]
      exact h
  have hadt : (if env.WDT_GetAddress = cfg.CFE_TBL_INFO_UPDATED ∨
        env.WDT_GetAddress = cfg.CFE_SUCCESS then 1 else 0) =
      (if env.WDT_GetAddress = code then 0 else 1) := by
    rcases hcase with h | ⟨hok, _⟩
    · rw [if_neg (by rw [h]; exact fun hc => hc.elim hc2 hc1), if_pos h]
    · rw [if_pos hok, if_neg (fun hc => by rw [hc] at hok; exact hok.elim hc2 hc1)]
  constructor
  · obtain ⟨rc, st', hm, _, _, _, _, hrc⟩ := LC_ManageTables_spec cfg env st hs hst henv
    obtain ⟨rc2, st2, hm2, hcalls⟩ := LC_ManageTables_calls cfg env st hs hst henv
    rw [hm] at hm2
    cases hm2
    rw [hcode] at hrc
    subst hrc
    have hdrop : st'.Calls.drop st.Calls.length = manageTablesCalls cfg env := by
      rw [hcalls]; simp
    refine ⟨st', hm, ?_, ?_⟩
    · rw [hdrop]; exact (manageTablesCalls_count cfg env).2.1
    · rw [hdrop, (manageTablesCalls_count cfg env).2.2]; exact hadt
  · obtain ⟨st1, rc, st2, pre, _, _, hno, _, hrc, _, _, hcds, _, hcalls, hrun⟩ :=
      LC_HousekeepingReq_full cfg env msg st hs hst henv
    rw [hcode] at hrc
    subst hrc
    rw [if_pos hc1] at hrun
    refine ⟨st2, hrun, ?_, hcds, ?_⟩
    · have hdrop : st2.Calls.drop st.Calls.length = pre ++ manageTablesCalls cfg env := by
        rw [hcalls, List.append_assoc]; simp
      rw [hdrop]
      intro c hc
      rcases List.mem_append.mp hc with h | h
      · exact hno c h
      · exact manageTablesCalls_noCDS cfg env c h
    · intro hmid
      rw [LC_AppPipe_hk cfg ext env msg st hmid]
      exact hrun

/-- Concrete instance of C17 on the demonstration state: the watchpoint definition table
is reported updated and the acquisition of the actionpoint definition table fails with
code `-1`; a no-op command returns `CFE_SUCCESS`. -/
theorem C17_address_error_propagated_witness :
    (∃ st', LC_ManageTables demoCfg updatedThenErrorEnv demoState = some (-1, st') ∧
      (st'.Calls.drop demoState.Calls.length).count
        (LC_Call.CFE_TBL_GetAddress LC_TableHandle.ADTHandle) = 1) ∧
    (∃ st', LC_HousekeepingReq demoCfg updatedThenErrorEnv (demoMsg LC_SEND_HK_MID 0 8 0 0 0)
        demoState = some (-1, st') ∧
      st'.LC_OperData.HaveActiveCDS = demoState.LC_OperData.HaveActiveCDS ∧
      LC_AppPipe demoCfg demoExt updatedThenErrorEnv (demoMsg LC_SEND_HK_MID 0 8 0 0 0)
        demoState = some (-1, st')) ∧
    (∃ st', LC_AppPipe demoCfg demoExt updatedThenErrorEnv (demoMsg LC_CMD_MID 0 8 0 0 0)
      demoState = some (demoCfg.CFE_SUCCESS, st')) := by
  have h := C17_address_error_propagated demoCfg demoExt updatedThenErrorEnv
    (demoMsg LC_SEND_HK_MID 0 8 0 0 0) demoState (by decide) (by decide) (by decide)
    (fun _ _ _ => rfl)
  obtain ⟨⟨st1, hm, _, hcount⟩, ⟨st2, hhk, _, hcds, hpipe⟩⟩ :=
    h.1 (-1) (by decide) (by decide) (Or.inr ⟨Or.inl rfl, rfl⟩)
  refine ⟨⟨st1, hm, ?_⟩, ⟨st2, hhk, hcds, hpipe rfl⟩, ?_⟩
  · rw [hcount]; decide
  · exact (C17_address_error_propagated demoCfg demoExt updatedThenErrorEnv
      (demoMsg LC_CMD_MID 0 8 0 0 0) demoState (by decide) (by decide) (by decide)
      (fun _ _ _ => rfl)).2 (by decide)

/-- C18, as stated, fails: on the demonstration state, with the watchpoint definition table
reported updated and the acquisition of the actionpoint definition table failing with code
`-1`, the housekeeping request returns the error code `-1` although the watchpoint results
table has changed: watchpoint 1, false with 5 evaluations before, is stale with none. -/
theorem C18_no_partial_mutation_counterexample :
    (LC_HousekeepingReq demoCfg updatedThenErrorEnv (demoMsg LC_SEND_HK_MID 0 8 0 0 0)
        demoState).map
      (fun r => (r.1, decide (r.2.LC_OperData.WRTPtr = demoState.LC_OperData.WRTPtr)))
      = some (-1, false) ∧
    (LC_ManageTables demoCfg updatedThenErrorEnv demoState).map
      (fun r => (r.1, decide (r.2.LC_OperData.WRTPtr = demoState.LC_OperData.WRTPtr)))
      = some (-1, false) ∧
    (-1 : Int) ≠ demoCfg.CFE_SUCCESS ∧ (-1 : Int) ≠ demoCfg.CFE_TBL_INFO_UPDATED ∧
    (demoState.LC_OperData.WRTPtr[1]?).map
      (fun e => (e.WatchResult, e.EvaluationCount)) = some (demoCfg.LC_WATCH_FALSE, 5) ∧
    ((LC_HousekeepingReq demoCfg updatedThenErrorEnv (demoMsg LC_SEND_HK_MID 0 8 0 0 0)
        demoState).bind (fun r => r.2.LC_OperData.WRTPtr[1]?)).map
      (fun e => (e.WatchResult, e.EvaluationCount)) = some (demoCfg.LC_WATCH_STALE, 0) := by
  decide

/-- C18, amended: whenever `LC_ManageTables`, and hence the housekeeping request, returns
an error `code` because a definition-table address could not be obtained, the actionpoint
results table is equal to its value before the request; the watchpoint results table is
equal to its value before the request unless the watchpoint definition table was reported
updated before the acquisition of the actionpoint definition table failed, and in that
case every watchpoint record has been reset to the record a table reload leaves. -/
theorem C18_address_error_table_effects (cfg : LC_Config) (env : CFE_Env) (msg : CFE_SB_Msg)
    (st : LC_State) (hs : cfg.SizesOK) (hst : st.Sized cfg)
    (henv : env.ADTPtr.length = cfg.LC_MAX_ACTIONPOINTS)
    (code : Int) (hc1 : code ≠ cfg.CFE_SUCCESS) (hc2 : code ≠ cfg.CFE_TBL_INFO_UPDATED)
    (hcase : env.WDT_GetAddress = code ∨
      ((env.WDT_GetAddress = cfg.CFE_TBL_INFO_UPDATED ∨ env.WDT_GetAddress = cfg.CFE_SUCCESS) ∧
        env.ADT_GetAddress = code)) :
    (∃ st', LC_ManageTables cfg env st = some (code, st') ∧
      st'.LC_OperData.ARTPtr = st.LC_OperData.ARTPtr ∧
      (env.WDT_GetAddress ≠ cfg.CFE_TBL_INFO_UPDATED →
        st'.LC_OperData.WRTPtr = st.LC_OperData.WRTPtr) ∧
      (env.WDT_GetAddress = cfg.CFE_TBL_INFO_UPDATED →
        ∀ i : Nat, i < cfg.LC_MAX_WATCHPOINTS →
          st'.LC_OperData.WRTPtr[i]? = some (clearedWP cfg))) ∧
    (∃ st', LC_HousekeepingReq cfg env msg st = some (code, st') ∧
      st'.LC_OperData.ARTPtr = st.LC_OperData.ARTPtr ∧
      (env.WDT_GetAddress ≠ cfg.CFE_TBL_INFO_UPDATED →
        st'.LC_OperData.WRTPtr = st.LC_OperData.WRTPtr) ∧
      (env.WDT_GetAddress = cfg.CFE_TBL_INFO_UPDATED →
        ∀ i : Nat, i < cfg.LC_MAX_WATCHPOINTS →
          st'.LC_OperData.WRTPtr[i]? = some (clearedWP cfg))) := by
  have hcode : (if env.WDT_GetAddress = cfg.CFE_TBL_INFO_UPDATED ∨
        env.WDT_GetAddress = cfg.CFE_SUCCESS
      then (if env.ADT_GetAddress = cfg.CFE_TBL_INFO_UPDATED ∨
          env.ADT_GetAddress = cfg.CFE_SUCCESS
        then cfg.CFE_SUCCESS else env.ADT_GetAddress)
      else env.WDT_GetAddress) = code := by
    rcases hcase with h | ⟨hok, h⟩
    · rw [if_neg (by rw [h]; exact fun hc => hc.elim hc2 hc1)]
      exact h
    · rw [if_pos hok, if_neg (by rw [h]; exact fun hc => hc.elim hc2 hc1)]
      exact h
  have hnoart : ¬ ((env.WDT_GetAddress = cfg.CFE_TBL_INFO_UPDATED ∨
      env.WDT_GetAddress = cfg.CFE_SUCCESS) ∧ env.ADT_GetAddress = cfg.CFE_TBL_INFO_UPDATED) := by
    rintro ⟨hok, hu⟩
    rcases hcase with h | ⟨_, h⟩
    · rw [h] at hok; exact hok.elim hc2 hc1
    · rw [h] at hu; exact hc2 hu
  have tables : ∀ st' : LC_State,
      (∀ i : Nat, st'.LC_OperData.WRTPtr[i]? =
        if env.WDT_GetAddress = cfg.CFE_TBL_INFO_UPDATED then
          st.LC_OperData.WRTPtr[i]?.map (resetWPEntry cfg false)
        else st.LC_OperData.WRTPtr[i]?) →
      (∀ i : Nat, st'.LC_OperData.ARTPtr[i]? =
        if (env.WDT_GetAddress = cfg.CFE_TBL_INFO_UPDATED ∨ env.WDT_GetAddress = cfg.CFE_SUCCESS)
            ∧ env.ADT_GetAddress = cfg.CFE_TBL_INFO_UPDATED then
          st.LC_OperData.ARTPtr[i]?.map (resetAPEntry cfg env.ADTPtr false i)
        else st.LC_OperData.ARTPtr[i]?) →
      st'.LC_OperData.ARTPtr = st.LC_OperData.ARTPtr ∧
      (env.WDT_GetAddress ≠ cfg.CFE_TBL_INFO_UPDATED →
        st'.LC_OperData.WRTPtr = st.LC_OperData.WRTPtr) ∧
      (env.WDT_GetAddress = cfg.CFE_TBL_INFO_UPDATED →
        ∀ i : Nat, i < cfg.LC_MAX_WATCHPOINTS →
          st'.LC_OperData.WRTPtr[i]? = some (clearedWP cfg)) := by
    intro st' hwrt hart
    refine ⟨?_, ?_, ?_⟩
    · apply List.ext_getElem?
      intro i
      rw [hart i, if_neg hnoart]
    · intro hnu
      apply List.ext_getElem?
      intro i
      rw [hwrt i, if_neg hnu]
    · intro hu i hi
      rw [hwrt i, if_pos hu, List.getElem?_eq_getElem (by rw [hst.1]; exact hi)]
      rfl
  constructor
  · obtain ⟨rc, st', hm, _, _, hwrt, hart, hrc⟩ := LC_ManageTables_spec cfg env st hs hst henv
    rw [hcode] at hrc
    subst hrc
    exact ⟨st', hm, tables st' hwrt hart⟩
  · obtain ⟨st1, rc, st2, pre, _, _, _, _, hrc, hwrt, hart, _, _, _, hrun⟩ :=
      LC_HousekeepingReq_full cfg env msg st hs hst henv
    rw [hcode] at hrc
    subst hrc
    rw [if_pos hc1] at hrun
    exact ⟨st2, hrun, tables st2 hwrt hart⟩

/-- Concrete instance of the amended C18 on the demonstration state: the
watchpoint definition table is reported updated and the actionpoint definition table
cannot be acquired (code `-1`). -/
theorem C18_address_error_table_effects_witness :
    ∃ st', LC_HousekeepingReq demoCfg updatedThenErrorEnv (demoMsg LC_SEND_HK_MID 0 8 0 0 0)
        demoState = some (-1, st') ∧
      st'.LC_OperData.ARTPtr = demoState.LC_OperData.ARTPtr ∧
      st'.LC_OperData.WRTPtr[1]? = some (clearedWP demoCfg) := by
  obtain ⟨_, st', hrun, hart, _, hwrt⟩ :=
    C18_address_error_table_effects demoCfg updatedThenErrorEnv
      (demoMsg LC_SEND_HK_MID 0 8 0 0 0) demoState (by decide) (by decide) (by decide)
      (-1) (by decide) (by decide) (Or.inr ⟨Or.inl rfl, rfl⟩)
  exact ⟨st', hrun, hart, hwrt rfl 1 (by decide)⟩

/-- C19, as stated, fails: on the demonstration state, a housekeeping request during which
both definition tables are reported updated returns `CFE_SUCCESS` with the packet bytes
`WPResults = [147, 201]` and `APResults = [212, 51]`, which are the packing of the tables
before the reload; packing the tables the request leaves gives `[255, 255]` and
`[183, 63]`. -/
theorem C19_reload_before_packing_counterexample :
    (LC_HousekeepingReq demoCfg reloadBothEnv (demoMsg LC_SEND_HK_MID 0 8 0 0 0)
        demoState).map
      (fun r => (r.1, r.2.LC_OperData.HkPacket.WPResults, r.2.LC_OperData.HkPacket.APResults))
      = some (demoCfg.CFE_SUCCESS, [147, 201], [212, 51]) ∧
    (packHousekeeping demoCfg demoState).map
      (fun s => (s.LC_OperData.HkPacket.WPResults, s.LC_OperData.HkPacket.APResults))
      = some ([147, 201], [212, 51]) ∧
    ((LC_HousekeepingReq demoCfg reloadBothEnv (demoMsg LC_SEND_HK_MID 0 8 0 0 0)
        demoState).bind (fun r => packHousekeeping demoCfg r.2)).map
      (fun s => (s.LC_OperData.HkPacket.WPResults, s.LC_OperData.HkPacket.APResults))
      = some ([255, 255], [183, 63]) := by
  decide

/-- C19, amended: within one housekeeping request of the right length the telemetry packet
is packed and sent first, table management follows, and the critical data store is
written last.  The `WPResults`, `APResults` and `ActiveAPs` of the packet produced in a
cycle are packed from the result tables as they are when the request arrives, also when
a definition table is reported updated in that cycle; the result tables after the request
are the reset ones, and when the store is active and table management returned
`CFE_SUCCESS` the tables written to the critical data store are these tables after the
request. -/
theorem C19_packet_before_reload_snapshot_after (cfg : LC_Config) (env : CFE_Env)
    (msg : CFE_SB_Msg) (st : LC_State) (hs : cfg.SizesOK) (hst : st.Sized cfg)
    (henv : env.ADTPtr.length = cfg.LC_MAX_ACTIONPOINTS)
    (hlen : msg.TotalMsgLength = u16 (sizeof_LC_NoArgsCmd_t cfg)) :
    ∃ st1 rc st',
      packHousekeeping cfg st = some st1 ∧
      LC_HousekeepingReq cfg env msg st = some (rc, st') ∧
      st'.LC_OperData.HkPacket = st1.LC_OperData.HkPacket ∧
      (∀ k e3 e2 e1 e0, k < cfg.LC_MAX_WATCHPOINTS / 4 →
        st.LC_OperData.WRTPtr[4 * k + 3]? = some e3 → st.LC_OperData.WRTPtr[4 * k + 2]? = some e2 →
        st.LC_OperData.WRTPtr[4 * k + 1]? = some e1 → st.LC_OperData.WRTPtr[4 * k]? = some e0 →
        st'.LC_OperData.HkPacket.WPResults[k]? = some (watchByte cfg e3.WatchResult
          e2.WatchResult e1.WatchResult e0.WatchResult)) ∧
      (∀ k e1 e0, k < cfg.LC_MAX_ACTIONPOINTS / 2 →
        st.LC_OperData.ARTPtr[2 * k + 1]? = some e1 → st.LC_OperData.ARTPtr[2 * k]? = some e0 →
        st'.LC_OperData.HkPacket.APResults[k]? = some (actionByte cfg e1 e0)) ∧
      st'.LC_OperData.HkPacket.ActiveAPs =
        u16 (st.LC_OperData.ARTPtr.countP (countsActive cfg)) ∧
      (∀ i : Nat, st'.LC_OperData.WRTPtr[i]? =
        if env.WDT_GetAddress = cfg.CFE_TBL_INFO_UPDATED then
          st.LC_OperData.WRTPtr[i]?.map (resetWPEntry cfg false)
        else st.LC_OperData.WRTPtr[i]?) ∧
      (∀ i : Nat, st'.LC_OperData.ARTPtr[i]? =
        if (env.WDT_GetAddress = cfg.CFE_TBL_INFO_UPDATED ∨ env.WDT_GetAddress = cfg.CFE_SUCCESS)
            ∧ env.ADT_GetAddress = cfg.CFE_TBL_INFO_UPDATED then
          st.LC_OperData.ARTPtr[i]?.map (resetAPEntry cfg env.ADTPtr false i)
        else st.LC_OperData.ARTPtr[i]?) ∧
      ∃ rest, st'.Calls = st.Calls ++ [LC_Call.CFE_SB_SendMsg st1.LC_OperData.HkPacket] ++
          manageTablesCalls cfg env ++ rest ∧
        (rc = cfg.CFE_SUCCESS → st.LC_OperData.HaveActiveCDS = true →
          ∃ rest', rest = LC_Call.CFE_ES_CopyToCDS_WRT st'.LC_OperData.WRTPtr :: rest' ∧
            (env.CopyToCDS_WRT = cfg.CFE_SUCCESS →
              ∃ rest'', rest' = LC_Call.CFE_ES_CopyToCDS_ART st'.LC_OperData.ARTPtr :: rest'')) := by
  obtain ⟨st1, rc, st2, pre, hpk, _, _, _, _, hwrt, hart, hcds, hpkt, hcalls, hrun⟩ :=
    LC_HousekeepingReq_full cfg env msg st hs hst henv
  obtain ⟨hp, hpre⟩ := hpk hlen
  subst hpre
  obtain ⟨st1', hp', _, _, _, _, _, _, _, hwp, hap, hact, _⟩ := packHousekeeping_spec cfg st hs hst
  rw [hp] at hp'
  cases hp'
  obtain ⟨hfp, hfw, hfa⟩ := updateCDS_frame cfg env st2
  by_cases hrc : rc = cfg.CFE_SUCCESS
  · rw [if_neg (fun h => h hrc)] at hrun
    refine ⟨st1, rc, updateCDS cfg env st2, hp, by rw [hrun, hrc], by rw [hfp, hpkt], ?_, ?_, ?_,
      ?_, ?_, ?_⟩
    · intro k e3 e2 e1 e0 hk h3 h2 h1 h0
      rw [hfp, hpkt]; exact hwp k e3 e2 e1 e0 hk h3 h2 h1 h0
    · intro k e1 e0 hk h1 h0
      rw [hfp, hpkt]; exact hap k e1 e0 hk h1 h0
    · rw [hfp, hpkt]; exact hact
    · intro i; rw [hfw]; exact hwrt i
    · intro i; rw [hfa]; exact hart i
    · by_cases hactive : st.LC_OperData.HaveActiveCDS = true
      · obtain ⟨rest, hrest, hnext⟩ := LC_UpdateTaskCDS_calls cfg env st2
        refine ⟨LC_Call.CFE_ES_CopyToCDS_WRT st2.LC_OperData.WRTPtr :: rest, ?_, ?_⟩
        · rw [(updateCDS_eq cfg env st2).1, if_pos (by rw [hcds]; exact hactive), hrest, hcalls]
        · intro _ _
          refine ⟨rest, by rw [hfw], ?_⟩
          intro hw
          obtain ⟨rest', hr'⟩ := hnext hw
          exact ⟨rest', by rw [hfa]; exact hr'⟩
      · refine ⟨[], ?_, fun _ h => absurd h hactive⟩
        rw [(updateCDS_eq cfg env st2).1, if_neg (by rw [hcds]; exact hactive), hcalls]
        simp
  · rw [if_pos hrc] at hrun
    refine ⟨st1, rc, st2, hp, hrun, hpkt, ?_, ?_, ?_, hwrt, hart, [], ?_,
      fun h => absurd h hrc⟩
    · intro k e3 e2 e1 e0 hk h3 h2 h1 h0
      rw [hpkt]; exact hwp k e3 e2 e1 e0 hk h3 h2 h1 h0
    · intro k e1 e0 hk h1 h0
      rw [hpkt]; exact hap k e1 e0 hk h1 h0
    · rw [hpkt]; exact hact
    · rw [hcalls]; simp

/-- Concrete instance of the amended C19 on the demonstration state with both definition
tables reported updated: the packet counts the one active actionpoint of the incoming
table, and the critical data store receives the reset tables. -/
theorem C19_packet_before_reload_snapshot_after_witness :
    ∃ st1 rc st',
      packHousekeeping demoCfg demoState = some st1 ∧
      LC_HousekeepingReq demoCfg reloadBothEnv (demoMsg LC_SEND_HK_MID 0 8 0 0 0) demoState
        = some (rc, st') ∧
      st'.LC_OperData.HkPacket.ActiveAPs = 1 ∧
      st'.LC_OperData.WRTPtr[1]? = some (clearedWP demoCfg) ∧
      ∃ rest, st'.Calls = demoState.Calls ++
        [LC_Call.CFE_SB_SendMsg st1.LC_OperData.HkPacket] ++
        manageTablesCalls demoCfg reloadBothEnv ++ rest := by
  obtain ⟨st1, rc, st', hp, hrun, _, _, _, hact, hwrt, _, rest, hcalls, _⟩ :=
    C19_packet_before_reload_snapshot_after demoCfg reloadBothEnv
      (demoMsg LC_SEND_HK_MID 0 8 0 0 0) demoState (by decide) (by decide) (by decide)
      (by decide)
  refine ⟨st1, rc, st', hp, hrun, ?_, ?_, rest, hcalls⟩
  · rw [hact]; decide
  · rw [hwrt 1]; decide

/-! ## Critical data store update -/

/-- C20: `LC_UpdateTaskCDS` writes the watchpoint results table, then the actionpoint
results table, then the application data, in this order, and stops at the first write
that does not return `CFE_SUCCESS`: its calls are then the writes up to the failing one
followed by the error event only, and it returns the code of the failing write.  It
returns `CFE_SUCCESS` if and only if all three writes return `CFE_SUCCESS`.  It leaves
the operational data, the result tables among them, as they are. -/
theorem C20_cds_update_order (cfg : LC_Config) (env : CFE_Env) (st : LC_State) :
    (env.CopyToCDS_WRT ≠ cfg.CFE_SUCCESS →
      (LC_UpdateTaskCDS cfg env st).1 = env.CopyToCDS_WRT ∧
      (LC_UpdateTaskCDS cfg env st).2.Calls = st.Calls ++
        [LC_Call.CFE_ES_CopyToCDS_WRT st.LC_OperData.WRTPtr,
         LC_Call.CFE_EVS_SendEvent LC_EventID.LC_WRT_NO_SAVE_ERR_EID]) ∧
    (env.CopyToCDS_WRT = cfg.CFE_SUCCESS → env.CopyToCDS_ART ≠ cfg.CFE_SUCCESS →
      (LC_UpdateTaskCDS cfg env st).1 = env.CopyToCDS_ART ∧
      (LC_UpdateTaskCDS cfg env st).2.Calls = st.Calls ++
        [LC_Call.CFE_ES_CopyToCDS_WRT st.LC_OperData.WRTPtr,
         LC_Call.CFE_ES_CopyToCDS_ART st.LC_OperData.ARTPtr,
         LC_Call.CFE_EVS_SendEvent LC_EventID.LC_ART_NO_SAVE_ERR_EID]) ∧
    (env.CopyToCDS_WRT = cfg.CFE_SUCCESS → env.CopyToCDS_ART = cfg.CFE_SUCCESS →
      env.CopyToCDS_AppData ≠ cfg.CFE_SUCCESS →
      (LC_UpdateTaskCDS cfg env st).1 = env.CopyToCDS_AppData ∧
      (LC_UpdateTaskCDS cfg env st).2.Calls = st.Calls ++
        [LC_Call.CFE_ES_CopyToCDS_WRT st.LC_OperData.WRTPtr,
         LC_Call.CFE_ES_CopyToCDS_ART st.LC_OperData.ARTPtr,
         LC_Call.CFE_ES_CopyToCDS_AppData
           { st.LC_AppData with CDSSavedOnExit := cfg.LC_CDS_SAVED },
         LC_Call.CFE_EVS_SendEvent LC_EventID.LC_APP_NO_SAVE_START_ERR_EID]) ∧
    (env.CopyToCDS_WRT = cfg.CFE_SUCCESS → env.CopyToCDS_ART = cfg.CFE_SUCCESS →
      env.CopyToCDS_AppData = cfg.CFE_SUCCESS →
      (LC_UpdateTaskCDS cfg env st).2.Calls = st.Calls ++
        [LC_Call.CFE_ES_CopyToCDS_WRT st.LC_OperData.WRTPtr,
         LC_Call.CFE_ES_CopyToCDS_ART st.LC_OperData.ARTPtr,
         LC_Call.CFE_ES_CopyToCDS_AppData
           { st.LC_AppData with CDSSavedOnExit := cfg.LC_CDS_SAVED }]) ∧
    ((LC_UpdateTaskCDS cfg env st).1 = cfg.CFE_SUCCESS ↔
      env.CopyToCDS_WRT = cfg.CFE_SUCCESS ∧ env.CopyToCDS_ART = cfg.CFE_SUCCESS ∧
        env.CopyToCDS_AppData = cfg.CFE_SUCCESS) ∧
    (LC_UpdateTaskCDS cfg env st).2.LC_OperData = st.LC_OperData := by
  obtain ⟨h1, h2, h3, h4⟩ := LC_UpdateTaskCDS_cases cfg env st
  refine ⟨h1, h2, h3, fun a b c => (h4 a b c).2, ?_, ?_⟩
  · constructor
    · intro hr
      by_cases c1 : env.CopyToCDS_WRT = cfg.CFE_SUCCESS
      · by_cases c2 : env.CopyToCDS_ART = cfg.CFE_SUCCESS
        · by_cases c3 : env.CopyToCDS_AppData = cfg.CFE_SUCCESS
          · exact ⟨c1, c2, c3⟩
          · rw [(h3 c1 c2 c3).1] at hr; exact absurd hr c3
        · rw [(h2 c1 c2).1] at hr; exact absurd hr c2
      · rw [(h1 c1).1] at hr; exact absurd hr c1
    · rintro ⟨c1, c2, c3⟩
      exact (h4 c1 c2 c3).1
  · unfold LC_UpdateTaskCDS
    dsimp only
    split_ifs <;> rfl

/-- Concrete instance of C20 on the demonstration state: the write of the actionpoint
results table fails with code `-2`; the application data is not written. -/
theorem C20_cds_update_order_witness :
    (LC_UpdateTaskCDS demoCfg artStoreFailsEnv demoState).1 = -2 ∧
    (LC_UpdateTaskCDS demoCfg artStoreFailsEnv demoState).2.Calls = demoState.Calls ++
      [LC_Call.CFE_ES_CopyToCDS_WRT demoState.LC_OperData.WRTPtr,
       LC_Call.CFE_ES_CopyToCDS_ART demoState.LC_OperData.ARTPtr,
       LC_Call.CFE_EVS_SendEvent LC_EventID.LC_ART_NO_SAVE_ERR_EID] ∧
    (LC_UpdateTaskCDS demoCfg demoEnv demoState).1 = demoCfg.CFE_SUCCESS :=
  ⟨((C20_cds_update_order demoCfg artStoreFailsEnv demoState).2.1 (by decide) (by decide)).1,
   ((C20_cds_update_order demoCfg artStoreFailsEnv demoState).2.1 (by decide) (by decide)).2,
   (C20_cds_update_order demoCfg demoEnv demoState).2.2.2.2.1.mpr (by decide)⟩

/-! ## Persistence of the results -/

/-- C21: persistence degrades permanently.  A housekeeping request returns, and whenever
it reaches the critical data store update (table management returned `CFE_SUCCESS`)
and not all three stores return `CFE_SUCCESS`, `HaveActiveCDS` is false afterwards; in
general `HaveActiveCDS` afterwards is its value before, cleared exactly in that case.
From a state with `HaveActiveCDS` false, every message handled by `LC_AppPipe` (any
command, sample request, housekeeping request or monitored message) returns, leaves
`HaveActiveCDS` false and makes no call that writes to the critical data store; and so
does every run of such messages.  The functions of `lc_action.c` and `lc_watch.c` called
on the way are assumed to keep the frame (`LC_Externals.Framed`). -/
theorem C21_persistence_degrades (cfg : LC_Config) (ext : LC_Externals) (hs : cfg.SizesOK)
    (hext : ext.Framed cfg) :
    (∀ (env : CFE_Env) (msg : CFE_SB_Msg) (st : LC_State), st.Sized cfg →
      env.ADTPtr.length = cfg.LC_MAX_ACTIONPOINTS →
      ∃ rc st', LC_HousekeepingReq cfg env msg st = some (rc, st') ∧
        (rc = cfg.CFE_SUCCESS →
          ¬ (env.CopyToCDS_WRT = cfg.CFE_SUCCESS ∧ env.CopyToCDS_ART = cfg.CFE_SUCCESS ∧
            env.CopyToCDS_AppData = cfg.CFE_SUCCESS) →
          st'.LC_OperData.HaveActiveCDS = false) ∧
        st'.LC_OperData.HaveActiveCDS =
          (st.LC_OperData.HaveActiveCDS &&
            (decide (rc ≠ cfg.CFE_SUCCESS) ||
              decide (env.CopyToCDS_WRT = cfg.CFE_SUCCESS ∧
                env.CopyToCDS_ART = cfg.CFE_SUCCESS ∧
                env.CopyToCDS_AppData = cfg.CFE_SUCCESS)))) ∧
    (∀ (env : CFE_Env) (msg : CFE_SB_Msg) (st : LC_State), st.Sized cfg →
      env.ADTPtr.length = cfg.LC_MAX_ACTIONPOINTS →
      st.LC_OperData.HaveActiveCDS = false →
      ∃ rc st', LC_AppPipe cfg ext env msg st = some (rc, st') ∧
        st'.LC_OperData.HaveActiveCDS = false ∧
        ∀ c ∈ st'.Calls.drop st.Calls.length, LC_Call.isCopyToCDS c = false) ∧
    (∀ (msgs : List (CFE_Env × CFE_SB_Msg)) (st : LC_State), st.Sized cfg →
      (∀ p ∈ msgs, p.1.ADTPtr.length = cfg.LC_MAX_ACTIONPOINTS) →
      st.LC_OperData.HaveActiveCDS = false →
      ∃ st', pipeMessages cfg ext msgs st = some st' ∧
        st'.LC_OperData.HaveActiveCDS = false ∧
        ∀ c ∈ st'.Calls.drop st.Calls.length, LC_Call.isCopyToCDS c = false) := by
  refine ⟨?_, ?_, ?_⟩
  · intro env msg st hst henv
    obtain ⟨rc, st', hrun, _, _, hflag, _, _⟩ :=
      LC_HousekeepingReq_step cfg env msg st hs hst henv
    refine ⟨rc, st', hrun, ?_, hflag⟩
    intro hrc hfail
    rw [hflag, decide_eq_false hfail, decide_eq_false (fun h => h hrc)]
    simp
  · intro env msg st hst henv hoff
    obtain ⟨rc, st', hrun, hstep⟩ := LC_AppPipe_step cfg ext env msg st hs hst henv hext
    obtain ⟨hoff', more, hcalls, hno⟩ := PipeStep_off cfg msg st st' hstep hoff
    refine ⟨rc, st', hrun, hoff', ?_⟩
    rw [hcalls, List.drop_left]
    exact hno
  · intro msgs st hst henvs hoff
    obtain ⟨st', hrun, _, _, hoffs⟩ := pipeMessages_steps cfg ext hs hext msgs st hst henvs
    obtain ⟨hoff', more, hcalls, hno⟩ := hoffs hoff
    refine ⟨st', hrun, hoff', ?_⟩
    rw [hcalls, List.drop_left]
    exact hno

/-- Concrete instance of C21: on the demonstration state, whose critical data store is
active, a housekeeping request during which the store of the actionpoint results fails
switches the store off; from the demonstration state with the store off, a run of four
messages leaves it off and writes nothing. -/
theorem C21_persistence_degrades_witness :
    (∃ rc st', LC_HousekeepingReq demoCfg artStoreFailsEnv (demoMsg LC_SEND_HK_MID 0 8 0 0 0)
        demoState = some (rc, st') ∧
      demoState.LC_OperData.HaveActiveCDS = true ∧
      st'.LC_OperData.HaveActiveCDS = false) ∧
    (∃ st', pipeMessages demoCfg demoExt demoRun degradedState = some st' ∧
      st'.LC_OperData.HaveActiveCDS = false ∧
      ∀ c ∈ st'.Calls.drop degradedState.Calls.length, LC_Call.isCopyToCDS c = false) := by
  obtain ⟨ha, _, hc⟩ := C21_persistence_degrades demoCfg demoExt (by decide)
    (demoExt_framed demoCfg)
  obtain ⟨rc, st', hrun, _, hflag⟩ := ha artStoreFailsEnv (demoMsg LC_SEND_HK_MID 0 8 0 0 0)
    demoState (by decide) (by decide)
  refine ⟨⟨rc, st', hrun, rfl, ?_⟩, hc demoRun degradedState (by decide) (by decide) rfl⟩
  have hrc : rc = demoCfg.CFE_SUCCESS := by
    have hdec : (LC_HousekeepingReq demoCfg artStoreFailsEnv
        (demoMsg LC_SEND_HK_MID 0 8 0 0 0) demoState).map Prod.fst
        = some demoCfg.CFE_SUCCESS := by decide
    rw [hrun] at hdec
    exact Option.some.inj hdec
  rw [hflag, hrc]
  decide

/-- C22: a persistence failure is never propagated.  When both definition-table
acquisitions of `LC_ManageTables` go without error, `LC_HousekeepingReq` returns
`CFE_SUCCESS` whatever `HaveActiveCDS` is and whatever the three stores to the critical
data store return; and for any two outcomes of the stores, in particular a failing one
and the one where every store succeeds, the request leaves the same result tables, the
same six counters, the same `CurrentLCState` and the same housekeeping packet. -/
theorem C22_persistence_failure_not_propagated (cfg : LC_Config) (env env' : CFE_Env)
    (msg : CFE_SB_Msg) (st : LC_State) (hs : cfg.SizesOK) (hst : st.Sized cfg)
    (henv : env.ADTPtr.length = cfg.LC_MAX_ACTIONPOINTS)
    (hw : env.WDT_GetAddress = cfg.CFE_TBL_INFO_UPDATED ∨ env.WDT_GetAddress = cfg.CFE_SUCCESS)
    (ha : env.ADT_GetAddress = cfg.CFE_TBL_INFO_UPDATED ∨ env.ADT_GetAddress = cfg.CFE_SUCCESS)
    (h1 : env'.WDT_GetAddress = env.WDT_GetAddress)
    (h2 : env'.ADT_GetAddress = env.ADT_GetAddress) (h3 : env'.ADTPtr = env.ADTPtr) :
    ∃ st1 st2, LC_HousekeepingReq cfg env msg st = some (cfg.CFE_SUCCESS, st1) ∧
      LC_HousekeepingReq cfg env' msg st = some (cfg.CFE_SUCCESS, st2) ∧
      st1.LC_OperData.WRTPtr = st2.LC_OperData.WRTPtr ∧
      st1.LC_OperData.ARTPtr = st2.LC_OperData.ARTPtr ∧
      st1.LC_OperData.HkPacket = st2.LC_OperData.HkPacket ∧
      st1.LC_AppData.CmdCount = st2.LC_AppData.CmdCount ∧
      st1.LC_AppData.CmdErrCount = st2.LC_AppData.CmdErrCount ∧
      st1.LC_AppData.APSampleCount = st2.LC_AppData.APSampleCount ∧
      st1.LC_AppData.MonitoredMsgCount = st2.LC_AppData.MonitoredMsgCount ∧
      st1.LC_AppData.RTSExecCount = st2.LC_AppData.RTSExecCount ∧
      st1.LC_AppData.PassiveRTSExecCount = st2.LC_AppData.PassiveRTSExecCount ∧
      st1.LC_AppData.CurrentLCState = st2.LC_AppData.CurrentLCState := by
  obtain ⟨rc, sb, hrc, hrun, hrun'⟩ :=
    LC_HousekeepingReq_pair cfg env env' msg st hs hst henv h1 h2 h3
  rw [if_pos hw, if_pos ha] at hrc
  subst hrc
  rw [if_neg (fun h => h rfl)] at hrun hrun'
  obtain ⟨hp, hw1, ha1⟩ := updateCDS_frame cfg env sb
  obtain ⟨hp', hw2, ha2⟩ := updateCDS_frame cfg env' sb
  refine ⟨_, _, hrun, hrun', by rw [hw1, hw2], by rw [ha1, ha2], by rw [hp, hp'], ?_⟩
  rcases (updateCDS_AppData cfg env sb).1 with h | h <;>
    rcases (updateCDS_AppData cfg env' sb).1 with h' | h' <;>
    rw [h, h'] <;> exact ⟨rfl, rfl, rfl, rfl, rfl, rfl, rfl⟩

/-- Concrete instance of C22 on the demonstration state, whose critical data store is
active: the store of the actionpoint results fails in one run and every store succeeds
in the other. -/
theorem C22_persistence_failure_not_propagated_witness :
    ∃ st1 st2,
      LC_HousekeepingReq demoCfg artStoreFailsEnv (demoMsg LC_SEND_HK_MID 0 8 0 0 0) demoState
        = some (demoCfg.CFE_SUCCESS, st1) ∧
      LC_HousekeepingReq demoCfg demoEnv (demoMsg LC_SEND_HK_MID 0 8 0 0 0) demoState
        = some (demoCfg.CFE_SUCCESS, st2) ∧
      st1.LC_OperData.WRTPtr = st2.LC_OperData.WRTPtr ∧
      st1.LC_OperData.ARTPtr = st2.LC_OperData.ARTPtr ∧
      st1.LC_AppData.CmdCount = st2.LC_AppData.CmdCount := by
  obtain ⟨st1, st2, hrun, hrun', hw, ha, _, hc, _⟩ :=
    C22_persistence_failure_not_propagated demoCfg artStoreFailsEnv demoEnv
      (demoMsg LC_SEND_HK_MID 0 8 0 0 0) demoState (by decide) (by decide) (by decide)
      (Or.inr rfl) (Or.inr rfl) rfl rfl rfl
  exact ⟨st1, st2, hrun, hrun', hw, ha, hc⟩

/-- C23: the application data that `LC_UpdateTaskCDS` passes to the third store carries
`CDSSavedOnExit = LC_CDS_SAVED`, and that store is attempted only after the stores of
both result tables have returned `CFE_SUCCESS`: whenever it occurs among the calls, they
begin with the two table stores, both successful, followed by it.  When both table stores
succeed it does occur.  If the first or the second store fails, the application data,
`CDSSavedOnExit` included, is left as it was. -/
theorem C23_saved_marker (cfg : LC_Config) (env : CFE_Env) (st : LC_State) :
    (∀ d : LC_AppData_t, LC_Call.CFE_ES_CopyToCDS_AppData d ∈
        (LC_UpdateTaskCDS cfg env st).2.Calls.drop st.Calls.length →
      d.CDSSavedOnExit = cfg.LC_CDS_SAVED ∧
      env.CopyToCDS_WRT = cfg.CFE_SUCCESS ∧ env.CopyToCDS_ART = cfg.CFE_SUCCESS ∧
      ∃ rest, (LC_UpdateTaskCDS cfg env st).2.Calls.drop st.Calls.length =
        [LC_Call.CFE_ES_CopyToCDS_WRT st.LC_OperData.WRTPtr,
         LC_Call.CFE_ES_CopyToCDS_ART st.LC_OperData.ARTPtr,
         LC_Call.CFE_ES_CopyToCDS_AppData d] ++ rest) ∧
    (env.CopyToCDS_WRT = cfg.CFE_SUCCESS → env.CopyToCDS_ART = cfg.CFE_SUCCESS →
      LC_Call.CFE_ES_CopyToCDS_AppData
          { st.LC_AppData with CDSSavedOnExit := cfg.LC_CDS_SAVED } ∈
        (LC_UpdateTaskCDS cfg env st).2.Calls.drop st.Calls.length ∧
      (LC_UpdateTaskCDS cfg env st).2.LC_AppData.CDSSavedOnExit = cfg.LC_CDS_SAVED) ∧
    (env.CopyToCDS_WRT ≠ cfg.CFE_SUCCESS ∨ env.CopyToCDS_ART ≠ cfg.CFE_SUCCESS →
      (LC_UpdateTaskCDS cfg env st).2.LC_AppData = st.LC_AppData) := by
  obtain ⟨k1, k2, k3, k4⟩ := LC_UpdateTaskCDS_cases cfg env st
  refine ⟨?_, ?_, ?_⟩
  · intro d hd
    by_cases c1 : env.CopyToCDS_WRT = cfg.CFE_SUCCESS
    · by_cases c2 : env.CopyToCDS_ART = cfg.CFE_SUCCESS
      · by_cases c3 : env.CopyToCDS_AppData = cfg.CFE_SUCCESS
        · rw [(k4 c1 c2 c3).2] at hd ⊢
          simp only [List.drop_left, List.mem_cons, List.mem_singleton, reduceCtorEq, false_or,
            LC_Call.CFE_ES_CopyToCDS_AppData.injEq, List.not_mem_nil, or_false] at hd
          subst hd
          exact ⟨rfl, c1, c2, [], by simp⟩
        · rw [(k3 c1 c2 c3).2] at hd ⊢
          simp only [List.drop_left, List.mem_cons, List.mem_singleton, reduceCtorEq, false_or,
            LC_Call.CFE_ES_CopyToCDS_AppData.injEq, List.not_mem_nil, or_false] at hd
          subst hd
          exact ⟨rfl, c1, c2,
            [LC_Call.CFE_EVS_SendEvent LC_EventID.LC_APP_NO_SAVE_START_ERR_EID], by simp⟩
      · rw [(k2 c1 c2).2] at hd
        simp at hd
    · rw [(k1 c1).2] at hd
      simp at hd
  · intro c1 c2
    by_cases c3 : env.CopyToCDS_AppData = cfg.CFE_SUCCESS
    · rw [(k4 c1 c2 c3).2]
      refine ⟨by simp, ?_⟩
      unfold LC_UpdateTaskCDS
      dsimp only
      rw [if_neg (fun h => h c1), if_neg (fun h => h c2), if_neg (fun h => h c3)]
      rfl
    · rw [(k3 c1 c2 c3).2]
      refine ⟨by simp, ?_⟩
      unfold LC_UpdateTaskCDS
      dsimp only
      rw [if_neg (fun h => h c1), if_neg (fun h => h c2), if_pos c3]
      rfl
  · intro h
    unfold LC_UpdateTaskCDS
    dsimp only
    by_cases c1 : env.CopyToCDS_WRT = cfg.CFE_SUCCESS
    · have c2 : env.CopyToCDS_ART ≠ cfg.CFE_SUCCESS := h.resolve_left (fun hc => hc c1)
      rw [if_neg (fun h => h c1), if_pos c2]
      rfl
    · rw [if_pos c1]
      rfl

/-- Concrete instance of C23 on the demonstration state: with every store succeeding the
marker is written; when the store of the actionpoint results fails the application data
is untouched. -/
theorem C23_saved_marker_witness :
    (LC_Call.CFE_ES_CopyToCDS_AppData
        { demoState.LC_AppData with CDSSavedOnExit := demoCfg.LC_CDS_SAVED } ∈
      (LC_UpdateTaskCDS demoCfg demoEnv demoState).2.Calls.drop demoState.Calls.length) ∧
    (LC_UpdateTaskCDS demoCfg artStoreFailsEnv demoState).2.LC_AppData = demoState.LC_AppData :=
  ⟨((C23_saved_marker demoCfg demoEnv demoState).2.1 rfl rfl).1,
   (C23_saved_marker demoCfg artStoreFailsEnv demoState).2.2 (Or.inr (by decide))⟩

/-! ## Targets of the stats-reset commands -/

/-- C24: the stats-reset commands of the right length return.  With the "all" sentinel
`0xFFFF` as number, the statistics of every record are reset; with a number below the
table maximum, the statistics of exactly that record are reset and every other record
is unchanged; in both cases `CmdCount` is incremented.  Any other number leaves the table
unchanged, increments `CmdErrCount` and leaves `CmdCount`.  The watchpoint command never
changes the actionpoint results table and the actionpoint command never changes the
watchpoint results table.  A reset actionpoint record keeps `CurrentState` and
`ActionResult` and has its seven counters 0; a reset watchpoint record keeps
`WatchResult` and `CountdownToStale` and has its four counters and both transition
snapshots zero. -/
theorem C24_stats_reset_targets (cfg : LC_Config) (msg : CFE_SB_Msg) (st : LC_State)
    (hs : cfg.SizesOK) (hst : st.Sized cfg)
    (hlen : msg.TotalMsgLength = u16 (sizeof_LC_TwoWordCmd_t cfg)) :
    (∃ st', LC_ResetWPStatsCmd cfg msg st = some st' ∧
      st'.LC_OperData.ARTPtr = st.LC_OperData.ARTPtr ∧
      st'.LC_OperData.WRTPtr.length = st.LC_OperData.WRTPtr.length ∧
      (msg.WPNumber = 0xFFFF →
        (∀ (i : Nat) (e : LC_WRTEntry_t), st.LC_OperData.WRTPtr[i]? = some e →
          st'.LC_OperData.WRTPtr[i]? = some
            { e with
              EvaluationCount := 0, FalseToTrueCount := 0, ConsecutiveTrueCount := 0
              CumulativeTrueCount := 0
              LastFalseToTrue := { Value := 0, Seconds := 0, Subseconds := 0 }
              LastTrueToFalse := { Value := 0, Seconds := 0, Subseconds := 0 } }) ∧
        st'.LC_AppData.CmdCount = u8 (st.LC_AppData.CmdCount + 1) ∧
        st'.LC_AppData.CmdErrCount = st.LC_AppData.CmdErrCount) ∧
      (msg.WPNumber < cfg.LC_MAX_WATCHPOINTS →
        (∀ (i : Nat) (e : LC_WRTEntry_t), st.LC_OperData.WRTPtr[i]? = some e →
          st'.LC_OperData.WRTPtr[i]? = some
            (if i = msg.WPNumber then
              { e with
                EvaluationCount := 0, FalseToTrueCount := 0, ConsecutiveTrueCount := 0
                CumulativeTrueCount := 0
                LastFalseToTrue := { Value := 0, Seconds := 0, Subseconds := 0 }
                LastTrueToFalse := { Value := 0, Seconds := 0, Subseconds := 0 } }
            else e)) ∧
        st'.LC_AppData.CmdCount = u8 (st.LC_AppData.CmdCount + 1) ∧
        st'.LC_AppData.CmdErrCount = st.LC_AppData.CmdErrCount) ∧
      (msg.WPNumber ≠ 0xFFFF → ¬ msg.WPNumber < cfg.LC_MAX_WATCHPOINTS →
        st'.LC_OperData.WRTPtr = st.LC_OperData.WRTPtr ∧
        st'.LC_AppData.CmdErrCount = u8 (st.LC_AppData.CmdErrCount + 1) ∧
        st'.LC_AppData.CmdCount = st.LC_AppData.CmdCount)) ∧
    (∃ st', LC_ResetAPStatsCmd cfg msg st = some st' ∧
      st'.LC_OperData.WRTPtr = st.LC_OperData.WRTPtr ∧
      st'.LC_OperData.ARTPtr.length = st.LC_OperData.ARTPtr.length ∧
      (msg.APNumber = 0xFFFF →
        (∀ (i : Nat) (e : LC_ARTEntry_t), st.LC_OperData.ARTPtr[i]? = some e →
          st'.LC_OperData.ARTPtr[i]? = some
            { e with
              PassiveAPCount := 0, FailToPassCount := 0, PassToFailCount := 0
              ConsecutiveFailCount := 0, CumulativeFailCount := 0
              CumulativeRTSExecCount := 0, CumulativeEventMsgsSent := 0 }) ∧
        st'.LC_AppData.CmdCount = u8 (st.LC_AppData.CmdCount + 1) ∧
        st'.LC_AppData.CmdErrCount = st.LC_AppData.CmdErrCount) ∧
      (msg.APNumber < cfg.LC_MAX_ACTIONPOINTS →
        (∀ (i : Nat) (e : LC_ARTEntry_t), st.LC_OperData.ARTPtr[i]? = some e →
          st'.LC_OperData.ARTPtr[i]? = some
            (if i = msg.APNumber then
              { e with
                PassiveAPCount := 0, FailToPassCount := 0, PassToFailCount := 0
                ConsecutiveFailCount := 0, CumulativeFailCount := 0
                CumulativeRTSExecCount := 0, CumulativeEventMsgsSent := 0 }
            else e)) ∧
        st'.LC_AppData.CmdCount = u8 (st.LC_AppData.CmdCount + 1) ∧
        st'.LC_AppData.CmdErrCount = st.LC_AppData.CmdErrCount) ∧
      (msg.APNumber ≠ 0xFFFF → ¬ msg.APNumber < cfg.LC_MAX_ACTIONPOINTS →
        st'.LC_OperData.ARTPtr = st.LC_OperData.ARTPtr ∧
        st'.LC_AppData.CmdErrCount = u8 (st.LC_AppData.CmdErrCount + 1) ∧
        st'.LC_AppData.CmdCount = st.LC_AppData.CmdCount)) := by
  have hwmax : cfg.LC_MAX_WATCHPOINTS ≤ 65532 := hs.2.2.1
  have hamax : cfg.LC_MAX_ACTIONPOINTS ≤ 65534 := hs.2.2.2.2.2.1
  constructor
  · obtain ⟨st', hrun, hart, hlenw, hpt, hcnt⟩ := LC_ResetWPStatsCmd_spec cfg msg st hs hst hlen
    refine ⟨st', hrun, hart, hlenw, ?_, ?_, ?_⟩
    · intro hall
      have hall' : msg.WPNumber = LC_ALL_WATCHPOINTS := hall
      rw [if_pos (Or.inl hall')] at hcnt
      refine ⟨?_, hcnt⟩
      intro i e he
      rw [hpt i, if_pos (Or.inl hall'), he]
      rfl
    · intro hlt
      have hne : msg.WPNumber ≠ LC_ALL_WATCHPOINTS := by
        intro h; rw [h] at hlt; unfold LC_ALL_WATCHPOINTS at hlt; omega
      rw [if_pos (Or.inr hlt)] at hcnt
      refine ⟨?_, hcnt⟩
      intro i e he
      rw [hpt i, he]
      by_cases hi : i = msg.WPNumber
      · rw [if_pos (Or.inr hi.symm), if_pos hi]; rfl
      · rw [if_neg (fun h => h.elim hne (fun h' => hi h'.symm)), if_neg hi]
    · intro hne hn
      have hne' : msg.WPNumber ≠ LC_ALL_WATCHPOINTS := hne
      rw [if_neg (fun h => h.elim hne' hn)] at hcnt
      refine ⟨?_, hcnt⟩
      apply List.ext_getElem?
      intro i
      rw [hpt i]
      by_cases hi : msg.WPNumber = i
      · rw [if_pos (Or.inr hi), List.getElem?_eq_none (by rw [hst.1]; omega)]; rfl
      · rw [if_neg (fun h => h.elim hne' hi)]
  · obtain ⟨st', hrun, hwrt, hlena, hpt, hcnt⟩ := LC_ResetAPStatsCmd_spec cfg msg st hs hst hlen
    refine ⟨st', hrun, hwrt, hlena, ?_, ?_, ?_⟩
    · intro hall
      have hall' : msg.APNumber = LC_ALL_ACTIONPOINTS := hall
      rw [if_pos (Or.inl hall')] at hcnt
      refine ⟨?_, hcnt⟩
      intro i e he
      rw [hpt i, if_pos (Or.inl hall'), he]
      rfl
    · intro hlt
      have hne : msg.APNumber ≠ LC_ALL_ACTIONPOINTS := by
        intro h; rw [h] at hlt; unfold LC_ALL_ACTIONPOINTS at hlt; omega
      rw [if_pos (Or.inr hlt)] at hcnt
      refine ⟨?_, hcnt⟩
      intro i e he
      rw [hpt i, he]
      by_cases hi : i = msg.APNumber
      · rw [if_pos (Or.inr hi.symm), if_pos hi]; rfl
      · rw [if_neg (fun h => h.elim hne (fun h' => hi h'.symm)), if_neg hi]
    · intro hne hn
      have hne' : msg.APNumber ≠ LC_ALL_ACTIONPOINTS := hne
      rw [if_neg (fun h => h.elim hne' hn)] at hcnt
      refine ⟨?_, hcnt⟩
      apply List.ext_getElem?
      intro i
      rw [hpt i]
      by_cases hi : msg.APNumber = i
      · rw [if_pos (Or.inr hi), List.getElem?_eq_none (by rw [hst.2.1]; omega)]; rfl
      · rw [if_neg (fun h => h.elim hne' hi)]

/-- Concrete instance of C24 on the demonstration state: the watchpoint stats reset of
record 1, the actionpoint stats reset of all records, and the actionpoint stats reset
with the number 4, which is outside the table of four. -/
theorem C24_stats_reset_targets_witness :
    (∃ st', LC_ResetWPStatsCmd demoCfg (demoMsg LC_CMD_MID 6 12 1 0 0) demoState = some st' ∧
      (st'.LC_OperData.WRTPtr[1]?).map LC_WRTEntry_t.EvaluationCount = some 0 ∧
      st'.LC_OperData.WRTPtr[2]? = demoState.LC_OperData.WRTPtr[2]? ∧
      st'.LC_OperData.ARTPtr = demoState.LC_OperData.ARTPtr) ∧
    (∃ st', LC_ResetAPStatsCmd demoCfg (demoMsg LC_CMD_MID 5 12 0xFFFF 0 0) demoState
        = some st' ∧
      (st'.LC_OperData.ARTPtr[3]?).map LC_ARTEntry_t.CumulativeFailCount = some 0) ∧
    (∃ st', LC_ResetAPStatsCmd demoCfg (demoMsg LC_CMD_MID 5 12 4 0 0) demoState = some st' ∧
      st'.LC_OperData.ARTPtr = demoState.LC_OperData.ARTPtr ∧
      st'.LC_AppData.CmdErrCount = 3 ∧ st'.LC_AppData.CmdCount = 10) := by
  obtain ⟨⟨s1, r1, a1, _, _, one1, _⟩, _⟩ :=
    C24_stats_reset_targets demoCfg (demoMsg LC_CMD_MID 6 12 1 0 0) demoState
      (by decide) (by decide) (by decide)
  obtain ⟨_, ⟨s2, r2, _, _, all2, _, _⟩⟩ :=
    C24_stats_reset_targets demoCfg (demoMsg LC_CMD_MID 5 12 0xFFFF 0 0) demoState
      (by decide) (by decide) (by decide)
  obtain ⟨_, ⟨s3, r3, _, _, _, _, rej3⟩⟩ :=
    C24_stats_reset_targets demoCfg (demoMsg LC_CMD_MID 5 12 4 0 0) demoState
      (by decide) (by decide) (by decide)
  obtain ⟨p1, _, _⟩ := one1 (by decide)
  obtain ⟨p2, _, _⟩ := all2 (by decide)
  obtain ⟨t3, e3, c3⟩ := rej3 (by decide) (by decide)
  refine ⟨⟨s1, r1, ?_, ?_, a1⟩, ⟨s2, r2, ?_⟩, ⟨s3, r3, t3, ?_, ?_⟩⟩
  · rw [p1 1 (demoWP 0 3) rfl]; rfl
  · rw [p1 2 (demoWP 1 1) rfl]; rfl
  · rw [p2 3 (demoAP 0xFF 0xFF) rfl]; rfl
  · rw [e3]; decide
  · rw [c3]; rfl

/-! ## Counters, monitor mode and the scalar housekeeping fields -/

/-- C25: `LC_ResetCounters` sets the six counters `CmdCount`, `CmdErrCount`,
`APSampleCount`, `MonitoredMsgCount`, `RTSExecCount` and `PassiveRTSExecCount` to 0 and
changes nothing else.  The reset command of the right length leaves them at 0 (the
command itself is not counted) and leaves `CurrentLCState`, `CDSSavedOnExit` and the
operational data, with `HaveActiveCDS` and both result tables, unchanged; `LC_AppPipe`
dispatches the command code `LC_RESET_CC` to it and returns `CFE_SUCCESS`. -/
theorem C25_reset_counters (cfg : LC_Config) (ext : LC_Externals) (env : CFE_Env)
    (msg : CFE_SB_Msg) (st : LC_State)
    (hlen : msg.TotalMsgLength = u16 (sizeof_LC_NoArgsCmd_t cfg)) :
    (LC_ResetCounters st).LC_AppData =
      { CmdCount := 0, CmdErrCount := 0, APSampleCount := 0, MonitoredMsgCount := 0
        RTSExecCount := 0, PassiveRTSExecCount := 0
        CDSSavedOnExit := st.LC_AppData.CDSSavedOnExit
        CurrentLCState := st.LC_AppData.CurrentLCState } ∧
    (LC_ResetCounters st).LC_OperData = st.LC_OperData ∧
    (LC_ResetCounters st).Calls = st.Calls ∧
    (LC_ResetCmd cfg msg st).LC_AppData.CmdCount = 0 ∧
    (LC_ResetCmd cfg msg st).LC_AppData.CmdErrCount = 0 ∧
    (LC_ResetCmd cfg msg st).LC_AppData.APSampleCount = 0 ∧
    (LC_ResetCmd cfg msg st).LC_AppData.MonitoredMsgCount = 0 ∧
    (LC_ResetCmd cfg msg st).LC_AppData.RTSExecCount = 0 ∧
    (LC_ResetCmd cfg msg st).LC_AppData.PassiveRTSExecCount = 0 ∧
    (LC_ResetCmd cfg msg st).LC_AppData.CurrentLCState = st.LC_AppData.CurrentLCState ∧
    (LC_ResetCmd cfg msg st).LC_AppData.CDSSavedOnExit = st.LC_AppData.CDSSavedOnExit ∧
    (LC_ResetCmd cfg msg st).LC_OperData.HaveActiveCDS = st.LC_OperData.HaveActiveCDS ∧
    (LC_ResetCmd cfg msg st).LC_OperData.WRTPtr = st.LC_OperData.WRTPtr ∧
    (LC_ResetCmd cfg msg st).LC_OperData.ARTPtr = st.LC_OperData.ARTPtr ∧
    (LC_ResetCmd cfg msg st).LC_OperData = st.LC_OperData ∧
    (msg.MsgId = LC_CMD_MID → msg.CmdCode = cfg.LC_RESET_CC →
      cfg.LC_RESET_CC ≠ cfg.LC_NOOP_CC →
      LC_AppPipe cfg ext env msg st = some (cfg.CFE_SUCCESS, LC_ResetCmd cfg msg st)) := by
  have hrun : LC_ResetCmd cfg msg st =
      (LC_ResetCounters st).sendEvent LC_EventID.LC_RESET_DBG_EID := by
    unfold LC_ResetCmd
    rw [LC_VerifyMsgLength_ok msg _ st hlen]
    rfl
  refine ⟨rfl, rfl, rfl, ?_, ?_, ?_, ?_, ?_, ?_, ?_, ?_, ?_, ?_, ?_, ?_, ?_⟩
  any_goals (rw [hrun]; rfl)
  intro hmid hcc hne
  unfold LC_AppPipe
  dsimp only
  rw [hmid, if_neg (by decide), if_neg (by decide), if_pos rfl, hcc, if_neg hne, if_pos rfl]
  rfl

/-- Concrete instance of C25: the reset command on the demonstration state, whose command
counter was 10. -/
theorem C25_reset_counters_witness :
    demoState.LC_AppData.CmdCount = 10 ∧
    (LC_ResetCmd demoCfg (demoMsg LC_CMD_MID 1 8 0 0 0) demoState).LC_AppData.CmdCount = 0 ∧
    (LC_ResetCmd demoCfg (demoMsg LC_CMD_MID 1 8 0 0 0) demoState).LC_OperData
      = demoState.LC_OperData ∧
    LC_AppPipe demoCfg demoExt demoEnv (demoMsg LC_CMD_MID 1 8 0 0 0) demoState =
      some (demoCfg.CFE_SUCCESS, LC_ResetCmd demoCfg (demoMsg LC_CMD_MID 1 8 0 0 0) demoState) :=
  ⟨rfl,
   (C25_reset_counters demoCfg demoExt demoEnv (demoMsg LC_CMD_MID 1 8 0 0 0) demoState
      (by decide)).2.2.2.1,
   (C25_reset_counters demoCfg demoExt demoEnv (demoMsg LC_CMD_MID 1 8 0 0 0) demoState
      (by decide)).2.2.2.2.2.2.2.2.2.2.2.2.2.2.1,
   (C25_reset_counters demoCfg demoExt demoEnv (demoMsg LC_CMD_MID 1 8 0 0 0) demoState
      (by decide)).2.2.2.2.2.2.2.2.2.2.2.2.2.2.2 rfl rfl (by decide)⟩

/-- C26: the monitor mode stays within its enumeration.  Every message through
`LC_AppPipe` returns; if `CurrentLCState` is one of `LC_STATE_ACTIVE`, `LC_STATE_PASSIVE`,
`LC_STATE_DISABLED` before, it is one of them afterwards, also after every run of
messages; and unless the message is a set-LC-state command `CurrentLCState` is
unchanged.  `LC_SetLCStateCmd` of the right length stores `NewLCState` and increments
`CmdCount` exactly when `NewLCState` is one of the three values, and otherwise leaves
`CurrentLCState` and `CmdCount` and increments `CmdErrCount`; with a wrong length it
leaves `CurrentLCState` and `CmdCount`.  The functions of `lc_action.c` and `lc_watch.c`
called on the way are assumed to keep the frame (`LC_Externals.Framed`). -/
theorem C26_monitor_mode (cfg : LC_Config) (ext : LC_Externals) (env : CFE_Env)
    (msg : CFE_SB_Msg) (st : LC_State) (hs : cfg.SizesOK) (hst : st.Sized cfg)
    (henv : env.ADTPtr.length = cfg.LC_MAX_ACTIONPOINTS) (hext : ext.Framed cfg) :
    (∃ rc st', LC_AppPipe cfg ext env msg st = some (rc, st') ∧
      (validLCState cfg st.LC_AppData.CurrentLCState →
        validLCState cfg st'.LC_AppData.CurrentLCState) ∧
      (¬ (msg.MsgId = LC_CMD_MID ∧ msg.CmdCode = cfg.LC_SET_LC_STATE_CC) →
        st'.LC_AppData.CurrentLCState = st.LC_AppData.CurrentLCState)) ∧
    (∀ msgs : List (CFE_Env × CFE_SB_Msg),
      (∀ p ∈ msgs, p.1.ADTPtr.length = cfg.LC_MAX_ACTIONPOINTS) →
      ∃ st', pipeMessages cfg ext msgs st = some st' ∧
        (validLCState cfg st.LC_AppData.CurrentLCState →
          validLCState cfg st'.LC_AppData.CurrentLCState)) ∧
    (msg.TotalMsgLength = u16 (sizeof_LC_TwoWordCmd_t cfg) →
      (validLCState cfg msg.NewLCState →
        (LC_SetLCStateCmd cfg msg st).LC_AppData.CurrentLCState = msg.NewLCState ∧
        (LC_SetLCStateCmd cfg msg st).LC_AppData.CmdCount = u8 (st.LC_AppData.CmdCount + 1) ∧
        (LC_SetLCStateCmd cfg msg st).LC_AppData.CmdErrCount = st.LC_AppData.CmdErrCount) ∧
      (¬ validLCState cfg msg.NewLCState →
        (LC_SetLCStateCmd cfg msg st).LC_AppData.CurrentLCState
          = st.LC_AppData.CurrentLCState ∧
        (LC_SetLCStateCmd cfg msg st).LC_AppData.CmdCount = st.LC_AppData.CmdCount ∧
        (LC_SetLCStateCmd cfg msg st).LC_AppData.CmdErrCount
          = u8 (st.LC_AppData.CmdErrCount + 1))) ∧
    (msg.TotalMsgLength ≠ u16 (sizeof_LC_TwoWordCmd_t cfg) →
      (LC_SetLCStateCmd cfg msg st).LC_AppData.CurrentLCState = st.LC_AppData.CurrentLCState ∧
      (LC_SetLCStateCmd cfg msg st).LC_AppData.CmdCount = st.LC_AppData.CmdCount) := by
  obtain ⟨_, _, e1, e2, e3⟩ := LC_SetLCStateCmd_effect cfg msg st
  refine ⟨?_, ?_, fun hlen => ⟨e1 hlen, e2 hlen⟩, e3⟩
  · obtain ⟨rc, st', hrun, hstep⟩ := LC_AppPipe_step cfg ext env msg st hs hst henv hext
    refine ⟨rc, st', hrun, PipeStep_mode cfg msg st st' hstep, ?_⟩
    intro hnot
    rcases hstep.2.1 with hm | ⟨h1, h2, _, _⟩
    · exact hm
    · exact absurd ⟨h1, h2⟩ hnot
  · intro msgs henvs
    obtain ⟨st', hrun, _, hmode, _⟩ := pipeMessages_steps cfg ext hs hext msgs st hst henvs
    exact ⟨st', hrun, hmode⟩

/-- Concrete instance of C26 on the demonstration state, whose mode is active: a
set-LC-state command to passive (2) is accepted, one to the value 9 is rejected, and the
run of four messages ending with the former leaves a valid mode. -/
theorem C26_monitor_mode_witness :
    (LC_SetLCStateCmd demoCfg (demoMsg LC_CMD_MID 2 12 2 0 0) demoState).LC_AppData.CurrentLCState
      = 2 ∧
    (LC_SetLCStateCmd demoCfg (demoMsg LC_CMD_MID 2 12 9 0 0) demoState).LC_AppData.CurrentLCState
      = 1 ∧
    (LC_SetLCStateCmd demoCfg (demoMsg LC_CMD_MID 2 12 9 0 0) demoState).LC_AppData.CmdErrCount
      = 3 ∧
    (∃ st', pipeMessages demoCfg demoExt demoRun demoState = some st' ∧
      validLCState demoCfg st'.LC_AppData.CurrentLCState) := by
  have h1 := C26_monitor_mode demoCfg demoExt demoEnv (demoMsg LC_CMD_MID 2 12 2 0 0) demoState
    (by decide) (by decide) (by decide) (demoExt_framed demoCfg)
  have h2 := C26_monitor_mode demoCfg demoExt demoEnv (demoMsg LC_CMD_MID 2 12 9 0 0) demoState
    (by decide) (by decide) (by decide) (demoExt_framed demoCfg)
  obtain ⟨st', hrun, hv⟩ := h1.2.1 demoRun (by decide)
  refine ⟨((h1.2.2.1 (by decide)).1 (by decide)).1, ((h2.2.2.1 (by decide)).2 (by decide)).1,
    ?_, st', hrun, hv (by decide)⟩
  rw [((h2.2.2.1 (by decide)).2 (by decide)).2.2]
  decide

/-- C27: after a housekeeping request of the right length the scalar fields of the
housekeeping packet, in the state as in the packet handed to `CFE_SB_SendMsg`, are the
monitor state at the time of the request: `CmdCount`, `CmdErrCount` and `CurrentLCState`
are the fields of `LC_AppData` reduced to 8 bits, `PassiveRTSExecCount` reduced to 16
bits, `APSampleCount`, `MonitoredMsgCount` and `RTSExecCount` reduced to 32 bits, and
`WPsInUse` is `LC_OperData.WatchpointCount` reduced to 16 bits. -/
theorem C27_scalar_housekeeping_fields (cfg : LC_Config) (env : CFE_Env) (msg : CFE_SB_Msg)
    (st : LC_State) (hs : cfg.SizesOK) (hst : st.Sized cfg)
    (henv : env.ADTPtr.length = cfg.LC_MAX_ACTIONPOINTS)
    (hlen : msg.TotalMsgLength = u16 (sizeof_LC_NoArgsCmd_t cfg)) :
    ∃ rc st', LC_HousekeepingReq cfg env msg st = some (rc, st') ∧
      (st'.Calls.drop st.Calls.length).head? =
        some (LC_Call.CFE_SB_SendMsg st'.LC_OperData.HkPacket) ∧
      st'.LC_OperData.HkPacket.CmdCount = u8 st.LC_AppData.CmdCount ∧
      st'.LC_OperData.HkPacket.CmdErrCount = u8 st.LC_AppData.CmdErrCount ∧
      st'.LC_OperData.HkPacket.CurrentLCState = u8 st.LC_AppData.CurrentLCState ∧
      st'.LC_OperData.HkPacket.APSampleCount = u32 st.LC_AppData.APSampleCount ∧
      st'.LC_OperData.HkPacket.MonitoredMsgCount = u32 st.LC_AppData.MonitoredMsgCount ∧
      st'.LC_OperData.HkPacket.RTSExecCount = u32 st.LC_AppData.RTSExecCount ∧
      st'.LC_OperData.HkPacket.PassiveRTSExecCount = u16 st.LC_AppData.PassiveRTSExecCount ∧
      st'.LC_OperData.HkPacket.WPsInUse = u16 st.LC_OperData.WatchpointCount := by
  obtain ⟨st1, rc, st', hp, hrun, hpkt, rest, hcalls⟩ :=
    LC_HousekeepingReq_packet cfg env msg st hs hst henv hlen
  obtain ⟨st1', hp', _, _, _, _, _, _, _, _, _, _, _, _, f1, f2, f3, f4, f5, f6, f7, f8⟩ :=
    packHousekeeping_spec cfg st hs hst
  rw [hp] at hp'
  cases hp'
  refine ⟨rc, st', hrun, ?_, ?_, ?_, ?_, ?_, ?_, ?_, ?_, ?_⟩
  · rw [hcalls, hpkt]; simp
  all_goals rw [hpkt]; assumption

/-- Concrete instance of C27 on the demonstration state, whose command counter is 10 and
whose watchpoint count is 6. -/
theorem C27_scalar_housekeeping_fields_witness :
    ∃ rc st', LC_HousekeepingReq demoCfg demoEnv (demoMsg LC_SEND_HK_MID 0 8 0 0 0) demoState
        = some (rc, st') ∧
      st'.LC_OperData.HkPacket.CmdCount = 10 ∧ st'.LC_OperData.HkPacket.WPsInUse = 6 := by
  obtain ⟨rc, st', hrun, _, h1, _, _, _, _, _, _, h8⟩ :=
    C27_scalar_housekeeping_fields demoCfg demoEnv (demoMsg LC_SEND_HK_MID 0 8 0 0 0) demoState
      (by decide) (by decide) (by decide) (by decide)
  exact ⟨rc, st', hrun, by rw [h1]; decide, by rw [h8]; decide⟩

/-! ## Permanently off and unknown states in the packet -/

/-- C28: let two actionpoint results tables of the same dimension differ only in that
some records have `CurrentState = LC_ACTION_NOT_USED` in one table and
`LC_APSTATE_PERMOFF` or a value outside the enumeration in the other.  Housekeeping
requests of the right length on states that differ only in these tables return with
identical `APResults` arrays and the same `ActiveAPs` count in the packet. -/
theorem C28_not_used_aliases (cfg : LC_Config) (env : CFE_Env) (msg : CFE_SB_Msg)
    (st : LC_State) (ART : List LC_ARTEntry_t) (hs : cfg.SizesOK) (hst : st.Sized cfg)
    (hlab : cfg.LabelsDistinct) (henv : env.ADTPtr.length = cfg.LC_MAX_ACTIONPOINTS)
    (hlen : msg.TotalMsgLength = u16 (sizeof_LC_NoArgsCmd_t cfg))
    (hl : ART.length = st.LC_OperData.ARTPtr.length)
    (hrel : ∀ (i : Nat) (a b : LC_ARTEntry_t), st.LC_OperData.ARTPtr[i]? = some a →
      ART[i]? = some b → notUsedAlias cfg a b) :
    ∃ rc1 st1 rc2 st2, LC_HousekeepingReq cfg env msg st = some (rc1, st1) ∧
      LC_HousekeepingReq cfg env msg (st.setART ART) = some (rc2, st2) ∧
      st1.LC_OperData.HkPacket.APResults = st2.LC_OperData.HkPacket.APResults ∧
      st1.LC_OperData.HkPacket.ActiveAPs = st2.LC_OperData.HkPacket.ActiveAPs := by
  have hst2 : (st.setART ART).Sized cfg := by
    obtain ⟨a, b, c, d, e⟩ := hst
    exact ⟨a, by rw [setART_ARTPtr, hl, b], c, d, e⟩
  have hmaxa : cfg.LC_MAX_ACTIONPOINTS % 2 = 0 := hs.2.2.2.2.1
  have hla : st.LC_OperData.ARTPtr.length = cfg.LC_MAX_ACTIONPOINTS := hst.2.1
  obtain ⟨p1, rc1, st1, hp1, hrun1, hpkt1, _⟩ :=
    LC_HousekeepingReq_packet cfg env msg st hs hst henv hlen
  obtain ⟨p2, rc2, st2, hp2, hrun2, hpkt2, _⟩ :=
    LC_HousekeepingReq_packet cfg env msg (st.setART ART) hs hst2 henv hlen
  obtain ⟨q1, hq1, _, _, _, _, _, _, hsz1, _, hap1, hact1, _, hbeyond1, _⟩ :=
    packHousekeeping_spec cfg st hs hst
  obtain ⟨q2, hq2, _, _, _, _, _, _, hsz2, _, hap2, hact2, _, hbeyond2, _⟩ :=
    packHousekeeping_spec cfg (st.setART ART) hs hst2
  rw [hp1] at hq1
  cases hq1
  rw [hp2] at hq2
  cases hq2
  refine ⟨rc1, st1, rc2, st2, hrun1, hrun2, ?_, ?_⟩
  · rw [hpkt1, hpkt2]
    apply List.ext_getElem?
    intro k
    by_cases hk : k < cfg.LC_MAX_ACTIONPOINTS / 2
    · have h1 : 2 * k + 1 < st.LC_OperData.ARTPtr.length := by omega
      have h0 : 2 * k < st.LC_OperData.ARTPtr.length := by omega
      have h1' : 2 * k + 1 < ART.length := by omega
      have h0' : 2 * k < ART.length := by omega
      rw [hap1 k _ _ hk (List.getElem?_eq_getElem h1) (List.getElem?_eq_getElem h0),
        hap2 k (ART[2 * k + 1]) (ART[2 * k]) hk
          (by rw [setART_ARTPtr]; exact List.getElem?_eq_getElem h1')
          (by rw [setART_ARTPtr]; exact List.getElem?_eq_getElem h0')]
      obtain ⟨c1, r1, _⟩ := notUsedAlias_codes cfg hlab _ _
        (hrel (2 * k + 1) _ _ (List.getElem?_eq_getElem h1) (List.getElem?_eq_getElem h1'))
      obtain ⟨c0, r0, _⟩ := notUsedAlias_codes cfg hlab _ _
        (hrel (2 * k) _ _ (List.getElem?_eq_getElem h0) (List.getElem?_eq_getElem h0'))
      unfold actionByte
      rw [c1, r1, c0, r0]
    · rw [hbeyond1 k (by omega), hbeyond2 k (by omega)]
      rfl
  · rw [hpkt1, hpkt2, hact1, hact2, setART_ARTPtr]
    congr 1
    apply countP_congr_getElem _ _ _ hl.symm
    intro i a b ha hb
    exact (notUsedAlias_codes cfg hlab a b (hrel i a b ha hb)).2.2

/-- Concrete instance of C28: the demonstration state, whose actionpoints 2 and 3 are
permanently off and not used, against the table where they are not used and in the
unknown state 9. -/
theorem C28_not_used_aliases_witness :
    ∃ rc1 st1 rc2 st2,
      LC_HousekeepingReq demoCfg demoEnv (demoMsg LC_SEND_HK_MID 0 8 0 0 0) demoState
        = some (rc1, st1) ∧
      LC_HousekeepingReq demoCfg demoEnv (demoMsg LC_SEND_HK_MID 0 8 0 0 0)
        (demoState.setART aliasedART) = some (rc2, st2) ∧
      st1.LC_OperData.HkPacket.APResults = st2.LC_OperData.HkPacket.APResults ∧
      st1.LC_OperData.HkPacket.ActiveAPs = st2.LC_OperData.HkPacket.ActiveAPs :=
  C28_not_used_aliases demoCfg demoEnv (demoMsg LC_SEND_HK_MID 0 8 0 0 0) demoState
    aliasedART (by decide) (by decide) (by decide) (by decide) (by decide) (by decide)
    (by
      intro i a b ha hb
      have hi : i < 4 := by
        by_contra hc
        rw [List.getElem?_eq_none (by simp [demoState]; omega)] at ha
        cases ha
      have hall : ∀ j : Fin 4, ∀ a b : LC_ARTEntry_t,
          demoState.LC_OperData.ARTPtr[j.val]? = some a → aliasedART[j.val]? = some b →
          notUsedAlias demoCfg a b := by
        intro j
        fin_cases j <;> intro a b ha hb <;> cases ha <;> cases hb <;> decide
      exact hall ⟨i, hi⟩ a b ha hb)

/-! ## Failed evaluations and verdict sequences -/

/-- C30: for every watchpoint `id` of the table, applying the verdicts False, True, False
with `applyVerdict` increments `FalseToTrueCount` exactly once, namely at the second
call, and leaves `ConsecutiveTrueCount = 0` after the third call, whatever the record
held before; and every `applyVerdict` on a valid `id` leaves `CountdownToStale` at the
configured maximum. -/
theorem C30_false_true_false (cfg : LC_Config) (maxAge id : Nat) (WRT : List LC_WRTEntry_t)
    (e : LC_WRTEntry_t) (v1 t1 u1 v2 t2 u2 v3 t3 u3 : Nat)
    (hne : cfg.LC_WATCH_FALSE ≠ cfg.LC_WATCH_TRUE) (hid : WRT[id]? = some e) :
    (∃ a b c,
      (applyVerdict cfg maxAge id cfg.LC_WATCH_FALSE v1 t1 u1 WRT)[id]? = some a ∧
      (applyVerdict cfg maxAge id cfg.LC_WATCH_TRUE v2 t2 u2
        (applyVerdict cfg maxAge id cfg.LC_WATCH_FALSE v1 t1 u1 WRT))[id]? = some b ∧
      (applyVerdict cfg maxAge id cfg.LC_WATCH_FALSE v3 t3 u3
        (applyVerdict cfg maxAge id cfg.LC_WATCH_TRUE v2 t2 u2
          (applyVerdict cfg maxAge id cfg.LC_WATCH_FALSE v1 t1 u1 WRT)))[id]? = some c ∧
      a.FalseToTrueCount = e.FalseToTrueCount ∧
      b.FalseToTrueCount = u32 (e.FalseToTrueCount + 1) ∧
      c.FalseToTrueCount = u32 (e.FalseToTrueCount + 1) ∧
      c.ConsecutiveTrueCount = 0 ∧
      a.CountdownToStale = maxAge ∧ b.CountdownToStale = maxAge ∧
      c.CountdownToStale = maxAge) ∧
    (∀ verdict v t u : Nat, ∃ x,
      (applyVerdict cfg maxAge id verdict v t u WRT)[id]? = some x ∧
      x.CountdownToStale = maxAge ∧ x.WatchResult = verdict) := by
  have g1 := applyVerdict_get cfg maxAge id cfg.LC_WATCH_FALSE v1 t1 u1 WRT e hid
  have g2 := applyVerdict_get cfg maxAge id cfg.LC_WATCH_TRUE v2 t2 u2 _ _ g1
  have g3 := applyVerdict_get cfg maxAge id cfg.LC_WATCH_FALSE v3 t3 u3 _ _ g2
  obtain ⟨a1, a2, _⟩ := applyVerdictEntry_false cfg maxAge v1 t1 u1 e hne
  obtain ⟨b1, b2⟩ := applyVerdictEntry_true cfg maxAge v2 t2 u2 _ a1
  obtain ⟨_, c2, c3⟩ := applyVerdictEntry_false cfg maxAge v3 t3 u3
    (applyVerdictEntry cfg maxAge cfg.LC_WATCH_TRUE v2 t2 u2
      (applyVerdictEntry cfg maxAge cfg.LC_WATCH_FALSE v1 t1 u1 e)) hne
  refine ⟨⟨_, _, _, g1, g2, g3, a2, ?_, ?_, c3 b1, rfl, rfl, rfl⟩, ?_⟩
  · rw [b2, a2]
  · rw [c2, b2, a2]
  · intro verdict v t u
    exact ⟨_, applyVerdict_get cfg maxAge id verdict v t u WRT e hid, rfl, rfl⟩

/-- Concrete instance of C30 on watchpoint 2 of the demonstration state, which is true
with `FalseToTrueCount = 1` before. -/
theorem C30_false_true_false_witness :
    ∃ c, (applyVerdict demoCfg 5 2 demoCfg.LC_WATCH_FALSE 12 300 0
        (applyVerdict demoCfg 5 2 demoCfg.LC_WATCH_TRUE 11 200 0
          (applyVerdict demoCfg 5 2 demoCfg.LC_WATCH_FALSE 10 100 0
            demoState.LC_OperData.WRTPtr)))[2]? = some c ∧
      c.FalseToTrueCount = 2 ∧ c.ConsecutiveTrueCount = 0 ∧ c.CountdownToStale = 5 := by
  obtain ⟨⟨a, b, c, _, _, hc, _, _, hf, hz, _, _, hcd⟩, _⟩ :=
    C30_false_true_false demoCfg 5 2 demoState.LC_OperData.WRTPtr (demoWP 1 1)
      10 100 0 11 200 0 12 300 0 (by decide) rfl
  exact ⟨c, hc, by rw [hf]; rfl, hz, hcd⟩

/-! ## Counting and length checks of the dispatched messages -/

/-- C31: every ground command other than the reset command is counted exactly once.  For
a message with the id `LC_CMD_MID` and a command code other than `LC_RESET_CC`, of any
length, with any arguments and any command code, known or not, `LC_AppPipe` returns
`CFE_SUCCESS` and either the command is accepted (`commandAccepted`: known command code,
right length, valid arguments), `CmdCount` is one higher modulo 256 and `CmdErrCount` is
kept; or the command is not accepted, `CmdErrCount` is one higher modulo 256, and
`CmdCount`, `CurrentLCState` and the operational data with both result tables are kept,
so nothing was applied.  Exactly one of the two counters changes. -/
theorem C31_commands_counted_once (cfg : LC_Config) (ext : LC_Externals) (env : CFE_Env)
    (msg : CFE_SB_Msg) (st : LC_State) (hs : cfg.SizesOK) (hst : st.Sized cfg)
    (hmid : msg.MsgId = LC_CMD_MID) (hcc : msg.CmdCode ≠ cfg.LC_RESET_CC) :
    ∃ st', LC_AppPipe cfg ext env msg st = some (cfg.CFE_SUCCESS, st') ∧
      ((commandAccepted cfg msg st ∧
          st'.LC_AppData.CmdCount = u8 (st.LC_AppData.CmdCount + 1) ∧
          st'.LC_AppData.CmdErrCount = st.LC_AppData.CmdErrCount) ∨
        (¬ commandAccepted cfg msg st ∧
          st'.LC_AppData.CmdErrCount = u8 (st.LC_AppData.CmdErrCount + 1) ∧
          st'.LC_AppData.CmdCount = st.LC_AppData.CmdCount ∧
          st'.LC_AppData.CurrentLCState = st.LC_AppData.CurrentLCState ∧
          st'.LC_OperData = st.LC_OperData)) ∧
      (st'.LC_AppData.CmdCount = st.LC_AppData.CmdCount ↔
        st'.LC_AppData.CmdErrCount ≠ st.LC_AppData.CmdErrCount) := by
  have hla : st.LC_OperData.ARTPtr.length = cfg.LC_MAX_ACTIONPOINTS := hst.2.1
  have hamax : cfg.LC_MAX_ACTIONPOINTS < 4294967296 := by
    have := hs.2.2.2.2.2.1
    omega
  have comb : ∀ (acc : Prop) (st' : LC_State), (commandAccepted cfg msg st ↔ acc) →
      ((acc ∧ CountedDone st st') ∨ (¬ acc ∧ CountedError st st')) →
      ((commandAccepted cfg msg st ∧ CountedDone st st') ∨
        (¬ commandAccepted cfg msg st ∧ CountedError st st')) := by
    intro acc st' hacc h
    rw [hacc]
    exact h
  have key : ∃ st', LC_AppPipe cfg ext env msg st = some (cfg.CFE_SUCCESS, st') ∧
      ((commandAccepted cfg msg st ∧ CountedDone st st') ∨
        (¬ commandAccepted cfg msg st ∧ CountedError st st')) := by
    apply LC_AppPipe_cmd cfg ext env msg st
      (fun st' => (commandAccepted cfg msg st ∧ CountedDone st st') ∨
        (¬ commandAccepted cfg msg st ∧ CountedError st st')) hmid
    · intro c1
      exact comb _ _ (by unfold commandAccepted; rw [if_pos (Or.inl c1)])
        (LC_NoopCmd_counted cfg msg st hmid)
    · intro _ c2
      exact absurd c2 hcc
    · intro c1 c2 c3
      exact comb _ _ (by unfold commandAccepted; rw [if_neg (not_or.mpr ⟨c1, c2⟩), if_pos c3])
        (LC_SetLCStateCmd_counted cfg msg st hmid)
    · intro c1 c2 c3 c4
      obtain ⟨st', hrun, h⟩ := LC_SetAPStateCmd_counted cfg msg st hmid hla hamax
      exact ⟨st', hrun, comb _ _ (by
        unfold commandAccepted
        rw [if_neg (not_or.mpr ⟨c1, c2⟩), if_neg c3, if_pos c4]) h⟩
    · intro c1 c2 c3 c4 c5
      obtain ⟨st', hrun, h⟩ := LC_SetAPPermOffCmd_counted cfg msg st hmid hla
      exact ⟨st', hrun, comb _ _ (by
        unfold commandAccepted
        rw [if_neg (not_or.mpr ⟨c1, c2⟩), if_neg c3, if_neg c4, if_pos c5]) h⟩
    · intro c1 c2 c3 c4 c5 c6
      obtain ⟨st', hrun, h⟩ := LC_ResetAPStatsCmd_counted cfg msg st hmid hs hst
      exact ⟨st', hrun, comb _ _ (by
        unfold commandAccepted
        rw [if_neg (not_or.mpr ⟨c1, c2⟩), if_neg c3, if_neg c4, if_neg c5, if_pos c6]) h⟩
    · intro c1 c2 c3 c4 c5 c6 c7
      obtain ⟨st', hrun, h⟩ := LC_ResetWPStatsCmd_counted cfg msg st hmid hs hst
      exact ⟨st', hrun, comb _ _ (by
        unfold commandAccepted
        rw [if_neg (not_or.mpr ⟨c1, c2⟩), if_neg c3, if_neg c4, if_neg c5, if_neg c6,
          if_pos c7]) h⟩
    · intro c1 c2 c3 c4 c5 c6 c7
      refine Or.inr ⟨?_, CountedError_event _ _⟩
      unfold commandAccepted
      rw [if_neg (not_or.mpr ⟨c1, c2⟩), if_neg c3, if_neg c4, if_neg c5, if_neg c6, if_neg c7]
      exact fun h => h
  obtain ⟨st', hrun, hcase⟩ := key
  refine ⟨st', hrun, ?_, ?_⟩
  · rcases hcase with ⟨ha, hd⟩ | ⟨ha, he⟩
    · exact Or.inl ⟨ha, hd.1, hd.2⟩
    · exact Or.inr ⟨ha, he.1, he.2.1, he.2.2.1, he.2.2.2⟩
  · have hu : ∀ x : Nat, u8 (x + 1) ≠ x := by
      intro x
      unfold u8
      omega
    rcases hcase with ⟨_, hd⟩ | ⟨_, he⟩
    · obtain ⟨h1, h2⟩ := hd
      rw [h1, h2]
      exact ⟨fun h => absurd h (hu _), fun h => absurd rfl h⟩
    · obtain ⟨h1, h2, _, _⟩ := he
      rw [h1, h2]
      exact ⟨fun _ => hu _, fun _ => rfl⟩

/-- Concrete instance of C31 on the demonstration state, whose counters are 10 and 2: a
no-op command of the right length, a set-AP-state command for the permanently off
record 2, and a command with the unknown code 99. -/
theorem C31_commands_counted_once_witness :
    (∃ st', LC_AppPipe demoCfg demoExt demoEnv (demoMsg LC_CMD_MID 0 8 0 0 0) demoState
        = some (0, st') ∧ st'.LC_AppData.CmdCount = 11 ∧ st'.LC_AppData.CmdErrCount = 2) ∧
    (∃ st', LC_AppPipe demoCfg demoExt demoEnv (demoMsg LC_CMD_MID 3 12 2 1 0) demoState
        = some (0, st') ∧ st'.LC_AppData.CmdCount = 10 ∧ st'.LC_AppData.CmdErrCount = 3 ∧
      st'.LC_OperData = demoState.LC_OperData) ∧
    (∃ st', LC_AppPipe demoCfg demoExt demoEnv (demoMsg LC_CMD_MID 99 8 0 0 0) demoState
        = some (0, st') ∧ st'.LC_AppData.CmdCount = 10 ∧ st'.LC_AppData.CmdErrCount = 3) := by
  obtain ⟨s1, r1, c1, _⟩ := C31_commands_counted_once demoCfg demoExt demoEnv
    (demoMsg LC_CMD_MID 0 8 0 0 0) demoState (by decide) (by decide) (by decide) (by decide)
  obtain ⟨s2, r2, c2, _⟩ := C31_commands_counted_once demoCfg demoExt demoEnv
    (demoMsg LC_CMD_MID 3 12 2 1 0) demoState (by decide) (by decide) (by decide) (by decide)
  obtain ⟨s3, r3, c3, _⟩ := C31_commands_counted_once demoCfg demoExt demoEnv
    (demoMsg LC_CMD_MID 99 8 0 0 0) demoState (by decide) (by decide) (by decide) (by decide)
  refine ⟨⟨s1, r1, ?_⟩, ⟨s2, r2, ?_⟩, ⟨s3, r3, ?_⟩⟩
  · rcases c1 with ⟨_, h1, h2⟩ | ⟨hn, _⟩
    · exact ⟨h1, h2⟩
    · exact absurd (by decide) hn
  · rcases c2 with ⟨ha, _⟩ | ⟨_, h1, h2, _, h4⟩
    · exact absurd ha (by decide)
    · exact ⟨h2, h1, h4⟩
  · rcases c3 with ⟨ha, _⟩ | ⟨_, h1, h2, _, _⟩
    · exact absurd ha (by decide)
    · exact ⟨h2, h1⟩

/-- C32: messages of the wrong length are rejected.  For a message whose handler checks
the length (`expectedLength`) and whose total length differs from the expected one,
`LC_AppPipe` returns.  For a ground command the state afterwards is the incoming state
with the length event sent and `CmdErrCount` one higher modulo 256: `CmdCount`,
`CurrentLCState` and both result tables are unchanged.  For a housekeeping request
`CmdErrCount` and `CmdCount` are unchanged.  For a sample request the state afterwards is
the incoming state with the event sent, so that no counter and no table changes. -/
theorem C32_wrong_length_rejected (cfg : LC_Config) (ext : LC_Externals) (env : CFE_Env)
    (msg : CFE_SB_Msg) (st : LC_State) (hs : cfg.SizesOK) (hst : st.Sized cfg)
    (henv : env.ADTPtr.length = cfg.LC_MAX_ACTIONPOINTS) (n : Nat)
    (hexp : expectedLength cfg msg = some n) (hlen : msg.TotalMsgLength ≠ n) :
    ∃ rc st', LC_AppPipe cfg ext env msg st = some (rc, st') ∧
      (msg.MsgId = LC_CMD_MID →
        rc = cfg.CFE_SUCCESS ∧
        st' = (st.sendEvent LC_EventID.LC_LEN_ERR_EID).incCmdErrCount ∧
        st'.LC_AppData.CmdErrCount = u8 (st.LC_AppData.CmdErrCount + 1) ∧
        st'.LC_AppData.CmdCount = st.LC_AppData.CmdCount ∧
        st'.LC_AppData.CurrentLCState = st.LC_AppData.CurrentLCState ∧
        st'.LC_OperData.WRTPtr = st.LC_OperData.WRTPtr ∧
        st'.LC_OperData.ARTPtr = st.LC_OperData.ARTPtr) ∧
      (msg.MsgId = LC_SEND_HK_MID →
        st'.LC_AppData.CmdErrCount = st.LC_AppData.CmdErrCount ∧
        st'.LC_AppData.CmdCount = st.LC_AppData.CmdCount) ∧
      (msg.MsgId = LC_SAMPLE_AP_MID →
        rc = cfg.CFE_SUCCESS ∧
        st' = st.sendEvent LC_EventID.LC_APSAMPLE_LEN_ERR_EID ∧
        st'.LC_AppData.CmdErrCount = st.LC_AppData.CmdErrCount ∧
        st'.LC_AppData.CmdCount = st.LC_AppData.CmdCount) := by
  by_cases m1 : msg.MsgId = LC_SAMPLE_AP_MID
  · unfold expectedLength at hexp
    rw [if_pos m1] at hexp
    have hn := Option.some.inj hexp
    subst hn
    refine ⟨cfg.CFE_SUCCESS, st.sendEvent LC_EventID.LC_APSAMPLE_LEN_ERR_EID, ?_, ?_, ?_, ?_⟩
    · unfold LC_AppPipe
      dsimp only
      rw [if_pos m1, LC_SampleAPReq_badlen cfg ext msg st hlen,
        LC_VerifyMsgLength_sample msg _ st m1 hlen]
      rfl
    · intro h; rw [m1] at h; exact absurd h (by decide)
    · intro h; rw [m1] at h; exact absurd h (by decide)
    · intro _; exact ⟨rfl, rfl, rfl, rfl⟩
  by_cases m2 : msg.MsgId = LC_SEND_HK_MID
  · obtain ⟨rc, st', hrun, happ, _⟩ := LC_HousekeepingReq_engine cfg env msg st hs hst henv m2
    refine ⟨rc, st', ?_, ?_, ?_, ?_⟩
    · unfold LC_AppPipe
      dsimp only
      rw [if_neg m1, if_pos m2]
      exact hrun
    · intro h; rw [m2] at h; exact absurd h (by decide)
    · intro _
      have e1 := congrArg LC_AppData_t.CmdErrCount happ
      have e2 := congrArg LC_AppData_t.CmdCount happ
      exact ⟨e1, e2⟩
    · intro h; exact absurd h m1
  by_cases m3 : msg.MsgId = LC_CMD_MID
  · unfold expectedLength at hexp
    rw [if_neg m1, if_neg m2, if_pos m3] at hexp
    obtain ⟨hb1, hb2⟩ := handlers_badlen cfg msg st m3
    have key : ∃ st', LC_AppPipe cfg ext env msg st = some (cfg.CFE_SUCCESS, st') ∧
        st' = (st.sendEvent LC_EventID.LC_LEN_ERR_EID).incCmdErrCount := by
      apply LC_AppPipe_cmd cfg ext env msg st
        (fun st' => st' = (st.sendEvent LC_EventID.LC_LEN_ERR_EID).incCmdErrCount) m3
      · intro c1
        rw [if_pos c1] at hexp
        have hn := Option.some.inj hexp
        subst hn
        exact (hb1 hlen).1
      · intro c1 c2
        rw [if_neg c1, if_pos c2] at hexp
        have hn := Option.some.inj hexp
        subst hn
        exact (hb1 hlen).2
      · intro c1 c2 c3
        rw [if_neg c1, if_neg c2, if_pos (Or.inl c3)] at hexp
        have hn := Option.some.inj hexp
        subst hn
        exact (hb2 hlen).1
      · intro c1 c2 c3 c4
        rw [if_neg c1, if_neg c2, if_pos (Or.inr (Or.inl c4))] at hexp
        have hn := Option.some.inj hexp
        subst hn
        exact ⟨_, (hb2 hlen).2.1, rfl⟩
      · intro c1 c2 c3 c4 c5
        rw [if_neg c1, if_neg c2, if_pos (Or.inr (Or.inr (Or.inl c5)))] at hexp
        have hn := Option.some.inj hexp
        subst hn
        exact ⟨_, (hb2 hlen).2.2.1, rfl⟩
      · intro c1 c2 c3 c4 c5 c6
        rw [if_neg c1, if_neg c2, if_pos (Or.inr (Or.inr (Or.inr (Or.inl c6))))] at hexp
        have hn := Option.some.inj hexp
        subst hn
        exact ⟨_, (hb2 hlen).2.2.2.1, rfl⟩
      · intro c1 c2 c3 c4 c5 c6 c7
        rw [if_neg c1, if_neg c2, if_pos (Or.inr (Or.inr (Or.inr (Or.inr c7))))] at hexp
        have hn := Option.some.inj hexp
        subst hn
        exact ⟨_, (hb2 hlen).2.2.2.2, rfl⟩
      · intro c1 c2 c3 c4 c5 c6 c7
        rw [if_neg c1, if_neg c2, if_neg (by
          intro h
          rcases h with h | h | h | h | h
          · exact c3 h
          · exact c4 h
          · exact c5 h
          · exact c6 h
          · exact c7 h)] at hexp
        cases hexp
    obtain ⟨st', hrun, heq⟩ := key
    refine ⟨cfg.CFE_SUCCESS, st', hrun, ?_, ?_, ?_⟩
    · intro _
      subst heq
      exact ⟨rfl, rfl, rfl, rfl, rfl, rfl, rfl⟩
    · intro h; exact absurd h m2
    · intro h; exact absurd h m1
  · unfold expectedLength at hexp
    rw [if_neg m1, if_neg m2, if_neg m3] at hexp
    cases hexp

/-- Concrete instance of C32 on the demonstration state, whose counters are 10 and 2: a
set-LC-state command, a housekeeping request and a sample request, each one byte too
long. -/
theorem C32_wrong_length_rejected_witness :
    (∃ rc st', LC_AppPipe demoCfg demoExt demoEnv (demoMsg LC_CMD_MID 2 13 2 0 0) demoState
        = some (rc, st') ∧ st'.LC_AppData.CmdErrCount = 3 ∧ st'.LC_AppData.CmdCount = 10 ∧
      st'.LC_AppData.CurrentLCState = 1 ∧
      st'.LC_OperData.WRTPtr = demoState.LC_OperData.WRTPtr ∧
      st'.LC_OperData.ARTPtr = demoState.LC_OperData.ARTPtr) ∧
    (∃ rc st', LC_AppPipe demoCfg demoExt demoEnv (demoMsg LC_SEND_HK_MID 0 9 0 0 0) demoState
        = some (rc, st') ∧ st'.LC_AppData.CmdErrCount = 2 ∧ st'.LC_AppData.CmdCount = 10) ∧
    (∃ rc st', LC_AppPipe demoCfg demoExt demoEnv (demoMsg LC_SAMPLE_AP_MID 0 17 0 3 1)
        demoState = some (rc, st') ∧
      st'.LC_AppData.CmdErrCount = 2 ∧ st'.LC_AppData.CmdCount = 10) := by
  obtain ⟨r1, s1, h1, c1, _, _⟩ := C32_wrong_length_rejected demoCfg demoExt demoEnv
    (demoMsg LC_CMD_MID 2 13 2 0 0) demoState (by decide) (by decide) (by decide) 12
    (by decide) (by decide)
  obtain ⟨r2, s2, h2, _, c2, _⟩ := C32_wrong_length_rejected demoCfg demoExt demoEnv
    (demoMsg LC_SEND_HK_MID 0 9 0 0 0) demoState (by decide) (by decide) (by decide) 8
    (by decide) (by decide)
  obtain ⟨r3, s3, h3, _, _, c3⟩ := C32_wrong_length_rejected demoCfg demoExt demoEnv
    (demoMsg LC_SAMPLE_AP_MID 0 17 0 3 1) demoState (by decide) (by decide) (by decide) 16
    (by decide) (by decide)
  obtain ⟨_, _, e1, e2, e3, e4, e5⟩ := c1 (by decide)
  obtain ⟨f1, f2⟩ := c2 (by decide)
  obtain ⟨_, _, g1, g2⟩ := c3 (by decide)
  exact ⟨⟨r1, s1, h1, e1, e2, e3, e4, e5⟩, ⟨r2, s2, h2, f1, f2⟩, ⟨r3, s3, h3, g1, g2⟩⟩

/-! ## Sampling on request -/

/-- C33: when a sample request calls the sampler.  A sample request returns (the sampler
is assumed to keep the dimension of the watchpoint results table, which the aging loop
runs over).  If the request is accepted (`sampleAccepted`: right length, LC not disabled,
both indices the "all" sentinel or start not after end and end inside the table) the
state returned is the one the sampler `LC_SampleAPs` leaves when called once with the
range the request names (`sampledRange`: `0 .. LC_MAX_ACTIONPOINTS - 1` for "all",
otherwise `StartIndex .. EndIndex`), aged by one step when `UpdateAge` is not zero, and
the range satisfies start ≤ end < `LC_MAX_ACTIONPOINTS`.  If the request is not accepted
the result does not depend on the sampler, `LC_AppData` with both command counters and
`LC_OperData` with the watchpoint results are unchanged (no sampling, no aging) and no
sampler call is recorded.  A request with exactly one index equal to the sentinel is not
accepted.  For a sampler that records no calls of its own, the calls of the request
contain a sampler call exactly when the request is accepted, and then it is the only
call. -/
theorem C33_sampling_invoked (cfg : LC_Config) (ext : LC_Externals) (msg : CFE_SB_Msg)
    (st : LC_State) (hs : cfg.SizesOK) (hst : st.Sized cfg)
    (hmid : msg.MsgId = LC_SAMPLE_AP_MID)
    (hext : ∀ (s e : Nat) (t : LC_State),
      (ext.LC_SampleAPs s e t).LC_OperData.WRTPtr.length = t.LC_OperData.WRTPtr.length) :
    ∃ st', LC_SampleAPReq cfg ext msg st = some st' ∧
      (sampleAccepted cfg msg st →
        (sampledRange cfg msg).1 ≤ (sampledRange cfg msg).2 ∧
        (sampledRange cfg msg).2 < cfg.LC_MAX_ACTIONPOINTS ∧
        st' = (if msg.UpdateAge ≠ 0 then
            (callSampleAPs ext (sampledRange cfg msg).1 (sampledRange cfg msg).2 st).setWRT
              ((callSampleAPs ext (sampledRange cfg msg).1 (sampledRange cfg msg).2
                st).LC_OperData.WRTPtr.map (ageEntry cfg))
          else callSampleAPs ext (sampledRange cfg msg).1 (sampledRange cfg msg).2 st)) ∧
      (¬ sampleAccepted cfg msg st →
        st'.LC_AppData = st.LC_AppData ∧ st'.LC_OperData = st.LC_OperData ∧
        (∃ ev, st'.Calls = st.Calls ++ ev ∧ ∀ c ∈ ev, LC_Call.isSampleAPs c = false) ∧
        ∀ ext' : LC_Externals, LC_SampleAPReq cfg ext' msg st = some st') ∧
      ((msg.StartIndex = LC_ALL_ACTIONPOINTS ∧ msg.EndIndex ≠ LC_ALL_ACTIONPOINTS) ∨
          (msg.StartIndex ≠ LC_ALL_ACTIONPOINTS ∧ msg.EndIndex = LC_ALL_ACTIONPOINTS) →
        ¬ sampleAccepted cfg msg st) ∧
      ((∀ (s e : Nat) (t : LC_State), (ext.LC_SampleAPs s e t).Calls = t.Calls) →
        (sampleAccepted cfg msg st →
          st'.Calls = st.Calls ++
            [LC_Call.LC_SampleAPs (sampledRange cfg msg).1 (sampledRange cfg msg).2]) ∧
        ((∃ c ∈ st'.Calls.drop st.Calls.length, LC_Call.isSampleAPs c = true) ↔
          sampleAccepted cfg msg st)) := by
  obtain ⟨hw0, hw4, hwmax, ha0, ha2, hamax, hwb, hab⟩ := hs
  have hone : (msg.StartIndex = LC_ALL_ACTIONPOINTS ∧ msg.EndIndex ≠ LC_ALL_ACTIONPOINTS) ∨
      (msg.StartIndex ≠ LC_ALL_ACTIONPOINTS ∧ msg.EndIndex = LC_ALL_ACTIONPOINTS) →
      ¬ sampleAccepted cfg msg st := by
    intro h hacc
    obtain ⟨_, _, hr⟩ := hacc
    unfold LC_ALL_ACTIONPOINTS at h hr
    omega
  by_cases hacc : sampleAccepted cfg msg st
  · have hrun := LC_SampleAPReq_accepted cfg ext msg st hst.1 (by omega) hext hacc
    have hrange : (sampledRange cfg msg).1 ≤ (sampledRange cfg msg).2 ∧
        (sampledRange cfg msg).2 < cfg.LC_MAX_ACTIONPOINTS := by
      obtain ⟨_, _, hr⟩ := hacc
      unfold sampledRange
      by_cases h1 : msg.StartIndex = LC_ALL_ACTIONPOINTS ∧ msg.EndIndex = LC_ALL_ACTIONPOINTS
      · rw [if_pos h1]
        exact ⟨Nat.zero_le _, by show cfg.LC_MAX_ACTIONPOINTS - 1 < _; omega⟩
      · rw [if_neg h1]
        exact hr.resolve_left h1
    refine ⟨_, hrun, fun _ => ⟨hrange.1, hrange.2, rfl⟩, fun h => absurd hacc h, hone, ?_⟩
    intro hcalls
    have hc : (if msg.UpdateAge ≠ 0 then
          (callSampleAPs ext (sampledRange cfg msg).1 (sampledRange cfg msg).2 st).setWRT
            ((callSampleAPs ext (sampledRange cfg msg).1 (sampledRange cfg msg).2
              st).LC_OperData.WRTPtr.map (ageEntry cfg))
        else callSampleAPs ext (sampledRange cfg msg).1 (sampledRange cfg msg).2 st).Calls =
        st.Calls ++ [LC_Call.LC_SampleAPs (sampledRange cfg msg).1 (sampledRange cfg msg).2] := by
      have h0 : (callSampleAPs ext (sampledRange cfg msg).1 (sampledRange cfg msg).2 st).Calls =
          st.Calls ++ [LC_Call.LC_SampleAPs (sampledRange cfg msg).1 (sampledRange cfg msg).2] := by
        unfold callSampleAPs
        rw [hcalls]
        rfl
      split_ifs
      · exact h0
      · exact h0
    refine ⟨fun _ => hc, ?_⟩
    constructor
    · intro _; exact hacc
    · intro _
      rw [hc, List.drop_left]
      exact ⟨_, List.mem_singleton.mpr rfl, rfl⟩
  · obtain ⟨st', hall, hshape⟩ := LC_SampleAPReq_rejected cfg msg st hmid hacc
    have hev : ∃ ev, st'.Calls = st.Calls ++ ev ∧ ∀ c ∈ ev, LC_Call.isSampleAPs c = false := by
      rcases hshape with h | ⟨e, h⟩
      · exact ⟨[], by rw [h]; simp, by simp⟩
      · refine ⟨[LC_Call.CFE_EVS_SendEvent e], by rw [h]; rfl, ?_⟩
        intro c hc
        rw [List.mem_singleton.mp hc]
        rfl
    refine ⟨st', hall ext, fun h => absurd h hacc, fun _ => ⟨?_, ?_, hev, hall⟩, hone, ?_⟩
    · rcases hshape with h | ⟨e, h⟩
      · rw [h]
      · rw [h]; rfl
    · rcases hshape with h | ⟨e, h⟩
      · rw [h]
      · rw [h]; rfl
    · intro _
      refine ⟨fun h => absurd h hacc, ?_⟩
      constructor
      · rintro ⟨c, hc, hs⟩
        obtain ⟨ev, hev1, hev2⟩ := hev
        rw [hev1, List.drop_left] at hc
        rw [hev2 c hc] at hs
        cases hs
      · intro h; exact absurd h hacc

/-- Concrete instance of C33 on the demonstration state: a request for the range 1 .. 2
without aging calls the sampler once with that range; the request 1 .. 0xFFFF, in which
only the end is the sentinel, changes no table and no counter and calls nothing but the
event service. -/
theorem C33_sampling_invoked_witness :
    (∃ st', LC_SampleAPReq demoCfg demoExt (demoMsg LC_SAMPLE_AP_MID 0 16 1 2 0) demoState
        = some st' ∧ st'.Calls = [LC_Call.LC_SampleAPs 1 2]) ∧
    (∃ st', LC_SampleAPReq demoCfg demoExt (demoMsg LC_SAMPLE_AP_MID 0 16 1 0xFFFF 1) demoState
        = some st' ∧ st'.LC_AppData = demoState.LC_AppData ∧
      st'.LC_OperData = demoState.LC_OperData ∧
      ¬ ∃ c ∈ st'.Calls, LC_Call.isSampleAPs c = true) := by
  obtain ⟨s1, r1, _, _, _, t1⟩ := C33_sampling_invoked demoCfg demoExt
    (demoMsg LC_SAMPLE_AP_MID 0 16 1 2 0) demoState (by decide) (by decide) (by decide)
    (fun _ _ _ => rfl)
  obtain ⟨s2, r2, _, n2, _, t2⟩ := C33_sampling_invoked demoCfg demoExt
    (demoMsg LC_SAMPLE_AP_MID 0 16 1 0xFFFF 1) demoState (by decide) (by decide) (by decide)
    (fun _ _ _ => rfl)
  obtain ⟨a2, o2, _, _⟩ := n2 (by decide)
  refine ⟨⟨s1, r1, ?_⟩, ⟨s2, r2, a2, o2, ?_⟩⟩
  · have := (t1 (fun _ _ _ => rfl)).1 (by decide)
    simpa [demoState] using this
  · intro h
    have hiff := (t2 (fun _ _ _ => rfl)).2
    have hd : (∃ c ∈ s2.Calls.drop demoState.Calls.length, LC_Call.isSampleAPs c = true) := by
      simpa [demoState] using h
    exact absurd (hiff.mp hd) (by decide)

/-! ## Housekeeping requests of the wrong length -/

/-- C34: a housekeeping request of the wrong length.  It returns; every field of the
housekeeping packet keeps its value and no call transmits the packet; table management
is run, on the incoming state with the length event recorded, and its calls follow that
event; when it returns `CFE_SUCCESS` the critical data store update follows, which for an
active store starts with the write of the watchpoint results table, and otherwise no
further call is made.  The returned code is the one table management returns, and a
request of the right length on the same state with the same service answers returns the
same code. -/
theorem C34_wrong_length_housekeeping (cfg : LC_Config) (env : CFE_Env) (msg : CFE_SB_Msg)
    (st : LC_State) (hs : cfg.SizesOK) (hst : st.Sized cfg)
    (henv : env.ADTPtr.length = cfg.LC_MAX_ACTIONPOINTS)
    (hmid : msg.MsgId = LC_SEND_HK_MID)
    (hlen : msg.TotalMsgLength ≠ u16 (sizeof_LC_NoArgsCmd_t cfg)) :
    ∃ rc st2 st' more,
      LC_ManageTables cfg env (st.sendEvent LC_EventID.LC_HKREQ_LEN_ERR_EID) = some (rc, st2) ∧
      LC_HousekeepingReq cfg env msg st = some (rc, st') ∧
      rc = (if env.WDT_GetAddress = cfg.CFE_TBL_INFO_UPDATED ∨ env.WDT_GetAddress = cfg.CFE_SUCCESS
        then (if env.ADT_GetAddress = cfg.CFE_TBL_INFO_UPDATED ∨ env.ADT_GetAddress = cfg.CFE_SUCCESS
          then cfg.CFE_SUCCESS else env.ADT_GetAddress)
        else env.WDT_GetAddress) ∧
      st' = (if rc = cfg.CFE_SUCCESS then updateCDS cfg env st2 else st2) ∧
      st'.LC_OperData.HkPacket = st.LC_OperData.HkPacket ∧
      st'.Calls = st.Calls ++ [LC_Call.CFE_EVS_SendEvent LC_EventID.LC_HKREQ_LEN_ERR_EID]
        ++ manageTablesCalls cfg env ++ more ∧
      (∀ c ∈ [LC_Call.CFE_EVS_SendEvent LC_EventID.LC_HKREQ_LEN_ERR_EID]
        ++ manageTablesCalls cfg env ++ more, LC_Call.isSendMsg c = false) ∧
      (rc = cfg.CFE_SUCCESS → st.LC_OperData.HaveActiveCDS = true →
        ∃ rest, more = LC_Call.CFE_ES_CopyToCDS_WRT st'.LC_OperData.WRTPtr :: rest) ∧
      (¬ (rc = cfg.CFE_SUCCESS ∧ st.LC_OperData.HaveActiveCDS = true) → more = []) ∧
      (∀ msg' : CFE_SB_Msg, msg'.TotalMsgLength = u16 (sizeof_LC_NoArgsCmd_t cfg) →
        ∃ st'', LC_HousekeepingReq cfg env msg' st = some (rc, st'')) := by
  obtain ⟨rc, st2, hm, hrc, hpkt, hcds, hcalls, hrun⟩ :=
    LC_HousekeepingReq_badlen cfg env msg st hs hst henv hmid hlen
  have hvalid : ∀ msg' : CFE_SB_Msg, msg'.TotalMsgLength = u16 (sizeof_LC_NoArgsCmd_t cfg) →
      ∃ st'', LC_HousekeepingReq cfg env msg' st = some (rc, st'') := by
    intro msg' _
    obtain ⟨_, rc', sb, _, _, _, _, _, hrc', _, _, _, _, _, hrun'⟩ :=
      LC_HousekeepingReq_full cfg env msg' st hs hst henv
    rw [← hrc] at hrc'
    subst hrc'
    by_cases hcode : rc' = cfg.CFE_SUCCESS
    · rw [if_neg (fun h => h hcode)] at hrun'
      exact ⟨_, by rw [hrun', hcode]⟩
    · rw [if_pos hcode] at hrun'
      exact ⟨_, hrun'⟩
  by_cases hcode : rc = cfg.CFE_SUCCESS
  · rw [if_neg (fun h => h hcode)] at hrun
    obtain ⟨more, hmore, hns, hoff, hon⟩ := updateCDS_calls cfg env st2
    refine ⟨rc, st2, updateCDS cfg env st2, more, hm, by rw [hrun, hcode], hrc,
      by rw [if_pos hcode],
      by rw [(updateCDS_frame cfg env st2).1, hpkt], by rw [hmore, hcalls], ?_, ?_, ?_, hvalid⟩
    · intro c hc
      rcases List.mem_append.mp hc with h | h
      · rcases List.mem_append.mp h with h | h
        · rw [List.mem_singleton.mp h]; rfl
        · exact manageTablesCalls_noSend cfg env c h
      · exact hns c h
    · intro _ hact
      rw [(updateCDS_frame cfg env st2).2.1]
      exact hon (by rw [hcds, hact])
    · intro hno
      apply hoff
      rw [hcds]
      cases hb : st.LC_OperData.HaveActiveCDS
      · rfl
      · exact absurd ⟨hcode, hb⟩ hno
  · rw [if_pos hcode] at hrun
    refine ⟨rc, st2, st2, [], hm, hrun, hrc, by rw [if_neg hcode], hpkt,
      by rw [hcalls]; simp, ?_,
      fun h => absurd h hcode, fun _ => rfl, hvalid⟩
    intro c hc
    rw [List.append_nil] at hc
    rcases List.mem_append.mp hc with h | h
    · rw [List.mem_singleton.mp h]; rfl
    · exact manageTablesCalls_noSend cfg env c h

/-- Concrete instance of C34 on the demonstration state, whose critical data store is
active: a housekeeping request one byte too long leaves the packet alone, returns
`CFE_SUCCESS` like a request of the right length, sends no packet and writes the
watchpoint results table to the critical data store. -/
theorem C34_wrong_length_housekeeping_witness :
    ∃ st' st'', LC_HousekeepingReq demoCfg demoEnv (demoMsg LC_SEND_HK_MID 0 9 0 0 0) demoState
        = some (0, st') ∧
      LC_HousekeepingReq demoCfg demoEnv (demoMsg LC_SEND_HK_MID 0 8 0 0 0) demoState
        = some (0, st'') ∧
      st'.LC_OperData.HkPacket = demoState.LC_OperData.HkPacket ∧
      (∀ c ∈ st'.Calls, LC_Call.isSendMsg c = false) ∧
      LC_Call.CFE_ES_CopyToCDS_WRT st'.LC_OperData.WRTPtr ∈ st'.Calls := by
  obtain ⟨rc, st2, st', more, hm, hrun, hrc, _, hpkt, hcalls, hns, hon, _, hvalid⟩ :=
    C34_wrong_length_housekeeping demoCfg demoEnv (demoMsg LC_SEND_HK_MID 0 9 0 0 0) demoState
      (by decide) (by decide) (by decide) (by decide) (by decide)
  have hrc0 : rc = 0 := by rw [hrc]; decide
  subst hrc0
  obtain ⟨st'', hrun''⟩ := hvalid (demoMsg LC_SEND_HK_MID 0 8 0 0 0) (by decide)
  obtain ⟨rest, hrest⟩ := hon (by decide) (by decide)
  refine ⟨st', st'', hrun, hrun'', hpkt, ?_, ?_⟩
  · intro c hc
    rw [hcalls] at hc
    exact hns c (by simpa [demoState] using hc)
  · rw [hcalls, hrest]
    simp

/-! ## Bounds of the packing loops and the range resets -/

/-- C35: telemetry packing stays in range.  Provided `LC_MAX_WATCHPOINTS` is a multiple of
4 not above 65532, `LC_MAX_ACTIONPOINTS` a multiple of 2 not above 65534, the result
tables have these dimensions and the packet arrays have `LC_MAX_WATCHPOINTS / 4` and
`LC_MAX_ACTIONPOINTS / 2` bytes: both packing loops return, which with checked array
accesses and a fuel bound means that they end and never index outside an array, and so
does the packing part of the housekeeping request, whose packet holds their results.
`logW` and `logA` are the values of `TableIndex` the loop bodies were executed for, in
order.  For each of them the highest index read (`TableIndex + 3`, resp.
`TableIndex + 1`) lies inside the results table, and the execution of the body is exactly
one write to the packet array, at the byte `TableIndex / 4`, resp. `TableIndex / 2`:
applied to any array the body returns that array with this one byte replaced (and fails
if the byte lies outside).  The bytes written by the successive executions are
`0, 1, 2, ...` up to the length of the array, so every byte is written exactly once.  The
bodies read the results table at `TableIndex .. TableIndex + 3`, resp.
`TableIndex, TableIndex + 1`, only: they give the same result on any table that agrees
there. -/
theorem C35_packing_in_range (cfg : LC_Config) (st : LC_State)
    (hw4 : cfg.LC_MAX_WATCHPOINTS % 4 = 0) (hwmax : cfg.LC_MAX_WATCHPOINTS ≤ 65532)
    (ha2 : cfg.LC_MAX_ACTIONPOINTS % 2 = 0) (hamax : cfg.LC_MAX_ACTIONPOINTS ≤ 65534)
    (hWRT : st.LC_OperData.WRTPtr.length = cfg.LC_MAX_WATCHPOINTS)
    (hART : st.LC_OperData.ARTPtr.length = cfg.LC_MAX_ACTIONPOINTS)
    (hwp : st.LC_OperData.HkPacket.WPResults.length = cfg.LC_MAX_WATCHPOINTS / 4)
    (hap : st.LC_OperData.HkPacket.APResults.length = cfg.LC_MAX_ACTIONPOINTS / 2) :
    ∃ wp ap A logW logA st',
      packWPResults cfg st.LC_OperData.WRTPtr st.LC_OperData.HkPacket.WPResults = some wp ∧
      packWPResultsLogged cfg st.LC_OperData.WRTPtr st.LC_OperData.HkPacket.WPResults
        = some (wp, logW) ∧
      packAPResults cfg st.LC_OperData.ARTPtr (st.LC_OperData.HkPacket.APResults, 0)
        = some (ap, A) ∧
      packAPResultsLogged cfg st.LC_OperData.ARTPtr (st.LC_OperData.HkPacket.APResults, 0)
        = some ((ap, A), logA) ∧
      packHousekeeping cfg st = some st' ∧
      st'.LC_OperData.HkPacket.WPResults = wp ∧ st'.LC_OperData.HkPacket.APResults = ap ∧
      (∀ i ∈ logW, i + 3 < st.LC_OperData.WRTPtr.length ∧
        u16 (i / 4) < st.LC_OperData.HkPacket.WPResults.length) ∧
      (∀ i ∈ logA, i + 1 < st.LC_OperData.ARTPtr.length ∧
        u16 (i / 2) < st.LC_OperData.HkPacket.APResults.length) ∧
      (∀ i ∈ logW, ∃ b, ∀ s : List Nat,
        packWPBody cfg st.LC_OperData.WRTPtr i s =
          if u16 (i / 4) < s.length then some (s.set (u16 (i / 4)) b) else none) ∧
      (∀ i ∈ logA, ∃ b, ∀ s : List Nat × Nat, ∃ A',
        packAPBody cfg st.LC_OperData.ARTPtr i s =
          if u16 (i / 2) < s.1.length then some (s.1.set (u16 (i / 2)) b, A') else none) ∧
      logW.map (fun i => u16 (i / 4)) = List.range st.LC_OperData.HkPacket.WPResults.length ∧
      logA.map (fun i => u16 (i / 2)) = List.range st.LC_OperData.HkPacket.APResults.length ∧
      (∀ k, k < st.LC_OperData.HkPacket.WPResults.length →
        (logW.map (fun i => u16 (i / 4))).count k = 1) ∧
      (∀ k, k < st.LC_OperData.HkPacket.APResults.length →
        (logA.map (fun i => u16 (i / 2))).count k = 1) ∧
      (∀ (i : Nat) (s : List Nat) (WRT' : List LC_WRTEntry_t),
        WRT'[i + 3]? = st.LC_OperData.WRTPtr[i + 3]? →
        WRT'[i + 2]? = st.LC_OperData.WRTPtr[i + 2]? →
        WRT'[i + 1]? = st.LC_OperData.WRTPtr[i + 1]? →
        WRT'[i]? = st.LC_OperData.WRTPtr[i]? →
        packWPBody cfg WRT' i s = packWPBody cfg st.LC_OperData.WRTPtr i s) ∧
      (∀ (i : Nat) (s : List Nat × Nat) (ART' : List LC_ARTEntry_t),
        ART'[i + 1]? = st.LC_OperData.ARTPtr[i + 1]? →
        ART'[i]? = st.LC_OperData.ARTPtr[i]? →
        packAPBody cfg ART' i s = packAPBody cfg st.LC_OperData.ARTPtr i s) := by
  obtain ⟨wp, hwrun, _, hwlog⟩ := packWPResultsLogged_spec cfg st.LC_OperData.WRTPtr
    st.LC_OperData.HkPacket.WPResults hWRT hw4 hwmax (by omega)
  obtain ⟨ap, A, harun, _, halog⟩ := packAPResultsLogged_spec cfg st.LC_OperData.ARTPtr
    st.LC_OperData.HkPacket.APResults 0 hART ha2 hamax (by omega) (by omega)
  have hW := map_range'_div 4 (cfg.LC_MAX_WATCHPOINTS / 4) (by omega) (by omega)
  have hA := map_range'_div 2 (cfg.LC_MAX_ACTIONPOINTS / 2) (by omega) (by omega)
  have hp : ∃ st', packHousekeeping cfg st = some st' ∧
      st'.LC_OperData.HkPacket.WPResults = wp ∧ st'.LC_OperData.HkPacket.APResults = ap := by
    unfold packHousekeeping
    simp only [hwrun, harun]
    exact ⟨_, rfl, rfl, rfl⟩
  obtain ⟨st', hp1, hp2, hp3⟩ := hp
  have hinW : ∀ i ∈ (List.range' 0 (cfg.LC_MAX_WATCHPOINTS / 4 - 0)).map (fun k => 0 + 4 * k),
      i + 3 < st.LC_OperData.WRTPtr.length ∧
        u16 (i / 4) < st.LC_OperData.HkPacket.WPResults.length := by
    intro i hi
    obtain ⟨k, hk, rfl⟩ := List.mem_map.mp hi
    have hk' := (List.mem_range'_1.mp hk).2
    simp only [u16]
    omega
  have hinA : ∀ i ∈ (List.range' 0 (cfg.LC_MAX_ACTIONPOINTS / 2 - 0)).map (fun k => 0 + 2 * k),
      i + 1 < st.LC_OperData.ARTPtr.length ∧
        u16 (i / 2) < st.LC_OperData.HkPacket.APResults.length := by
    intro i hi
    obtain ⟨k, hk, rfl⟩ := List.mem_map.mp hi
    have hk' := (List.mem_range'_1.mp hk).2
    simp only [u16]
    omega
  refine ⟨wp, ap, A, _, _, st', hwrun, hwlog, harun, halog, hp1, hp2, hp3, hinW, hinA,
    ?_, ?_, ?_, ?_, ?_, ?_, ?_, ?_⟩
  · intro i hi
    exact packWPBody_write cfg st.LC_OperData.WRTPtr i (hinW i hi).1
  · intro i hi
    exact packAPBody_write cfg st.LC_OperData.ARTPtr i (hinA i hi).1
  · rw [hwp]; exact hW
  · rw [hap]; exact hA
  · intro k hk
    rw [hW]
    exact List.count_eq_one_of_mem (List.nodup_range _) (List.mem_range.mpr (by omega))
  · intro k hk
    rw [hA]
    exact List.count_eq_one_of_mem (List.nodup_range _) (List.mem_range.mpr (by omega))
  · intro i s WRT' h3 h2 h1 h0
    exact packWPBody_reads cfg _ WRT' i s h3 h2 h1 h0
  · intro i s ART' h1 h0
    exact packAPBody_reads cfg _ ART' i s h1 h0

/-- Witness for C35 on the demonstration state, whose packet arrays have two bytes each
for eight watchpoints and four actionpoints: the bodies are executed for the table
indices 0 and 4, resp. 0 and 2, and write the bytes 0 and 1; the body for watchpoints
4 .. 7 replaces byte 1 of the array and nothing else. -/
theorem C35_packing_in_range_witness :
    ∃ wp ap A st',
      packWPResultsLogged demoCfg demoState.LC_OperData.WRTPtr
        demoState.LC_OperData.HkPacket.WPResults = some (wp, [0, 4]) ∧
      packAPResultsLogged demoCfg demoState.LC_OperData.ARTPtr
        (demoState.LC_OperData.HkPacket.APResults, 0) = some ((ap, A), [0, 2]) ∧
      packHousekeeping demoCfg demoState = some st' ∧
      st'.LC_OperData.HkPacket.WPResults = wp ∧ st'.LC_OperData.HkPacket.APResults = ap ∧
      (∃ b, ∀ s : List Nat,
        packWPBody demoCfg demoState.LC_OperData.WRTPtr 4 s =
          if u16 (4 / 4) < s.length then some (s.set (u16 (4 / 4)) b) else none) ∧
      (∃ b, ∀ s : List Nat × Nat, ∃ A',
        packAPBody demoCfg demoState.LC_OperData.ARTPtr 2 s =
          if u16 (2 / 2) < s.1.length then some (s.1.set (u16 (2 / 2)) b, A') else none) ∧
      ([0, 4].map (fun i => u16 (i / 4))).count 1 = 1 ∧
      ([0, 2].map (fun i => u16 (i / 2))).count 1 = 1 := by
  obtain ⟨wp, ap, A, logW, logA, st', _, hwlog, _, halog, hp, hw, ha, _, _, hbw, hba, _, _,
    hcw, hca, _, _⟩ :=
    C35_packing_in_range demoCfg demoState (by decide) (by decide) (by decide) (by decide)
      (by decide) (by decide) (by decide) (by decide)
  have hlw : (packWPResultsLogged demoCfg demoState.LC_OperData.WRTPtr
      demoState.LC_OperData.HkPacket.WPResults).map Prod.snd = some [0, 4] := by decide
  have hla : (packAPResultsLogged demoCfg demoState.LC_OperData.ARTPtr
      (demoState.LC_OperData.HkPacket.APResults, 0)).map Prod.snd = some [0, 2] := by decide
  rw [hwlog] at hlw
  rw [halog] at hla
  have e1 : logW = [0, 4] := Option.some.inj hlw
  have e2 : logA = [0, 2] := Option.some.inj hla
  subst e1 e2
  exact ⟨wp, ap, A, st', hwlog, halog, hp, hw, ha, hbw 4 (by decide), hba 2 (by decide),
    hcw 1 (by decide), hca 1 (by decide)⟩

/-- C36: the range resets are bounded and in range.  In a state whose tables have the
declared dimensions: for `StartIndex ≤ EndIndex` below the table maximum
`LC_ResetResultsWP` and `LC_ResetResultsAP` return (so they end and never index outside
the table), with either value of `ResetStatsCmd`, and the values of `TableIndex` their
body is executed for are `StartIndex`, ..., `EndIndex`, each once; the 32-bit increment of
every such index is exact.  With `StartIndex > EndIndex` they return the table as it is,
for any table, without executing the body.  The calls made from `lc_cmds.c`: the
whole-table calls pass `LC_MAX_... - 1` converted to 32 bits, which lies below the
maximum; the stats-reset commands call with `0 .. LC_MAX_... - 1` for the "all"
sentinel, with the number for both indices when it lies below the maximum, and not at
all otherwise; each of these calls returns, and so does table management with its two
reload resets. -/
theorem C36_range_resets_bounded (cfg : LC_Config) (st : LC_State) (hs : cfg.SizesOK)
    (hst : st.Sized cfg) :
    (∀ (s e : Nat) (flag : Bool), s ≤ e → e < cfg.LC_MAX_WATCHPOINTS →
      ∃ ys, LC_ResetResultsWP cfg s e flag st.LC_OperData.WRTPtr = some ys ∧
        LC_ResetResultsWPLogged cfg s e flag st.LC_OperData.WRTPtr
          = some (ys, List.range' s (e - s + 1)) ∧
        ys.length = cfg.LC_MAX_WATCHPOINTS) ∧
    (∀ (s e : Nat) (flag : Bool), s ≤ e → e < cfg.LC_MAX_ACTIONPOINTS →
      ∃ ys, LC_ResetResultsAP cfg st.LC_OperData.ADTPtr s e flag st.LC_OperData.ARTPtr = some ys ∧
        LC_ResetResultsAPLogged cfg st.LC_OperData.ADTPtr s e flag st.LC_OperData.ARTPtr
          = some (ys, List.range' s (e - s + 1)) ∧
        ys.length = cfg.LC_MAX_ACTIONPOINTS) ∧
    (∀ (s e i : Nat), s ≤ e → i ∈ List.range' s (e - s + 1) →
      (e < cfg.LC_MAX_WATCHPOINTS ∨ e < cfg.LC_MAX_ACTIONPOINTS) →
      s ≤ i ∧ i ≤ e ∧ u32 (i + 1) = i + 1) ∧
    (∀ (s e : Nat) (flag : Bool) (WRT : List LC_WRTEntry_t), e < s →
      LC_ResetResultsWP cfg s e flag WRT = some WRT ∧
      LC_ResetResultsWPLogged cfg s e flag WRT = some (WRT, [])) ∧
    (∀ (s e : Nat) (flag : Bool) (ADT : List LC_ADTEntry_t) (ART : List LC_ARTEntry_t), e < s →
      LC_ResetResultsAP cfg ADT s e flag ART = some ART ∧
      LC_ResetResultsAPLogged cfg ADT s e flag ART = some (ART, [])) ∧
    u32Pred cfg.LC_MAX_WATCHPOINTS = cfg.LC_MAX_WATCHPOINTS - 1 ∧
    u32Pred cfg.LC_MAX_WATCHPOINTS < cfg.LC_MAX_WATCHPOINTS ∧
    u32Pred cfg.LC_MAX_ACTIONPOINTS = cfg.LC_MAX_ACTIONPOINTS - 1 ∧
    u32Pred cfg.LC_MAX_ACTIONPOINTS < cfg.LC_MAX_ACTIONPOINTS ∧
    (∀ msg : CFE_SB_Msg,
      (msg.WPNumber = LC_ALL_WATCHPOINTS →
        ∃ ys, LC_ResetResultsWP cfg 0 (cfg.LC_MAX_WATCHPOINTS - 1) true st.LC_OperData.WRTPtr
            = some ys ∧
          resetWPStatsTarget cfg msg st = some (true, st.setWRT ys)) ∧
      (msg.WPNumber ≠ LC_ALL_WATCHPOINTS → msg.WPNumber < cfg.LC_MAX_WATCHPOINTS →
        ∃ ys, LC_ResetResultsWP cfg msg.WPNumber msg.WPNumber true st.LC_OperData.WRTPtr
            = some ys ∧
          resetWPStatsTarget cfg msg st = some (true, st.setWRT ys)) ∧
      (msg.WPNumber ≠ LC_ALL_WATCHPOINTS → ¬ msg.WPNumber < cfg.LC_MAX_WATCHPOINTS →
        resetWPStatsTarget cfg msg st
          = some (false, st.incCmdErrCount.sendEvent LC_EventID.LC_WPSTATS_WPNUM_ERR_EID))) ∧
    (∀ msg : CFE_SB_Msg,
      (msg.APNumber = LC_ALL_ACTIONPOINTS →
        ∃ ys, LC_ResetResultsAP cfg st.LC_OperData.ADTPtr 0 (cfg.LC_MAX_ACTIONPOINTS - 1) true
            st.LC_OperData.ARTPtr = some ys ∧
          resetAPStatsTarget cfg msg st = some (true, st.setART ys)) ∧
      (msg.APNumber ≠ LC_ALL_ACTIONPOINTS → msg.APNumber < cfg.LC_MAX_ACTIONPOINTS →
        ∃ ys, LC_ResetResultsAP cfg st.LC_OperData.ADTPtr msg.APNumber msg.APNumber true
            st.LC_OperData.ARTPtr = some ys ∧
          resetAPStatsTarget cfg msg st = some (true, st.setART ys)) ∧
      (msg.APNumber ≠ LC_ALL_ACTIONPOINTS → ¬ msg.APNumber < cfg.LC_MAX_ACTIONPOINTS →
        resetAPStatsTarget cfg msg st
          = some (false, st.incCmdErrCount.sendEvent LC_EventID.LC_APSTATS_APNUM_ERR_EID))) ∧
    (∀ env : CFE_Env, env.ADTPtr.length = cfg.LC_MAX_ACTIONPOINTS →
      ∃ r, LC_ManageTables cfg env st = some r) := by
  obtain ⟨hw0, hw4, hwmax, ha0, ha2, hamax, hwb, hab⟩ := hs
  obtain ⟨hlw, hla, hld, hlwp, hlap⟩ := hst
  have hpw := u32Pred_eq cfg.LC_MAX_WATCHPOINTS hw0 (by omega)
  have hpa := u32Pred_eq cfg.LC_MAX_ACTIONPOINTS ha0 (by omega)
  refine ⟨?_, ?_, ?_, ?_, ?_, hpw, by omega, hpa, by omega, ?_, ?_, ?_⟩
  · intro s e flag hse he
    obtain ⟨ys, h1, h2, h3⟩ := LC_ResetResultsWPLogged_spec cfg s e flag st.LC_OperData.WRTPtr
      hse (by omega) (by omega)
    exact ⟨ys, h1, h2, by omega⟩
  · intro s e flag hse he
    obtain ⟨ys, h1, h2, h3⟩ := LC_ResetResultsAPLogged_spec cfg st.LC_OperData.ADTPtr s e flag
      st.LC_OperData.ARTPtr hse (by omega) (Or.inr (by omega)) (by omega)
    exact ⟨ys, h1, h2, by omega⟩
  · intro s e i hse hi he
    have := List.mem_range'_1.mp hi
    simp only [u32]
    omega
  · intro s e flag WRT hes
    refine ⟨?_, ?_⟩
    · unfold LC_ResetResultsWP
      exact forLoop_skip _ _ _ _ _ _ (by simpa using hes)
    · unfold LC_ResetResultsWPLogged
      exact forLoop_skip _ _ _ _ _ _ (by simpa using hes)
  · intro s e flag ADT ART hes
    refine ⟨?_, ?_⟩
    · unfold LC_ResetResultsAP
      exact forLoop_skip _ _ _ _ _ _ (by simpa using hes)
    · unfold LC_ResetResultsAPLogged
      exact forLoop_skip _ _ _ _ _ _ (by simpa using hes)
  · intro msg
    refine ⟨?_, ?_, ?_⟩
    · intro hall
      obtain ⟨ys, hrun, _⟩ := LC_ResetResultsWP_spec cfg 0 (cfg.LC_MAX_WATCHPOINTS - 1) true
        st.LC_OperData.WRTPtr (by omega) (by omega) (by omega)
      refine ⟨ys, hrun, ?_⟩
      unfold resetWPStatsTarget
      rw [if_pos hall, hpw, hrun]
    · intro hall hn
      obtain ⟨ys, hrun, _⟩ := LC_ResetResultsWP_spec cfg msg.WPNumber msg.WPNumber true
        st.LC_OperData.WRTPtr (by omega) (by omega) (by omega)
      refine ⟨ys, hrun, ?_⟩
      unfold resetWPStatsTarget
      rw [if_neg hall, if_pos hn, hrun]
    · intro hall hn
      unfold resetWPStatsTarget
      rw [if_neg hall, if_neg hn]
  · intro msg
    refine ⟨?_, ?_, ?_⟩
    · intro hall
      obtain ⟨ys, hrun, _⟩ := LC_ResetResultsAP_spec cfg st.LC_OperData.ADTPtr 0
        (cfg.LC_MAX_ACTIONPOINTS - 1) true st.LC_OperData.ARTPtr (by omega) (by omega)
        (Or.inl rfl) (by omega)
      refine ⟨ys, hrun, ?_⟩
      unfold resetAPStatsTarget
      rw [if_pos hall, hpa, hrun]
    · intro hall hn
      obtain ⟨ys, hrun, _⟩ := LC_ResetResultsAP_spec cfg st.LC_OperData.ADTPtr msg.APNumber
        msg.APNumber true st.LC_OperData.ARTPtr (by omega) (by omega) (Or.inl rfl) (by omega)
      refine ⟨ys, hrun, ?_⟩
      unfold resetAPStatsTarget
      rw [if_neg hall, if_pos hn, hrun]
    · intro hall hn
      unfold resetAPStatsTarget
      rw [if_neg hall, if_neg hn]
  · intro env henv
    obtain ⟨rc, st', hrun, _⟩ := LC_ManageTables_spec cfg env st
      ⟨hw0, hw4, hwmax, ha0, ha2, hamax, hwb, hab⟩ ⟨hlw, hla, hld, hlwp, hlap⟩ henv
    exact ⟨_, hrun⟩

/-- Concrete instance of C36 on the demonstration state with eight watchpoints and four
actionpoints: the stats reset of watchpoints 2 .. 5 visits 2, 3, 4, 5; the reload reset of
all actionpoints visits 0, 1, 2, 3; the range 5 .. 2 changes nothing; and the end index
of the whole-table watchpoint reset is 7. -/
theorem C36_range_resets_bounded_witness :
    (∃ ys, LC_ResetResultsWPLogged demoCfg 2 5 true demoState.LC_OperData.WRTPtr
        = some (ys, [2, 3, 4, 5]) ∧ ys.length = 8) ∧
    (∃ ys, LC_ResetResultsAPLogged demoCfg demoState.LC_OperData.ADTPtr 0 3 false
        demoState.LC_OperData.ARTPtr = some (ys, [0, 1, 2, 3])) ∧
    LC_ResetResultsWP demoCfg 5 2 true demoState.LC_OperData.WRTPtr
      = some demoState.LC_OperData.WRTPtr ∧
    u32Pred demoCfg.LC_MAX_WATCHPOINTS = 7 := by
  obtain ⟨hw, ha, _, hew, _, hp, _⟩ :=
    C36_range_resets_bounded demoCfg demoState (by decide) (by decide)
  obtain ⟨ys, _, h2, h3⟩ := hw 2 5 true (by decide) (by decide)
  obtain ⟨zs, _, k2, _⟩ := ha 0 3 false (by decide) (by decide)
  exact ⟨⟨ys, h2, h3⟩, ⟨zs, k2⟩, (hew 5 2 true _ (by decide)).1, hp⟩

/-! ## What a housekeeping request leaves alone -/

/-- C37: telemetry packing and persistence do not write to the engine state.  A
housekeeping request during which neither definition table is reported reloaded returns
with the watchpoint results table, the actionpoint results table, the six global counters
and `CurrentLCState` unchanged.  Of the application data only `CDSSavedOnExit` may differ;
of the operational data only the housekeeping packet and `HaveActiveCDS` may differ,
apart from `ADTPtr`, which designates the definition table that table services hand out
(or the previous one when the second acquisition is not reached). -/
theorem C37_housekeeping_read_only (cfg : LC_Config) (env : CFE_Env) (msg : CFE_SB_Msg)
    (st : LC_State) (hs : cfg.SizesOK) (hst : st.Sized cfg)
    (henv : env.ADTPtr.length = cfg.LC_MAX_ACTIONPOINTS)
    (hmid : msg.MsgId = LC_SEND_HK_MID)
    (hw : env.WDT_GetAddress ≠ cfg.CFE_TBL_INFO_UPDATED)
    (ha : env.WDT_GetAddress = cfg.CFE_SUCCESS →
      env.ADT_GetAddress ≠ cfg.CFE_TBL_INFO_UPDATED) :
    ∃ rc st', LC_HousekeepingReq cfg env msg st = some (rc, st') ∧
      st'.LC_OperData.WRTPtr = st.LC_OperData.WRTPtr ∧
      st'.LC_OperData.ARTPtr = st.LC_OperData.ARTPtr ∧
      st'.LC_AppData.CmdCount = st.LC_AppData.CmdCount ∧
      st'.LC_AppData.CmdErrCount = st.LC_AppData.CmdErrCount ∧
      st'.LC_AppData.APSampleCount = st.LC_AppData.APSampleCount ∧
      st'.LC_AppData.MonitoredMsgCount = st.LC_AppData.MonitoredMsgCount ∧
      st'.LC_AppData.RTSExecCount = st.LC_AppData.RTSExecCount ∧
      st'.LC_AppData.PassiveRTSExecCount = st.LC_AppData.PassiveRTSExecCount ∧
      st'.LC_AppData.CurrentLCState = st.LC_AppData.CurrentLCState ∧
      st'.LC_AppData =
        { st.LC_AppData with CDSSavedOnExit := st'.LC_AppData.CDSSavedOnExit } ∧
      st'.LC_OperData =
        { st.LC_OperData with
          HkPacket := st'.LC_OperData.HkPacket
          HaveActiveCDS := st'.LC_OperData.HaveActiveCDS
          ADTPtr := st'.LC_OperData.ADTPtr } ∧
      (st'.LC_OperData.ADTPtr = st.LC_OperData.ADTPtr ∨ st'.LC_OperData.ADTPtr = env.ADTPtr) := by
  obtain ⟨rc, st', hrun, happ, hcnt, hadt, hwrt, hart⟩ :=
    LC_HousekeepingReq_engine cfg env msg st hs hst henv hmid
  have hwrt' : st'.LC_OperData.WRTPtr = st.LC_OperData.WRTPtr := by
    apply List.ext_getElem?
    intro i
    rw [hwrt i, if_neg hw]
  have hart' : st'.LC_OperData.ARTPtr = st.LC_OperData.ARTPtr := by
    apply List.ext_getElem?
    intro i
    rw [hart i, if_neg]
    rintro ⟨h1 | h1, h2⟩
    · exact hw h1
    · exact ha h1 h2
  have e1 := congrArg LC_AppData_t.CmdCount happ
  have e2 := congrArg LC_AppData_t.CmdErrCount happ
  have e3 := congrArg LC_AppData_t.APSampleCount happ
  have e4 := congrArg LC_AppData_t.MonitoredMsgCount happ
  have e5 := congrArg LC_AppData_t.RTSExecCount happ
  have e6 := congrArg LC_AppData_t.PassiveRTSExecCount happ
  have e7 := congrArg LC_AppData_t.CurrentLCState happ
  refine ⟨rc, st', hrun, hwrt', hart', e1, e2, e3, e4, e5, e6, e7, happ, ?_, hadt⟩
  rcases st' with ⟨app', ⟨w', r', d', h', c', f'⟩, calls'⟩
  rcases st with ⟨app, ⟨w, r, d, h, c, f⟩, calls⟩
  simp only at hwrt' hart' hcnt
  subst hwrt' hart' hcnt
  rfl

/-- Concrete instance of C37 on the demonstration state with every service call
succeeding and no table reported reloaded: the request of the right length leaves both
result tables and the counters as they are. -/
theorem C37_housekeeping_read_only_witness :
    ∃ rc st', LC_HousekeepingReq demoCfg demoEnv (demoMsg LC_SEND_HK_MID 0 8 0 0 0) demoState
        = some (rc, st') ∧
      st'.LC_OperData.WRTPtr = demoState.LC_OperData.WRTPtr ∧
      st'.LC_OperData.ARTPtr = demoState.LC_OperData.ARTPtr ∧
      st'.LC_AppData.CmdCount = 10 ∧ st'.LC_AppData.CmdErrCount = 2 ∧
      st'.LC_AppData.CurrentLCState = 1 := by
  obtain ⟨rc, st', hrun, h1, h2, h3, h4, _, _, _, _, h9, _⟩ :=
    C37_housekeeping_read_only demoCfg demoEnv (demoMsg LC_SEND_HK_MID 0 8 0 0 0) demoState
      (by decide) (by decide) (by decide) (by decide) (by decide) (by decide)
  exact ⟨rc, st', hrun, h1, h2, h3, h4, h9⟩

/-! ## The set-state command for all actionpoints, issued twice -/

/-- C38: the set-state command for all actionpoints overwrites and is idempotent on the
actionpoint results table.  For two commands of the right length with the "all" sentinel
and new states `s1`, `s2` among active, passive and disabled, on any table of the
declared dimension: all runs return; the first command followed by the second leaves the
same table as the second alone; the first command keeps the set of records that are
neither not used nor permanently off; and the first command issued twice leaves the same
table as issued once. -/
theorem C38_set_all_overwrites (cfg : LC_Config) (msg1 msg2 : CFE_SB_Msg) (st : LC_State)
    (hl : cfg.LabelsDistinct)
    (hla : st.LC_OperData.ARTPtr.length = cfg.LC_MAX_ACTIONPOINTS)
    (hmax : cfg.LC_MAX_ACTIONPOINTS < 4294967296)
    (hlen1 : msg1.TotalMsgLength = u16 (sizeof_LC_TwoWordCmd_t cfg))
    (hlen2 : msg2.TotalMsgLength = u16 (sizeof_LC_TwoWordCmd_t cfg))
    (hall1 : msg1.APNumber = LC_ALL_ACTIONPOINTS) (hall2 : msg2.APNumber = LC_ALL_ACTIONPOINTS)
    (hv1 : msg1.NewAPState = cfg.LC_APSTATE_ACTIVE ∨ msg1.NewAPState = cfg.LC_APSTATE_PASSIVE ∨
      msg1.NewAPState = cfg.LC_APSTATE_DISABLED)
    (hv2 : msg2.NewAPState = cfg.LC_APSTATE_ACTIVE ∨ msg2.NewAPState = cfg.LC_APSTATE_PASSIVE ∨
      msg2.NewAPState = cfg.LC_APSTATE_DISABLED) :
    ∃ st1 st12 st2 st11,
      LC_SetAPStateCmd cfg msg1 st = some st1 ∧
      LC_SetAPStateCmd cfg msg2 st1 = some st12 ∧
      LC_SetAPStateCmd cfg msg2 st = some st2 ∧
      LC_SetAPStateCmd cfg msg1 st1 = some st11 ∧
      st12.LC_OperData.ARTPtr = st2.LC_OperData.ARTPtr ∧
      st11.LC_OperData.ARTPtr = st1.LC_OperData.ARTPtr ∧
      (∀ (i : Nat) (e e1 : LC_ARTEntry_t), st.LC_OperData.ARTPtr[i]? = some e →
        st1.LC_OperData.ARTPtr[i]? = some e1 → (eligibleAP cfg e1 ↔ eligibleAP cfg e)) := by
  have h1 := LC_SetAPStateCmd_all cfg msg1 st hlen1 hv1 hall1 hla hmax
  have h2 := LC_SetAPStateCmd_all cfg msg2 st hlen2 hv2 hall2 hla hmax
  have hla1 : (((st.setART (st.LC_OperData.ARTPtr.map (setAllEntry cfg msg1.NewAPState))
      ).incCmdCount).sendEvent LC_EventID.LC_APSTATE_INF_EID).LC_OperData.ARTPtr.length
      = cfg.LC_MAX_ACTIONPOINTS := by
    simp [LC_State.sendEvent, hla]
  have h12 := LC_SetAPStateCmd_all cfg msg2 _ hlen2 hv2 hall2 hla1 hmax
  have h11 := LC_SetAPStateCmd_all cfg msg1 _ hlen1 hv1 hall1 hla1 hmax
  refine ⟨_, _, _, _, h1, h12, h2, h11, ?_, ?_, ?_⟩
  · simp only [LC_State.sendEvent, call_OperData, incCmdCount_OperData, setART_ARTPtr,
      List.map_map]
    apply List.map_congr_left
    intro e _
    exact setAllEntry_twice cfg hl _ _ hv1 e
  · simp only [LC_State.sendEvent, call_OperData, incCmdCount_OperData, setART_ARTPtr,
      List.map_map]
    apply List.map_congr_left
    intro e _
    exact setAllEntry_twice cfg hl _ _ hv1 e
  · intro i e e1 he he1
    simp only [LC_State.sendEvent, call_OperData, incCmdCount_OperData, setART_ARTPtr,
      List.getElem?_map, he, Option.map_some', Option.some.injEq] at he1
    subst he1
    exact eligibleAP_setAllEntry cfg hl _ hv1 e

/-- Concrete instance of C38 on the demonstration state: set-all to passive (2) followed
by set-all to disabled (3) leaves the table that set-all to disabled leaves alone, in
which the permanently off record 2 and the unused record 3 keep their states. -/
theorem C38_set_all_overwrites_witness :
    ∃ st1 st12 st2,
      LC_SetAPStateCmd demoCfg (demoMsg LC_CMD_MID 3 12 0xFFFF 2 0) demoState = some st1 ∧
      LC_SetAPStateCmd demoCfg (demoMsg LC_CMD_MID 3 12 0xFFFF 3 0) st1 = some st12 ∧
      LC_SetAPStateCmd demoCfg (demoMsg LC_CMD_MID 3 12 0xFFFF 3 0) demoState = some st2 ∧
      st12.LC_OperData.ARTPtr = st2.LC_OperData.ARTPtr ∧
      st2.LC_OperData.ARTPtr.map LC_ARTEntry_t.CurrentState = [3, 3, 4, 0xFF] := by
  obtain ⟨st1, st12, st2, _, h1, h12, h2, _, heq, _, _⟩ :=
    C38_set_all_overwrites demoCfg (demoMsg LC_CMD_MID 3 12 0xFFFF 2 0)
      (demoMsg LC_CMD_MID 3 12 0xFFFF 3 0) demoState (by decide) (by decide) (by decide)
      (by decide) (by decide) (by decide) (by decide) (by decide) (by decide)
  refine ⟨st1, st12, st2, h1, h12, h2, heq, ?_⟩
  have hval : LC_SetAPStateCmd demoCfg (demoMsg LC_CMD_MID 3 12 0xFFFF 3 0) demoState
      = some (((demoState.setART (demoState.LC_OperData.ARTPtr.map (setAllEntry demoCfg 3))
        ).incCmdCount).sendEvent LC_EventID.LC_APSTATE_INF_EID) := by decide
  rw [h2] at hval
  rw [Option.some.inj hval]
  decide

end LC
